import Mathlib

/-!
Player table, attachment graph and position packets of `zero`
(src/zero/game/PlayerManager.cpp)

A shallow embedding of the player-state subsystem.

Modelling conventions
* Machine integers are natural numbers reduced with an explicit modulus
  (`u8`, `u16`, `u32`).
* `float` fields are exact rationals; rounding is not modelled.
* `Player* p` pointing into `players[]` is the slot index `p - players`;
  a null pointer is `none`.
* A singly linked `AttachInfo` chain is the list of its nodes from the head;
  every node keeps the arena address it was allocated at, so that a node can
  be followed from a children list to the free list.
* Calls into collaborators (connection, event bus, weapon manager, chat,
  ship controller) are appended in program order to `PlayerManager.trace`.
* Values only read from collaborators (settings, clock, soccer, radar, map)
  are the fields of `Env`.
* A packet is the list of its bytes; the handlers of inbound position packets
  read it at the offsets the buffer cursor of the source reaches.
-/

namespace Zero

/-! ## Constants and integer helpers -/

/-- The id that marks "no player": `kInvalidPlayerId = 0xFFFF`, the value
`memset(player_lookup, 0xFF, ...)` writes into every 16-bit entry. -/
def kInvalidPlayerId : Nat := 0xFFFF

/-- Modelled from the spec: `kInvalidSmallTick` is declared in a header that
is not part of the sources. It is the `timestamp` sentinel meaning "never
seen", a value no 16-bit or 10-bit small tick can take. -/
def kInvalidSmallTick : Nat := 0xFFFFFFFF

/-- Capacity of the `players` array, the bound asserted at lines 635 and 712. -/
def kMaxPlayers : Nat := 1024

/-- Truncation to `u8`. -/
def u8 (n : Nat) : Nat := n % 256

/-- Truncation to `u16`. -/
def u16 (n : Nat) : Nat := n % 65536

/-- Truncation to `u32`. -/
def u32 (n : Nat) : Nat := n % 4294967296

/-- The value of the low 8 bits of `n` read as an `s8`. -/
def s8 (n : Nat) : Int := if n % 256 < 128 then (n % 256 : Nat) else ((n % 256 : Nat) : Int) - 256

/-- The value of the low 16 bits of `n` read as an `s16`. -/
def s16 (n : Nat) : Int :=
  if n % 65536 < 32768 then (n % 65536 : Nat) else ((n % 65536 : Nat) : Int) - 65536

/-- An integer wrapped into the range of `s32`. -/
def s32 (n : Int) : Int :=
  if n % 4294967296 < 2147483648 then n % 4294967296 else n % 4294967296 - 4294967296

/-- The C expression `t & ~mask`: clear the bits of `mask` in `t`. -/
def clearBits (t mask : Nat) : Nat := t ^^^ (t &&& mask)

/-- Animation length `kAnimDurationShipWarp = 0.5f` (line 23). -/
def kAnimDurationShipWarp : ℚ := 1 / 2

/-- Animation length `kAnimDurationShipExplode = 0.8f` (line 24). -/
def kAnimDurationShipExplode : ℚ := 4 / 5

/-- Animation length `kAnimDurationBombFlash = 0.12f` (line 25). -/
def kAnimDurationBombFlash : ℚ := 3 / 25

/-- Modelled from the spec: the togglable bit `Status_Antiwarp`; the bitset is
listed as Stealth, Cloak, XRadar, Antiwarp, Flash, Safety, UFO from bit 0. -/
def Status_Antiwarp : Nat := 8

/-- Modelled from the spec: the togglable bit `Status_Flash` (bit 4). -/
def Status_Flash : Nat := 16

/-- Modelled from the spec: the togglable bit `Status_Safety` (bit 5). -/
def Status_Safety : Nat := 32

/-- Modelled from the spec: `TICK_DIFF(a, b)` is the signed 32-bit difference
of two ticks (the macro lives in Clock.h, which is not part of the sources). -/
def TICK_DIFF (a b : Nat) : Int :=
  let d := (a % 4294967296 + 4294967296 - b % 4294967296) % 4294967296
  if d < 2147483648 then (d : Int) else (d : Int) - 4294967296

/-- Modelled from the spec: `TICK_GT(a, b)`, a wraparound-safe "a is after b",
read as `TICK_DIFF(a, b) > 0`. -/
def TICK_GT (a b : Nat) : Bool := decide (0 < TICK_DIFF a b)

/-! ## Data model -/

/-- Two floats. -/
structure Vector2f where
  x : ℚ
  y : ℚ
deriving DecidableEq

/-- Distance squared between two points (`Vector2f::DistanceSq`). -/
def Vector2f.DistanceSq (a b : Vector2f) : ℚ :=
  (a.x - b.x) * (a.x - b.x) + (a.y - b.y) * (a.y - b.y)

/-- One node of an attachment list. `addr` is the arena address of the node;
the `next` pointer is the tail of the list the node is stored in. -/
structure AttachInfo where
  addr : Nat
  player_id : Nat
deriving DecidableEq

/-- The `Player` record. `name` and `squad` hold the C string stored in the
21-byte arrays. -/
structure Player where
  name : List Nat
  squad : List Nat
  id : Nat
  ship : Nat
  frequency : Nat
  position : Vector2f
  velocity : Vector2f
  lerp_velocity : Vector2f
  lerp_time : ℚ
  orientation : ℚ
  bounty : Nat
  energy : ℚ
  flags : Nat
  flag_timer : Nat
  ping : Nat
  togglables : Nat
  timestamp : Nat
  attach_parent : Nat
  children : List AttachInfo
  enter_delay : ℚ
  warp_anim_t : ℚ
  explode_anim_t : ℚ
  bombflash_anim_t : ℚ
  ball_carrier : Bool
  weapon : Nat
  kill_points : Nat
  flag_points : Nat
  wins : Nat
  losses : Nat
  koth : Nat
  s2c_latency : Nat
  items : Nat
  last_bounce_tick : Nat
  last_extra_timestamp : Nat

/-- The record `memset(player, 0, sizeof(Player))` leaves behind (line 639). -/
def Player.zero : Player :=
  { name := [], squad := [], id := 0, ship := 0, frequency := 0,
    position := ⟨0, 0⟩, velocity := ⟨0, 0⟩, lerp_velocity := ⟨0, 0⟩,
    lerp_time := 0, orientation := 0, bounty := 0, energy := 0, flags := 0,
    flag_timer := 0, ping := 0, togglables := 0, timestamp := 0,
    attach_parent := 0, children := [], enter_delay := 0, warp_anim_t := 0,
    explode_anim_t := 0, bombflash_anim_t := 0, ball_carrier := false,
    weapon := 0, kill_points := 0, flag_points := 0, wins := 0, losses := 0,
    koth := 0, s2c_latency := 0, items := 0, last_bounce_tick := 0,
    last_extra_timestamp := 0 }

/-- The part of `ship_controller->ship` the player manager reads or writes. -/
structure Ship where
  energy : Nat
  fake_antiwarp_end_tick : Nat
  bursts : Nat
  repels : Nat
  thors : Nat
  bricks : Nat
  decoys : Nat
  rockets : Nat
  portals : Nat

/-- The bit-packed item record of the extra position block (lines 546-567). -/
structure ItemInfo where
  bursts : Nat
  repels : Nat
  thors : Nat
  bricks : Nat
  decoys : Nat
  rockets : Nat
  portals : Nat

/-- The fields written into an outgoing position packet (lines 525-568);
`extra` is the optional trailing block. The checksum byte is computed from
the serialised bytes by `WeaponChecksum` and is not a field of its own. -/
structure PositionPacket where
  direction : Nat
  timestamp : Int
  vel_x : Nat
  y : Nat
  togglables : Nat
  x : Nat
  vel_y : Nat
  bounty : Nat
  energy : Nat
  weapon : Nat
  extra : Option (Nat × Nat × Nat × ItemInfo)

/-- A call into a collaborator, recorded in program order. Events carry the
ids of the players they reference. -/
inductive Effect where
  | SendAttachRequest (id : Nat)
  | SendAttachDrop
  | Send (pkt : PositionPacket)
  | ClearWeapons (player_id : Nat)
  | ChatEntered (name : List Nat)
  | ChatLeft (name : List Nat)
  | ResetShip
  | PlayerEnterEvent (player_id : Nat)
  | PlayerLeaveEvent (player_id : Nat)
  | PlayerDeathEvent (killed killer bounty flag_transfer : Nat)
  | PlayerFreqAndShipChangeEvent (player_id old_freq new_freq old_ship new_ship : Nat)
  | PlayerAttachEvent (child parent : Nat)
  | PlayerDetachEvent (child parent : Nat)
  | SpawnEvent (player_id : Nat)
  | TeleportEvent (player_id : Nat)
  | WeaponReceived
  | SafeEnterEvent (position : Vector2f)
  | SafeLeaveEvent (position : Vector2f)

/-- Per-ship arena settings read by the attach logic. -/
structure ShipSettings where
  AttachBounty : Nat
  TurretLimit : Nat

/-- What the simulation reads from `connection.map`, from the arena settings
and from the math helpers, none of which are part of the sources: `IsSolid`,
`GetTileId` and `IsColliding` are the methods of `Map` (tile coordinates are
passed as the integers the caller computed), `kTileIdWormhole` is the constant
of that name, `GetRadius ship` is `ShipSettings[ship].GetRadius()`,
`BounceFactor` is `settings.BounceFactor`, `BoxBoxIntersect` and
`PixelRounded` are the helpers of those names, `send_damage` is
`connection.send_damage` and `damage_capacity` is the length of the `damages`
array; `CanFit` is the method of `Map` and `kTileIdSafe` the constant of that
name. -/
structure Map where
  IsSolid : Int → Int → Nat → Bool
  GetTileId : Vector2f → Nat
  IsColliding : Vector2f → ℚ → Nat → Bool
  CanFit : Vector2f → ℚ → Nat → Bool
  kTileIdWormhole : Nat
  kTileIdSafe : Nat
  GetRadius : Nat → ℚ
  BounceFactor : Nat
  BoxBoxIntersect : Vector2f → Vector2f → Vector2f → Vector2f → Bool
  PixelRounded : Vector2f → Vector2f
  send_damage : Bool
  damage_capacity : Nat

/-- One entry of `settings.SpawnSettings`. The field types are declared in a
header that is not part of the sources; the fields are taken as the integers
`Spawn` converts them to. -/
structure SpawnSetting where
  X : Int
  Y : Int
  Radius : Int

/-- Everything a call reads from its collaborators. `tick` is
`GetCurrentTick()`; `MAKE_TICK` stands for the macro of that name (Clock.h is
not part of the sources); `SpawnSettings`, `RadarMode` and `WarpRadiusLimit`
are the arena settings of those names (`WarpRadiusLimit` as the `u32` it is
converted to); `rand k` is what the call number `k` of `rand()` returns during
one run of `Spawn` (counted from 0); `VieRNG seed k` is what the call number
`k` of `GetNext()` returns on a `VieRNG` started from `seed`; `ResetShip` is
`ShipController::ResetShip`; `server_tick` is `connection.GetServerTick()`;
`SMALL_TICK_GTE` stands for the macro of that name (Clock.h); `map` holds
what the simulation reads. -/
structure Env where
  tick : Nat
  time_diff : Int
  ping : Nat
  MAKE_TICK : Int → Int
  ShipSettings : Nat → ShipSettings
  AntiwarpSettleDelay : Nat
  AntiWarpPixels : Nat
  EnterDelay : Nat
  FlagDropDelay : Nat
  BountyIncreaseForKill : Nat
  ExtraPositionData : Bool
  extra_position_info : Bool
  carrying_ball : Bool
  chat_controller : Bool
  InRadarView : Vector2f → Bool
  SpawnSettings : List SpawnSetting
  RadarMode : Nat
  WarpRadiusLimit : Nat
  rand : Nat → Nat
  VieRNG : Int → Nat → Nat
  ResetShip : Ship → Ship
  server_tick : Nat
  SMALL_TICK_GTE : Nat → Nat → Bool
  map : Map

/-- One entry of the `damages` array, as `PushDamage` fills it (lines
445-455). The only weapon the player manager reports is the wormhole, so the
weapon data is kept as its type tag. -/
structure Damage where
  timestamp : Nat
  shooter_id : Nat
  wormhole : Bool
  energy : Int
  damage : Int
deriving DecidableEq

/-- The state of a `PlayerManager`. `players` is the slot array (slots at or
beyond `player_count` keep whatever was last written there), `attach_free`
the free list from its head, `arena_used` the number of `AttachInfo` nodes
pushed on the permanent arena so far, `damages` the filled part of the
`damages` array (its length is `damage_count`). -/
structure PlayerManager where
  player_id : Nat
  player_count : Nat
  players : Nat → Player
  player_lookup : Nat → Nat
  received_initial_list : Bool
  requesting_attach : Bool
  attach_free : List AttachInfo
  arena_used : Nat
  last_position_tick : Int
  ship : Ship
  trace : List Effect
  damages : List Damage := []

/-- Store `p` in slot `i`. -/
def PlayerManager.setPlayer (s : PlayerManager) (i : Nat) (p : Player) : PlayerManager :=
  { s with players := fun j => if j = i then p else s.players j }

/-- Record a collaborator call. -/
def PlayerManager.emit (s : PlayerManager) (e : Effect) : PlayerManager :=
  { s with trace := s.trace ++ [e] }

/-! ## Lookups -/

/-- `PlayerManager::GetPlayerById` (lines 579-591): the slot the lookup table
names, unless the entry is not below `kInvalidPlayerId`. -/
def GetPlayerById (s : PlayerManager) (id : Nat) : Option Nat :=
  if s.player_lookup id < kInvalidPlayerId then some (s.player_lookup id) else none

/-- `PlayerManager::GetSelf` (lines 575-577). -/
def GetSelf (s : PlayerManager) : Option Nat :=
  GetPlayerById s s.player_id

/-- `PlayerManager::GetPlayerByName` (lines 593-603): the first live slot
whose stored name compares equal (`strcmp == 0`) to `name`. -/
def GetPlayerByName (s : PlayerManager) (name : List Nat) : Option Nat :=
  (List.range s.player_count).find? (fun i => decide ((s.players i).name = name))

/-- Modelled from the spec: `IsSynchronized` (declared in the absent header):
a player is synchronized iff its timestamp is not the invalid small tick. -/
def IsSynchronized (p : Player) : Bool :=
  decide (p.timestamp ≠ kInvalidSmallTick)

/-- `PlayerManager::GetTurretCount` (lines 1545-1555): the number of nodes on
the children list. -/
def GetTurretCount (p : Player) : Nat :=
  p.children.length

/-! ## Attachment primitives -/

/-- The two assignments that end a detach (lines 1510-1512 and 1525-1527):
`attach_parent = kInvalidPlayerId`, and `timestamp = kInvalidSmallTick` so
that the player is unsynchronized until its next position packet. -/
def Player.resetAttach (q : Player) : Player :=
  { q with attach_parent := kInvalidPlayerId, timestamp := kInvalidSmallTick }

/-- A node as it is pushed on the free list (lines 1496-1498 and 1537-1539):
same address, `player_id = kInvalidPlayerId`. -/
def AttachInfo.freed (n : AttachInfo) : AttachInfo :=
  { n with player_id := kInvalidPlayerId }

/-- The search of `DetachPlayer` (lines 1487-1505): unlink the first node
whose `player_id` is `pid`; the result is the unlinked node and the remaining
list, or `none` when no node matches. -/
def unlinkFirst (pid : Nat) : List AttachInfo → Option (AttachInfo × List AttachInfo)
  | [] => none
  | n :: rest =>
    if n.player_id = pid then some (n, rest)
    else match unlinkFirst pid rest with
      | some (m, rest') => some (m, n :: rest')
      | none => none

/-- `PlayerManager::DetachPlayer` (lines 1474-1514) on the player in slot `p`. -/
def DetachPlayer (s : PlayerManager) (p : Nat) : PlayerManager :=
  if (s.players p).attach_parent ≠ kInvalidPlayerId then
    let parent := GetPlayerById s (s.players p).attach_parent
    let s1 :=
      if (s.players p).id = s.player_id then
        ({ s with requesting_attach := false }).emit (Effect.SendAttachRequest kInvalidPlayerId)
      else s
    let s2 :=
      match parent with
      | some q =>
        let s1a :=
          match unlinkFirst (s1.players p).id (s1.players q).children with
          | some (n, rest) =>
            { (s1.setPlayer q { s1.players q with children := rest }) with
              attach_free := n.freed :: s1.attach_free }
          | none => s1
        s1a.emit (Effect.PlayerDetachEvent (s1a.players p).id (s1a.players q).id)
      | none => s1
    s2.setPlayer p (s2.players p).resetAttach
  else s

/-- One iteration of the loop of `DetachAllChildren` (lines 1520-1539) for the
node `remove`, `p` being the slot of the player whose children are detached. -/
def DetachAllChildren.step (p : Nat) (s : PlayerManager) (remove : AttachInfo) : PlayerManager :=
  let s1 :=
    match GetPlayerById s remove.player_id with
    | some c =>
      if (s.players c).attach_parent = (s.players p).id then
        let s' := s.setPlayer c (s.players c).resetAttach
        if some c = GetSelf s' then
          ({ s' with requesting_attach := false }).emit (Effect.SendAttachRequest 0xFFFF)
        else s'
      else s
    | none => s
  { s1 with attach_free := remove.freed :: s1.attach_free }

/-- The `while (current)` loop of `DetachAllChildren` over the nodes that
remain to be visited. -/
def DetachAllChildren.loop (p : Nat) : List AttachInfo → PlayerManager → PlayerManager
  | [], s => s
  | remove :: rest, s => DetachAllChildren.loop p rest (DetachAllChildren.step p s remove)

/-- `PlayerManager::DetachAllChildren` (lines 1516-1543) on the player in
slot `p`. -/
def DetachAllChildren (s : PlayerManager) (p : Nat) : PlayerManager :=
  let s1 := DetachAllChildren.loop p (s.players p).children s
  s1.setPlayer p { s1.players p with children := [] }

/-- `PlayerManager::AttachPlayer` (lines 1390-1406): `r` is the requester's
slot, `d` the destination's. -/
def AttachPlayer (s : PlayerManager) (r d : Nat) : PlayerManager :=
  let s1 := s.setPlayer r { s.players r with attach_parent := (s.players d).id }
  let s2 : PlayerManager :=
    match s1.attach_free with
    | [] => { s1 with attach_free := [⟨s1.arena_used, 0⟩], arena_used := s1.arena_used + 1 }
    | _ :: _ => s1
  let info : AttachInfo := s2.attach_free.headD ⟨s1.arena_used, 0⟩
  let s3 := { s2 with attach_free := s2.attach_free.tail }
  s3.setPlayer d { s3.players d with
    children := { info with player_id := (s3.players r).id } :: (s3.players d).children }

/-! ## Table operations -/

/-- `PlayerManager::OnPlayerIdChange` (lines 605-614); `id` is the 16-bit word
at offset 1 of the packet. -/
def OnPlayerIdChange (s : PlayerManager) (id : Nat) : PlayerManager :=
  { s with
    player_id := u16 id,
    player_count := 0,
    received_initial_list := false,
    player_lookup := fun _ => 0xFFFF }

/-- The table update that ends `RemovePlayer` (lines 714-717): the lookup
entry of the last live player is pointed at `index`, the entry of the removed
player is invalidated, and the last live slot is copied over slot `index`
while `player_count` drops by one. -/
def swapPop (s : PlayerManager) (index : Nat) : PlayerManager :=
  let lookup1 : Nat → Nat := fun id =>
    if id = (s.players (s.player_count - 1)).id then u16 index else s.player_lookup id
  let lookup2 : Nat → Nat := fun id =>
    if id = (s.players index).id then kInvalidPlayerId else lookup1 id
  { s with
    player_lookup := lookup2,
    players := fun j => if j = index then s.players (s.player_count - 1) else s.players j,
    player_count := s.player_count - 1 }

/-- The part of `RemovePlayer` before the table update (lines 698-709):
weapons cleared, the player detached from its parent and from its children,
the chat line and the leave event. -/
def RemovePlayer.detach (s : PlayerManager) (env : Env) (index : Nat) : PlayerManager :=
  let s1 := s.emit (Effect.ClearWeapons (s.players index).id)
  let s2 := DetachPlayer s1 index
  let s3 := DetachAllChildren s2 index
  let s4 := if env.chat_controller then s3.emit (Effect.ChatLeft (s3.players index).name) else s3
  s4.emit (Effect.PlayerLeaveEvent (s4.players index).id)

/-- `PlayerManager::RemovePlayer` (lines 693-718). The result is `none` when
`assert(index < 1024)` fails. -/
def RemovePlayer (s : PlayerManager) (env : Env) (player : Option Nat) : Option PlayerManager :=
  match player with
  | none => some s
  | some index =>
    let s5 := RemovePlayer.detach s env index
    if index < kMaxPlayers then some (swapPop s5 index) else none

/-- The fields `OnPlayerEnter` reads from a PlayerEntering packet, in packet
order. `name` and `squad` are the C strings found at the pointers
`ReadString(20)` returns. -/
structure PlayerEnterPacket where
  ship : Nat
  audio : Nat
  name : List Nat
  squad : List Nat
  kill_points : Nat
  flag_points : Nat
  id : Nat
  frequency : Nat
  wins : Nat
  losses : Nat
  attach_parent : Nat
  flags : Nat
  koth : Nat

/-- The slot contents `OnPlayerEnter` builds (lines 639-661): zeroed, then
filled from the packet, unsynchronized, animations already finished. -/
def OnPlayerEnter.newPlayer (pkt : PlayerEnterPacket) : Player :=
  { Player.zero with
    ship := u8 pkt.ship,
    name := pkt.name.take 20,
    squad := pkt.squad.take 20,
    kill_points := u32 pkt.kill_points,
    flag_points := u32 pkt.flag_points,
    id := u16 pkt.id,
    frequency := u16 pkt.frequency,
    wins := u16 pkt.wins,
    losses := u16 pkt.losses,
    attach_parent := u16 pkt.attach_parent,
    flags := u16 pkt.flags,
    koth := u8 pkt.koth,
    timestamp := kInvalidSmallTick,
    warp_anim_t := kAnimDurationShipWarp,
    explode_anim_t := kAnimDurationShipExplode,
    bombflash_anim_t := kAnimDurationBombFlash }

/-- Lines 633-663 of `OnPlayerEnter`: the new player takes slot
`player_count`, the count grows, and the lookup entry of its id is set. -/
def OnPlayerEnter.push (s : PlayerManager) (pkt : PlayerEnterPacket) : PlayerManager :=
  { (s.setPlayer s.player_count (OnPlayerEnter.newPlayer pkt)) with
    player_count := s.player_count + 1,
    player_lookup := fun id =>
      if id = (OnPlayerEnter.newPlayer pkt).id then u16 s.player_count else s.player_lookup id }

/-- Lines 667-679 of `OnPlayerEnter`: resolve the attach parent of the new
player in slot `player_index`, announce it in chat, dispatch `PlayerEnter`. -/
def OnPlayerEnter.link (s : PlayerManager) (env : Env) (player_index : Nat) : PlayerManager :=
  let s3 :=
    if (s.players player_index).attach_parent ≠ kInvalidPlayerId then
      match GetPlayerById s (s.players player_index).attach_parent with
      | some destination => AttachPlayer s player_index destination
      | none => s
    else s
  let s4 :=
    if env.chat_controller ∧ s3.received_initial_list then
      s3.emit (Effect.ChatEntered (s3.players player_index).name)
    else s3
  s4.emit (Effect.PlayerEnterEvent (s4.players player_index).id)

/-- `PlayerManager::OnPlayerEnter` (lines 616-680). The result is `none` when
an assertion fails (the table is full). -/
def OnPlayerEnter (s : PlayerManager) (env : Env) (pkt : PlayerEnterPacket) : Option PlayerManager :=
  let removed :=
    match GetPlayerByName s pkt.name with
    | some existing => RemovePlayer s env (some existing)
    | none => some s
  match removed with
  | none => none
  | some s1 =>
    if s1.player_count < kMaxPlayers then
      some (OnPlayerEnter.link (OnPlayerEnter.push s1 pkt) env s1.player_count)
    else none

/-- `PlayerManager::OnPlayerLeave` (lines 682-691); `pid` is the 16-bit word
the packet carries. -/
def OnPlayerLeave (s : PlayerManager) (env : Env) (pid : Nat) : Option PlayerManager :=
  RemovePlayer s env (GetPlayerById s (u16 pid))

/-! ## Death, spawn and team changes -/

/-- The fields `OnPlayerDeath` reads from a PlayerDeath packet. -/
structure PlayerDeathPacket where
  green_id : Nat
  killer_id : Nat
  killed_id : Nat
  bounty : Nat
  flag_transfer : Nat

/-- The fields `OnPlayerDeath` sets on the killed player (lines 736-741): the
player is hidden until `enter_delay` has run down, the explosion restarts,
flags, ball and energy are lost. -/
def Player.killed (env : Env) (q : Player) : Player :=
  { q with
    enter_delay := (env.EnterDelay : ℚ) / 100 + kAnimDurationShipExplode,
    explode_anim_t := 0,
    flags := 0,
    flag_timer := 0,
    ball_carrier := false,
    energy := 0 }

/-- The killer's reward in `OnPlayerDeath` (lines 748-756) for the killer in
slot `r`; `killed` is the slot of the killed player, if it is known. `flags`
and `bounty` are 16-bit fields. -/
def OnPlayerDeath.reward (s1 : PlayerManager) (env : Env) (flag_transfer : Nat) (r : Nat)
    (killed : Option Nat) : PlayerManager :=
  let sa := s1.setPlayer r { s1.players r with
    flags := u16 ((s1.players r).flags + u16 flag_transfer) }
  let sb :=
    if 0 < u16 flag_transfer then
      sa.setPlayer r { sa.players r with flag_timer := env.FlagDropDelay }
    else sa
  match killed with
  | some k =>
    if (sb.players r).id = sb.player_id ∧ 0 < (sb.players k).bounty then
      sb.setPlayer r { sb.players r with
        bounty := u16 ((sb.players r).bounty + env.BountyIncreaseForKill) }
    else sb
  | none => sb

/-- `PlayerManager::OnPlayerDeath` (lines 720-762). -/
def OnPlayerDeath (s : PlayerManager) (env : Env) (pkt : PlayerDeathPacket) : PlayerManager :=
  let killed := GetPlayerById s (u16 pkt.killed_id)
  let killer := GetPlayerById s (u16 pkt.killer_id)
  let s1 :=
    match killed with
    | some k => DetachAllChildren (DetachPlayer (s.setPlayer k ((s.players k).killed env)) k) k
    | none => s
  let s2 :=
    match killer with
    | some r =>
      if killer ≠ killed then OnPlayerDeath.reward s1 env pkt.flag_transfer r killed else s1
    | none => s1
  match killer, killed with
  | some r, some k =>
    s2.emit (Effect.PlayerDeathEvent (s2.players k).id (s2.players r).id
      (u16 pkt.bounty) (u16 pkt.flag_transfer))
  | _, _ => s2

/-- `HashName` (lines 764-781) in 32-bit arithmetic; `char` is taken as
signed. -/
def HashName (player : Player) : Nat :=
  let hash : Nat := player.name.foldl (fun (hash : Nat) (c : Nat) =>
    let hash : Nat := (((hash : Int) + s8 c) % 4294967296).toNat
    let hash := u32 (hash + u32 (hash <<< 10))
    hash ^^^ (hash >>> 6)) 0
  let hash := u32 (hash + u32 (hash <<< 3))
  let hash := hash ^^^ (hash >>> 11)
  u32 (hash + u32 (hash <<< 15))

/-- The value of `spawn_count` after the loop of lines 789-797: the number
of entries of `SpawnSettings` with a non-zero field. -/
def Spawn.count (env : Env) : Nat :=
  (env.SpawnSettings.filter fun e => decide (e.X ≠ 0 ∨ e.Y ≠ 0 ∨ e.Radius ≠ 0)).length

/-- The value of `spawn_radius` in the default radar mode (lines 838-847): it
grows with the player count and is clamped to `WarpRadiusLimit` from above
and then to 3 from below. -/
def Spawn.defaultRadius (s : PlayerManager) (env : Env) : Nat :=
  let spawn_radius := u32 (u32 (u32 (u32 s.player_count / 8 * 0x2000) + 0x400) / 0x60 + 0x100)
  let spawn_radius := if env.WarpRadiusLimit < spawn_radius then env.WarpRadiusLimit else spawn_radius
  if spawn_radius < 3 then 3 else spawn_radius

/-- The candidate number `i` of the search without spawn settings (lines
810-853), by radar mode. -/
def Spawn.defaultCandidate (s : PlayerManager) (env : Env) (self : Player) (rand_seed : Nat)
    (i : Nat) : Vector2f :=
  let seed := s32 (rand_seed : Int)
  let rng_x := u8 (env.VieRNG seed 0)
  let rng_y := u8 (env.VieRNG seed 1)
  if env.RadarMode = 1 ∨ env.RadarMode = 3 then
    ⟨(u16 ((self.frequency &&& 1) * 0x300 + rng_x) : ℚ), (u16 (rng_y + 0x100) : ℚ)⟩
  else if env.RadarMode = 2 ∨ env.RadarMode = 4 then
    ⟨(u16 ((self.frequency &&& 1) * 0x300 + rng_x) : ℚ),
      (u16 (((self.frequency / 2) &&& 1) * 0x300 + rng_y) : ℚ)⟩
  else
    let spawn_radius := Spawn.defaultRadius s env
    let half := u32 (0x400 + 4294967296 - spawn_radius) / 2
    let x := u32 (env.VieRNG seed 0 % (spawn_radius - 2) + (4294967296 - 9) + half +
      env.rand (1 + 2 * i) % 0x14)
    let y := u32 (env.VieRNG seed 1 % (spawn_radius - 2) + (4294967296 - 9) + half +
      env.rand (2 + 2 * i) % 0x14)
    ⟨(u16 x : ℚ), (u16 y : ℚ)⟩

/-- The center coordinate of a spawn entry (lines 865-875): 0 stands for 512
and a negative value is taken from the far edge. -/
def Spawn.center (v : Int) : ℚ :=
  if v = 0 then 512 else if v < 0 then (v : ℚ) + 1024 else (v : ℚ)

/-- The candidate number `i` of the search with spawn settings (lines
881-886) around `center`. -/
def Spawn.candidate (env : Env) (hash : Nat) (center : Vector2f) (radius : Int) (i : Nat) :
    Vector2f :=
  let xrand := u32 (env.rand (1 + 2 * i) + hash)
  let yrand := u32 (env.rand (2 + 2 * i) + hash)
  let x_offset : Int := ((xrand % (radius * 2).toNat : Nat) : Int) - radius
  let y_offset : Int := ((yrand % (radius * 2).toNat : Nat) : Int) - radius
  ⟨center.x + (x_offset : ℚ), center.y + (y_offset : ℚ)⟩

/-- The branch of `Spawn` with spawn settings (lines 855-893) for the player
record `self`: the position `self` is given. -/
def Spawn.fromSettings (env : Env) (self : Player) (hash : Nat) : Vector2f :=
  let ship_radius := env.map.GetRadius self.ship
  let spawn_index := self.frequency % Spawn.count env
  let entry := env.SpawnSettings.getD spawn_index ⟨0, 0, 0⟩
  let center : Vector2f := ⟨Spawn.center entry.X, Spawn.center entry.Y⟩
  let radius := entry.Radius
  if 0 < radius then
    ((List.range 100).findSome? fun i =>
      let spawn := Spawn.candidate env hash center radius i
      if env.map.CanFit spawn ship_radius self.frequency then some spawn else none).getD center
  else center

/-- The position `Spawn` gives the player in slot `self` (lines 787-893). -/
def Spawn.search (s : PlayerManager) (env : Env) (self : Nat) : Vector2f :=
  let pl := s.players self
  let ship_radius := env.map.GetRadius pl.ship
  let hash := HashName pl
  let rand_seed := u32 (env.rand 0 + hash)
  if Spawn.count env = 0 then
    ((List.range 100).findSome? fun i =>
      let spawn := Spawn.defaultCandidate s env pl rand_seed i
      if env.map.CanFit spawn ship_radius pl.frequency then some spawn else none).getD ⟨512, 512⟩
  else Spawn.fromSettings env pl hash

/-- `PlayerManager::Spawn` (lines 782-904). -/
def Spawn (s : PlayerManager) (env : Env) (reset : Bool) : PlayerManager :=
  match GetSelf s with
  | none => s
  | some self =>
    let s1 := s.setPlayer self { s.players self with position := Spawn.search s env self }
    let s2 :=
      if reset then ({ s1 with ship := env.ResetShip s1.ship }).emit Effect.ResetShip
      else s1
    let s3 := s2.setPlayer self { s2.players self with
      togglables := (s2.players self).togglables ||| Status_Flash,
      warp_anim_t := 0,
      velocity := ⟨0, 0⟩ }
    s3.emit (Effect.SpawnEvent (s3.players self).id)

/-- The fields both team-change handlers reset (lines 923-930 and 962-969):
velocity, lerp, warp animation, enter delay, flags, ball and energy. -/
def Player.resetForTeamChange (q : Player) : Player :=
  { q with
    velocity := ⟨0, 0⟩,
    lerp_time := 0,
    warp_anim_t := 0,
    enter_delay := 0,
    flags := 0,
    ball_carrier := false,
    energy := 0 }

/-- `PlayerManager::OnPlayerFrequencyChange` (lines 906-940). -/
def OnPlayerFrequencyChange (s : PlayerManager) (env : Env) (pid frequency : Nat) : PlayerManager :=
  match GetPlayerById s (u16 pid) with
  | some p =>
    let s1 := DetachAllChildren (DetachPlayer s p) p
    let old_freq := (s1.players p).frequency
    let s2 := s1.setPlayer p
      ({ s1.players p with frequency := u16 frequency }).resetForTeamChange
    let s3 := s2.emit (Effect.ClearWeapons (s2.players p).id)
    let s4 := s3.emit (Effect.PlayerFreqAndShipChangeEvent (s3.players p).id old_freq
      (u16 frequency) (s3.players p).ship (s3.players p).ship)
    if (s4.players p).id = s4.player_id then Spawn s4 env true else s4
  | none => s

/-- `PlayerManager::OnPlayerFreqAndShipChange` (lines 942-980). -/
def OnPlayerFreqAndShipChange (s : PlayerManager) (env : Env) (ship pid freq : Nat) : PlayerManager :=
  match GetPlayerById s (u16 pid) with
  | some p =>
    let s1 := DetachAllChildren (DetachPlayer s p) p
    let old_freq := (s1.players p).frequency
    let old_ship := (s1.players p).ship
    let s2 := s1.setPlayer p
      ({ s1.players p with ship := u8 ship, frequency := u16 freq }).resetForTeamChange
    let s3 := s2.emit (Effect.ClearWeapons (s2.players p).id)
    let s4 := if (s3.players p).id = s3.player_id then Spawn s3 env true else s3
    s4.emit (Effect.PlayerFreqAndShipChangeEvent (s4.players p).id old_freq (u16 freq)
      old_ship (u8 ship))
  | none => s

/-! ## Attach requests -/

/-- The enum `AttachRequestResponse`, with the spelling of the source. -/
inductive AttachRequestResponse where
  | Success
  | NoDestination
  | CarryingBall
  | DetatchFromParent
  | DetatchChildren
  | NotEnoughEnergy
  | BountyTooLow
  | Self
  | Frequency
  | Spectator
  | TargetShipNotAttachable
  | TooManyTurrets
  | Antiwarped
  | UnrecoverableError
deriving DecidableEq

/-- The test the loop of `IsAntiwarped` (lines 1676-1690) applies to one
player `player` on behalf of `self`. -/
def antiwarpedBy (env : Env) (self player : Player) : Bool :=
  if player.ship = 8 then false
  else if 0 < player.enter_delay then false
  else if player.frequency = self.frequency then false
  else if player.togglables &&& Status_Antiwarp = 0 then false
  else if ¬ env.InRadarView player.position then false
  else decide (player.position.DistanceSq self.position ≤
    ((env.AntiWarpPixels : ℚ) / 16) * ((env.AntiWarpPixels : ℚ) / 16))

/-- `PlayerManager::IsAntiwarped` (lines 1666-1693); `self` is the slot of
the player asked about. The ship controller is present. -/
def IsAntiwarped (s : PlayerManager) (env : Env) (self : Nat) : Bool :=
  if TICK_GT s.ship.fake_antiwarp_end_tick env.tick then true
  else (List.range s.player_count).any
    (fun i => antiwarpedBy env (s.players self) (s.players i))

/-- `PlayerManager::AttachSelf` (lines 1322-1388). `destination` is the slot
the argument points to, `none` for a null pointer. The soccer and ship
controller collaborators are present. -/
def AttachSelf (s : PlayerManager) (env : Env) (destination : Option Nat) :
    AttachRequestResponse × PlayerManager :=
  match destination with
  | none => (AttachRequestResponse.NoDestination, s)
  | some d =>
    if env.carrying_ball then (AttachRequestResponse.CarryingBall, s)
    else
      match GetSelf s with
      | none => (AttachRequestResponse.UnrecoverableError, s)
      | some self =>
        if (s.players self).attach_parent ≠ kInvalidPlayerId then
          (AttachRequestResponse.DetatchFromParent,
            DetachPlayer (s.emit (Effect.SendAttachRequest kInvalidPlayerId)) self)
        else if (s.players self).children ≠ [] then
          (AttachRequestResponse.DetatchChildren, s.emit Effect.SendAttachDrop)
        else if (s.players self).energy < (s.ship.energy : ℚ) then
          (AttachRequestResponse.NotEnoughEnergy, s)
        else if (s.players self).bounty < (env.ShipSettings (s.players self).ship).AttachBounty then
          (AttachRequestResponse.BountyTooLow, s)
        else if (s.players self).id = (s.players d).id then
          (AttachRequestResponse.Self, s)
        else if (s.players self).frequency ≠ (s.players d).frequency then
          (AttachRequestResponse.Frequency, s)
        else if 8 ≤ (s.players d).ship then
          (AttachRequestResponse.Spectator, s)
        else if (env.ShipSettings (s.players d).ship).TurretLimit = 0 then
          (AttachRequestResponse.TargetShipNotAttachable, s)
        else if (env.ShipSettings (s.players d).ship).TurretLimit ≤ GetTurretCount (s.players d) then
          (AttachRequestResponse.TooManyTurrets, s)
        else if IsAntiwarped s env self then
          (AttachRequestResponse.Antiwarped, s)
        else
          let s1 := s.emit (Effect.SendAttachRequest (s.players d).id)
          let s2 : PlayerManager := { s1 with ship := { s1.ship with
            fake_antiwarp_end_tick := u32 (env.tick + env.AntiwarpSettleDelay) } }
          let s3 := AttachPlayer s2 self d
          (AttachRequestResponse.Success, { s3 with requesting_attach := true })

/-- `PlayerManager::OnCreateTurretLink` (lines 1408-1457). `request_id` is
the 16-bit word at offset 1, `destination_id` the one at offset 3, `size` the
packet length. -/
def OnCreateTurretLink (s : PlayerManager) (request_id size destination_id : Nat) : PlayerManager :=
  if size < 5 then
    match GetSelf s with
    | some self => DetachPlayer s self
    | none => s
  else
    let requester := GetPlayerById s (u16 request_id)
    if requester.isSome ∧ u16 destination_id = kInvalidPlayerId then
      match requester with
      | some r => DetachPlayer s r
      | none => s
    else
      match requester, GetPlayerById s (u16 destination_id) with
      | some r, some d =>
        let confirmed : Option Nat :=
          if (s.players r).id = s.player_id then
            match GetSelf s with
            | some self =>
              if (s.players self).attach_parent = u16 destination_id then some self else none
            | none => none
          else none
        match confirmed with
        | some self =>
          if s.requesting_attach then
            let s1 := s.setPlayer self { s.players self with
              energy := (s.players self).energy * (333 / 1000) }
            let s2 : PlayerManager := { s1 with requesting_attach := false }
            s2.emit (Effect.PlayerAttachEvent (s2.players r).id (s2.players d).id)
          else s
        | none =>
          let s1 := AttachPlayer s r d
          let s2 := s1.emit (Effect.PlayerAttachEvent (s1.players r).id (s1.players d).id)
          if (s2.players r).id ≠ s2.player_id then
            s2.setPlayer r { s2.players r with
              position := (s2.players d).position,
              velocity := (s2.players d).velocity,
              lerp_velocity := (s2.players d).lerp_velocity,
              lerp_time := (s2.players d).lerp_time }
          else s2
      | _, _ => s

/-- `PlayerManager::OnDestroyTurretLink` (lines 1459-1472); `pid` is the
16-bit word at offset 1. -/
def OnDestroyTurretLink (s : PlayerManager) (pid : Nat) : PlayerManager :=
  match GetPlayerById s (u16 pid) with
  | some p =>
    let s1 :=
      match GetSelf s with
      | some self =>
        if (s.players self).attach_parent = u16 pid ∧ (s.players self).enter_delay ≤ 0 then
          ({ s with requesting_attach := false }).emit (Effect.SendAttachRequest kInvalidPlayerId)
        else s
      | none => s
    DetachAllChildren s1 p
  | none => s

/-! ## Outgoing position packet -/

/-- The C conversion of a float to `u16`: truncate toward zero, keep the low
16 bits. -/
def castU16 (q : ℚ) : Nat :=
  ((if 0 ≤ q then Rat.floor q else -Rat.floor (-q)) % 65536).toNat

/-- The C conversion of a float to `u8`. -/
def castU8 (q : ℚ) : Nat :=
  ((if 0 ≤ q then Rat.floor q else -Rat.floor (-q)) % 256).toNat

/-- The attach block of `SendPositionPacket` (lines 491-517) for self in slot
`player`; `vel_x`, `vel_y` are the velocity words computed so far. The result
is `none` for the early return (parent not synchronized), otherwise the new
state and the velocity words to send. -/
def SendPositionPacket.attachBlock (s : PlayerManager) (player vel_x vel_y : Nat) :
    Option (PlayerManager × Nat × Nat) :=
  if (s.players player).attach_parent ≠ kInvalidPlayerId then
    match GetPlayerById s (s.players player).attach_parent with
    | some parent =>
      if ¬ IsSynchronized (s.players parent) then none
      else
        let s1 :=
          if s.requesting_attach then
            let sa := s.setPlayer player { s.players player with
              energy := (s.players player).energy * (333 / 1000) }
            let sb : PlayerManager := { sa with requesting_attach := false }
            sb.emit (Effect.PlayerAttachEvent (sb.players player).id (sb.players parent).id)
          else s
        some (s1, castU16 ((s1.players parent).velocity.x * 16 * 10),
          castU16 ((s1.players parent).velocity.y * 16 * 10))
    | none =>
      let sa := s.setPlayer player { s.players player with attach_parent := kInvalidPlayerId }
      some ({ sa with requesting_attach := false }, 0, 0)
  else some (s, vel_x, vel_y)

/-- The tail of `SendPositionPacket` (lines 519-572): bump the timestamp if
it is not newer than the last one sent, write and send the packet, remember
the timestamp, clear the Flash bit of self (slot `player`). `pkt` holds the
fields computed before; its timestamp and extra block are filled in here. -/
def SendPositionPacket.send (s1 : PlayerManager) (env : Env) (player : Nat)
    (server_timestamp : Int) (pkt : PositionPacket) : PlayerManager :=
  let server_timestamp :=
    if server_timestamp ≤ s1.last_position_tick then env.MAKE_TICK (s1.last_position_tick + 1)
    else server_timestamp
  let extra : Option (Nat × Nat × Nat × ItemInfo) :=
    if env.extra_position_info ∨ env.ExtraPositionData then
      some (pkt.energy, u16 (env.ping / 10), u16 ((s1.players player).flag_timer / 100),
        { bursts := s1.ship.bursts % 16, repels := s1.ship.repels % 16,
          thors := s1.ship.thors % 16, bricks := s1.ship.bricks % 16,
          decoys := s1.ship.decoys % 16, rockets := s1.ship.rockets % 16,
          portals := s1.ship.portals % 16 })
    else none
  let s2 := s1.emit (Effect.Send { pkt with timestamp := server_timestamp, extra := extra })
  let s3 : PlayerManager := { s2 with last_position_tick := server_timestamp }
  s3.setPlayer player { s3.players player with
    togglables := clearBits (s3.players player).togglables Status_Flash }

/-- `PlayerManager::SendPositionPacket` (lines 457-573). The result is `none`
when `assert(player)` fails. The packet is recorded by its fields. -/
def SendPositionPacket (s : PlayerManager) (env : Env) : Option PlayerManager :=
  match GetPlayerById s s.player_id with
  | none => none
  | some player =>
    let pl := s.players player
    let dead : Bool := decide (pl.ship ≠ 8 ∧ 0 < pl.enter_delay)
    let x := if dead then 0xFFFF else castU16 (pl.position.x * 16)
    let y := if dead then 0xFFFF else castU16 (pl.position.y * 16)
    let vel_x := if dead then 0 else castU16 (pl.velocity.x * 16 * 10)
    let vel_y := if dead then 0 else castU16 (pl.velocity.y * 16 * 10)
    let weapon := if dead then 0 else u16 pl.weapon
    let energy := if dead then 0 else castU16 pl.energy
    let direction := if dead then 0 else castU8 (pl.orientation * 40)
    let bounty := if dead then 0 else u16 pl.bounty
    let togglables := if dead then 0x80 else u8 pl.togglables
    let server_timestamp := env.MAKE_TICK ((env.tick : Int) + env.time_diff)
    match SendPositionPacket.attachBlock s player vel_x vel_y with
    | none => some { s with last_position_tick := server_timestamp }
    | some (s1, vel_x, vel_y) =>
      some (SendPositionPacket.send s1 env player server_timestamp
        { direction := direction, timestamp := server_timestamp, vel_x := vel_x, y := y,
          togglables := togglables, x := x, vel_y := vel_y, bounty := bounty,
          energy := energy, weapon := weapon, extra := none })

/-! ## Byte buffers -/

/-- Modelled from the spec: `NetworkBuffer` (Buffer.h) is not part of the
sources; section 4.1 makes the codec little-endian and byte-oriented. A packet
is the list of its bytes; `ReadU8 buf off` is the byte at offset `off` (zero
past the end of the list). -/
def ReadU8 (buf : List Nat) (off : Nat) : Nat := u8 (buf.getD off 0)

/-- Modelled from the spec: little-endian 16-bit read at offset `off`. -/
def ReadU16 (buf : List Nat) (off : Nat) : Nat :=
  ReadU8 buf off + 256 * ReadU8 buf (off + 1)

/-- Modelled from the spec: little-endian 32-bit read at offset `off`. -/
def ReadU32 (buf : List Nat) (off : Nat) : Nat :=
  ReadU16 buf off + 65536 * ReadU16 buf (off + 2)

/-- Modelled from the spec: `NetworkBuffer::WriteU8` appends one byte. -/
def WriteU8 (buf : List Nat) (v : Nat) : List Nat := buf ++ [v % 256]

/-- Modelled from the spec: `NetworkBuffer::WriteU16` appends the two bytes of
`v`, low byte first. -/
def WriteU16 (buf : List Nat) (v : Nat) : List Nat := buf ++ [v % 256, v / 256 % 256]

/-- Modelled from the spec: `NetworkBuffer::WriteU32` appends the four bytes of
`v`, low byte first. -/
def WriteU32 (buf : List Nat) (v : Nat) : List Nat :=
  buf ++ [v % 256, v / 256 % 256, v / 65536 % 256, v / 16777216 % 256]

/-- The C conversion of a float to `s16`: truncate toward zero, keep the low
16 bits, read them as signed. -/
def castS16 (q : ℚ) : Int := s16 (castU16 q)

/-- The C conversion of a float to `int`: truncate toward zero. -/
def castInt (q : ℚ) : Int := if 0 ≤ q then Rat.floor q else -Rat.floor (-q)

/-! ## Simulation -/

/-- Component `axis` of a vector (`values[axis]`; 0 is x, 1 is y). -/
def Vector2f.values (v : Vector2f) (axis : Nat) : ℚ := if axis = 0 then v.x else v.y

/-- The vector with component `axis` replaced. -/
def Vector2f.setValue (v : Vector2f) (axis : Nat) (q : ℚ) : Vector2f :=
  if axis = 0 then { v with x := q } else { v with y := q }

/-- The loop of `UnstuckSelf` (lines 102-114) for at most `fuel` tests of the
loop condition: while the position collides, step to the floor of the
position minus one tile, stopping at the first coordinate that went below
zero. -/
def UnstuckSelf.loop (colliding : Vector2f → Bool) : Nat → Vector2f → Vector2f
  | 0, position => position
  | fuel + 1, position =>
    if colliding position then
      let moved : Vector2f := ⟨Rat.floor (position.x - 1), Rat.floor (position.y - 1)⟩
      if moved.x < 0 then { moved with x := 0 }
      else if moved.y < 0 then { moved with y := 0 }
      else UnstuckSelf.loop colliding fuel moved
    else position

/-- `UnstuckSelf` (lines 97-116). The loop runs on after a step only while
the x coordinate is a non-negative integer one below the previous one, so
`floor x + 1` tests of the condition are all it can make. -/
def UnstuckSelf (env : Env) (self : Player) : Player :=
  if self.ship < 8 then
    let radius := env.map.GetRadius self.ship
    let fuel := (Rat.floor self.position.x).toNat + 1
    let position :=
      UnstuckSelf.loop (fun p => env.map.IsColliding p radius self.frequency) fuel self.position
    { self with position := position }
  else self

/-- `PlayerManager::PushDamage` (lines 445-455): nothing when the array is
full, otherwise one more entry stamped with the server tick. -/
def PushDamage (s : PlayerManager) (env : Env) (shooter_id : Nat) (wormhole : Bool)
    (energy damage : Int) : PlayerManager :=
  if env.map.damage_capacity ≤ s.damages.length then s
  else
    { s with damages := s.damages ++
        [{ timestamp := env.server_tick, shooter_id := shooter_id, wormhole := wormhole,
           energy := s16 (energy % 65536).toNat, damage := s16 (damage % 65536).toNat }] }

/-- The tile test of `SimulateAxis` (lines 1578-1605) for the player record
after the move along `axis`; `delta` is the distance moved. The result is the
value of `collided` after the loop. -/
def SimulateAxis.collided (env : Env) (player : Player) (delta : ℚ) (axis : Nat) : Bool :=
  let axis_flip := if axis = 0 then 1 else 0
  let radius := env.map.GetRadius player.ship
  let check : Nat :=
    if delta < 0 then castU16 (Rat.floor (player.position.values axis - radius))
    else castU16 (player.position.values axis + radius)
  let start := castS16 (player.position.values axis_flip - radius - 1)
  let stop := castS16 (player.position.values axis_flip + radius + 1)
  let rounded := env.map.PixelRounded player.position
  let collider_min : Vector2f := ⟨rounded.x - radius, rounded.y - radius⟩
  let collider_max : Vector2f := ⟨rounded.x + radius, rounded.y + radius⟩
  decide (1023 < check) ||
    (List.range (stop - start).toNat).any fun k =>
      let other : Int := start + k
      if axis = 0 then
        env.map.IsSolid check other player.frequency &&
          env.map.BoxBoxIntersect collider_min collider_max ⟨check, other⟩ ⟨check + 1, other + 1⟩
      else
        env.map.IsSolid other check player.frequency &&
          env.map.BoxBoxIntersect collider_min collider_max ⟨other, check⟩ ⟨other + 1, check + 1⟩

/-- `PlayerManager::SimulateAxis` (lines 1557-1626) on the player record; the
second component is the returned flag. -/
def SimulateAxis (env : Env) (player : Player) (dt : ℚ) (axis : Nat) (extrapolating : Bool) :
    Player × Bool :=
  let bounce_factor : ℚ := 16 / (env.map.BounceFactor : ℚ)
  let axis_flip := if axis = 0 then 1 else 0
  let previous := player.position.values axis
  let timestep := if player.lerp_time < dt then player.lerp_time else dt
  let lerp_step := if 0 < player.lerp_time then player.lerp_velocity.values axis * timestep else 0
  let delta := player.velocity.values axis * dt + lerp_step
  let p1 : Player := { player with
    position := player.position.setValue axis (previous + player.velocity.values axis * dt + lerp_step) }
  if SimulateAxis.collided env p1 delta axis then
    let bounce_factor :=
      if extrapolating = false ∧ TICK_DIFF env.tick p1.last_bounce_tick < 1 then 1 else bounce_factor
    let velocity := p1.velocity.setValue axis (p1.velocity.values axis * -bounce_factor)
    let lerp_velocity := p1.lerp_velocity.setValue axis (p1.lerp_velocity.values axis * -bounce_factor)
    ({ p1 with
        position := p1.position.setValue axis previous,
        velocity := velocity.setValue axis_flip (velocity.values axis_flip * bounce_factor),
        lerp_velocity :=
          lerp_velocity.setValue axis_flip (lerp_velocity.values axis_flip * bounce_factor) },
      true)
  else (p1, false)

/-- The wormhole block of `SimulatePlayer` (lines 1645-1661) for the player
in slot `i`. -/
def SimulatePlayer.wormhole (s : PlayerManager) (env : Env) (i : Nat) : PlayerManager :=
  let energy_cost := (s.players i).energy * (4 / 5)
  let s1 :=
    if env.map.send_damage then
      PushDamage s env s.player_id true (castInt (s.players i).energy) (castInt energy_cost)
    else s
  let s2 := Spawn s1 env false
  let s3 := s2.setPlayer i { s2.players i with velocity := ⟨0, 0⟩ }
  s3.setPlayer i { s3.players i with
    energy := if energy_cost < (s3.players i).energy then (s3.players i).energy - energy_cost else 1 }

/-- Lines 1635-1642 of `SimulatePlayer` on the player record: both axes, then
the bounce tick. -/
def SimulatePlayer.axes (env : Env) (player : Player) (dt : ℚ) (extrapolating : Bool) : Player :=
  let x := SimulateAxis env player dt 0 extrapolating
  let y := SimulateAxis env x.1 dt 1 extrapolating
  if (x.2 || y.2) ∧ extrapolating = false then { y.1 with last_bounce_tick := env.tick }
  else y.1

/-- `PlayerManager::SimulatePlayer` (lines 1628-1664) for the player in slot
`i`. -/
def SimulatePlayer (s : PlayerManager) (env : Env) (i : Nat) (dt : ℚ) (extrapolating : Bool) :
    PlayerManager :=
  if extrapolating = false ∧ IsSynchronized (s.players i) = false then
    s.setPlayer i { s.players i with velocity := ⟨0, 0⟩, lerp_time := 0 }
  else
    let s2 := s.setPlayer i (SimulatePlayer.axes env (s.players i) dt extrapolating)
    let s3 :=
      if env.map.GetTileId (s2.players i).position = env.map.kTileIdWormhole ∧
          (s2.players i).id = s2.player_id then
        SimulatePlayer.wormhole s2 env i
      else s2
    s3.setPlayer i { s3.players i with lerp_time := (s3.players i).lerp_time - dt }

/-- The snap-or-lerp decision of `OnPositionPacket` (lines 1283-1302) on the
player record after the extrapolation: `previous_pos` is the position before
the packet. -/
def OnPositionPacket.settle (player : Player) (previous_pos : Vector2f) : Player :=
  let projected_pos := player.position
  let abs_dx := |projected_pos.x - previous_pos.x|
  let abs_dy := |projected_pos.y - previous_pos.y|
  if 4 ≤ abs_dx ∨ 4 ≤ abs_dy ∨ player.togglables &&& Status_Flash ≠ 0 then
    { player with
      position := projected_pos,
      lerp_time := 0,
      togglables :=
        if player.togglables &&& Status_Flash ≠ 0 ∧ previous_pos ≠ ⟨0, 0⟩ then
          clearBits player.togglables Status_Flash
        else player.togglables }
  else
    { player with
      position := previous_pos,
      lerp_time := 200 / 1000,
      lerp_velocity :=
        ⟨(projected_pos.x - previous_pos.x) * (1 / (200 / 1000)),
         (projected_pos.y - previous_pos.y) * (1 / (200 / 1000))⟩ }

/-- Lines 1268-1281 of `OnPositionPacket`: set position and velocity from the
packet, clear the lerp time, and run `n` simulation steps of 10 ms. -/
def OnPositionPacket.extrapolate (s : PlayerManager) (env : Env) (i : Nat)
    (position velocity : Vector2f) (n : Nat) : PlayerManager :=
  (fun st => SimulatePlayer st env i (1 / 100) true)^[n]
    (s.setPlayer i { s.players i with
      position := position, velocity := velocity, lerp_time := 0 })

/-- Lines 1259-1302 of `OnPositionPacket` for a player that is not a dead
self: extrapolate `sim_ticks` steps from the packet, then snap or lerp. -/
def OnPositionPacket.reconcile (s : PlayerManager) (env : Env) (i : Nat)
    (position velocity : Vector2f) (sim_ticks : Int) : PlayerManager :=
  let previous_pos := (s.players i).position
  let s2 := OnPositionPacket.extrapolate s env i position velocity sim_ticks.toNat
  s2.setPlayer i (OnPositionPacket.settle (s2.players i) previous_pos)

/-- `PlayerManager::OnPositionPacket` (lines 1257-1309) for the player in slot
`i`. -/
def OnPositionPacket (s : PlayerManager) (env : Env) (i : Nat) (position velocity : Vector2f)
    (sim_ticks : Int) : PlayerManager :=
  if (s.players i).id = s.player_id ∧ 0 < (s.players i).enter_delay then s
  else
    let s1 := OnPositionPacket.reconcile s env i position velocity sim_ticks
    if (s1.players i).id = s1.player_id then
      let s2 := s1.setPlayer i (UnstuckSelf env (s1.players i))
      s2.emit (Effect.TeleportEvent (s2.players i).id)
    else s1

/-! ## Inbound position packets -/

/-- `GetTimestampDiff` (lines 982-994). -/
def GetTimestampDiff (env : Env) (tagged_timestamp : Nat) : Int :=
  let timestamp_diff := TICK_DIFF env.server_tick tagged_timestamp
  if timestamp_diff < 0 ∨ 4000 < timestamp_diff then
    let timestamp_diff : Int := ((env.ping / 10 / 2 : Nat) : Int)
    if 14 < timestamp_diff then 15 else timestamp_diff
  else timestamp_diff

/-- `IsNewerPositionPacket` (lines 996-1003); `player` is the slot of the
player or `none` for a null pointer, `timestamp` is converted to `u16`. -/
def IsNewerPositionPacket (s : PlayerManager) (env : Env) (player : Option Nat)
    (timestamp : Nat) : Bool :=
  match player with
  | none => false
  | some i =>
    if (s.players i).timestamp = kInvalidSmallTick then true
    else if env.SMALL_TICK_GTE (u16 timestamp) (s.players i).timestamp then true
    else decide (999 < |((u16 timestamp : Nat) : Int) - ((s.players i).timestamp : Int)|)

/-- The local tick of a packet stamped `server_timestamp` (lines 1020, 1097,
1183, 1236): `server_timestamp - connection.time_diff` in `u32`. -/
def localTimestamp (env : Env) (server_timestamp : Nat) : Nat :=
  (((server_timestamp : Int) - env.time_diff) % 4294967296).toNat

/-- The trailing fields of a standalone position packet (lines 1052-1069 and
1121-1138), read for players other than self; `off` is the offset of the
energy word, one less than the size that makes it present. -/
def readExtra (s : PlayerManager) (env : Env) (buf : List Nat) (off : Nat) (p : Player) : Player :=
  if p.id ≠ s.player_id then
    let size := buf.length
    let p1 : Player :=
      if off + 2 ≤ size then
        { p with last_extra_timestamp := env.tick, energy := (ReadU16 buf off : ℚ) }
      else p
    let p2 : Player := if off + 4 ≤ size then { p1 with s2c_latency := ReadU16 buf (off + 2) } else p1
    let p3 : Player := if off + 6 ≤ size then { p2 with flag_timer := ReadU16 buf (off + 4) } else p2
    if off + 10 ≤ size then { p3 with items := ReadU32 buf (off + 6) } else p3
  else p

/-- The stores of lines 1071-1074 and 1140-1143 into the player record: the
timestamp of the packet, and the ping raised by the timestamp difference. The
width of `Player::ping` is declared in Player.h, which is not part of the
sources; the sum is kept as it is. -/
def stampPlayer (env : Env) (p : Player) (timestamp : Nat) : Player :=
  let server_timestamp := (env.server_tick &&& 0x7FFF0000) ||| timestamp
  let timestamp_diff := GetTimestampDiff env server_timestamp
  { p with
    timestamp := timestamp,
    ping := ((p.ping : Int) + timestamp_diff).toNat }

/-- The stores of lines 1028-1045 of `OnLargePositionPacket` into the player
record. -/
def OnLargePositionPacket.fields (p : Player) (buf : List Nat) : Player :=
  { p with
    orientation := (ReadU8 buf 1 : ℚ) / 40,
    togglables := ReadU8 buf 13,
    ping := ReadU8 buf 14,
    bounty := ReadU16 buf 17,
    warp_anim_t := if ReadU8 buf 13 &&& Status_Flash ≠ 0 then 0 else p.warp_anim_t,
    weapon := ReadU16 buf 19 }

/-- Lines 1028-1049 of `OnLargePositionPacket` for the player in slot `i`:
the stores into the record, then the count of received weapons. -/
def OnLargePositionPacket.store (s : PlayerManager) (buf : List Nat) (i : Nat) : PlayerManager :=
  let s1 := s.setPlayer i (OnLargePositionPacket.fields (s.players i) buf)
  if ReadU16 buf 19 ≠ 0 then s1.emit Effect.WeaponReceived else s1

/-- Lines 1028-1077 of `OnLargePositionPacket` for an accepted packet and the
player in slot `i`. -/
def OnLargePositionPacket.accept (s : PlayerManager) (env : Env) (buf : List Nat) (i : Nat) :
    PlayerManager :=
  let vel_y : ℚ := (s16 (ReadU16 buf 6) : ℚ) / 16 / 10
  let vel_x : ℚ := (s16 (ReadU16 buf 10) : ℚ) / 16 / 10
  let s1 := OnLargePositionPacket.store s buf i
  let p := stampPlayer env (readExtra s1 env buf 21 (s1.players i)) (ReadU16 buf 2)
  OnPositionPacket (s1.setPlayer i p) env i
    ⟨(ReadU16 buf 4 : ℚ) / 16, (ReadU16 buf 15 : ℚ) / 16⟩ ⟨vel_x, vel_y⟩ p.ping

/-- `PlayerManager::OnLargePositionPacket` (lines 1005-1079); `buf` is the
packet, its length is `size`. -/
def OnLargePositionPacket (s : PlayerManager) (env : Env) (buf : List Nat) : PlayerManager :=
  let timestamp := ReadU16 buf 2
  let player := GetPlayerById s (ReadU16 buf 8)
  let server_timestamp := (env.server_tick &&& 0x7FFF0000) ||| timestamp
  if 300 ≤ TICK_DIFF (localTimestamp env server_timestamp) env.tick then s
  else if IsNewerPositionPacket s env player timestamp then
    match player with
    | some i => OnLargePositionPacket.accept s env buf i
    | none => s
  else s

/-- The stores of lines 1106-1118 of `OnSmallPositionPacket` into the player
record. -/
def OnSmallPositionPacket.fields (p : Player) (buf : List Nat) : Player :=
  { p with
    orientation := (ReadU8 buf 1 : ℚ) / 40,
    ping := ReadU8 buf 6,
    bounty := ReadU8 buf 7,
    togglables := ReadU8 buf 9,
    warp_anim_t := if ReadU8 buf 9 &&& Status_Flash ≠ 0 then 0 else p.warp_anim_t }

/-- Lines 1106-1146 of `OnSmallPositionPacket` for an accepted packet and the
player in slot `i`. -/
def OnSmallPositionPacket.accept (s : PlayerManager) (env : Env) (buf : List Nat) (i : Nat) :
    PlayerManager :=
  let vel_y : ℚ := (s16 (ReadU16 buf 10) : ℚ) / 16 / 10
  let vel_x : ℚ := (s16 (ReadU16 buf 14) : ℚ) / 16 / 10
  let p := stampPlayer env
    (readExtra s env buf 16 (OnSmallPositionPacket.fields (s.players i) buf)) (ReadU16 buf 2)
  OnPositionPacket (s.setPlayer i p) env i
    ⟨(ReadU16 buf 4 : ℚ) / 16, (ReadU16 buf 12 : ℚ) / 16⟩ ⟨vel_x, vel_y⟩ p.ping

/-- `PlayerManager::OnSmallPositionPacket` (lines 1081-1148). -/
def OnSmallPositionPacket (s : PlayerManager) (env : Env) (buf : List Nat) : PlayerManager :=
  let timestamp := ReadU16 buf 2
  let player := GetPlayerById s (ReadU8 buf 8)
  let server_timestamp := (env.server_tick &&& 0x7FFF0000) ||| timestamp
  if 300 ≤ TICK_DIFF (localTimestamp env server_timestamp) env.tick then s
  else if IsNewerPositionPacket s env player timestamp then
    match player with
    | some i => OnSmallPositionPacket.accept s env buf i
    | none => s
  else s

/-- The fields of one batched record after decoding. -/
structure BatchedRecord where
  player_id : Nat
  togglables : Nat
  direction : Nat
  timestamp : Nat
  x : Nat
  y : Nat
  vel_x : Int
  vel_y : Int
deriving DecidableEq

/-- The velocity words of a batched record (lines 1171-1176 and 1224-1229)
from `packed_velocity`, the multiplier byte and `packed_pos`: `vel_y` is
`(packed_velocity << 18) >> 18` in 32-bit `int` stored in an `s16`, `vel_x` is
the `s32` sum. -/
def batchedVelocity (packed_velocity multiplier_byte packed_pos : Nat) : Int × Int :=
  let multiplier := s8 multiplier_byte
  let vel_y := s16 ((s32 ((packed_velocity : Int) * 262144) / 262144) % 65536).toNat
  let vel_x := s32 ((((packed_velocity >>> 14 : Nat) : Int) + multiplier * 4) * 16 +
    ((packed_pos >>> 28 : Nat) : Int))
  (vel_x, vel_y)

/-- The decoder of `OnBatchedLargePositionPacket` (lines 1158-1176) for the
11-byte record at offset `off`. -/
def OnBatchedLargePositionPacket.decode (buf : List Nat) (off : Nat) : BatchedRecord :=
  let pid_togglables := ReadU16 buf off
  let packed := ReadU16 buf (off + 2)
  let packed_pos := ReadU32 buf (off + 4)
  let packed_velocity := ReadU16 buf (off + 8)
  let vel := batchedVelocity packed_velocity (ReadU8 buf (off + 10)) packed_pos
  { player_id := pid_togglables &&& 0x3FF,
    togglables := u8 (pid_togglables >>> 10),
    direction := packed >>> 10,
    timestamp := packed &&& 0x3FF,
    x := packed_pos &&& 0x3FFF,
    y := (packed_pos >>> 14) &&& 0x3FFF,
    vel_x := vel.1,
    vel_y := vel.2 }

/-- The decoder of `OnBatchedSmallPositionPacket` (lines 1214-1229) for the
10-byte record at offset `off`; a small record carries no togglables. -/
def OnBatchedSmallPositionPacket.decode (buf : List Nat) (off : Nat) : BatchedRecord :=
  let packed := ReadU16 buf (off + 1)
  let packed_pos := ReadU32 buf (off + 3)
  let packed_velocity := ReadU16 buf (off + 7)
  let vel := batchedVelocity packed_velocity (ReadU8 buf (off + 9)) packed_pos
  { player_id := ReadU8 buf off,
    togglables := 0,
    direction := packed >>> 10,
    timestamp := packed &&& 0x3FF,
    x := packed_pos &&& 0x3FFF,
    y := (packed_pos >>> 14) &&& 0x3FFF,
    vel_x := vel.1,
    vel_y := vel.2 }

/-- The position of a batched record in tiles (lines 1179, 1232). -/
def BatchedRecord.position (r : BatchedRecord) : Vector2f := ⟨(r.x : ℚ) / 16, (r.y : ℚ) / 16⟩

/-- The velocity of a batched record in tiles per second (lines 1178, 1231). -/
def BatchedRecord.velocity (r : BatchedRecord) : Vector2f :=
  ⟨(r.vel_x : ℚ) / 16 / 10, (r.vel_y : ℚ) / 16 / 10⟩

/-- One turn of the loop of `OnBatchedLargePositionPacket` (lines 1158-1202)
for the record at offset `off`. -/
def OnBatchedLargePositionPacket.record (s : PlayerManager) (env : Env) (buf : List Nat)
    (off : Nat) : PlayerManager :=
  let r := OnBatchedLargePositionPacket.decode buf off
  let server_timestamp := (env.server_tick &&& 0x7FFFFC00) ||| r.timestamp
  let timestamp := server_timestamp &&& 0xFFFF
  if 300 ≤ TICK_DIFF (localTimestamp env server_timestamp) env.tick then s
  else
    match GetPlayerById s r.player_id with
    | some i =>
      if IsNewerPositionPacket s env (some i) timestamp then
        let timestamp_diff := GetTimestampDiff env server_timestamp
        let p := s.players i
        let s1 := s.setPlayer i { p with
          timestamp := timestamp,
          orientation := (r.direction : ℚ) / 40,
          togglables := r.togglables ||| (p.togglables &&& 0xC0) }
        OnPositionPacket s1 env i r.position r.velocity timestamp_diff
      else s
    | none => s

/-- `PlayerManager::OnBatchedLargePositionPacket` (lines 1150-1204): the
records sit at offsets 1, 12, 23, ... while 11 bytes remain. -/
def OnBatchedLargePositionPacket (s : PlayerManager) (env : Env) (buf : List Nat) :
    PlayerManager :=
  (List.range ((buf.length - 1) / 11)).foldl
    (fun st k => OnBatchedLargePositionPacket.record st env buf (1 + 11 * k)) s

/-- One turn of the loop of `OnBatchedSmallPositionPacket` (lines 1214-1253)
for the record at offset `off`. The local `timestamp` is an `s16` there; it
is stored by its low 16 bits. -/
def OnBatchedSmallPositionPacket.record (s : PlayerManager) (env : Env) (buf : List Nat)
    (off : Nat) : PlayerManager :=
  let r := OnBatchedSmallPositionPacket.decode buf off
  let server_timestamp := (env.server_tick &&& 0x7FFFFC00) ||| r.timestamp
  let timestamp := server_timestamp &&& 0xFFFF
  if 300 ≤ TICK_DIFF (localTimestamp env server_timestamp) env.tick then s
  else
    match GetPlayerById s r.player_id with
    | some i =>
      if IsNewerPositionPacket s env (some i) timestamp then
        let timestamp_diff := GetTimestampDiff env server_timestamp
        let p := s.players i
        let s1 := s.setPlayer i { p with
          timestamp := timestamp,
          orientation := (r.direction : ℚ) / 40 }
        OnPositionPacket s1 env i r.position r.velocity timestamp_diff
      else s
    | none => s

/-- `PlayerManager::OnBatchedSmallPositionPacket` (lines 1206-1255): the
records sit at offsets 1, 11, 21, ... while 10 bytes remain. -/
def OnBatchedSmallPositionPacket (s : PlayerManager) (env : Env) (buf : List Nat) :
    PlayerManager :=
  (List.range ((buf.length - 1) / 10)).foldl
    (fun st k => OnBatchedSmallPositionPacket.record st env buf (1 + 10 * k)) s

/-! ## Teleport and flag packets -/

/-- Lines 137-149 of `OnSetCoordinatesPkt` for self in slot `self`: the
safety bit follows the tile self stands on, with an event when it changes. -/
def OnSetCoordinatesPkt.safety (s : PlayerManager) (env : Env) (self : Nat) : PlayerManager :=
  let p := s.players self
  if env.map.GetTileId p.position = env.map.kTileIdSafe then
    let s1 := if p.togglables &&& Status_Safety = 0 then s.emit (Effect.SafeEnterEvent p.position) else s
    s1.setPlayer self { s1.players self with
      togglables := (s1.players self).togglables ||| Status_Safety }
  else
    let s1 := if p.togglables &&& Status_Safety ≠ 0 then s.emit (Effect.SafeLeaveEvent p.position) else s
    s1.setPlayer self { s1.players self with
      togglables := clearBits (s1.players self).togglables Status_Safety }

/-- Lines 125-135 of `OnSetCoordinatesPkt` for self in slot `self`: the
stores into the player record, `UnstuckSelf` and the teleport event. -/
def OnSetCoordinatesPkt.warp (s : PlayerManager) (env : Env) (self : Nat) (pkt : List Nat) :
    PlayerManager :=
  let x := ReadU16 pkt 1
  let y := ReadU16 pkt 3
  let p := s.players self
  let p1 : Player := { p with
    position := ⟨(x : ℚ) + 1 / 2, (y : ℚ) + 1 / 2⟩,
    velocity := ⟨0, 0⟩,
    togglables := p.togglables ||| Status_Flash,
    warp_anim_t := 0 }
  let p2 := UnstuckSelf env p1
  (s.setPlayer self p2).emit (Effect.TeleportEvent p2.id)

/-- `OnSetCoordinatesPkt` (lines 117-152); `pkt` is the packet, its length is
`size`. The result is `none` when the `assert(player)` of
`SendPositionPacket` fails. -/
def OnSetCoordinatesPkt (s : PlayerManager) (env : Env) (pkt : List Nat) : Option PlayerManager :=
  match GetSelf s with
  | none => some s
  | some self =>
    if pkt.length < 5 then some s
    else
      SendPositionPacket
        (OnSetCoordinatesPkt.safety (OnSetCoordinatesPkt.warp s env self pkt) env self) env

/-- `PlayerManager::OnFlagDrop` (lines 1311-1320); `player_id` is the 16-bit
word at offset 1. -/
def OnFlagDrop (s : PlayerManager) (player_id : Nat) : PlayerManager :=
  match GetPlayerById s (u16 player_id) with
  | some p => s.setPlayer p { s.players p with flags := 0, flag_timer := 0 }
  | none => s

/-! ## Bytes of the outgoing position packet -/

/-- Modelled from the spec: `WeaponChecksum` (Checksum.h) is not part of the
sources; section 4.1 describes the checksum as the byte XOR over the core of
the packet. -/
def WeaponChecksum (data : List Nat) : Nat := data.foldl (fun c b => c ^^^ b) 0

/-- The `u32` behind the bit-field struct `item_info` (lines 546-567), fields
allocated from the least significant bit in declaration order: `shields:1`,
`super:1` (both left zero), then seven 4-bit counts, then two padding bits. -/
def ItemInfo.word (i : ItemInfo) : Nat :=
  (i.bursts % 16) <<< 2 ||| (i.repels % 16) <<< 6 ||| (i.thors % 16) <<< 10 |||
    (i.bricks % 16) <<< 14 ||| (i.decoys % 16) <<< 18 ||| (i.rockets % 16) <<< 22 |||
    (i.portals % 16) <<< 26

/-- The buffer after the writes of lines 525-536: the 22-byte core with a zero
at the place of the checksum. -/
def PositionPacket.core (pkt : PositionPacket) : List Nat :=
  let b := WriteU8 [] 0x03
  let b := WriteU8 b pkt.direction
  let b := WriteU32 b (pkt.timestamp % 4294967296).toNat
  let b := WriteU16 b pkt.vel_x
  let b := WriteU16 b pkt.y
  let b := WriteU8 b 0
  let b := WriteU8 b pkt.togglables
  let b := WriteU16 b pkt.x
  let b := WriteU16 b pkt.vel_y
  let b := WriteU16 b pkt.bounty
  let b := WriteU16 b pkt.energy
  WriteU16 b pkt.weapon

/-- The bytes handed to `connection.Send` (lines 525-570): the core, the
checksum of the core stored at offset 10, then the extra block if there is
one. -/
def PositionPacket.bytes (pkt : PositionPacket) : List Nat :=
  let buffer := pkt.core
  let checksum := WeaponChecksum buffer
  let buffer := buffer.set 10 checksum
  match pkt.extra with
  | some (energy, ping, flag_timer, item_info) =>
    WriteU32 (WriteU16 (WriteU16 (WriteU16 buffer energy) ping) flag_timer) item_info.word
  | none => buffer

/-! ## Behavior nodes -/

/-- Modelled from the spec: the result of a tree node, one of Success,
Failure and Running (BehaviorTree.h is not part of the sources). -/
inductive ExecuteResult where
  | Success
  | Failure
  | Running
deriving DecidableEq

/-- A colour or other triple of floats (`Vector3f`). -/
structure Vector3f where
  x : ℚ
  y : ℚ
  z : ℚ
deriving DecidableEq

/-- Modelled from the spec: the blackboard, a mapping from string keys to
values with a typed read `Value<T>(key)` that gives nothing when the key is
missing (Blackboard.h is not part of the sources). There is one reader per
type the nodes modelled here ask for; a camera is kept as a number. -/
structure Blackboard where
  camera : String → Option Nat
  vector2f : String → Option Vector2f
  int : String → Option Nat

/-- What a node reads from its `ExecuteContext`: the blackboard and
`ctx.bot->game->player_manager.GetSelf()` (`none` for a null pointer). -/
structure ExecuteContext where
  blackboard : Blackboard
  self : Option Player

/-- A call into the line renderer, in program order. -/
inductive RenderEffect where
  | PushLine (from_point to_point : Vector2f) (color : Vector3f)
  | Render (camera : Nat)
deriving DecidableEq

/-- The data members of `RenderVectorNode` (RenderNode.h lines 277-285); a key
that is a null pointer is `none`. -/
structure RenderVectorNode where
  camera_key : String
  vector_key : Option String
  origin_key : Option String
  vector : Vector2f
  origin : Vector2f
  color : Vector3f
  player_center : Bool

/-- The constructor of `RenderVectorNode` taking a vector and an origin key
(RenderNode.h lines 229-230). The member `origin` is not initialised by it;
`unset` stands for the value a default-constructed `Vector2f` has. -/
def RenderVectorNode.withOriginKey (camera_key : String) (vector : Vector2f) (origin_key : String)
    (color : Vector3f) (unset : Vector2f) : RenderVectorNode :=
  { camera_key := camera_key, vector_key := none, origin_key := some origin_key,
    vector := vector, origin := unset, color := color, player_center := false }

/-- `RenderVectorNode::Execute` (RenderNode.h lines 241-275): the result and
the calls made to the line renderer. -/
def RenderVectorNode.Execute (node : RenderVectorNode) (ctx : ExecuteContext) :
    ExecuteResult × List RenderEffect :=
  match ctx.blackboard.camera node.camera_key with
  | none => (ExecuteResult.Failure, [])
  | some camera =>
    let vector : Option Vector2f :=
      match node.vector_key with
      | some key => ctx.blackboard.vector2f key
      | none => some node.vector
    match vector with
    | none => (ExecuteResult.Failure, [])
    | some vector =>
      let placed : Option (Vector2f × Vector2f) :=
        match node.origin_key with
        | some key =>
          match ctx.blackboard.vector2f key with
          | some opt_origin => some (node.origin, opt_origin)
          | none => none
        | none =>
          if node.player_center then
            match ctx.self with
            | some self => some (self.position, vector)
            | none => none
          else some (node.origin, vector)
      match placed with
      | none => (ExecuteResult.Failure, [])
      | some (origin, vector) =>
        (ExecuteResult.Success,
          [RenderEffect.PushLine origin ⟨origin.x + vector.x, origin.y + vector.y⟩ node.color,
            RenderEffect.Render camera])

/-- A tree node. The two ship nodes of the Warbird tree are kept apart; every
other leaf is named by its class and arguments and left to an oracle.
`selector` and `sequence` carry the flag of `CompositeDecorator::Success`. -/
inductive BehaviorNode where
  | leaf (name : String)
  | shipQuery (key : String)
  | shipRequest (key : String)
  | invert (child : BehaviorNode)
  | selector (success : Bool) (children : List BehaviorNode)
  | sequence (success : Bool) (children : List BehaviorNode)
  | parallel (children : List BehaviorNode)

/-- What a tick of a tree does, in program order: the ship requests sent and
the oracle leaves executed. -/
inductive TreeEffect where
  | SendShipRequest (ship : Nat)
  | Executed (name : String)
deriving DecidableEq

/-- Modelled from the spec: `InvertChild` swaps Success and Failure; Running
passes through. -/
def ExecuteResult.inverted : ExecuteResult → ExecuteResult
  | ExecuteResult.Success => ExecuteResult.Failure
  | ExecuteResult.Failure => ExecuteResult.Success
  | ExecuteResult.Running => ExecuteResult.Running

/-- Modelled from the spec: the `Success` decorator of a composite turns its
Failure into Success. -/
def ExecuteResult.decorated (success : Bool) (r : ExecuteResult) : ExecuteResult :=
  if success ∧ r = ExecuteResult.Failure then ExecuteResult.Success else r

mutual
/-- Modelled from the spec: one `Execute` of a node (the node classes are not
part of the sources). `ShipQueryNode(key)` succeeds iff self exists and
`self.ship` is `blackboard[key]`; `ShipRequestNode(key)` sends a ship request
for `blackboard[key]` and succeeds (it fails without sending when the key is
missing); a selector returns the first result that is not Failure, a sequence
the first that is not Success, a parallel node runs all children and succeeds
iff all do. `oracle` runs any other leaf. -/
def BehaviorNode.Execute (oracle : String → ExecuteContext → ExecuteResult × ExecuteContext) :
    BehaviorNode → ExecuteContext → List TreeEffect →
      ExecuteResult × ExecuteContext × List TreeEffect
  | BehaviorNode.leaf name, ctx, trace =>
    ((oracle name ctx).1, (oracle name ctx).2, trace ++ [TreeEffect.Executed name])
  | BehaviorNode.shipQuery key, ctx, trace =>
    match ctx.self, ctx.blackboard.int key with
    | some self, some ship =>
      (if self.ship = ship then ExecuteResult.Success else ExecuteResult.Failure, ctx, trace)
    | _, _ => (ExecuteResult.Failure, ctx, trace)
  | BehaviorNode.shipRequest key, ctx, trace =>
    match ctx.blackboard.int key with
    | some ship => (ExecuteResult.Success, ctx, trace ++ [TreeEffect.SendShipRequest ship])
    | none => (ExecuteResult.Failure, ctx, trace)
  | BehaviorNode.invert child, ctx, trace =>
    let r := BehaviorNode.Execute oracle child ctx trace
    (r.1.inverted, r.2)
  | BehaviorNode.selector success children, ctx, trace =>
    let r := BehaviorNode.ExecuteSelector oracle children ctx trace
    (r.1.decorated success, r.2)
  | BehaviorNode.sequence success children, ctx, trace =>
    let r := BehaviorNode.ExecuteSequence oracle children ctx trace
    (r.1.decorated success, r.2)
  | BehaviorNode.parallel children, ctx, trace =>
    BehaviorNode.ExecuteParallel oracle children ctx trace
/-- The children of a selector, in order. -/
def BehaviorNode.ExecuteSelector
    (oracle : String → ExecuteContext → ExecuteResult × ExecuteContext) :
    List BehaviorNode → ExecuteContext → List TreeEffect →
      ExecuteResult × ExecuteContext × List TreeEffect
  | [], ctx, trace => (ExecuteResult.Failure, ctx, trace)
  | child :: rest, ctx, trace =>
    let r := BehaviorNode.Execute oracle child ctx trace
    if r.1 = ExecuteResult.Failure then BehaviorNode.ExecuteSelector oracle rest r.2.1 r.2.2
    else r
/-- The children of a sequence, in order. -/
def BehaviorNode.ExecuteSequence
    (oracle : String → ExecuteContext → ExecuteResult × ExecuteContext) :
    List BehaviorNode → ExecuteContext → List TreeEffect →
      ExecuteResult × ExecuteContext × List TreeEffect
  | [], ctx, trace => (ExecuteResult.Success, ctx, trace)
  | child :: rest, ctx, trace =>
    let r := BehaviorNode.Execute oracle child ctx trace
    if r.1 = ExecuteResult.Success then BehaviorNode.ExecuteSequence oracle rest r.2.1 r.2.2
    else r
/-- The children of a parallel node: all are run. -/
def BehaviorNode.ExecuteParallel
    (oracle : String → ExecuteContext → ExecuteResult × ExecuteContext) :
    List BehaviorNode → ExecuteContext → List TreeEffect →
      ExecuteResult × ExecuteContext × List TreeEffect
  | [], ctx, trace => (ExecuteResult.Success, ctx, trace)
  | child :: rest, ctx, trace =>
    let r := BehaviorNode.Execute oracle child ctx trace
    let q := BehaviorNode.ExecuteParallel oracle rest r.2.1 r.2.2
    (if r.1 = ExecuteResult.Success ∧ q.1 = ExecuteResult.Success then ExecuteResult.Success
      else ExecuteResult.Failure, q.2)
end

/-- The first child of the root of the Warbird tree (WarbirdBehavior.cpp lines
37-40): enter the requested ship if not already in it. -/
def WarbirdBehavior.enterShip : BehaviorNode :=
  BehaviorNode.sequence false
    [BehaviorNode.invert (BehaviorNode.shipQuery "request_ship"),
      BehaviorNode.shipRequest "request_ship"]

/-- The targeting sequence of the Warbird tree (WarbirdBehavior.cpp lines
42-141): find the nearest target, toggle multifire, then path to the target
or aim and shoot. Leaves are named by class and arguments. -/
def WarbirdBehavior.fight : BehaviorNode :=
  BehaviorNode.sequence false
    [BehaviorNode.sequence false
      [BehaviorNode.leaf "PlayerPositionQueryNode(self_position)",
        BehaviorNode.leaf "NearestMemoryTargetNode(nearest_target)",
        BehaviorNode.leaf "PlayerPositionQueryNode(nearest_target, nearest_target_position)"],
      BehaviorNode.selector true
        [BehaviorNode.sequence false
          [BehaviorNode.leaf "ShipCapabilityQueryNode(Multifire)",
            BehaviorNode.leaf "DistanceThresholdNode(nearest_target_position, 15)",
            BehaviorNode.invert (BehaviorNode.leaf "ShipMultifireQueryNode()"),
            BehaviorNode.leaf "InputActionNode(Multifire)"],
          BehaviorNode.sequence false
            [BehaviorNode.leaf "ShipCapabilityQueryNode(Multifire)",
              BehaviorNode.invert
                (BehaviorNode.leaf "DistanceThresholdNode(nearest_target_position, 15)"),
              BehaviorNode.leaf "ShipMultifireQueryNode()",
              BehaviorNode.leaf "InputActionNode(Multifire)"]],
      BehaviorNode.selector false
        [BehaviorNode.sequence false
          [BehaviorNode.invert (BehaviorNode.leaf "VisibilityQueryNode(nearest_target_position)"),
            BehaviorNode.leaf "GoToNode(nearest_target_position)",
            BehaviorNode.leaf "RenderPathNode(0, 1, 0.5)"],
          BehaviorNode.sequence false
            [BehaviorNode.leaf "AimNode(Bullet, nearest_target, aimshot)",
              BehaviorNode.parallel
                [BehaviorNode.selector false
                  [BehaviorNode.sequence false
                    [BehaviorNode.leaf
                        "FindTerritoryPosition(nearest_target, leash_distance, territory_position)",
                      BehaviorNode.sequence true
                        [BehaviorNode.leaf
                            "PositionThreatQueryNode(self_position, self_threat, 8, 3)",
                          BehaviorNode.leaf "RenderTextNode(ui_camera, (512, 600))",
                          BehaviorNode.leaf
                            "PositionThreatQueryNode(territory_position, territory_threat, 8, 3)",
                          BehaviorNode.leaf "RenderTextNode(world_camera, territory_position)",
                          BehaviorNode.leaf "ScalarThresholdNode(territory_threat, 0.2)",
                          BehaviorNode.leaf
                            "FindTerritoryPosition(nearest_target, leash_distance, territory_position, true)"],
                      BehaviorNode.sequence true
                        [BehaviorNode.invert
                            (BehaviorNode.leaf "ScalarThresholdNode(self_threat, 0.2)"),
                          BehaviorNode.leaf "FaceNode(aimshot)"],
                      BehaviorNode.leaf "ArriveNode(territory_position, 25)",
                      BehaviorNode.leaf "RectangleNode(territory_position, (2, 2), territory_rect)",
                      BehaviorNode.leaf "RenderRectNode(world_camera, territory_rect, (0, 1, 0))"],
                    BehaviorNode.sequence false
                      [BehaviorNode.leaf "FaceNode(aimshot)",
                        BehaviorNode.leaf "SeekNode(aimshot, leash_distance)"]],
                  BehaviorNode.parallel
                    [BehaviorNode.sequence true
                      [BehaviorNode.leaf "ShipWeaponCapabilityQueryNode(Repel)",
                        BehaviorNode.leaf "RepelDistanceQueryNode(repel_distance)",
                        BehaviorNode.leaf
                          "NearbyEnemyWeaponQueryNode(Bomb | ProximityBomb, repel_distance)",
                        BehaviorNode.leaf "InputActionNode(Repel)"],
                      BehaviorNode.sequence true
                        [BehaviorNode.leaf "ShipWeaponCapabilityQueryNode(Burst)",
                          BehaviorNode.invert
                            (BehaviorNode.leaf "ShipWeaponCooldownQueryNode(Bomb)"),
                          BehaviorNode.invert
                            (BehaviorNode.leaf
                              "DistanceThresholdNode(nearest_target_position, 15)"),
                          BehaviorNode.leaf "BurstAreaQueryNode()",
                          BehaviorNode.leaf "InputActionNode(Burst)"],
                      BehaviorNode.sequence true
                        [BehaviorNode.leaf "PlayerEnergyPercentThresholdNode(0.65)",
                          BehaviorNode.leaf "ShipWeaponCapabilityQueryNode(Bomb)",
                          BehaviorNode.invert
                            (BehaviorNode.leaf "ShipWeaponCooldownQueryNode(Bomb)"),
                          BehaviorNode.leaf "DistanceThresholdNode(nearest_target_position, 10)",
                          BehaviorNode.leaf "ShotVelocityQueryNode(Bomb, bomb_fire_velocity)",
                          BehaviorNode.leaf
                            "RayNode(self_position, bomb_fire_velocity, bomb_fire_ray)",
                          BehaviorNode.leaf
                            "DynamicPlayerBoundingBoxQueryNode(nearest_target, target_bounds, 3)",
                          BehaviorNode.leaf
                            "MoveRectangleNode(target_bounds, aimshot, target_bounds)",
                          BehaviorNode.leaf
                            "RenderRectNode(world_camera, target_bounds, (1, 0, 0))",
                          BehaviorNode.leaf
                            "RenderRayNode(world_camera, bomb_fire_ray, 50, (1, 1, 0))",
                          BehaviorNode.leaf
                            "RayRectangleInterceptNode(bomb_fire_ray, target_bounds)",
                          BehaviorNode.leaf "InputActionNode(Bomb)"],
                      BehaviorNode.sequence true
                        [BehaviorNode.leaf "PlayerEnergyPercentThresholdNode(0.3)",
                          BehaviorNode.invert
                            (BehaviorNode.leaf "ShipWeaponCooldownQueryNode(Bullet)"),
                          BehaviorNode.invert (BehaviorNode.leaf "InputQueryNode(Bomb)"),
                          BehaviorNode.invert (BehaviorNode.leaf "TileQueryNode(kTileSafeId)"),
                          BehaviorNode.leaf "ShotVelocityQueryNode(Bullet, bullet_fire_velocity)",
                          BehaviorNode.leaf
                            "RayNode(self_position, bullet_fire_velocity, bullet_fire_ray)",
                          BehaviorNode.leaf
                            "DynamicPlayerBoundingBoxQueryNode(nearest_target, target_bounds, 4)",
                          BehaviorNode.leaf
                            "MoveRectangleNode(target_bounds, aimshot, target_bounds)",
                          BehaviorNode.leaf
                            "RayRectangleInterceptNode(bullet_fire_ray, target_bounds)",
                          BehaviorNode.leaf "InputActionNode(Bullet)"]]]]]]

/-- The second child of the root of the Warbird tree (WarbirdBehavior.cpp
lines 41-160): fight the nearest target, else go to the nearest green, else
follow the waypoints. -/
def WarbirdBehavior.fightOrFollow : BehaviorNode :=
  BehaviorNode.selector false
    [WarbirdBehavior.fight,
      BehaviorNode.sequence false
        [BehaviorNode.leaf "FindNearestGreenNode(nearest_green_position)",
          BehaviorNode.leaf "GoToNode(nearest_green_position)"],
      BehaviorNode.sequence false
        [BehaviorNode.leaf "WaypointNode(waypoints, waypoint_index, waypoint_position, 15)",
          BehaviorNode.selector false
            [BehaviorNode.sequence false
              [BehaviorNode.invert (BehaviorNode.leaf "VisibilityQueryNode(waypoint_position)"),
                BehaviorNode.leaf "GoToNode(waypoint_position)",
                BehaviorNode.leaf "RenderPathNode(0, 0.5, 1)"],
              BehaviorNode.parallel
                [BehaviorNode.leaf "FaceNode(waypoint_position)",
                  BehaviorNode.leaf "ArriveNode(waypoint_position, 1.25)"]]]]

/-- `WarbirdBehavior::CreateTree` (WarbirdBehavior.cpp lines 28-171): the
tree the builder calls describe. -/
def WarbirdBehavior.CreateTree : BehaviorNode :=
  BehaviorNode.selector false [WarbirdBehavior.enterShip, WarbirdBehavior.fightOrFollow]


/-! ## Predicates used by the statements -/

/-- Operations that only rewire the attachment graph leave the table itself
alone: count, lookup, own id, and the id and name stored in every slot. -/
def Frame (s s' : PlayerManager) : Prop :=
  s'.player_count = s.player_count ∧ s'.player_lookup = s.player_lookup ∧
  s'.player_id = s.player_id ∧
  ∀ j, (s'.players j).id = (s.players j).id ∧ (s'.players j).name = (s.players j).name

/-- A children list holds a node that references the player with id `pid`. -/
def hasNode (l : List AttachInfo) (pid : Nat) : Prop :=
  ∃ n, n ∈ l ∧ n.player_id = pid

/-- The lookup invariant: every live slot is the one the lookup table names
for the id stored in it. -/
def LookupInv (s : PlayerManager) : Prop :=
  ∀ i, i < s.player_count → s.player_lookup (s.players i).id = i

/-- A table of three players with ids 7, 3, 9 in slots 0, 1, 2. -/
def table739 : PlayerManager :=
  { player_id := 7, player_count := 3,
    players := fun j =>
      if j = 0 then { Player.zero with id := 7, name := [65], attach_parent := kInvalidPlayerId }
      else if j = 1 then { Player.zero with id := 3, name := [66], attach_parent := kInvalidPlayerId }
      else if j = 2 then { Player.zero with id := 9, name := [67], attach_parent := kInvalidPlayerId }
      else Player.zero,
    player_lookup := fun id =>
      if id = 7 then 0 else if id = 3 then 1 else if id = 9 then 2 else kInvalidPlayerId,
    received_initial_list := true, requesting_attach := false,
    attach_free := [], arena_used := 0, last_position_tick := 0,
    ship := ⟨1000, 0, 0, 0, 0, 0, 0, 0, 0⟩, trace := [] }

/-- A map without solid, colliding or wormhole tiles (tile id 220 is taken
for the wormhole and never returned) where every ship has radius zero. -/
def openMap : Map :=
  { IsSolid := fun _ _ _ => false, GetTileId := fun _ => 0,
    IsColliding := fun _ _ _ => false, CanFit := fun _ _ _ => true,
    kTileIdWormhole := 220, kTileIdSafe := 171,
    GetRadius := fun _ => 0, BounceFactor := 16,
    BoxBoxIntersect := fun _ _ _ _ => false, PixelRounded := fun v => v,
    send_damage := false, damage_capacity := 8 }

/-- An environment with quiet collaborators. -/
def quietEnv : Env :=
  { tick := 1000, time_diff := 0, ping := 0, MAKE_TICK := fun t => t,
    ShipSettings := fun _ => ⟨0, 0⟩, AntiwarpSettleDelay := 0, AntiWarpPixels := 0,
    EnterDelay := 0, FlagDropDelay := 0, BountyIncreaseForKill := 0,
    ExtraPositionData := false, extra_position_info := false, carrying_ball := false,
    chat_controller := false, InRadarView := fun _ => false,
    SpawnSettings := [⟨512, 512, 0⟩], RadarMode := 0, WarpRadiusLimit := 1024,
    rand := fun _ => 0, VieRNG := fun _ _ => 0,
    ResetShip := fun sh => sh, server_tick := 1000,
    SMALL_TICK_GTE := fun a b => decide ((a + 65536 - b) % 65536 < 32768), map := openMap }

/-- Every valid lookup entry names a live slot that stores the id. -/
def LookupSound (s : PlayerManager) : Prop :=
  ∀ id, s.player_lookup id < kInvalidPlayerId →
    s.player_lookup id < s.player_count ∧ (s.players (s.player_lookup id)).id = id

/-- The table invariant: the live players fit the array, and the lookup table
and the live slots describe each other. -/
def TableInv (s : PlayerManager) : Prop :=
  s.player_count ≤ kMaxPlayers ∧ LookupInv s ∧ LookupSound s

/-- An enter packet whose id is not in use: the only live player that may
already hold it is the same-named player the handler removes first. -/
def FreshId (s : PlayerManager) (pkt : PlayerEnterPacket) : Prop :=
  ∀ i, i < s.player_count → (s.players i).id = u16 pkt.id → GetPlayerByName s pkt.name = some i

/-- The states reachable from an empty table through `OnPlayerEnter`,
`OnPlayerLeave` and `OnPlayerIdChange`. `ok s pkt` says which enter packets
may arrive in state `s`. -/
inductive TableReachable (ok : PlayerManager → PlayerEnterPacket → Prop) : PlayerManager → Prop
  | init (s : PlayerManager) (h0 : s.player_count = 0)
      (hl : ∀ id, s.player_lookup id = kInvalidPlayerId) : TableReachable ok s
  | enter (s s' : PlayerManager) (env : Env) (pkt : PlayerEnterPacket)
      (hs : TableReachable ok s) (hok : ok s pkt)
      (h : OnPlayerEnter s env pkt = some s') : TableReachable ok s'
  | leave (s s' : PlayerManager) (env : Env) (pid : Nat)
      (hs : TableReachable ok s) (h : OnPlayerLeave s env pid = some s') : TableReachable ok s'
  | idChange (s : PlayerManager) (id : Nat) (hs : TableReachable ok s) :
      TableReachable ok (OnPlayerIdChange s id)

/-- The table after construction: no players, every lookup entry invalid. -/
def emptyTable : PlayerManager :=
  { player_id := 0, player_count := 0, players := fun _ => Player.zero,
    player_lookup := fun _ => 0xFFFF, received_initial_list := false,
    requesting_attach := false, attach_free := [], arena_used := 0,
    last_position_tick := 0, ship := ⟨1000, 0, 0, 0, 0, 0, 0, 0, 0⟩, trace := [] }

/-- An enter packet for a player called `name` with id `id`, on frequency 10,
whose attach-parent field is `parent`. -/
def enterPacket (name id parent : Nat) : PlayerEnterPacket :=
  { ship := 0, audio := 0, name := [name], squad := [], kill_points := 0, flag_points := 0,
    id := id, frequency := 10, wins := 0, losses := 0, attach_parent := parent, flags := 0,
    koth := 0 }

/-- The state after `emptyTable` receives the enter packets of `l` in order;
`emptyTable` if one of them trips an assertion. -/
def enterAll (l : List PlayerEnterPacket) : PlayerManager :=
  (l.foldl (fun o pkt => o.bind (fun s => OnPlayerEnter s quietEnv pkt)) (some emptyTable)).getD
    emptyTable

/-- The three enter packets of the swap-pop scenario: ids 7, 3, 9. -/
def packets739 : List PlayerEnterPacket :=
  [enterPacket 65 7 0xFFFF, enterPacket 66 3 0xFFFF, enterPacket 67 9 0xFFFF]

/-- The state after the three players entered and the one with id 3 left. -/
def tableAfterLeave : PlayerManager :=
  (OnPlayerLeave (enterAll packets739) quietEnv 3).getD emptyTable

/-- Processing node `n` of the children of slot `p` resets the player in
slot `j`: the node resolves to `j` and `j` is attached to the player of `p`. -/
def resetsSlot (s : PlayerManager) (p : Nat) (n : AttachInfo) (j : Nat) : Prop :=
  GetPlayerById s n.player_id = some j ∧ (s.players j).attach_parent = (s.players p).id

/-- The carrier of `turretTable`: id 7, two children nodes. -/
def turretCarrier : Player :=
  { Player.zero with
    id := 7, name := [65], attach_parent := kInvalidPlayerId, timestamp := 100,
    children := [⟨1, 9⟩, ⟨0, 3⟩] }

/-- The first turret of `turretTable`: id 3, attached to 7, energy 1000. -/
def turretSelf : Player :=
  { Player.zero with id := 3, name := [66], attach_parent := 7, timestamp := 100, energy := 1000 }

/-- The second turret of `turretTable`: id 9, attached to 7. -/
def turretOther : Player :=
  { Player.zero with id := 9, name := [67], attach_parent := 7, timestamp := 100 }

/-- A table where the player with id 7 (slot 0) carries the players with ids
3 and 9 (slots 1 and 2) as turrets; self is the player with id 3, with an
attach request pending. -/
def turretTable : PlayerManager :=
  { table739 with
    player_id := 3,
    requesting_attach := true,
    arena_used := 2,
    players := fun j =>
      if j = 0 then turretCarrier else if j = 1 then turretSelf
      else if j = 2 then turretOther else Player.zero }

/-- The conditions under which `AttachSelf` succeeds, as the spec lists them,
for self in slot `self` and the destination in slot `d`. -/
def AttachAllowed (s : PlayerManager) (env : Env) (self d : Nat) : Prop :=
  env.carrying_ball = false ∧
  (s.players self).attach_parent = kInvalidPlayerId ∧
  (s.players self).children = [] ∧
  (s.ship.energy : ℚ) ≤ (s.players self).energy ∧
  (env.ShipSettings (s.players self).ship).AttachBounty ≤ (s.players self).bounty ∧
  (s.players self).id ≠ (s.players d).id ∧
  (s.players self).frequency = (s.players d).frequency ∧
  (s.players d).ship < 8 ∧
  0 < (env.ShipSettings (s.players d).ship).TurretLimit ∧
  GetTurretCount (s.players d) < (env.ShipSettings (s.players d).ship).TurretLimit ∧
  IsAntiwarped s env self = false

/-- Self of the attach scenario: id 1, frequency 10, energy 1000, bounty 50. -/
def scenarioSelf : Player :=
  { Player.zero with
    id := 1, name := [83], frequency := 10, energy := 1000, bounty := 50,
    attach_parent := kInvalidPlayerId, timestamp := 100 }

/-- The destination of the attach scenario: id 2, frequency 10, two turrets. -/
def scenarioDestination : Player :=
  { Player.zero with
    id := 2, name := [68], frequency := 10, attach_parent := kInvalidPlayerId, timestamp := 100,
    children := [⟨1, 4⟩, ⟨0, 3⟩] }

/-- A turret of the attach scenario with id `id`, attached to player 2. -/
def scenarioTurret (id : Nat) : Player :=
  { Player.zero with
    id := id, name := [84, id], frequency := 10, attach_parent := 2, timestamp := 100 }

/-- The spec's attachment scenario: self (slot 0) at frequency 10 with energy
1000 of 1000 and bounty 50; the destination (slot 1) at frequency 10 already
carries two turrets (slots 2 and 3). -/
def attachScenario : PlayerManager :=
  { player_id := 1, player_count := 4,
    players := fun j =>
      if j = 0 then scenarioSelf else if j = 1 then scenarioDestination
      else if j = 2 then scenarioTurret 3 else if j = 3 then scenarioTurret 4 else Player.zero,
    player_lookup := fun id =>
      if id = 1 then 0 else if id = 2 then 1 else if id = 3 then 2 else if id = 4 then 3
      else kInvalidPlayerId,
    received_initial_list := true, requesting_attach := false,
    attach_free := [], arena_used := 2, last_position_tick := 0,
    ship := ⟨1000, 0, 0, 0, 0, 0, 0, 0, 0⟩, trace := [] }

/-- The environment of the attach scenario: every ship needs bounty 20 to
attach and carries at most 4 turrets; the ball is not carried. -/
def scenarioEnv : Env :=
  { quietEnv with ShipSettings := fun _ => ⟨20, 4⟩, AntiwarpSettleDelay := 50 }

/-- The precondition checks of `AttachSelf` in the order the spec lists them:
each entry pairs "this precondition is violated" with the response reported
for it. `self` and `d` are the slots of self and of the destination. -/
def attachChecks (s : PlayerManager) (env : Env) (self d : Nat) :
    List (Bool × AttachRequestResponse) :=
  [ (env.carrying_ball, AttachRequestResponse.CarryingBall),
    (decide ((s.players self).attach_parent ≠ kInvalidPlayerId),
      AttachRequestResponse.DetatchFromParent),
    (decide ((s.players self).children ≠ []), AttachRequestResponse.DetatchChildren),
    (decide ((s.players self).energy < (s.ship.energy : ℚ)),
      AttachRequestResponse.NotEnoughEnergy),
    (decide ((s.players self).bounty < (env.ShipSettings (s.players self).ship).AttachBounty),
      AttachRequestResponse.BountyTooLow),
    (decide ((s.players self).id = (s.players d).id), AttachRequestResponse.Self),
    (decide ((s.players self).frequency ≠ (s.players d).frequency),
      AttachRequestResponse.Frequency),
    (decide (8 ≤ (s.players d).ship), AttachRequestResponse.Spectator),
    (decide ((env.ShipSettings (s.players d).ship).TurretLimit = 0),
      AttachRequestResponse.TargetShipNotAttachable),
    (decide ((env.ShipSettings (s.players d).ship).TurretLimit ≤ GetTurretCount (s.players d)),
      AttachRequestResponse.TooManyTurrets),
    (IsAntiwarped s env self, AttachRequestResponse.Antiwarped) ]

/-- The response for the earliest violated check of a list, `Success` when
none is violated. -/
def earliestViolated (checks : List (Bool × AttachRequestResponse)) : AttachRequestResponse :=
  match checks.find? (fun c => c.1) with
  | some c => c.2
  | none => AttachRequestResponse.Success

/-- The children list `DetachPlayer` leaves behind: the first node that
references `pid` is unlinked, if there is one. -/
def eraseNode (pid : Nat) (l : List AttachInfo) : List AttachInfo :=
  match unlinkFirst pid l with
  | some (_, rest) => rest
  | none => l

/-- A locally requested attach is in place: self (slot `self`) carries the
id of the player in slot `d` as `attach_parent`, and that id resolves to `d`.
With `requesting_attach` set this is the state a successful `AttachSelf`
leaves behind. -/
def LinkedToParent (s : PlayerManager) (self d : Nat) : Prop :=
  GetSelf s = some self ∧ (s.players self).id = s.player_id ∧
  (s.players self).attach_parent ≠ kInvalidPlayerId ∧
  GetPlayerById s (s.players self).attach_parent = some d

/-- The energy drop of a confirmed attach request, as both
`OnCreateTurretLink` (lines 1438-1441) and `SendPositionPacket` (lines
506-508) apply it: self's energy is multiplied by 0.333, `requesting_attach`
is cleared and `PlayerAttach` is dispatched. Used to state results. -/
def energyDrop (s : PlayerManager) (self parent : Nat) : PlayerManager :=
  let s1 := s.setPlayer self { s.players self with
    energy := (s.players self).energy * (333 / 1000) }
  let s2 : PlayerManager := { s1 with requesting_attach := false }
  s2.emit (Effect.PlayerAttachEvent (s2.players self).id (s2.players parent).id)

/-- The attachment invariant: every live player whose `attach_parent` is a
valid id has a live parent with that id, and the parent's children list holds
a node that references the player. -/
def AttachInv (s : PlayerManager) : Prop :=
  ∀ i, i < s.player_count → (s.players i).attach_parent ≠ kInvalidPlayerId →
    ∃ j, j < s.player_count ∧ (s.players j).id = (s.players i).attach_parent ∧
      hasNode (s.players j).children (s.players i).id

/-- Two states with the same table and the same attachment graph: `Frame`,
and in every slot the same `attach_parent` and children list. -/
def LinkFrame (s s' : PlayerManager) : Prop :=
  Frame s s' ∧ ∀ j, (s'.players j).attach_parent = (s.players j).attach_parent ∧
    (s'.players j).children = (s.players j).children

/-- The attach parent an enter packet names can be resolved: it is the
invalid id, the packet's own id, or the id of a live player other than the
same-named player the handler removes first. -/
def ParentResolves (s : PlayerManager) (pkt : PlayerEnterPacket) : Prop :=
  u16 pkt.attach_parent = kInvalidPlayerId ∨ u16 pkt.attach_parent = u16 pkt.id ∨
  ∃ i, i < s.player_count ∧ (s.players i).id = u16 pkt.attach_parent ∧
    GetPlayerByName s pkt.name ≠ some i

/-- An enter packet as a server sends it: its id is not in use and its attach
parent can be resolved. -/
def WellFormedEnter (s : PlayerManager) (pkt : PlayerEnterPacket) : Prop :=
  FreshId s pkt ∧ ParentResolves s pkt

/-- A reachable table with a dangling parent: the player with id 1 entered
naming id 5 as its attach parent before the player with id 5 entered. -/
def danglingTable : PlayerManager :=
  enterAll [enterPacket 65 1 5, enterPacket 66 5 0xFFFF]

/-- The invariant of the player table together with the attachment graph. -/
def GraphInv (s : PlayerManager) : Prop :=
  TableInv s ∧ AttachInv s

/-- The states reachable from an empty table through the packet handlers
`OnPlayerEnter`, `OnPlayerLeave`, `OnCreateTurretLink`, `OnDestroyTurretLink`,
`OnPlayerDeath`, `OnPlayerFrequencyChange`, `OnPlayerFreqAndShipChange` and
through `AttachSelf` (called with a null pointer or a pointer to a live
player). `ok s pkt` says which enter packets may arrive in state `s`. -/
inductive AttachReachable (ok : PlayerManager → PlayerEnterPacket → Prop) :
    PlayerManager → Prop
  | init (s : PlayerManager) (h0 : s.player_count = 0)
      (hl : ∀ id, s.player_lookup id = kInvalidPlayerId) : AttachReachable ok s
  | enter (s s' : PlayerManager) (env : Env) (pkt : PlayerEnterPacket)
      (hs : AttachReachable ok s) (hok : ok s pkt)
      (h : OnPlayerEnter s env pkt = some s') : AttachReachable ok s'
  | leave (s s' : PlayerManager) (env : Env) (pid : Nat)
      (hs : AttachReachable ok s) (h : OnPlayerLeave s env pid = some s') :
      AttachReachable ok s'
  | createLink (s : PlayerManager) (request_id size destination_id : Nat)
      (hs : AttachReachable ok s) :
      AttachReachable ok (OnCreateTurretLink s request_id size destination_id)
  | destroyLink (s : PlayerManager) (pid : Nat) (hs : AttachReachable ok s) :
      AttachReachable ok (OnDestroyTurretLink s pid)
  | death (s : PlayerManager) (env : Env) (pkt : PlayerDeathPacket)
      (hs : AttachReachable ok s) : AttachReachable ok (OnPlayerDeath s env pkt)
  | frequencyChange (s : PlayerManager) (env : Env) (pid frequency : Nat)
      (hs : AttachReachable ok s) :
      AttachReachable ok (OnPlayerFrequencyChange s env pid frequency)
  | freqAndShipChange (s : PlayerManager) (env : Env) (ship pid freq : Nat)
      (hs : AttachReachable ok s) :
      AttachReachable ok (OnPlayerFreqAndShipChange s env ship pid freq)
  | attachSelf (s : PlayerManager) (env : Env) (destination : Option Nat)
      (hs : AttachReachable ok s) (hd : ∀ d, destination = some d → d < s.player_count) :
      AttachReachable ok (AttachSelf s env destination).2

/-- The attachment property as the spec states it: every live player with a
valid `attach_parent` has a live parent whose children list holds exactly one
node that references the player. -/
def AttachedExactlyOnce (s : PlayerManager) : Prop :=
  ∀ i, i < s.player_count → (s.players i).attach_parent ≠ kInvalidPlayerId →
    ∃ j, j < s.player_count ∧ (s.players j).id = (s.players i).attach_parent ∧
      ((s.players j).children.filter
        (fun n => decide (n.player_id = (s.players i).id))).length = 1

/-- Two players, ids 1 and 2, neither attached. -/
def pairTable : PlayerManager :=
  enterAll [enterPacket 65 1 0xFFFF, enterPacket 66 2 0xFFFF]

/-- The pair table after the server linked player 2 to player 1 twice. -/
def doubleLinkTable : PlayerManager :=
  OnCreateTurretLink (OnCreateTurretLink pairTable 2 5 1) 2 5 1

/-- Player 1 enters, then player 2 enters as a turret of player 1. -/
def turretEnterTable : PlayerManager :=
  enterAll [enterPacket 65 1 0xFFFF, enterPacket 66 2 1]

/-- A batched-large packet with one record behind the type byte: pid 0x105,
togglables 0b010101, direction 20, timestamp 123, x 400, y 300, velocity
words 320 and -240. -/
def sampleBatch : List Nat :=
  [0x39, 0x05, 0x55, 0x7B, 0x50, 0x90, 0x01, 0x4B, 0x00, 0x10, 0x3F, 0x05]

/-- Modelled from the spec: the repository holds no encoder for batched
records (the server produces them); this is the 11-byte layout of section
4.1, written with the bit positions the decoder reads. `vel_x` is split into
the signed multiplier byte (`vel_x` div 64), the 2-bit middle part stored
above `vel_y` and the 4-bit low part stored above `y`. -/
def packBatchedLarge (r : BatchedRecord) : List Nat :=
  let multiplier := r.vel_x / 64
  let vel_x_mid := (r.vel_x % 64 / 16).toNat
  let vel_x_low := (r.vel_x % 16).toNat
  let w0 := r.player_id + 1024 * r.togglables
  let w1 := r.timestamp + 1024 * r.direction
  let p := r.x + 16384 * r.y + 268435456 * vel_x_low
  let v := (r.vel_y % 16384).toNat + 16384 * vel_x_mid
  WriteU8 (WriteU16 (WriteU32 (WriteU16 (WriteU16 [] w0) w1) p) v) (multiplier % 256).toNat

/-- The position packets handed to `connection.Send` on the way from state
`s` to state `s'`: the `Send` entries of the part of the trace added since. -/
def sentPackets (s s' : PlayerManager) : List PositionPacket :=
  (s'.trace.drop s.trace.length).filterMap fun e =>
    match e with
    | Effect.Send pkt => some pkt
    | _ => none

/-- Every field of the packet fits the width it is written with. -/
def PositionPacket.Fits (pkt : PositionPacket) : Prop :=
  pkt.direction < 256 ∧ pkt.vel_x < 65536 ∧ pkt.y < 65536 ∧ pkt.togglables < 256 ∧
    pkt.x < 65536 ∧ pkt.vel_y < 65536 ∧ pkt.bounty < 65536 ∧ pkt.energy < 65536 ∧
    pkt.weapon < 65536

/-- What the position reconciler leaves alone in every slot: the table
itself, the id, the stored timestamp, the enter delay, and every togglable
bit other than Flash. -/
def ReconcileFrame (s s' : PlayerManager) : Prop :=
  s'.player_id = s.player_id ∧ s'.player_lookup = s.player_lookup ∧
  s'.player_count = s.player_count ∧
  ∀ j, (s'.players j).id = (s.players j).id ∧
    (s'.players j).timestamp = (s.players j).timestamp ∧
    (s'.players j).enter_delay = (s.players j).enter_delay ∧
    clearBits (s'.players j).togglables Status_Flash =
      clearBits (s.players j).togglables Status_Flash

/-- A table of two players standing at (500, 500): self (id 7, slot 0), last
seen at small tick 900, and the player with id 3 (slot 1), last seen at small
tick 600. -/
def positionTable : PlayerManager :=
  { player_id := 7, player_count := 2,
    players := fun j =>
      if j = 0 then
        { Player.zero with
          id := 7, name := [65], attach_parent := kInvalidPlayerId, position := ⟨500, 500⟩,
          timestamp := 900 }
      else if j = 1 then
        { Player.zero with
          id := 3, name := [66], attach_parent := kInvalidPlayerId, position := ⟨500, 500⟩,
          timestamp := 600 }
      else Player.zero,
    player_lookup := fun id => if id = 7 then 0 else if id = 3 then 1 else kInvalidPlayerId,
    received_initial_list := true, requesting_attach := false,
    attach_free := [], arena_used := 0, last_position_tick := 0,
    ship := ⟨1000, 0, 0, 0, 0, 0, 0, 0, 0⟩, trace := [] }

/-- The quiet environment at local and server tick 4196, with no clock
difference and an open map. -/
def positionEnv : Env :=
  { quietEnv with tick := 4196, server_tick := 4196 }

/-- A 21-byte large position packet for the player with id `pid` stamped
`timestamp`: position (500, 500), velocity (1, 0), ping 40, everything else
zero. -/
def largePacket (pid timestamp : Nat) : List Nat :=
  [0x28, 0, timestamp % 256, timestamp / 256 % 256, 0x40, 0x1F, 0, 0, pid % 256, pid / 256 % 256,
    0xA0, 0x00, 0, 0, 40, 0x40, 0x1F, 0, 0, 0, 0]

/-- A 16-byte small position packet for the player with id `pid` stamped
`timestamp`: position (500, 500), velocity (1, 0), ping 40, everything else
zero. -/
def smallPacket (pid timestamp : Nat) : List Nat :=
  [0x13, 0, timestamp % 256, timestamp / 256 % 256, 0x40, 0x1F, 40, 0, pid % 256, 0, 0, 0,
    0x40, 0x1F, 0xA0, 0x00]

/-- A batched-large packet with one record for the player with id 3, stamped
with the 10-bit tick `timestamp`: position (500, 500), velocity (1, 0). -/
def largeBatch (timestamp : Nat) : List Nat :=
  [0x39] ++ packBatchedLarge
    { player_id := 3, togglables := 0, direction := 0, timestamp := timestamp, x := 8000,
      y := 8000, vel_x := 160, vel_y := 0 }

/-- A batched-small packet with one 10-byte record for the player with id 3,
stamped with the 10-bit tick `timestamp`: position (500, 500), velocity
(1, 0). -/
def smallBatch (timestamp : Nat) : List Nat :=
  [0x38, 3, timestamp % 256, timestamp / 256 % 4, 0x40, 0x1F, 0xD0, 0x07, 0x00, 0x80, 0x02]

/-- The rule for stored timestamps between two states: the timestamp of a
synchronized player changes from `t` to `t'` only if `SMALL_TICK_GTE(t', t)`
holds or `|t' - t| > 999`. -/
def TimestampStep (env : Env) (s s' : PlayerManager) : Prop :=
  ∀ j, IsSynchronized (s.players j) = true →
    (s'.players j).timestamp ≠ (s.players j).timestamp →
    env.SMALL_TICK_GTE (s'.players j).timestamp (s.players j).timestamp = true ∨
      999 < |((s'.players j).timestamp : Int) - ((s.players j).timestamp : Int)|

/-- A packet timestamp `t'` that fails both tests against the stored
timestamp of the synchronized player `p`. -/
def StaleTimestamp (env : Env) (p : Player) (t' : Nat) : Prop :=
  IsSynchronized p = true ∧ env.SMALL_TICK_GTE t' p.timestamp = false ∧
    |((t' : Nat) : Int) - (p.timestamp : Int)| ≤ 999

/-- The point reached from `position` after `k` steps of 10 ms at `velocity`
with nothing in the way. -/
def linearPosition (position velocity : Vector2f) (k : Nat) : Vector2f :=
  ⟨position.x + k * (velocity.x * (1 / 100)), position.y + k * (velocity.y * (1 / 100))⟩

/-- Nothing in the way of `n` steps from `position` at `velocity` for a
player with the ship and frequency of `p`: in every step the tile test of
`SimulateAxis` finds neither a solid tile that meets the box of the ship nor
the edge of the map, first along x and then along y. -/
def ClearPath (env : Env) (p : Player) (position velocity : Vector2f) (n : Nat) : Prop :=
  ∀ k, k < n →
    SimulateAxis.collided env
      { p with
        position := ⟨(linearPosition position velocity (k + 1)).x,
          (linearPosition position velocity k).y⟩ }
      (velocity.x * (1 / 100)) 0 = false ∧
    SimulateAxis.collided env
      { p with position := linearPosition position velocity (k + 1) }
      (velocity.y * (1 / 100)) 1 = false

/-- No step of the path ends on a wormhole tile. -/
def OffWormhole (env : Env) (position velocity : Vector2f) (n : Nat) : Prop :=
  ∀ k, k < n →
    env.map.GetTileId (linearPosition position velocity (k + 1)) ≠ env.map.kTileIdWormhole

/-- The environment of `positionEnv` on a map where every tile is a wormhole
(and none is solid). -/
def wormholeEnv : Env :=
  { positionEnv with map := { openMap with GetTileId := fun _ => 220 } }

/-- State `X` is state `s` with the fields of a packet stored in slot `i`:
the stores leave the own id, and the id, position, ship, frequency and enter
delay of the slot, as they were. -/
def PacketStored (s X : PlayerManager) (i : Nat) : Prop :=
  X.player_id = s.player_id ∧ (X.players i).id = (s.players i).id ∧
    (X.players i).position = (s.players i).position ∧
    (X.players i).ship = (s.players i).ship ∧
    (X.players i).frequency = (s.players i).frequency ∧
    (X.players i).enter_delay = (s.players i).enter_delay

/-- The table of `positionTable` with the Flash bit set for player 3. -/
def flashTable : PlayerManager :=
  positionTable.setPlayer 1 { positionTable.players 1 with togglables := Status_Flash }

/-- The table of `positionTable` with self at the origin. -/
def originTable : PlayerManager :=
  positionTable.setPlayer 0 { positionTable.players 0 with position := ⟨0, 0⟩ }

/-- The environment of `positionEnv` on a map whose tile (510, 510) is solid:
a ship collides exactly when its position lies in that tile. -/
def wallEnv : Env :=
  { positionEnv with
    map := { openMap with
      IsSolid := fun x y _ => decide (x = 510 ∧ y = 510),
      IsColliding := fun p _ _ => decide (510 ≤ p.x ∧ p.x < 511 ∧ 510 ≤ p.y ∧ p.y < 511) } }

/-- A batched-large packet with one record for self (id 7), stamped with the
10-bit tick 99, no togglables set: position (500, 500), velocity (1, 0). -/
def selfBatch : List Nat :=
  [0x39] ++ packBatchedLarge
    { player_id := 7, togglables := 0, direction := 0, timestamp := 99, x := 8000,
      y := 8000, vel_x := 160, vel_y := 0 }

/-- The table `turretTable` before the carrier (slot 0) has been heard of:
its timestamp is the invalid small tick. Self (id 3, slot 1) is attached to
it. -/
def unsyncTable : PlayerManager :=
  { turretTable with
    players := fun j =>
      if j = 0 then { turretCarrier with timestamp := kInvalidSmallTick } else turretTable.players j }

/-- The table `table739` where the player with id 3 (slot 1) has not been
heard of yet: its timestamp is the invalid small tick. -/
def staleParentTable : PlayerManager :=
  table739.setPlayer 1 { table739.players 1 with timestamp := kInvalidSmallTick }

/-- The quiet environment at local tick `tick` with clock offset `time_diff`;
`MAKE_TICK` keeps the low 31 bits. -/
def clockEnv (tick : Nat) (time_diff : Int) : Env :=
  { quietEnv with tick := tick, time_diff := time_diff, MAKE_TICK := fun t => t % 2147483648 }

/-- First call of the session: self (id 7) sends at local tick 1000 with
clock offset 0. -/
def resyncFirst : Option PlayerManager :=
  SendPositionPacket staleParentTable (clockEnv 1000 0)

/-- Second call of the session: the server has attached self to the player
with id 3, the clock offset has dropped to -500, the local tick is 1100. -/
def resyncSecond : Option PlayerManager :=
  resyncFirst.bind fun s1 =>
    SendPositionPacket (OnCreateTurretLink s1 7 5 3) (clockEnv 1100 (-500))

/-- Third call of the session: the server has detached self again, the local
tick is 1101. -/
def resyncThird : Option PlayerManager :=
  resyncSecond.bind fun s2 =>
    SendPositionPacket (OnCreateTurretLink s2 7 5 kInvalidPlayerId) (clockEnv 1101 (-500))

/-- The timestamps of the position packets sent since `staleParentTable`. -/
def sentTimestamps (s : PlayerManager) : List Int :=
  (sentPackets staleParentTable s).map fun pkt => pkt.timestamp

/-- The quiet environment on a map whose corner tile (0, 0) is a wall: the
positions inside that tile collide. -/
def cornerEnv : Env :=
  { quietEnv with
    map := { openMap with IsColliding := fun p _ _ => decide (p.x < 1 ∧ p.y < 1) } }

/-- A player in the middle of the corner tile, in ship 0. -/
def cornerSelf : Player :=
  { Player.zero with position := ⟨1 / 2, 1 / 2⟩ }

/-- The distance `SimulateAxis` moves the player along `axis` in a step of
`dt`: the velocity step plus the lerp step. -/
def axisDelta (player : Player) (dt : ℚ) (axis : Nat) : ℚ :=
  player.velocity.values axis * dt +
    (if 0 < player.lerp_time then
      player.lerp_velocity.values axis * (if player.lerp_time < dt then player.lerp_time else dt)
    else 0)

/-- The player record after the move of `SimulateAxis` along `axis`, before
the tiles are tested. -/
def axisMoved (player : Player) (dt : ℚ) (axis : Nat) : Player :=
  { player with
    position := player.position.setValue axis
      (player.position.values axis + player.velocity.values axis * dt +
        (if 0 < player.lerp_time then
          player.lerp_velocity.values axis * (if player.lerp_time < dt then player.lerp_time else dt)
        else 0)) }

/-- Tile number `k` of the row `SimulateAxis` tests for the moved record
`player` is solid and intersects the ship's box. -/
def TileHit (env : Env) (player : Player) (delta : ℚ) (axis : Nat) (k : Nat) : Prop :=
  let axis_flip := if axis = 0 then 1 else 0
  let radius := env.map.GetRadius player.ship
  let check : Nat :=
    if delta < 0 then castU16 (Rat.floor (player.position.values axis - radius))
    else castU16 (player.position.values axis + radius)
  let start := castS16 (player.position.values axis_flip - radius - 1)
  let stop := castS16 (player.position.values axis_flip + radius + 1)
  let rounded := env.map.PixelRounded player.position
  let collider_min : Vector2f := ⟨rounded.x - radius, rounded.y - radius⟩
  let collider_max : Vector2f := ⟨rounded.x + radius, rounded.y + radius⟩
  let other : Int := start + k
  k < (stop - start).toNat ∧
    if axis = 0 then
      env.map.IsSolid check other player.frequency = true ∧
        env.map.BoxBoxIntersect collider_min collider_max ⟨check, other⟩ ⟨check + 1, other + 1⟩
          = true
    else
      env.map.IsSolid other check player.frequency = true ∧
        env.map.BoxBoxIntersect collider_min collider_max ⟨other, check⟩ ⟨other + 1, check + 1⟩
          = true

/-- A player at (509.5, 510.5) moving right at 10 tiles a second towards the
wall tile of `wallEnv`; ship 0, whose radius is 0 there. -/
def wallRunner : Player :=
  { Player.zero with position := ⟨1019 / 2, 1021 / 2⟩, velocity := ⟨10, 3⟩, lerp_velocity := ⟨1, 2⟩ }

/-- The environment `wallEnv` where every pair of boxes intersects and the
bounce factor is 32. -/
def bounceEnv : Env :=
  { wallEnv with
    map := { wallEnv.map with BoxBoxIntersect := fun _ _ _ _ => true, BounceFactor := 32 } }

/-- The environment `wormholeEnv` with damage reporting switched on. -/
def damageEnv : Env :=
  { wormholeEnv with map := { wormholeEnv.map with send_damage := true } }

/-- The table `positionTable` where self has energy `energy`. -/
def chargedTable (energy : ℚ) : PlayerManager :=
  positionTable.setPlayer 0 { positionTable.players 0 with energy := energy }

/-- The quiet environment with one spawn entry: center x 0, center y 100,
radius 0. -/
def zeroCenterEnv : Env :=
  { quietEnv with SpawnSettings := [⟨0, 100, 0⟩] }

/-- The quiet environment with the spawn entries (-24, 300, radius 5) and
(600, 0, radius 0), where `rand()` counts 0, 3, 6, ... and a ship fits only
from x = 1001 on. -/
def spawnEnv : Env :=
  { quietEnv with
    SpawnSettings := [⟨-24, 300, 5⟩, ⟨600, 0, 0⟩],
    rand := fun k => 3 * k,
    map := { openMap with CanFit := fun p _ _ => decide (1001 ≤ p.x) } }

/-- The collaborator calls a detach makes: the attach request that drops the
link and the detach event. -/
def isDetachEffect (e : Effect) : Bool :=
  match e with
  | Effect.SendAttachRequest _ => true
  | Effect.PlayerDetachEvent _ _ => true
  | _ => false

/-- The table `turretTable` seen by the carrier: self is the player with id 7
(slot 0), who has two turrets and no parent. -/
def carrierTable : PlayerManager :=
  { turretTable with player_id := 7 }

/-- The full tick the standalone position handlers rebuild from the 16-bit
timestamp `t` of a packet at server tick `S` (lines 1019 and 1096). -/
def spliceStandalone (S t : Nat) : Nat := (S &&& 0x7FFF0000) ||| t

/-- The full tick the batched position handlers rebuild from the 10-bit
timestamp `t` of a record at server tick `S` (lines 1182 and 1235). -/
def spliceBatched (S t : Nat) : Nat := (S &&& 0x7FFFFC00) ||| t

/-- The quiet environment at local and server tick `S`, with no clock
difference. -/
def tickEnv (S : Nat) : Env :=
  { quietEnv with tick := S, server_tick := S }

/-- A blackboard that holds camera 1 under "world_camera" and the point
(5, 5) under "origin". -/
def originBoard : Blackboard :=
  { camera := fun key => if key = "world_camera" then some 1 else none,
    vector2f := fun key => if key = "origin" then some ⟨5, 5⟩ else none,
    int := fun _ => none }

/-- A white vector node for the vector (1, 0) whose origin is read from the
blackboard key "origin"; `unset` is the value of the member the constructor
leaves alone. -/
def originNode (unset : Vector2f) : RenderVectorNode :=
  RenderVectorNode.withOriginKey "world_camera" ⟨1, 0⟩ "origin" ⟨1, 1, 1⟩ unset

/-- A context where self flies ship 3 and the blackboard asks for ship
`wanted` under "request_ship". -/
def shipContext (wanted : Nat) : ExecuteContext :=
  { blackboard :=
      { camera := fun _ => none, vector2f := fun _ => none,
        int := fun key => if key = "request_ship" then some wanted else none },
    self := some { Player.zero with ship := 3 } }

/-- An oracle whose leaves all fail and change nothing. -/
def failingLeaves (_ : String) (ctx : ExecuteContext) : ExecuteResult × ExecuteContext :=
  (ExecuteResult.Failure, ctx)

/-- What the reconciler leaves alone of the optional fields of a position
packet: `s2c_latency`, `flag_timer`, `items` and `last_extra_timestamp` of
every player, and the energy of every player other than self. -/
def ExtraFrame (s s' : PlayerManager) : Prop :=
  s'.player_id = s.player_id ∧
  ∀ j, (s'.players j).id = (s.players j).id ∧
    (s'.players j).s2c_latency = (s.players j).s2c_latency ∧
    (s'.players j).flag_timer = (s.players j).flag_timer ∧
    (s'.players j).items = (s.players j).items ∧
    (s'.players j).last_extra_timestamp = (s.players j).last_extra_timestamp ∧
    ((s.players j).id ≠ s.player_id → (s'.players j).energy = (s.players j).energy)

/-- The 21-byte large position packet `largePacket 3 4196` followed by the
two bytes 0x34, 0x12. -/
def energyPacket : List Nat := largePacket 3 4196 ++ [0x34, 0x12]

/-- The 16-byte small position packet `smallPacket 3 4196` followed by the
two bytes 0x34, 0x12. -/
def smallEnergyPacket : List Nat := smallPacket 3 4196 ++ [0x34, 0x12]

/-- A 31-byte large position packet for the player with id `pid` stamped
4196 whose optional part holds energy 0x1234, latency 7, flag timer 9 and
the item word 0x04030201. -/
def fullLargePacket (pid : Nat) : List Nat :=
  largePacket pid 4196 ++ [0x34, 0x12, 7, 0, 9, 0, 1, 2, 3, 4]

/-- A 26-byte small position packet for the player with id `pid` stamped
4196 with the same optional part as `fullLargePacket`. -/
def fullSmallPacket (pid : Nat) : List Nat :=
  smallPacket pid 4196 ++ [0x34, 0x12, 7, 0, 9, 0, 1, 2, 3, 4]

/-! ## Basic facts about the state helpers -/

@[simp] theorem setPlayer_players_same (s : PlayerManager) (i : Nat) (p : Player) :
    (s.setPlayer i p).players i = p := by
  simp [PlayerManager.setPlayer]

theorem setPlayer_players_ne (s : PlayerManager) (i j : Nat) (p : Player) (h : j ≠ i) :
    (s.setPlayer i p).players j = s.players j := by
  simp [PlayerManager.setPlayer, h]

theorem setPlayer_players (s : PlayerManager) (i j : Nat) (p : Player) :
    (s.setPlayer i p).players j = if j = i then p else s.players j := rfl

@[simp] theorem setPlayer_player_count (s : PlayerManager) (i : Nat) (p : Player) :
    (s.setPlayer i p).player_count = s.player_count := rfl

@[simp] theorem setPlayer_player_lookup (s : PlayerManager) (i : Nat) (p : Player) :
    (s.setPlayer i p).player_lookup = s.player_lookup := rfl

@[simp] theorem setPlayer_player_id (s : PlayerManager) (i : Nat) (p : Player) :
    (s.setPlayer i p).player_id = s.player_id := rfl

@[simp] theorem setPlayer_attach_free (s : PlayerManager) (i : Nat) (p : Player) :
    (s.setPlayer i p).attach_free = s.attach_free := rfl

@[simp] theorem setPlayer_requesting_attach (s : PlayerManager) (i : Nat) (p : Player) :
    (s.setPlayer i p).requesting_attach = s.requesting_attach := rfl

@[simp] theorem setPlayer_trace (s : PlayerManager) (i : Nat) (p : Player) :
    (s.setPlayer i p).trace = s.trace := rfl

@[simp] theorem emit_players (s : PlayerManager) (e : Effect) :
    (s.emit e).players = s.players := rfl

@[simp] theorem emit_player_count (s : PlayerManager) (e : Effect) :
    (s.emit e).player_count = s.player_count := rfl

@[simp] theorem emit_player_lookup (s : PlayerManager) (e : Effect) :
    (s.emit e).player_lookup = s.player_lookup := rfl

@[simp] theorem emit_player_id (s : PlayerManager) (e : Effect) :
    (s.emit e).player_id = s.player_id := rfl

@[simp] theorem emit_attach_free (s : PlayerManager) (e : Effect) :
    (s.emit e).attach_free = s.attach_free := rfl

@[simp] theorem emit_requesting_attach (s : PlayerManager) (e : Effect) :
    (s.emit e).requesting_attach = s.requesting_attach := rfl

@[simp] theorem emit_trace (s : PlayerManager) (e : Effect) :
    (s.emit e).trace = s.trace ++ [e] := rfl

@[simp] theorem getPlayerById_setPlayer (s : PlayerManager) (i : Nat) (p : Player) (id : Nat) :
    GetPlayerById (s.setPlayer i p) id = GetPlayerById s id := rfl

@[simp] theorem getPlayerById_emit (s : PlayerManager) (e : Effect) (id : Nat) :
    GetPlayerById (s.emit e) id = GetPlayerById s id := rfl

@[simp] theorem getSelf_setPlayer (s : PlayerManager) (i : Nat) (p : Player) :
    GetSelf (s.setPlayer i p) = GetSelf s := rfl

@[simp] theorem getSelf_emit (s : PlayerManager) (e : Effect) :
    GetSelf (s.emit e) = GetSelf s := rfl

/-! ## Frame facts -/

theorem Frame_refl (s : PlayerManager) : Frame s s :=
  ⟨rfl, rfl, rfl, fun _ => ⟨rfl, rfl⟩⟩

theorem Frame_trans {a b c : PlayerManager} (h1 : Frame a b) (h2 : Frame b c) : Frame a c := by
  obtain ⟨h1a, h1b, h1c, h1d⟩ := h1
  obtain ⟨h2a, h2b, h2c, h2d⟩ := h2
  refine ⟨h2a.trans h1a, h2b.trans h1b, h2c.trans h1c, fun j => ?_⟩
  exact ⟨(h2d j).1.trans (h1d j).1, (h2d j).2.trans (h1d j).2⟩

theorem Frame_getPlayerById {s s' : PlayerManager} (h : Frame s s') (id : Nat) :
    GetPlayerById s' id = GetPlayerById s id := by
  simp [GetPlayerById, h.2.1]

theorem Frame_getSelf {s s' : PlayerManager} (h : Frame s s') : GetSelf s' = GetSelf s := by
  simp [GetSelf, Frame_getPlayerById h, h.2.2.1]

theorem Frame_getPlayerByName {s s' : PlayerManager} (h : Frame s s') (name : List Nat) :
    GetPlayerByName s' name = GetPlayerByName s name := by
  simp [GetPlayerByName, h.1, fun j => (h.2.2.2 j).2]

theorem Frame_emit (s : PlayerManager) (e : Effect) : Frame s (s.emit e) :=
  ⟨rfl, rfl, rfl, fun _ => ⟨rfl, rfl⟩⟩

theorem Frame_setPlayer (s : PlayerManager) (i : Nat) (p : Player)
    (hid : p.id = (s.players i).id) (hname : p.name = (s.players i).name) :
    Frame s (s.setPlayer i p) := by
  refine ⟨rfl, rfl, rfl, fun j => ?_⟩
  by_cases hj : j = i
  · subst hj; simp [hid, hname]
  · simp [setPlayer_players_ne _ _ _ _ hj]

theorem DetachPlayer_frame (s : PlayerManager) (p : Nat) : Frame s (DetachPlayer s p) := by
  unfold DetachPlayer
  by_cases h : (s.players p).attach_parent ≠ kInvalidPlayerId
  · rw [if_pos h]
    dsimp only
    refine Frame_trans (b := _) ?_ (Frame_setPlayer _ _ _ rfl rfl)
    have h1 : Frame s (if (s.players p).id = s.player_id then
        ({ s with requesting_attach := false }).emit (Effect.SendAttachRequest kInvalidPlayerId)
        else s) := by
      split_ifs
      · exact ⟨rfl, rfl, rfl, fun _ => ⟨rfl, rfl⟩⟩
      · exact Frame_refl s
    refine Frame_trans h1 ?_
    generalize (if (s.players p).id = s.player_id then
        ({ s with requesting_attach := false }).emit (Effect.SendAttachRequest kInvalidPlayerId)
        else s) = s1
    cases GetPlayerById s (s.players p).attach_parent with
    | none => exact Frame_refl s1
    | some q =>
      dsimp only
      refine Frame_trans (b := _) ?_ (Frame_emit _ _)
      cases unlinkFirst (s1.players p).id (s1.players q).children with
      | none => exact Frame_refl s1
      | some r =>
        obtain ⟨n, rest⟩ := r
        dsimp only
        have := Frame_setPlayer s1 q { s1.players q with children := rest } rfl rfl
        exact ⟨this.1, this.2.1, this.2.2.1, this.2.2.2⟩
  · rw [if_neg h]
    exact Frame_refl s

theorem DetachAllChildren_step_frame (p : Nat) (s : PlayerManager) (n : AttachInfo) :
    Frame s (DetachAllChildren.step p s n) := by
  unfold DetachAllChildren.step
  dsimp only
  have key : ∀ s1, Frame s s1 →
      Frame s { s1 with attach_free := n.freed :: s1.attach_free } :=
    fun s1 h => ⟨h.1, h.2.1, h.2.2.1, h.2.2.2⟩
  apply key
  cases GetPlayerById s n.player_id with
  | none => exact Frame_refl s
  | some c =>
    dsimp only
    split_ifs
    · have := Frame_setPlayer s c (s.players c).resetAttach rfl rfl
      exact ⟨this.1, this.2.1, this.2.2.1, this.2.2.2⟩
    · exact Frame_setPlayer s c _ rfl rfl
    · exact Frame_refl s

theorem DetachAllChildren_loop_frame (p : Nat) (l : List AttachInfo) (s : PlayerManager) :
    Frame s (DetachAllChildren.loop p l s) := by
  induction l generalizing s with
  | nil => exact Frame_refl s
  | cons n rest ih =>
    exact Frame_trans (DetachAllChildren_step_frame p s n) (ih _)

theorem DetachAllChildren_frame (s : PlayerManager) (p : Nat) :
    Frame s (DetachAllChildren s p) := by
  unfold DetachAllChildren
  exact Frame_trans (DetachAllChildren_loop_frame p _ s) (Frame_setPlayer _ _ _ rfl rfl)

theorem Frame_of_fields {s s' : PlayerManager} (h1 : s'.player_count = s.player_count)
    (h2 : s'.player_lookup = s.player_lookup) (h3 : s'.player_id = s.player_id)
    (h4 : s'.players = s.players) : Frame s s' :=
  ⟨h1, h2, h3, fun j => by rw [h4]; exact ⟨rfl, rfl⟩⟩

theorem AttachPlayer_frame (s : PlayerManager) (r d : Nat) : Frame s (AttachPlayer s r d) := by
  unfold AttachPlayer
  dsimp only
  refine Frame_trans (Frame_setPlayer s r
    { s.players r with attach_parent := (s.players d).id } rfl rfl) ?_
  refine Frame_trans (b := _) ?_ (Frame_setPlayer _ _ _ rfl rfl)
  cases hfree : s.attach_free with
  | nil =>
    simp only [setPlayer_attach_free, hfree]
    exact Frame_of_fields rfl rfl rfl rfl
  | cons n rest =>
    simp only [setPlayer_attach_free, hfree]
    exact Frame_of_fields rfl rfl rfl rfl

/-! ## C5: the full reset -/

/-- C5: after `OnPlayerIdChange` with a packet carrying id `n`, from any prior
state, `player_id` is the 16-bit word `n`, `player_count` is 0,
`received_initial_list` is false and `GetPlayerById` finds no player for any
id. -/
theorem C5_OnPlayerIdChange_full_reset (s : PlayerManager) (n : Nat) :
    (OnPlayerIdChange s n).player_id = u16 n ∧
    (n < 65536 → (OnPlayerIdChange s n).player_id = n) ∧
    (OnPlayerIdChange s n).player_count = 0 ∧
    (OnPlayerIdChange s n).received_initial_list = false ∧
    ∀ id, GetPlayerById (OnPlayerIdChange s n) id = none := by
  refine ⟨rfl, fun h => ?_, rfl, rfl, fun id => ?_⟩
  · exact Nat.mod_eq_of_lt h
  · simp [GetPlayerById, OnPlayerIdChange, kInvalidPlayerId]

/-- C5 at a concrete input: the three-player table after a player-id packet
carrying 42. -/
theorem C5_OnPlayerIdChange_full_reset_witness :
    (OnPlayerIdChange table739 42).player_id = 42 ∧
    (OnPlayerIdChange table739 42).player_count = 0 ∧
    GetPlayerById (OnPlayerIdChange table739 42) 7 = none :=
  ⟨(C5_OnPlayerIdChange_full_reset table739 42).2.1 (by decide),
   (C5_OnPlayerIdChange_full_reset table739 42).2.2.1,
   (C5_OnPlayerIdChange_full_reset table739 42).2.2.2.2 7⟩

/-! ## RemovePlayer -/

theorem RemovePlayer_detach_players (s : PlayerManager) (env : Env) (index : Nat) :
    (RemovePlayer.detach s env index).players =
      (DetachAllChildren (DetachPlayer (s.emit (Effect.ClearWeapons (s.players index).id)) index)
        index).players := by
  unfold RemovePlayer.detach
  dsimp only
  split_ifs <;> rfl

theorem RemovePlayer_detach_frame (s : PlayerManager) (env : Env) (index : Nat) :
    Frame s (RemovePlayer.detach s env index) := by
  unfold RemovePlayer.detach
  dsimp only
  refine Frame_trans (b := _) ?_ (Frame_emit _ _)
  have h3 : Frame s (DetachAllChildren
      (DetachPlayer (s.emit (Effect.ClearWeapons (s.players index).id)) index) index) :=
    Frame_trans (Frame_emit s _) (Frame_trans (DetachPlayer_frame _ _) (DetachAllChildren_frame _ _))
  split_ifs
  · exact Frame_trans h3 (Frame_emit _ _)
  · exact h3

theorem RemovePlayer_some (s : PlayerManager) (env : Env) (index : Nat) (h : index < kMaxPlayers) :
    RemovePlayer s env (some index) = some (swapPop (RemovePlayer.detach s env index) index) := by
  simp [RemovePlayer, h]

theorem TableInv_of_frame {s s' : PlayerManager} (h : Frame s s') (hinv : TableInv s) :
    TableInv s' := by
  obtain ⟨hc, hl, _, hp⟩ := h
  obtain ⟨h1, h2, h3⟩ := hinv
  refine ⟨by rw [hc]; exact h1, ?_, ?_⟩
  · intro i hi
    rw [hl, (hp i).1]
    exact h2 i (by rw [← hc]; exact hi)
  · intro id hid
    rw [hl] at hid ⊢
    rw [hc, (hp _).1]
    exact h3 id hid

theorem TableInv_ids_injective {s : PlayerManager} (hinv : TableInv s) {i j : Nat}
    (hi : i < s.player_count) (hj : j < s.player_count)
    (h : (s.players i).id = (s.players j).id) : i = j := by
  have h1 := hinv.2.1 i hi
  have h2 := hinv.2.1 j hj
  rw [h] at h1
  exact h1.symm.trans h2

theorem TableInv_getPlayerById_live {s : PlayerManager} (hinv : TableInv s) {i : Nat}
    (hi : i < s.player_count) : GetPlayerById s (s.players i).id = some i := by
  have h := hinv.2.1 i hi
  have hlt : i < kInvalidPlayerId := by
    have := hinv.1
    unfold kMaxPlayers at this
    unfold kInvalidPlayerId
    omega
  simp [GetPlayerById, h, hlt]

theorem TableInv_getPlayerById_some {s : PlayerManager} (hinv : TableInv s) {id i : Nat}
    (h : GetPlayerById s id = some i) : i < s.player_count ∧ (s.players i).id = id := by
  unfold GetPlayerById at h
  split_ifs at h with hlt
  have hi : s.player_lookup id = i := by simpa using h
  have := hinv.2.2 id hlt
  rw [hi] at this
  exact this

theorem swapPop_tableInv {s : PlayerManager} (hinv : TableInv s) {i : Nat}
    (hi : i < s.player_count) : TableInv (swapPop s i) := by
  obtain ⟨hcap, hl, hs⟩ := hinv
  have hu : u16 i = i := Nat.mod_eq_of_lt (by unfold kMaxPlayers at hcap; omega)
  have hinj : ∀ a b, a < s.player_count → b < s.player_count →
      (s.players a).id = (s.players b).id → a = b := fun a b ha hb h =>
    TableInv_ids_injective ⟨hcap, hl, hs⟩ ha hb h
  have hlast : s.player_count - 1 < s.player_count := by omega
  refine ⟨?_, ?_, ?_⟩
  · show s.player_count - 1 ≤ kMaxPlayers
    omega
  · intro j hj
    have hj' : j < s.player_count - 1 := hj
    by_cases hji : j = i
    · subst hji
      have hne : (s.players (s.player_count - 1)).id ≠ (s.players j).id := by
        intro heq
        have := hinj _ _ hlast hi heq
        omega
      simp [swapPop, hne, hu]
    · have hne1 : (s.players j).id ≠ (s.players i).id := fun heq =>
        hji (hinj _ _ (by omega) hi heq)
      have hne2 : (s.players j).id ≠ (s.players (s.player_count - 1)).id := by
        intro heq
        have := hinj _ _ (by omega) hlast heq
        omega
      simp [swapPop, hji, hne1, hne2]
      exact hl j (by omega)
  · intro id hid
    by_cases h1 : id = (s.players i).id
    · simp [swapPop, h1, kInvalidPlayerId] at hid
    · by_cases h2 : id = (s.players (s.player_count - 1)).id
      · have hil : i ≠ s.player_count - 1 := by
          intro heq
          apply h1
          rw [h2, ← heq]
        simp [swapPop, h1, h2, hu]
        have hne : (s.players (s.player_count - 1)).id ≠ (s.players i).id := by
          rw [← h2]; exact h1
        simp [hne]
        omega
      · have hid' : s.player_lookup id < kInvalidPlayerId := by
          simpa [swapPop, h1, h2] using hid
        obtain ⟨hlt, hidx⟩ := hs id hid'
        have hnl : s.player_lookup id ≠ s.player_count - 1 := by
          intro heq
          rw [heq] at hidx
          exact h2 hidx.symm
        have hni : s.player_lookup id ≠ i := by
          intro heq
          rw [heq] at hidx
          exact h1 hidx.symm
        simp [swapPop, h1, h2, hni, hidx]
        omega

theorem RemovePlayer_tableInv {s s' : PlayerManager} {env : Env} {player : Option Nat}
    (hinv : TableInv s) (hlive : ∀ i, player = some i → i < s.player_count)
    (h : RemovePlayer s env player = some s') : TableInv s' := by
  cases player with
  | none =>
    simp [RemovePlayer] at h
    rw [← h]; exact hinv
  | some i =>
    have hi := hlive i rfl
    have hlt : i < kMaxPlayers := lt_of_lt_of_le hi hinv.1
    rw [RemovePlayer_some s env i hlt] at h
    have hf := RemovePlayer_detach_frame s env i
    have := swapPop_tableInv (TableInv_of_frame hf hinv) (i := i) (by rw [hf.1]; exact hi)
    simp at h
    rw [← h]; exact this

/-! ## OnPlayerEnter -/

theorem GetPlayerByName_some {s : PlayerManager} {name : List Nat} {e : Nat}
    (h : GetPlayerByName s name = some e) : e < s.player_count ∧ (s.players e).name = name := by
  unfold GetPlayerByName at h
  have h1 := List.mem_of_find?_eq_some h
  have h2 := List.find?_some h
  exact ⟨List.mem_range.mp h1, by simpa using h2⟩

theorem OnPlayerEnter_link_frame (s : PlayerManager) (env : Env) (i : Nat) :
    Frame s (OnPlayerEnter.link s env i) := by
  unfold OnPlayerEnter.link
  dsimp only
  refine Frame_trans (b := _) ?_ (Frame_emit _ _)
  have h3 : Frame s (if (s.players i).attach_parent ≠ kInvalidPlayerId then
      match GetPlayerById s (s.players i).attach_parent with
      | some destination => AttachPlayer s i destination
      | none => s
    else s) := by
    split_ifs
    · cases GetPlayerById s (s.players i).attach_parent with
      | none => exact Frame_refl s
      | some d => exact AttachPlayer_frame s i d
    · exact Frame_refl s
  have key : ∀ s3 : PlayerManager, Frame s s3 →
      Frame s (if env.chat_controller ∧ s3.received_initial_list then
        s3.emit (Effect.ChatEntered (s3.players i).name) else s3) := by
    intro s3 hs3
    split_ifs
    · exact Frame_trans hs3 (Frame_emit _ _)
    · exact hs3
  exact key _ h3

/-- The shape of a successful `OnPlayerEnter`: the state `s1` after the
optional removal of the same-named player has room, and the result is the
push into `s1` followed by the parent link. -/
theorem OnPlayerEnter_some {s s' : PlayerManager} {env : Env} {pkt : PlayerEnterPacket}
    (h : OnPlayerEnter s env pkt = some s') :
    ∃ s1, ((GetPlayerByName s pkt.name = none ∧ s1 = s) ∨
        (∃ e, GetPlayerByName s pkt.name = some e ∧ RemovePlayer s env (some e) = some s1)) ∧
      s1.player_count < kMaxPlayers ∧
      s' = OnPlayerEnter.link (OnPlayerEnter.push s1 pkt) env s1.player_count := by
  unfold OnPlayerEnter at h
  dsimp only at h
  cases hn : GetPlayerByName s pkt.name with
  | none =>
    rw [hn] at h
    dsimp only at h
    split_ifs at h with hlt
    refine ⟨s, Or.inl ⟨rfl, rfl⟩, hlt, ?_⟩
    simpa using h.symm
  | some e =>
    rw [hn] at h
    dsimp only at h
    cases hr : RemovePlayer s env (some e) with
    | none => rw [hr] at h; simp at h
    | some s1 =>
      rw [hr] at h
      dsimp only at h
      split_ifs at h with hlt
      refine ⟨s1, Or.inr ⟨e, rfl, hr⟩, hlt, ?_⟩
      simpa using h.symm

theorem push_tableInv {s : PlayerManager} {pkt : PlayerEnterPacket} (hinv : TableInv s)
    (hroom : s.player_count < kMaxPlayers)
    (hfresh : ∀ i, i < s.player_count → (s.players i).id ≠ u16 pkt.id) :
    TableInv (OnPlayerEnter.push s pkt) := by
  obtain ⟨hcap, hl, hs⟩ := hinv
  have hu : u16 s.player_count = s.player_count :=
    Nat.mod_eq_of_lt (by unfold kMaxPlayers at hroom; omega)
  have hid : (OnPlayerEnter.newPlayer pkt).id = u16 pkt.id := rfl
  refine ⟨?_, ?_, ?_⟩
  · show s.player_count + 1 ≤ kMaxPlayers
    omega
  · intro i hi
    have hi' : i < s.player_count + 1 := hi
    by_cases hic : i = s.player_count
    · subst hic
      simp [OnPlayerEnter.push, hid, hu]
    · have hlt : i < s.player_count := by omega
      have hne := hfresh i hlt
      simp [OnPlayerEnter.push, setPlayer_players_ne _ _ _ _ hic, hid, hne]
      exact hl i hlt
  · intro id hlook
    by_cases hidc : id = u16 pkt.id
    · subst hidc
      simp [OnPlayerEnter.push, hid, hu]
    · have hlook' : s.player_lookup id < kInvalidPlayerId := by
        simpa [OnPlayerEnter.push, hid, hidc] using hlook
      obtain ⟨h1, h2⟩ := hs id hlook'
      have hne : s.player_lookup id ≠ s.player_count := by omega
      simp [OnPlayerEnter.push, hid, hidc, setPlayer_players_ne _ _ _ _ hne, h2]
      omega

/-- After the same-named player has been removed, an id that was fresh in the
sense of `FreshId` is held by no live player. -/
theorem fresh_after_removal {s s1 : PlayerManager} {env : Env} {pkt : PlayerEnterPacket}
    (hinv : TableInv s) (hfresh : FreshId s pkt)
    (h : (GetPlayerByName s pkt.name = none ∧ s1 = s) ∨
      (∃ e, GetPlayerByName s pkt.name = some e ∧ RemovePlayer s env (some e) = some s1)) :
    TableInv s1 ∧ ∀ i, i < s1.player_count → (s1.players i).id ≠ u16 pkt.id := by
  rcases h with ⟨hn, rfl⟩ | ⟨e, hn, hr⟩
  · refine ⟨hinv, fun i hi heq => ?_⟩
    have := hfresh i hi heq
    rw [hn] at this
    exact Option.noConfusion this
  · obtain ⟨he, _⟩ := GetPlayerByName_some hn
    have hinv1 : TableInv s1 :=
      RemovePlayer_tableInv hinv (fun i hi => by cases hi; exact he) hr
    refine ⟨hinv1, fun i hi heq => ?_⟩
    have hlt : e < kMaxPlayers := lt_of_lt_of_le he hinv.1
    rw [RemovePlayer_some s env e hlt] at hr
    have hs1 : s1 = swapPop (RemovePlayer.detach s env e) e := by simpa using hr.symm
    obtain ⟨hc, _, _, hp⟩ := RemovePlayer_detach_frame s env e
    subst hs1
    have hi' : i < s.player_count - 1 := by
      have : i < (RemovePlayer.detach s env e).player_count - 1 := hi
      rwa [hc] at this
    by_cases hie : i = e
    · subst hie
      have heq' : (s.players (s.player_count - 1)).id = u16 pkt.id := by
        simpa [swapPop, hc, (hp _).1] using heq
      have := hfresh (s.player_count - 1) (by omega) heq'
      rw [hn] at this
      have : i = s.player_count - 1 := by simpa using this
      omega
    · have heq' : (s.players i).id = u16 pkt.id := by
        simpa [swapPop, hie, (hp _).1] using heq
      have := hfresh i (by omega) heq'
      rw [hn] at this
      exact hie (by simpa using this.symm)

theorem OnPlayerEnter_tableInv {s s' : PlayerManager} {env : Env} {pkt : PlayerEnterPacket}
    (hinv : TableInv s) (hfresh : FreshId s pkt) (h : OnPlayerEnter s env pkt = some s') :
    TableInv s' := by
  obtain ⟨s1, hrem, hroom, rfl⟩ := OnPlayerEnter_some h
  obtain ⟨hinv1, hf⟩ := fresh_after_removal hinv hfresh hrem
  exact TableInv_of_frame (OnPlayerEnter_link_frame _ _ _) (push_tableInv hinv1 hroom hf)

theorem OnPlayerLeave_tableInv {s s' : PlayerManager} {env : Env} {pid : Nat}
    (hinv : TableInv s) (h : OnPlayerLeave s env pid = some s') : TableInv s' := by
  unfold OnPlayerLeave at h
  exact RemovePlayer_tableInv hinv (fun i hi => (TableInv_getPlayerById_some hinv hi).1) h

theorem OnPlayerIdChange_tableInv (s : PlayerManager) (id : Nat) :
    TableInv (OnPlayerIdChange s id) := by
  refine ⟨Nat.zero_le _, fun i hi => absurd hi (Nat.not_lt_zero i), fun x hx => ?_⟩
  simp [OnPlayerIdChange, kInvalidPlayerId] at hx

theorem TableReachable_tableInv {s : PlayerManager} (h : TableReachable FreshId s) :
    TableInv s := by
  induction h with
  | init s h0 hl =>
    refine ⟨by rw [h0]; exact Nat.zero_le _, fun i hi => ?_, fun id hid => ?_⟩
    · rw [h0] at hi; exact absurd hi (Nat.not_lt_zero i)
    · rw [hl id] at hid; exact absurd hid (lt_irrefl _)
  | enter s s' env pkt _ hok h ih => exact OnPlayerEnter_tableInv ih hok h
  | leave s s' env pid _ h ih => exact OnPlayerLeave_tableInv ih h
  | idChange s id _ _ => exact OnPlayerIdChange_tableInv s id

/-! ## C1: the lookup invariant -/

/-- C1, as stated, fails: two enter packets with different names and the same
id 5 leave the player of slot 0 live while `player_lookup[5]` names slot 1, so
`GetPlayerById` returns the other player. -/
theorem C1_lookup_invariant_counterexample :
    ¬ (∀ s, TableReachable (fun _ _ => True) s →
      ∀ i, i < s.player_count → s.player_lookup (s.players i).id = i ∧
        GetPlayerById s (s.players i).id = some i) := by
  intro hall
  have h1 : TableReachable (fun _ _ => True) (enterAll [enterPacket 65 5 0xFFFF]) :=
    TableReachable.enter emptyTable _ quietEnv (enterPacket 65 5 0xFFFF)
      (TableReachable.init emptyTable rfl (fun _ => rfl)) trivial rfl
  have h2 : TableReachable (fun _ _ => True)
      (enterAll [enterPacket 65 5 0xFFFF, enterPacket 66 5 0xFFFF]) :=
    TableReachable.enter _ _ quietEnv (enterPacket 66 5 0xFFFF) h1 trivial rfl
  have := (hall _ h2 0 (by decide)).1
  exact absurd this (by decide)

/-- C1, amended: in every state reachable from an empty table through
`OnPlayerEnter`, `OnPlayerLeave` and `OnPlayerIdChange`, where every enter
packet carries an id that no live player holds other than the same-named
player the handler removes first, each live player in slot `i` satisfies
`player_lookup[id] = i` and `GetPlayerById(id)` returns that slot. -/
theorem C1_lookup_invariant (s : PlayerManager) (h : TableReachable FreshId s) :
    ∀ i, i < s.player_count → s.player_lookup (s.players i).id = i ∧
      GetPlayerById s (s.players i).id = some i := by
  intro i hi
  have hinv := TableReachable_tableInv h
  exact ⟨hinv.2.1 i hi, TableInv_getPlayerById_live hinv hi⟩

/-- C1 at a concrete run: three players with ids 7, 3, 9 enter an empty
table and the one with id 3 leaves; the state is reachable with fresh ids and
both remaining players are found through the lookup table. -/
theorem C1_lookup_invariant_witness :
    TableReachable FreshId tableAfterLeave ∧
    tableAfterLeave.player_count = 2 ∧
    ∀ i, i < tableAfterLeave.player_count →
      tableAfterLeave.player_lookup (tableAfterLeave.players i).id = i ∧
      GetPlayerById tableAfterLeave (tableAfterLeave.players i).id = some i := by
  have h0 : TableReachable FreshId emptyTable :=
    TableReachable.init emptyTable rfl (fun _ => rfl)
  have h1 : TableReachable FreshId (enterAll [enterPacket 65 7 0xFFFF]) := by
    refine TableReachable.enter emptyTable _ quietEnv (enterPacket 65 7 0xFFFF) h0 ?_ rfl
    intro i hi
    exact absurd hi (Nat.not_lt_zero i)
  have h2 : TableReachable FreshId
      (enterAll [enterPacket 65 7 0xFFFF, enterPacket 66 3 0xFFFF]) := by
    refine TableReachable.enter _ _ quietEnv (enterPacket 66 3 0xFFFF) h1 ?_ rfl
    intro i hi heq
    have hi1 : i < 1 := hi
    interval_cases i
    exact absurd heq (by decide)
  have h3 : TableReachable FreshId (enterAll packets739) := by
    refine TableReachable.enter _ _ quietEnv (enterPacket 67 9 0xFFFF) h2 ?_ rfl
    intro i hi heq
    have hi2 : i < 2 := hi
    interval_cases i
    · exact absurd heq (by decide)
    · exact absurd heq (by decide)
  have h4 : TableReachable FreshId tableAfterLeave :=
    TableReachable.leave _ _ quietEnv 3 h3 rfl
  exact ⟨h4, rfl, C1_lookup_invariant tableAfterLeave h4⟩

/-! ## C6: one live player per name -/

@[simp] theorem resetAttach_attach_parent (q : Player) :
    q.resetAttach.attach_parent = kInvalidPlayerId := rfl

@[simp] theorem resetAttach_timestamp (q : Player) :
    q.resetAttach.timestamp = kInvalidSmallTick := rfl

@[simp] theorem resetAttach_children (q : Player) : q.resetAttach.children = q.children := rfl

@[simp] theorem resetAttach_id (q : Player) : q.resetAttach.id = q.id := rfl

@[simp] theorem resetAttach_resetAttach (q : Player) : q.resetAttach.resetAttach = q.resetAttach :=
  rfl

theorem step_players (p : Nat) (s : PlayerManager) (n : AttachInfo) (j : Nat) :
    (DetachAllChildren.step p s n).players j =
      if GetPlayerById s n.player_id = some j ∧ (s.players j).attach_parent = (s.players p).id
      then (s.players j).resetAttach else s.players j := by
  unfold DetachAllChildren.step
  dsimp only
  cases hg : GetPlayerById s n.player_id with
  | none => simp
  | some c =>
    dsimp only
    by_cases hap : (s.players c).attach_parent = (s.players p).id
    · rw [if_pos hap]
      by_cases hjc : j = c
      · subst hjc
        simp only [hap, and_self, if_true]
        split_ifs <;> simp
      · have hne : ¬ (some c = some j ∧ (s.players j).attach_parent = (s.players p).id) := by
          intro h
          exact hjc (Option.some.inj h.1).symm
        rw [if_neg hne]
        split_ifs <;> simp [setPlayer_players_ne _ _ _ _ hjc]
    · rw [if_neg hap]
      have hne : ¬ (some c = some j ∧ (s.players j).attach_parent = (s.players p).id) := by
        rintro ⟨h1, h2⟩
        have : c = j := Option.some.inj h1
        subst this
        exact hap h2
      rw [if_neg hne]

theorem step_attach_free (p : Nat) (s : PlayerManager) (n : AttachInfo) :
    (DetachAllChildren.step p s n).attach_free = n.freed :: s.attach_free := by
  unfold DetachAllChildren.step
  dsimp only
  cases GetPlayerById s n.player_id with
  | none => rfl
  | some c =>
    dsimp only
    split_ifs <;> rfl

theorem step_requesting_trace (p : Nat) (s : PlayerManager) (n : AttachInfo) :
    ((∃ c, resetsSlot s p n c ∧ GetSelf s = some c) →
      (DetachAllChildren.step p s n).requesting_attach = false ∧
      (DetachAllChildren.step p s n).trace = s.trace ++ [Effect.SendAttachRequest 0xFFFF]) ∧
    (¬ (∃ c, resetsSlot s p n c ∧ GetSelf s = some c) →
      (DetachAllChildren.step p s n).requesting_attach = s.requesting_attach ∧
      (DetachAllChildren.step p s n).trace = s.trace) := by
  unfold DetachAllChildren.step resetsSlot
  dsimp only
  cases hg : GetPlayerById s n.player_id with
  | none => simp
  | some c =>
    dsimp only
    by_cases hap : (s.players c).attach_parent = (s.players p).id
    · rw [if_pos hap]
      by_cases hself : some c = GetSelf s
      · simp only [getSelf_setPlayer, hself, if_true]
        constructor
        · intro _
          exact ⟨rfl, rfl⟩
        · intro h
          exact absurd ⟨c, ⟨hself.symm ▸ hself ▸ rfl, hap⟩, hself.symm⟩ h
      · simp only [getSelf_setPlayer, hself, if_false]
        constructor
        · rintro ⟨c', ⟨h1, _⟩, h3⟩
          have : c = c' := Option.some.inj h1
          subst this
          exact absurd h3.symm hself
        · intro _
          exact ⟨rfl, rfl⟩
    · rw [if_neg hap]
      constructor
      · rintro ⟨c', ⟨h1, h2⟩, _⟩
        have : c = c' := Option.some.inj h1
        subst this
        exact absurd h2 hap
      · intro _
        exact ⟨rfl, rfl⟩

theorem resetsSlot_step (p : Nat) (s : PlayerManager) (n n' : AttachInfo) (j : Nat)
    (h : ¬ resetsSlot s p n j) :
    resetsSlot (DetachAllChildren.step p s n) p n' j ↔ resetsSlot s p n' j := by
  have hf := DetachAllChildren_step_frame p s n
  unfold resetsSlot at *
  rw [Frame_getPlayerById hf, (hf.2.2.2 p).1, step_players, if_neg h]

theorem loop_players (p : Nat) (l : List AttachInfo) (s : PlayerManager) (j : Nat) :
    ((∃ n, n ∈ l ∧ resetsSlot s p n j) →
      (DetachAllChildren.loop p l s).players j = (s.players j).resetAttach) ∧
    (¬ (∃ n, n ∈ l ∧ resetsSlot s p n j) →
      (DetachAllChildren.loop p l s).players j = s.players j) := by
  induction l generalizing s with
  | nil =>
    refine ⟨fun h => ?_, fun _ => rfl⟩
    obtain ⟨n, hn, _⟩ := h
    exact absurd hn (List.not_mem_nil n)
  | cons n rest ih =>
    have ih1 := ih (DetachAllChildren.step p s n)
    show (_ → (DetachAllChildren.loop p rest (DetachAllChildren.step p s n)).players j = _) ∧
      (_ → (DetachAllChildren.loop p rest (DetachAllChildren.step p s n)).players j = _)
    by_cases h0 : resetsSlot s p n j
    · have hs1 : (DetachAllChildren.step p s n).players j = (s.players j).resetAttach := by
        rw [step_players]; exact if_pos h0
      refine ⟨fun _ => ?_, fun h => absurd ⟨n, List.mem_cons_self _ _, h0⟩ h⟩
      by_cases hr : ∃ n', n' ∈ rest ∧ resetsSlot (DetachAllChildren.step p s n) p n' j
      · rw [ih1.1 hr, hs1, resetAttach_resetAttach]
      · rw [ih1.2 hr, hs1]
    · have hs1 : (DetachAllChildren.step p s n).players j = s.players j := by
        rw [step_players]; exact if_neg h0
      have hiff : (∃ n', n' ∈ rest ∧ resetsSlot (DetachAllChildren.step p s n) p n' j) ↔
          (∃ n', n' ∈ n :: rest ∧ resetsSlot s p n' j) := by
        constructor
        · rintro ⟨n', hn', hr⟩
          exact ⟨n', List.mem_cons_of_mem _ hn', (resetsSlot_step p s n n' j h0).mp hr⟩
        · rintro ⟨n', hn', hr⟩
          rcases List.mem_cons.mp hn' with rfl | hmem
          · exact absurd hr h0
          · exact ⟨n', hmem, (resetsSlot_step p s n n' j h0).mpr hr⟩
      refine ⟨fun h => ?_, fun h => ?_⟩
      · rw [ih1.1 (hiff.mpr h), hs1]
      · rw [ih1.2 (fun hr => h (hiff.mp hr)), hs1]

theorem loop_attach_free (p : Nat) (l : List AttachInfo) (s : PlayerManager) :
    (DetachAllChildren.loop p l s).attach_free =
      (l.map AttachInfo.freed).reverse ++ s.attach_free := by
  induction l generalizing s with
  | nil => rfl
  | cons n rest ih =>
    show (DetachAllChildren.loop p rest (DetachAllChildren.step p s n)).attach_free = _
    rw [ih, step_attach_free]
    simp

theorem step_trace_prefix (p : Nat) (s : PlayerManager) (n : AttachInfo) :
    ∃ t, (DetachAllChildren.step p s n).trace = s.trace ++ t := by
  by_cases h : ∃ c, resetsSlot s p n c ∧ GetSelf s = some c
  · exact ⟨_, ((step_requesting_trace p s n).1 h).2⟩
  · exact ⟨[], by rw [((step_requesting_trace p s n).2 h).2]; simp⟩

theorem step_requesting_false (p : Nat) (s : PlayerManager) (n : AttachInfo)
    (h : s.requesting_attach = false) :
    (DetachAllChildren.step p s n).requesting_attach = false := by
  by_cases hc : ∃ c, resetsSlot s p n c ∧ GetSelf s = some c
  · exact ((step_requesting_trace p s n).1 hc).1
  · rw [((step_requesting_trace p s n).2 hc).1]; exact h

theorem loop_trace_prefix (p : Nat) (l : List AttachInfo) (s : PlayerManager) :
    ∃ t, (DetachAllChildren.loop p l s).trace = s.trace ++ t := by
  induction l generalizing s with
  | nil => exact ⟨[], by simp [DetachAllChildren.loop]⟩
  | cons n rest ih =>
    obtain ⟨t1, h1⟩ := step_trace_prefix p s n
    obtain ⟨t2, h2⟩ := ih (DetachAllChildren.step p s n)
    refine ⟨t1 ++ t2, ?_⟩
    show (DetachAllChildren.loop p rest (DetachAllChildren.step p s n)).trace = _
    rw [h2, h1, List.append_assoc]

theorem loop_requesting_false (p : Nat) (l : List AttachInfo) (s : PlayerManager)
    (h : s.requesting_attach = false) :
    (DetachAllChildren.loop p l s).requesting_attach = false := by
  induction l generalizing s with
  | nil => exact h
  | cons n rest ih => exact ih _ (step_requesting_false p s n h)

theorem loop_self (p : Nat) (l : List AttachInfo) (s : PlayerManager) :
    ((∃ n, n ∈ l ∧ ∃ c, resetsSlot s p n c ∧ GetSelf s = some c) →
      (DetachAllChildren.loop p l s).requesting_attach = false ∧
      ∃ t, (DetachAllChildren.loop p l s).trace = s.trace ++ t ∧
        Effect.SendAttachRequest 0xFFFF ∈ t) ∧
    (¬ (∃ n, n ∈ l ∧ ∃ c, resetsSlot s p n c ∧ GetSelf s = some c) →
      (DetachAllChildren.loop p l s).requesting_attach = s.requesting_attach ∧
      (DetachAllChildren.loop p l s).trace = s.trace) := by
  induction l generalizing s with
  | nil =>
    refine ⟨fun h => ?_, fun _ => ⟨rfl, rfl⟩⟩
    obtain ⟨n, hn, _⟩ := h
    exact absurd hn (List.not_mem_nil n)
  | cons n rest ih =>
    have ih1 := ih (DetachAllChildren.step p s n)
    have hf := DetachAllChildren_step_frame p s n
    show (_ → (DetachAllChildren.loop p rest (DetachAllChildren.step p s n)).requesting_attach = _ ∧
        ∃ t, (DetachAllChildren.loop p rest (DetachAllChildren.step p s n)).trace = _ ∧ _) ∧
      (_ → (DetachAllChildren.loop p rest (DetachAllChildren.step p s n)).requesting_attach = _ ∧
        (DetachAllChildren.loop p rest (DetachAllChildren.step p s n)).trace = _)
    by_cases h0 : ∃ c, resetsSlot s p n c ∧ GetSelf s = some c
    · obtain ⟨hreq, htr⟩ := (step_requesting_trace p s n).1 h0
      refine ⟨fun _ => ⟨loop_requesting_false p rest _ hreq, ?_⟩,
        fun h => absurd ⟨n, List.mem_cons_self _ _, h0⟩ h⟩
      obtain ⟨t2, h2⟩ := loop_trace_prefix p rest (DetachAllChildren.step p s n)
      refine ⟨[Effect.SendAttachRequest 0xFFFF] ++ t2, ?_, by simp⟩
      rw [h2, htr, List.append_assoc]
    · obtain ⟨hreq, htr⟩ := (step_requesting_trace p s n).2 h0
      have hiff : (∃ n', n' ∈ rest ∧ ∃ c, resetsSlot (DetachAllChildren.step p s n) p n' c ∧
            GetSelf (DetachAllChildren.step p s n) = some c) ↔
          (∃ n', n' ∈ n :: rest ∧ ∃ c, resetsSlot s p n' c ∧ GetSelf s = some c) := by
        constructor
        · rintro ⟨n', hn', c, hr, hself⟩
          rw [Frame_getSelf hf] at hself
          have hnr : ¬ resetsSlot s p n c := fun hr0 => h0 ⟨c, hr0, hself⟩
          exact ⟨n', List.mem_cons_of_mem _ hn', c, (resetsSlot_step p s n n' c hnr).mp hr, hself⟩
        · rintro ⟨n', hn', c, hr, hself⟩
          have hnr : ¬ resetsSlot s p n c := fun hr0 => h0 ⟨c, hr0, hself⟩
          rcases List.mem_cons.mp hn' with rfl | hmem
          · exact absurd hr hnr
          · exact ⟨n', hmem, c, (resetsSlot_step p s n n' c hnr).mpr hr,
              by rw [Frame_getSelf hf]; exact hself⟩
      refine ⟨fun h => ?_, fun h => ?_⟩
      · obtain ⟨h1, t, h2, h3⟩ := ih1.1 (hiff.mpr h)
        exact ⟨h1, t, by rw [h2, htr], h3⟩
      · obtain ⟨h1, h2⟩ := ih1.2 (fun hr => h (hiff.mp hr))
        exact ⟨by rw [h1, hreq], by rw [h2, htr]⟩

theorem DetachAllChildren_children (s : PlayerManager) (p j : Nat) :
    ((DetachAllChildren s p).players j).children =
      if j = p then [] else (s.players j).children := by
  unfold DetachAllChildren
  dsimp only
  by_cases hjp : j = p
  · subst hjp; simp
  · rw [setPlayer_players_ne _ _ _ _ hjp, if_neg hjp]
    by_cases h : ∃ n, n ∈ (s.players p).children ∧ resetsSlot s p n j
    · rw [(loop_players p _ s j).1 h, resetAttach_children]
    · rw [(loop_players p _ s j).2 h]

theorem DetachAllChildren_reset (s : PlayerManager) (p j : Nat)
    (h : ∃ n, n ∈ (s.players p).children ∧ resetsSlot s p n j) :
    ((DetachAllChildren s p).players j).attach_parent = kInvalidPlayerId ∧
    ((DetachAllChildren s p).players j).timestamp = kInvalidSmallTick := by
  unfold DetachAllChildren
  dsimp only
  by_cases hjp : j = p
  · subst hjp
    simp only [setPlayer_players_same]
    rw [(loop_players j _ s j).1 h]
    exact ⟨rfl, rfl⟩
  · rw [setPlayer_players_ne _ _ _ _ hjp, (loop_players p _ s j).1 h]
    exact ⟨rfl, rfl⟩

theorem DetachAllChildren_keep (s : PlayerManager) (p j : Nat)
    (h : ¬ ∃ n, n ∈ (s.players p).children ∧ resetsSlot s p n j) :
    ((DetachAllChildren s p).players j).attach_parent = (s.players j).attach_parent ∧
    ((DetachAllChildren s p).players j).timestamp = (s.players j).timestamp := by
  unfold DetachAllChildren
  dsimp only
  by_cases hjp : j = p
  · subst hjp
    simp only [setPlayer_players_same]
    rw [(loop_players j _ s j).2 h]
    exact ⟨rfl, rfl⟩
  · rw [setPlayer_players_ne _ _ _ _ hjp, (loop_players p _ s j).2 h]
    exact ⟨rfl, rfl⟩

theorem DetachAllChildren_attach_free (s : PlayerManager) (p : Nat) :
    (DetachAllChildren s p).attach_free =
      ((s.players p).children.map AttachInfo.freed).reverse ++ s.attach_free := by
  unfold DetachAllChildren
  dsimp only
  rw [setPlayer_attach_free, loop_attach_free]

/-! ## C10: DetachAllChildren -/

/-- C10: after `DetachAllChildren(P)`, `P.children` is empty; every player `C`
that a node of `P.children` resolved to (through `GetPlayerById`; with the
table invariant: every live player referenced by a node) and that had
`attach_parent == P.id` has `attach_parent` invalid and `timestamp` equal to
the invalid small tick; every removed node is on the free list (pushed in
visiting order, its `player_id` reset); and if self was such a child,
`requesting_attach` is false and an attach request for 0xFFFF was sent. -/
theorem C10_DetachAllChildren (s : PlayerManager) (p : Nat) :
    ((DetachAllChildren s p).players p).children = [] ∧
    (∀ n c, n ∈ (s.players p).children → GetPlayerById s n.player_id = some c →
      (s.players c).attach_parent = (s.players p).id →
      ((DetachAllChildren s p).players c).attach_parent = kInvalidPlayerId ∧
      ((DetachAllChildren s p).players c).timestamp = kInvalidSmallTick) ∧
    (TableInv s → ∀ c, c < s.player_count → hasNode (s.players p).children (s.players c).id →
      (s.players c).attach_parent = (s.players p).id →
      ((DetachAllChildren s p).players c).attach_parent = kInvalidPlayerId ∧
      ((DetachAllChildren s p).players c).timestamp = kInvalidSmallTick) ∧
    (DetachAllChildren s p).attach_free =
      ((s.players p).children.map AttachInfo.freed).reverse ++ s.attach_free ∧
    (∀ n, n ∈ (s.players p).children → n.freed ∈ (DetachAllChildren s p).attach_free) ∧
    ((∃ n c, n ∈ (s.players p).children ∧ GetPlayerById s n.player_id = some c ∧
        (s.players c).attach_parent = (s.players p).id ∧ GetSelf s = some c) →
      (DetachAllChildren s p).requesting_attach = false ∧
      ∃ t, (DetachAllChildren s p).trace = s.trace ++ t ∧
        Effect.SendAttachRequest 0xFFFF ∈ t) := by
  refine ⟨?_, ?_, ?_, DetachAllChildren_attach_free s p, ?_, ?_⟩
  · rw [DetachAllChildren_children, if_pos rfl]
  · intro n c hn hg hap
    exact DetachAllChildren_reset s p c ⟨n, hn, hg, hap⟩
  · intro hinv c hc hnode hap
    obtain ⟨n, hn, hid⟩ := hnode
    have hg : GetPlayerById s n.player_id = some c := by
      rw [hid]; exact TableInv_getPlayerById_live hinv hc
    exact DetachAllChildren_reset s p c ⟨n, hn, hg, hap⟩
  · intro n hn
    rw [DetachAllChildren_attach_free]
    apply List.mem_append_left
    rw [List.mem_reverse]
    exact List.mem_map_of_mem _ hn
  · rintro ⟨n, c, hn, hg, hap, hself⟩
    unfold DetachAllChildren
    dsimp only
    rw [setPlayer_requesting_attach, setPlayer_trace]
    exact (loop_self p _ s).1 ⟨n, hn, c, ⟨hg, hap⟩, hself⟩

theorem turretTable_tableInv : TableInv turretTable := by
  refine ⟨by decide, ?_, ?_⟩
  · intro i hi
    have hi3 : i < 3 := hi
    interval_cases i <;> rfl
  · intro id hid
    have hcases : id = 7 ∨ id = 3 ∨ id = 9 := by
      by_contra hne
      push_neg at hne
      have : turretTable.player_lookup id = kInvalidPlayerId := by
        show (if id = 7 then 0 else if id = 3 then 1 else if id = 9 then 2
          else kInvalidPlayerId) = kInvalidPlayerId
        simp [hne.1, hne.2.1, hne.2.2]
      rw [this] at hid
      exact lt_irrefl _ hid
    rcases hcases with rfl | rfl | rfl <;> decide

/-- C10 at a concrete input: the carrier with id 7 holds the turrets with ids
9 and 3, self being the latter with a request pending. Detaching all children
empties the list, unlinks and unsynchronizes both turrets, puts both nodes on
the free list, clears `requesting_attach` and sends the attach cancel. -/
theorem C10_DetachAllChildren_witness :
    TableInv turretTable ∧
    ((DetachAllChildren turretTable 0).players 0).children = [] ∧
    ((DetachAllChildren turretTable 0).players 1).attach_parent = kInvalidPlayerId ∧
    ((DetachAllChildren turretTable 0).players 1).timestamp = kInvalidSmallTick ∧
    ((DetachAllChildren turretTable 0).players 2).attach_parent = kInvalidPlayerId ∧
    (DetachAllChildren turretTable 0).attach_free = [⟨0, kInvalidPlayerId⟩, ⟨1, kInvalidPlayerId⟩] ∧
    (DetachAllChildren turretTable 0).requesting_attach = false ∧
    ∃ t, (DetachAllChildren turretTable 0).trace = turretTable.trace ++ t ∧
      Effect.SendAttachRequest 0xFFFF ∈ t := by
  have hinv : TableInv turretTable := turretTable_tableInv
  obtain ⟨h1, h2, h3, h4, _, h6⟩ := C10_DetachAllChildren turretTable 0
  have hself := h3 hinv 1 (by decide) ⟨⟨0, 3⟩, by decide, rfl⟩ rfl
  have hother := h2 ⟨1, 9⟩ 2 (by decide) rfl rfl
  exact ⟨hinv, h1, hself.1, hself.2, hother.1, h4,
    h6 ⟨⟨0, 3⟩, 1, by decide, rfl, rfl, rfl⟩⟩

/-! ## AttachPlayer -/

theorem AttachPlayer_players (s : PlayerManager) (r d j : Nat) :
    (AttachPlayer s r d).players j =
      if j = d then
        { (if d = r then { s.players r with attach_parent := (s.players d).id } else s.players d) with
          children := ⟨(s.attach_free.headD ⟨s.arena_used, 0⟩).addr, (s.players r).id⟩ ::
            (s.players d).children }
      else if j = r then { s.players r with attach_parent := (s.players d).id }
      else s.players j := by
  unfold AttachPlayer
  dsimp only
  by_cases hjd : j = d
  · subst hjd
    by_cases hjr : j = r
    · subst hjr
      cases hfree : s.attach_free <;> simp [PlayerManager.setPlayer, hfree]
    · cases hfree : s.attach_free <;> simp [PlayerManager.setPlayer, hfree, hjr]
  · by_cases hjr : j = r
    · subst hjr
      cases hfree : s.attach_free <;> simp [PlayerManager.setPlayer, hfree, hjd]
    · cases hfree : s.attach_free <;> simp [PlayerManager.setPlayer, hfree, hjd, hjr]

theorem AttachPlayer_attach_parent (s : PlayerManager) (r d j : Nat) :
    ((AttachPlayer s r d).players j).attach_parent =
      if j = r then (s.players d).id else (s.players j).attach_parent := by
  rw [AttachPlayer_players]
  by_cases hjd : j = d
  · subst hjd
    by_cases hjr : j = r
    · subst hjr; simp
    · simp [hjr]
  · by_cases hjr : j = r
    · subst hjr; simp [hjd]
    · simp [hjd, hjr]

theorem AttachPlayer_children (s : PlayerManager) (r d j : Nat) :
    ((AttachPlayer s r d).players j).children =
      if j = d then
        ⟨(s.attach_free.headD ⟨s.arena_used, 0⟩).addr, (s.players r).id⟩ :: (s.players j).children
      else (s.players j).children := by
  rw [AttachPlayer_players]
  by_cases hjd : j = d
  · subst hjd; simp
  · by_cases hjr : j = r
    · subst hjr; simp [hjd]
    · simp [hjd, hjr]

theorem AttachPlayer_other_fields (s : PlayerManager) (r d : Nat) :
    (AttachPlayer s r d).trace = s.trace ∧
    (AttachPlayer s r d).requesting_attach = s.requesting_attach ∧
    (AttachPlayer s r d).attach_free = s.attach_free.tail ∧
    (AttachPlayer s r d).ship = s.ship := by
  unfold AttachPlayer
  dsimp only
  cases hfree : s.attach_free <;> simp [PlayerManager.setPlayer, hfree]

theorem AttachPlayer_energy_timestamp (s : PlayerManager) (r d j : Nat) :
    ((AttachPlayer s r d).players j).energy = (s.players j).energy ∧
    ((AttachPlayer s r d).players j).timestamp = (s.players j).timestamp := by
  rw [AttachPlayer_players]
  by_cases hjd : j = d
  · subst hjd
    by_cases hjr : j = r
    · subst hjr; simp
    · simp [hjr]
  · by_cases hjr : j = r
    · subst hjr; simp [hjd]
    · simp [hjd, hjr]

/-! ## AttachSelf -/

theorem AttachSelf_response (s : PlayerManager) (env : Env) (d self : Nat)
    (hself : GetSelf s = some self) :
    (AttachSelf s env (some d)).1 =
      if env.carrying_ball then AttachRequestResponse.CarryingBall
      else if (s.players self).attach_parent ≠ kInvalidPlayerId then
        AttachRequestResponse.DetatchFromParent
      else if (s.players self).children ≠ [] then AttachRequestResponse.DetatchChildren
      else if (s.players self).energy < (s.ship.energy : ℚ) then
        AttachRequestResponse.NotEnoughEnergy
      else if (s.players self).bounty < (env.ShipSettings (s.players self).ship).AttachBounty then
        AttachRequestResponse.BountyTooLow
      else if (s.players self).id = (s.players d).id then AttachRequestResponse.Self
      else if (s.players self).frequency ≠ (s.players d).frequency then
        AttachRequestResponse.Frequency
      else if 8 ≤ (s.players d).ship then AttachRequestResponse.Spectator
      else if (env.ShipSettings (s.players d).ship).TurretLimit = 0 then
        AttachRequestResponse.TargetShipNotAttachable
      else if (env.ShipSettings (s.players d).ship).TurretLimit ≤ GetTurretCount (s.players d) then
        AttachRequestResponse.TooManyTurrets
      else if IsAntiwarped s env self then AttachRequestResponse.Antiwarped
      else AttachRequestResponse.Success := by
  unfold AttachSelf
  simp only [hself, apply_ite Prod.fst]

theorem AttachSelf_success_iff (s : PlayerManager) (env : Env) (d self : Nat) (hself : GetSelf s = some self) :
    ((AttachSelf s env (some d)).1 = AttachRequestResponse.Success ↔ AttachAllowed s env self d) := by
  rw [AttachSelf_response s env d self hself]
  unfold AttachAllowed
  constructor
  · intro h
    by_cases h1 : env.carrying_ball = true
    · rw [if_pos h1] at h; exact AttachRequestResponse.noConfusion h
    rw [if_neg h1] at h
    by_cases h2 : (s.players self).attach_parent ≠ kInvalidPlayerId
    · rw [if_pos h2] at h; exact AttachRequestResponse.noConfusion h
    rw [if_neg h2] at h
    by_cases h3 : (s.players self).children ≠ []
    · rw [if_pos h3] at h; exact AttachRequestResponse.noConfusion h
    rw [if_neg h3] at h
    by_cases h4 : (s.players self).energy < (s.ship.energy : ℚ)
    · rw [if_pos h4] at h; exact AttachRequestResponse.noConfusion h
    rw [if_neg h4] at h
    by_cases h5 : (s.players self).bounty < (env.ShipSettings (s.players self).ship).AttachBounty
    · rw [if_pos h5] at h; exact AttachRequestResponse.noConfusion h
    rw [if_neg h5] at h
    by_cases h6 : (s.players self).id = (s.players d).id
    · rw [if_pos h6] at h; exact AttachRequestResponse.noConfusion h
    rw [if_neg h6] at h
    by_cases h7 : (s.players self).frequency ≠ (s.players d).frequency
    · rw [if_pos h7] at h; exact AttachRequestResponse.noConfusion h
    rw [if_neg h7] at h
    by_cases h8 : 8 ≤ (s.players d).ship
    · rw [if_pos h8] at h; exact AttachRequestResponse.noConfusion h
    rw [if_neg h8] at h
    by_cases h9 : (env.ShipSettings (s.players d).ship).TurretLimit = 0
    · rw [if_pos h9] at h; exact AttachRequestResponse.noConfusion h
    rw [if_neg h9] at h
    by_cases h10 : (env.ShipSettings (s.players d).ship).TurretLimit ≤ GetTurretCount (s.players d)
    · rw [if_pos h10] at h; exact AttachRequestResponse.noConfusion h
    rw [if_neg h10] at h
    by_cases h11 : IsAntiwarped s env self = true
    · rw [if_pos h11] at h; exact AttachRequestResponse.noConfusion h
    exact ⟨Bool.eq_false_iff.mpr h1, not_not.mp h2, not_not.mp h3, le_of_not_lt h4,
      Nat.le_of_not_lt h5, h6, not_not.mp h7, Nat.lt_of_not_le h8, Nat.pos_of_ne_zero h9,
      Nat.lt_of_not_le h10, Bool.eq_false_iff.mpr h11⟩
  · rintro ⟨h1, h2, h3, h4, h5, h6, h7, h8, h9, h10, h11⟩
    rw [if_neg (Bool.eq_false_iff.mp h1), if_neg (not_not.mpr h2), if_neg (not_not.mpr h3),
      if_neg (not_lt_of_le h4), if_neg (Nat.not_lt_of_le h5), if_neg h6, if_neg (not_not.mpr h7),
      if_neg (Nat.not_le_of_lt h8), if_neg (Nat.ne_of_gt h9), if_neg (Nat.not_le_of_lt h10),
      if_neg (Bool.eq_false_iff.mp h11)]

theorem AttachSelf_success_state (s : PlayerManager) (env : Env) (d self : Nat)
    (hself : GetSelf s = some self) (h : AttachAllowed s env self d) :
    (AttachSelf s env (some d)).2 =
      { (AttachPlayer
          { (s.emit (Effect.SendAttachRequest (s.players d).id)) with
            ship := { s.ship with
              fake_antiwarp_end_tick := u32 (env.tick + env.AntiwarpSettleDelay) } }
          self d) with requesting_attach := true } := by
  obtain ⟨h1, h2, h3, h4, h5, h6, h7, h8, h9, h10, h11⟩ := h
  unfold AttachSelf
  simp only [hself]
  rw [if_neg (Bool.eq_false_iff.mp h1), if_neg (not_not.mpr h2), if_neg (not_not.mpr h3),
    if_neg (not_lt_of_le h4), if_neg (Nat.not_lt_of_le h5), if_neg h6, if_neg (not_not.mpr h7),
    if_neg (Nat.not_le_of_lt h8), if_neg (Nat.ne_of_gt h9), if_neg (Nat.not_le_of_lt h10),
    if_neg (Bool.eq_false_iff.mp h11)]
  rfl

/-! ## C7: when AttachSelf succeeds and what it does then -/

/-- C7: `AttachSelf(destination)` returns `Success` exactly when the
destination is non-null, the ball is not carried, self exists, self has no
parent and no children, self's energy is at least the ship's maximum, self's
bounty is at least `AttachBounty`, the destination's id is not self's, the
frequencies are equal, the destination's ship is below 8, its `TurretLimit` is
positive and above its turret count, and self is not antiwarped. On `Success`
exactly one message, `SendAttachRequest(destination.id)`, was sent, self's
`attach_parent` is the destination's id, the destination's turret count grew
by one, and `requesting_attach` is true. -/
theorem C7_AttachSelf_success (s : PlayerManager) (env : Env) (destination : Option Nat) :
    ((AttachSelf s env destination).1 = AttachRequestResponse.Success ↔
      ∃ d self, destination = some d ∧ GetSelf s = some self ∧ AttachAllowed s env self d) ∧
    (∀ d self, destination = some d → GetSelf s = some self →
      (AttachSelf s env destination).1 = AttachRequestResponse.Success →
      (AttachSelf s env destination).2.trace =
        s.trace ++ [Effect.SendAttachRequest (s.players d).id] ∧
      (((AttachSelf s env destination).2.players self).attach_parent = (s.players d).id ∧
        ((AttachSelf s env destination).2.players d).id = (s.players d).id) ∧
      GetTurretCount ((AttachSelf s env destination).2.players d) =
        GetTurretCount (s.players d) + 1 ∧
      (AttachSelf s env destination).2.requesting_attach = true) := by
  constructor
  · cases destination with
    | none =>
      constructor
      · intro h
        exact AttachRequestResponse.noConfusion h
      · rintro ⟨d, self, h, _⟩
        exact Option.noConfusion h
    | some d =>
      cases hself : GetSelf s with
      | none =>
        constructor
        · intro h
          unfold AttachSelf at h
          simp only [hself] at h
          by_cases hb : env.carrying_ball = true
          · rw [if_pos hb] at h; exact AttachRequestResponse.noConfusion h
          · rw [if_neg hb] at h; exact AttachRequestResponse.noConfusion h
        · rintro ⟨_, self, _, h, _⟩
          exact Option.noConfusion h
      | some self =>
        constructor
        · intro h
          exact ⟨d, self, rfl, rfl, (AttachSelf_success_iff s env d self hself).mp h⟩
        · rintro ⟨d', self', hd, hs, h⟩
          cases hd
          cases hs
          exact (AttachSelf_success_iff s env d self hself).mpr h
  · intro d self hd hself hsucc
    subst hd
    have hall := (AttachSelf_success_iff s env d self hself).mp hsucc
    rw [AttachSelf_success_state s env d self hself hall]
    have hne : self ≠ d := by
      intro heq
      apply hall.2.2.2.2.2.1
      rw [heq]
    refine ⟨?_, ⟨?_, ?_⟩, ?_, rfl⟩
    · show (AttachPlayer _ self d).trace = _
      rw [(AttachPlayer_other_fields _ self d).1]
      rfl
    · show ((AttachPlayer _ self d).players self).attach_parent = _
      rw [AttachPlayer_attach_parent, if_pos rfl]
      rfl
    · show ((AttachPlayer _ self d).players d).id = _
      exact ((AttachPlayer_frame _ self d).2.2.2 d).1
    · show ((AttachPlayer _ self d).players d).children.length = _
      rw [AttachPlayer_children, if_pos rfl]
      rfl

/-- C7 at the spec's scenario: self at frequency 10 with energy 1000 of 1000
and bounty 50, the destination at frequency 10 with `TurretLimit` 4 and two
turrets. `AttachSelf` succeeds, sends `SendAttachRequest(2)`, links self as
the third turret and sets `requesting_attach`. -/
theorem C7_AttachSelf_success_witness :
    GetSelf attachScenario = some 0 ∧
    (AttachSelf attachScenario scenarioEnv (some 1)).1 = AttachRequestResponse.Success ∧
    (AttachSelf attachScenario scenarioEnv (some 1)).2.trace = [Effect.SendAttachRequest 2] ∧
    ((AttachSelf attachScenario scenarioEnv (some 1)).2.players 0).attach_parent = 2 ∧
    GetTurretCount ((AttachSelf attachScenario scenarioEnv (some 1)).2.players 1) = 3 ∧
    (AttachSelf attachScenario scenarioEnv (some 1)).2.requesting_attach = true := by
  have hself : GetSelf attachScenario = some 0 := rfl
  have hsucc : (AttachSelf attachScenario scenarioEnv (some 1)).1
      = AttachRequestResponse.Success := by decide
  obtain ⟨h1, h2, h3, h4⟩ :=
    (C7_AttachSelf_success attachScenario scenarioEnv (some 1)).2 1 0 rfl hself hsucc
  exact ⟨hself, hsucc, h1, h2.1, h3, h4⟩

/-! ## DetachPlayer -/

theorem DetachPlayer_players (s : PlayerManager) (p j : Nat) :
    (DetachPlayer s p).players j =
      if (s.players p).attach_parent ≠ kInvalidPlayerId then
        (if j = p then
          ((if GetPlayerById s (s.players p).attach_parent = some p then
            { s.players p with children := eraseNode (s.players p).id (s.players p).children }
            else s.players p)).resetAttach
        else if GetPlayerById s (s.players p).attach_parent = some j then
          { s.players j with children := eraseNode (s.players p).id (s.players j).children }
        else s.players j)
      else s.players j := by
  unfold DetachPlayer
  by_cases h : (s.players p).attach_parent ≠ kInvalidPlayerId
  · rw [if_pos h, if_pos h]
    dsimp only
    have key : ∀ s1 : PlayerManager, s1.players = s.players →
        ((match GetPlayerById s (s.players p).attach_parent with
          | some q =>
            (match unlinkFirst (s1.players p).id (s1.players q).children with
              | some (n, rest) =>
                { (s1.setPlayer q { s1.players q with children := rest }) with
                  attach_free := n.freed :: s1.attach_free }
              | none => s1).emit
              (Effect.PlayerDetachEvent
                ((match unlinkFirst (s1.players p).id (s1.players q).children with
                  | some (n, rest) =>
                    { (s1.setPlayer q { s1.players q with children := rest }) with
                      attach_free := n.freed :: s1.attach_free }
                  | none => s1).players p).id
                ((match unlinkFirst (s1.players p).id (s1.players q).children with
                  | some (n, rest) =>
                    { (s1.setPlayer q { s1.players q with children := rest }) with
                      attach_free := n.freed :: s1.attach_free }
                  | none => s1).players q).id)
          | none => s1).players j) =
          if GetPlayerById s (s.players p).attach_parent = some j then
            { s.players j with children := eraseNode (s.players p).id (s.players j).children }
          else s.players j := by
      intro s1 hs1
      cases hg : GetPlayerById s (s.players p).attach_parent with
      | none => simp [hs1]
      | some q =>
        dsimp only
        rw [emit_players, hs1]
        by_cases hqj : q = j
        · subst hqj
          rw [if_pos rfl]
          unfold eraseNode
          cases hu : unlinkFirst (s.players p).id (s.players q).children with
          | none => simp [hs1]
          | some r => obtain ⟨n, rest⟩ := r; simp [PlayerManager.setPlayer, hs1]
        · have hne : ¬ (some q = some j) := fun h => hqj (Option.some.inj h)
          rw [if_neg hne]
          have hjq : j ≠ q := fun h => hqj h.symm
          cases hu : unlinkFirst (s.players p).id (s.players q).children with
          | none => simp [hs1]
          | some r => obtain ⟨n, rest⟩ := r; simp [PlayerManager.setPlayer, hs1, hjq]
    have hs1 : (if (s.players p).id = s.player_id then
        ({ s with requesting_attach := false }).emit (Effect.SendAttachRequest kInvalidPlayerId)
        else s).players = s.players := by
      split_ifs <;> rfl
    by_cases hjp : j = p
    · subst hjp
      rw [if_pos rfl, setPlayer_players_same, key _ hs1]
    · rw [if_neg hjp, setPlayer_players_ne _ _ _ _ hjp, key _ hs1]
  · rw [if_neg h, if_neg h]

theorem DetachPlayer_attach_parent (s : PlayerManager) (p j : Nat) :
    ((DetachPlayer s p).players j).attach_parent =
      if j = p then kInvalidPlayerId else (s.players j).attach_parent := by
  rw [DetachPlayer_players]
  by_cases h : (s.players p).attach_parent ≠ kInvalidPlayerId
  · rw [if_pos h]
    by_cases hjp : j = p
    · rw [if_pos hjp, if_pos hjp]; rfl
    · rw [if_neg hjp, if_neg hjp]
      split_ifs <;> rfl
  · rw [if_neg h]
    by_cases hjp : j = p
    · rw [if_pos hjp, hjp]; exact not_not.mp h
    · rw [if_neg hjp]

theorem DetachPlayer_children (s : PlayerManager) (p j : Nat) :
    ((DetachPlayer s p).players j).children =
      if (s.players p).attach_parent ≠ kInvalidPlayerId ∧
          GetPlayerById s (s.players p).attach_parent = some j then
        eraseNode (s.players p).id (s.players j).children
      else (s.players j).children := by
  rw [DetachPlayer_players]
  by_cases h : (s.players p).attach_parent ≠ kInvalidPlayerId
  · rw [if_pos h]
    by_cases hjp : j = p
    · subst hjp
      rw [if_pos rfl]
      by_cases hg : GetPlayerById s (s.players j).attach_parent = some j
      · rw [if_pos hg, if_pos ⟨h, hg⟩]; rfl
      · rw [if_neg hg, if_neg (fun hc => hg hc.2)]; rfl
    · rw [if_neg hjp]
      by_cases hg : GetPlayerById s (s.players p).attach_parent = some j
      · rw [if_pos hg, if_pos ⟨h, hg⟩]
      · rw [if_neg hg, if_neg (fun hc => hg hc.2)]
  · rw [if_neg h, if_neg (fun hc => h hc.1)]

theorem DetachPlayer_trace_prefix (s : PlayerManager) (p : Nat) :
    ∃ t, (DetachPlayer s p).trace = s.trace ++ t := by
  unfold DetachPlayer
  by_cases h : (s.players p).attach_parent ≠ kInvalidPlayerId
  · rw [if_pos h]
    dsimp only
    rw [setPlayer_trace]
    have h1 : ∃ t1, (if (s.players p).id = s.player_id then
        ({ s with requesting_attach := false }).emit (Effect.SendAttachRequest kInvalidPlayerId)
        else s).trace = s.trace ++ t1 := by
      split_ifs
      · exact ⟨[Effect.SendAttachRequest kInvalidPlayerId], rfl⟩
      · exact ⟨[], by simp⟩
    obtain ⟨t1, ht1⟩ := h1
    generalize (if (s.players p).id = s.player_id then
        ({ s with requesting_attach := false }).emit (Effect.SendAttachRequest kInvalidPlayerId)
        else s) = s1 at ht1 ⊢
    cases GetPlayerById s (s.players p).attach_parent with
    | none => exact ⟨t1, ht1⟩
    | some q =>
      dsimp only
      rw [emit_trace]
      cases unlinkFirst (s1.players p).id (s1.players q).children with
      | none =>
        exact ⟨t1 ++ [_], by rw [← List.append_assoc, ← ht1]⟩
      | some r =>
        obtain ⟨n, rest⟩ := r
        exact ⟨t1 ++ [_], by rw [← List.append_assoc, ← ht1]; rfl⟩
  · rw [if_neg h]
    exact ⟨[], by simp⟩

/-! ## C8: the order of the precondition checks -/

theorem earliestViolated_cons_pos {b : Bool} {r : AttachRequestResponse}
    {rest : List (Bool × AttachRequestResponse)} (h : b = true) :
    earliestViolated ((b, r) :: rest) = r := by
  subst h; rfl

theorem earliestViolated_cons_neg {b : Bool} {r : AttachRequestResponse}
    {rest : List (Bool × AttachRequestResponse)} (h : b = false) :
    earliestViolated ((b, r) :: rest) = earliestViolated rest := by
  subst h; rfl

/-- C8: for every state and non-null destination, `AttachSelf` reports the
earliest violated precondition in the order carrying the ball, self has a
parent, self has children, energy, bounty, destination is self, frequency,
destination not in a ship, `TurretLimit == 0`, too many turrets, antiwarped.
With a parent it sends the attach request for the invalid id and detaches
self; with children it sends the attach drop and changes nothing else. -/
theorem C8_AttachSelf_check_order (s : PlayerManager) (env : Env) (d : Nat) :
    (env.carrying_ball = true →
      (AttachSelf s env (some d)).1 = AttachRequestResponse.CarryingBall) ∧
    (∀ self, GetSelf s = some self →
      (AttachSelf s env (some d)).1 = earliestViolated (attachChecks s env self d) ∧
      ((AttachSelf s env (some d)).1 = AttachRequestResponse.DetatchFromParent →
        (AttachSelf s env (some d)).2 =
          DetachPlayer (s.emit (Effect.SendAttachRequest kInvalidPlayerId)) self ∧
        ((AttachSelf s env (some d)).2.players self).attach_parent = kInvalidPlayerId ∧
        ∃ t, (AttachSelf s env (some d)).2.trace =
          s.trace ++ Effect.SendAttachRequest kInvalidPlayerId :: t) ∧
      ((AttachSelf s env (some d)).1 = AttachRequestResponse.DetatchChildren →
        (AttachSelf s env (some d)).2 = s.emit Effect.SendAttachDrop)) := by
  constructor
  · intro hb
    unfold AttachSelf
    simp only [hb, if_true]
  · intro self hself
    by_cases h1 : env.carrying_ball = true
    · refine ⟨?_, ?_, ?_⟩
      · rw [AttachSelf_response s env d self hself, if_pos h1]
        unfold attachChecks
        rw [earliestViolated_cons_pos h1]
      · intro h
        rw [AttachSelf_response s env d self hself, if_pos h1] at h
        exact AttachRequestResponse.noConfusion h
      · intro h
        rw [AttachSelf_response s env d self hself, if_pos h1] at h
        exact AttachRequestResponse.noConfusion h
    by_cases h2 : (s.players self).attach_parent ≠ kInvalidPlayerId
    · have hstate : (AttachSelf s env (some d)).2 =
          DetachPlayer (s.emit (Effect.SendAttachRequest kInvalidPlayerId)) self := by
        unfold AttachSelf
        simp only [hself]
        rw [if_neg h1, if_pos h2]
      refine ⟨?_, ?_, ?_⟩
      · rw [AttachSelf_response s env d self hself, if_neg h1, if_pos h2]
        unfold attachChecks
        rw [earliestViolated_cons_neg (Bool.eq_false_iff.mpr h1), earliestViolated_cons_pos (decide_eq_true h2)]
      · intro _
        refine ⟨hstate, ?_, ?_⟩
        · rw [hstate, DetachPlayer_attach_parent, if_pos rfl]
        · rw [hstate]
          obtain ⟨t, ht⟩ := DetachPlayer_trace_prefix
            (s.emit (Effect.SendAttachRequest kInvalidPlayerId)) self
          exact ⟨t, by rw [ht, emit_trace, List.append_assoc]; rfl⟩
      · intro h
        rw [AttachSelf_response s env d self hself, if_neg h1, if_pos h2] at h
        exact AttachRequestResponse.noConfusion h
    by_cases h3 : (s.players self).children ≠ []
    · refine ⟨?_, ?_, ?_⟩
      · rw [AttachSelf_response s env d self hself, if_neg h1, if_neg h2, if_pos h3]
        unfold attachChecks
        rw [earliestViolated_cons_neg (Bool.eq_false_iff.mpr h1), earliestViolated_cons_neg (decide_eq_false h2),
          earliestViolated_cons_pos (decide_eq_true h3)]
      · intro h
        rw [AttachSelf_response s env d self hself, if_neg h1, if_neg h2, if_pos h3] at h
        exact AttachRequestResponse.noConfusion h
      · intro _
        unfold AttachSelf
        simp only [hself]
        rw [if_neg h1, if_neg h2, if_pos h3]
    have hrest : (AttachSelf s env (some d)).1 ≠ AttachRequestResponse.DetatchFromParent ∧
        (AttachSelf s env (some d)).1 ≠ AttachRequestResponse.DetatchChildren ∧
        (AttachSelf s env (some d)).1 = earliestViolated (attachChecks s env self d) := by
      rw [AttachSelf_response s env d self hself, if_neg h1, if_neg h2, if_neg h3]
      unfold attachChecks
      rw [earliestViolated_cons_neg (Bool.eq_false_iff.mpr h1), earliestViolated_cons_neg (decide_eq_false h2),
        earliestViolated_cons_neg (decide_eq_false h3)]
      by_cases h4 : (s.players self).energy < (s.ship.energy : ℚ)
      · rw [if_pos h4, earliestViolated_cons_pos (decide_eq_true h4)]
        exact ⟨by decide, by decide, rfl⟩
      rw [if_neg h4, earliestViolated_cons_neg (decide_eq_false h4)]
      by_cases h5 : (s.players self).bounty < (env.ShipSettings (s.players self).ship).AttachBounty
      · rw [if_pos h5, earliestViolated_cons_pos (decide_eq_true h5)]
        exact ⟨by decide, by decide, rfl⟩
      rw [if_neg h5, earliestViolated_cons_neg (decide_eq_false h5)]
      by_cases h6 : (s.players self).id = (s.players d).id
      · rw [if_pos h6, earliestViolated_cons_pos (decide_eq_true h6)]
        exact ⟨by decide, by decide, rfl⟩
      rw [if_neg h6, earliestViolated_cons_neg (decide_eq_false h6)]
      by_cases h7 : (s.players self).frequency ≠ (s.players d).frequency
      · rw [if_pos h7, earliestViolated_cons_pos (decide_eq_true h7)]
        exact ⟨by decide, by decide, rfl⟩
      rw [if_neg h7, earliestViolated_cons_neg (decide_eq_false h7)]
      by_cases h8 : 8 ≤ (s.players d).ship
      · rw [if_pos h8, earliestViolated_cons_pos (decide_eq_true h8)]
        exact ⟨by decide, by decide, rfl⟩
      rw [if_neg h8, earliestViolated_cons_neg (decide_eq_false h8)]
      by_cases h9 : (env.ShipSettings (s.players d).ship).TurretLimit = 0
      · rw [if_pos h9, earliestViolated_cons_pos (decide_eq_true h9)]
        exact ⟨by decide, by decide, rfl⟩
      rw [if_neg h9, earliestViolated_cons_neg (decide_eq_false h9)]
      by_cases h10 : (env.ShipSettings (s.players d).ship).TurretLimit ≤
          GetTurretCount (s.players d)
      · rw [if_pos h10, earliestViolated_cons_pos (decide_eq_true h10)]
        exact ⟨by decide, by decide, rfl⟩
      rw [if_neg h10, earliestViolated_cons_neg (decide_eq_false h10)]
      by_cases h11 : IsAntiwarped s env self = true
      · rw [if_pos h11, earliestViolated_cons_pos h11]
        exact ⟨by decide, by decide, rfl⟩
      rw [if_neg h11, earliestViolated_cons_neg (Bool.eq_false_iff.mpr h11)]
      exact ⟨by decide, by decide, rfl⟩
    exact ⟨hrest.2.2, fun h => absurd h hrest.1, fun h => absurd h hrest.2.1⟩

/-- C8 at concrete inputs: in the turret table self (id 3) is already attached
to player 7, so the earliest violated precondition is "has a parent":
`AttachSelf` answers `DetatchFromParent`, sends the attach request for the
invalid id and leaves self without a parent. In the attach scenario a request
to attach to oneself passes the ball, parent, children, energy and bounty
checks and is answered `Self`. -/
theorem C8_AttachSelf_check_order_witness :
    GetSelf turretTable = some 1 ∧
    (AttachSelf turretTable scenarioEnv (some 2)).1 = AttachRequestResponse.DetatchFromParent ∧
    ((AttachSelf turretTable scenarioEnv (some 2)).2.players 1).attach_parent
      = kInvalidPlayerId ∧
    (∃ t, (AttachSelf turretTable scenarioEnv (some 2)).2.trace =
      turretTable.trace ++ Effect.SendAttachRequest kInvalidPlayerId :: t) ∧
    GetSelf attachScenario = some 0 ∧
    (AttachSelf attachScenario scenarioEnv (some 0)).1 = AttachRequestResponse.Self := by
  have hself : GetSelf turretTable = some 1 := rfl
  obtain ⟨h1, h2, _⟩ := (C8_AttachSelf_check_order turretTable scenarioEnv 2).2 1 hself
  have hresp : (AttachSelf turretTable scenarioEnv (some 2)).1
      = AttachRequestResponse.DetatchFromParent := h1.trans (by decide)
  obtain ⟨_, h3, h4⟩ := h2 hresp
  have hself0 : GetSelf attachScenario = some 0 := rfl
  have h5 := ((C8_AttachSelf_check_order attachScenario scenarioEnv 0).2 0 hself0).1
  exact ⟨hself, hresp, h3, h4, hself0, h5.trans (by decide)⟩
/-! ## The confirmation of an attach request -/

theorem OnCreateTurretLink_confirm (s : PlayerManager) (self d : Nat) (rid size did : Nat)
    (hl : LinkedToParent s self d) (hsize : 5 ≤ size) (hr : u16 rid = s.player_id)
    (hd : u16 did = (s.players self).attach_parent) (hreq : s.requesting_attach = true) :
    OnCreateTurretLink s rid size did = energyDrop s self d := by
  obtain ⟨hself, hid, hvalid, hparent⟩ := hl
  have hself' : GetPlayerById s s.player_id = some self := hself
  unfold OnCreateTurretLink energyDrop
  rw [if_neg (by omega)]
  simp only [hr, hd, hself', hparent, hself, hid, hvalid, Option.isSome_some, and_false,
    if_false, if_true, hreq]

theorem OnCreateTurretLink_settled (s : PlayerManager) (self d : Nat) (rid size did : Nat)
    (hl : LinkedToParent s self d) (hsize : 5 ≤ size) (hr : u16 rid = s.player_id)
    (hd : u16 did = (s.players self).attach_parent) (hreq : s.requesting_attach = false) :
    OnCreateTurretLink s rid size did = s := by
  obtain ⟨hself, hid, hvalid, hparent⟩ := hl
  have hself' : GetPlayerById s s.player_id = some self := hself
  unfold OnCreateTurretLink
  rw [if_neg (by omega)]
  simp only [hr, hd, hself', hparent, hself, hid, hvalid, Option.isSome_some, and_false,
    if_false, if_true, hreq, Bool.false_eq_true]

theorem attachBlock_unsynchronized (s : PlayerManager) (self d vx vy : Nat)
    (hl : LinkedToParent s self d) (hsync : IsSynchronized (s.players d) = false) :
    SendPositionPacket.attachBlock s self vx vy = none := by
  obtain ⟨hself, hid, hvalid, hparent⟩ := hl
  unfold SendPositionPacket.attachBlock
  rw [if_pos hvalid]
  simp only [hparent, hsync, Bool.false_eq_true, not_false_eq_true, if_true]

theorem attachBlock_requesting (s : PlayerManager) (self d vx vy : Nat)
    (hl : LinkedToParent s self d) (hsync : IsSynchronized (s.players d) = true)
    (hreq : s.requesting_attach = true) :
    SendPositionPacket.attachBlock s self vx vy =
      some (energyDrop s self d,
        castU16 (((energyDrop s self d).players d).velocity.x * 16 * 10),
        castU16 (((energyDrop s self d).players d).velocity.y * 16 * 10)) := by
  obtain ⟨hself, hid, hvalid, hparent⟩ := hl
  unfold SendPositionPacket.attachBlock energyDrop
  rw [if_pos hvalid]
  simp only [hparent, hsync, not_true_eq_false, if_false, hreq, if_true]

theorem attachBlock_settled (s : PlayerManager) (self d vx vy : Nat)
    (hl : LinkedToParent s self d) (hsync : IsSynchronized (s.players d) = true)
    (hreq : s.requesting_attach = false) :
    SendPositionPacket.attachBlock s self vx vy =
      some (s, castU16 ((s.players d).velocity.x * 16 * 10),
        castU16 ((s.players d).velocity.y * 16 * 10)) := by
  obtain ⟨hself, hid, hvalid, hparent⟩ := hl
  unfold SendPositionPacket.attachBlock
  rw [if_pos hvalid]
  simp only [hparent, hsync, not_true_eq_false, if_false, hreq, Bool.false_eq_true]

theorem energyDrop_spec (s : PlayerManager) (self d : Nat) :
    ((energyDrop s self d).players self).energy = (s.players self).energy * (333 / 1000) ∧
    (energyDrop s self d).requesting_attach = false ∧
    (energyDrop s self d).trace =
      s.trace ++ [Effect.PlayerAttachEvent (s.players self).id (s.players d).id] ∧
    (∀ j, ((energyDrop s self d).players j).children = (s.players j).children) ∧
    (∀ j, ((energyDrop s self d).players j).attach_parent = (s.players j).attach_parent) ∧
    (∀ j, ((energyDrop s self d).players j).timestamp = (s.players j).timestamp) ∧
    (energyDrop s self d).attach_free = s.attach_free ∧
    Frame s (energyDrop s self d) := by
  have hp : ∀ j, (energyDrop s self d).players j =
      if j = self then { s.players self with energy := (s.players self).energy * (333 / 1000) }
      else s.players j := fun j => rfl
  refine ⟨by rw [hp, if_pos rfl], rfl, ?_, ?_, ?_, ?_, rfl, ?_⟩
  · have htr : (energyDrop s self d).trace = s.trace ++ [Effect.PlayerAttachEvent
        ((energyDrop s self d).players self).id ((energyDrop s self d).players d).id] := rfl
    rw [htr, hp self, hp d, if_pos rfl]
    by_cases hds : d = self
    · rw [if_pos hds, hds]
    · rw [if_neg hds]
  · intro j
    rw [hp]
    by_cases hj : j = self
    · rw [if_pos hj, hj]
    · rw [if_neg hj]
  · intro j
    rw [hp]
    by_cases hj : j = self
    · rw [if_pos hj, hj]
    · rw [if_neg hj]
  · intro j
    rw [hp]
    by_cases hj : j = self
    · rw [if_pos hj, hj]
    · rw [if_neg hj]
  · refine ⟨rfl, rfl, rfl, fun j => ?_⟩
    rw [hp]
    by_cases hj : j = self
    · rw [if_pos hj, hj]; exact ⟨rfl, rfl⟩
    · rw [if_neg hj]; exact ⟨rfl, rfl⟩

theorem send_spec (s1 : PlayerManager) (env : Env) (player : Nat) (ts : Int)
    (pkt : PositionPacket) :
    (∀ j, ((SendPositionPacket.send s1 env player ts pkt).players j).energy
        = (s1.players j).energy ∧
      ((SendPositionPacket.send s1 env player ts pkt).players j).attach_parent
        = (s1.players j).attach_parent ∧
      ((SendPositionPacket.send s1 env player ts pkt).players j).children
        = (s1.players j).children) ∧
    (SendPositionPacket.send s1 env player ts pkt).requesting_attach = s1.requesting_attach ∧
    (∃ p, (SendPositionPacket.send s1 env player ts pkt).trace = s1.trace ++ [Effect.Send p]) ∧
    Frame s1 (SendPositionPacket.send s1 env player ts pkt) := by
  have hp : ∀ j, (SendPositionPacket.send s1 env player ts pkt).players j =
      if j = player then { s1.players player with
        togglables := clearBits (s1.players player).togglables Status_Flash }
      else s1.players j := fun j => rfl
  refine ⟨fun j => ?_, rfl, ⟨_, rfl⟩, ⟨rfl, rfl, rfl, fun j => ?_⟩⟩
  · rw [hp]
    by_cases hj : j = player
    · rw [if_pos hj, hj]; exact ⟨rfl, rfl, rfl⟩
    · rw [if_neg hj]; exact ⟨rfl, rfl, rfl⟩
  · rw [hp]
    by_cases hj : j = player
    · rw [if_pos hj, hj]; exact ⟨rfl, rfl⟩
    · rw [if_neg hj]; exact ⟨rfl, rfl⟩

theorem SendPositionPacket_unsynchronized (s : PlayerManager) (env : Env) (self d : Nat)
    (hl : LinkedToParent s self d) (hsync : IsSynchronized (s.players d) = false) :
    SendPositionPacket s env =
      some { s with last_position_tick := env.MAKE_TICK ((env.tick : Int) + env.time_diff) } := by
  have hself : GetPlayerById s s.player_id = some self := hl.1
  unfold SendPositionPacket
  simp only [hself, attachBlock_unsynchronized s self d _ _ hl hsync]

theorem SendPositionPacket_requesting (s : PlayerManager) (env : Env) (self d : Nat)
    (hl : LinkedToParent s self d) (hsync : IsSynchronized (s.players d) = true)
    (hreq : s.requesting_attach = true) :
    ∃ ts pkt, SendPositionPacket s env =
      some (SendPositionPacket.send (energyDrop s self d) env self ts pkt) := by
  have hself : GetPlayerById s s.player_id = some self := hl.1
  unfold SendPositionPacket
  simp only [hself, attachBlock_requesting s self d _ _ hl hsync hreq]
  exact ⟨_, _, rfl⟩

theorem SendPositionPacket_settled (s : PlayerManager) (env : Env) (self d : Nat)
    (hl : LinkedToParent s self d) (hsync : IsSynchronized (s.players d) = true)
    (hreq : s.requesting_attach = false) :
    ∃ ts pkt, SendPositionPacket s env = some (SendPositionPacket.send s env self ts pkt) := by
  have hself : GetPlayerById s s.player_id = some self := hl.1
  unfold SendPositionPacket
  simp only [hself, attachBlock_settled s self d _ _ hl hsync hreq]
  exact ⟨_, _, rfl⟩

theorem LinkedToParent_of_frame {s s' : PlayerManager} {self d : Nat} (hf : Frame s s')
    (hap : (s'.players self).attach_parent = (s.players self).attach_parent)
    (hl : LinkedToParent s self d) : LinkedToParent s' self d := by
  obtain ⟨hself, hid, hvalid, hparent⟩ := hl
  refine ⟨by rw [Frame_getSelf hf]; exact hself, ?_, by rw [hap]; exact hvalid, ?_⟩
  · rw [(hf.2.2.2 self).1, hf.2.2.1]; exact hid
  · rw [hap, Frame_getPlayerById hf]; exact hparent

theorem AttachSelf_success_facts (s0 : PlayerManager) (env : Env) (d self : Nat)
    (hself : GetSelf s0 = some self)
    (hsucc : (AttachSelf s0 env (some d)).1 = AttachRequestResponse.Success) :
    Frame s0 (AttachSelf s0 env (some d)).2 ∧
    ((AttachSelf s0 env (some d)).2.players self).attach_parent = (s0.players d).id ∧
    (AttachSelf s0 env (some d)).2.requesting_attach = true ∧
    (∀ j, ((AttachSelf s0 env (some d)).2.players j).timestamp = (s0.players j).timestamp) := by
  have hall := (AttachSelf_success_iff s0 env d self hself).mp hsucc
  rw [AttachSelf_success_state s0 env d self hself hall]
  refine ⟨?_, ?_, rfl, ?_⟩
  · have h := AttachPlayer_frame
      { (s0.emit (Effect.SendAttachRequest (s0.players d).id)) with
        ship := { s0.ship with
          fake_antiwarp_end_tick := u32 (env.tick + env.AntiwarpSettleDelay) } } self d
    exact ⟨h.1, h.2.1, h.2.2.1, h.2.2.2⟩
  · show ((AttachPlayer _ self d).players self).attach_parent = _
    rw [AttachPlayer_attach_parent, if_pos rfl]
    rfl
  · intro j
    show ((AttachPlayer _ self d).players j).timestamp = _
    rw [(AttachPlayer_energy_timestamp _ self d j).2]
    rfl

/-! ## C9: the energy drop of an attach is applied once -/

/-- C9: after a successful `AttachSelf` (state `s`, destination in slot `d`
with a valid id) the request is pending. If the confirmation
`OnCreateTurretLink(self -> parent)` comes first, it multiplies self's energy
by 0.333, dispatches one `PlayerAttach`, clears `requesting_attach` and links
no node, and a following `SendPositionPacket` leaves the energy alone and
dispatches no further event. If `SendPositionPacket` comes first with the
parent synchronized, it applies the same drop and event once, and the
following confirmation changes nothing. While the parent is not synchronized
`SendPositionPacket` applies nothing. -/
theorem C9_energy_drop_once (s0 s : PlayerManager) (env env' : Env)
    (self d rid size did : Nat)
    (hinv : TableInv s0) (hd : d < s0.player_count)
    (hvalid : (s0.players d).id ≠ kInvalidPlayerId) (hself : GetSelf s0 = some self)
    (hs : AttachSelf s0 env (some d) = (AttachRequestResponse.Success, s))
    (hsize : 5 ≤ size) (hr : u16 rid = s0.player_id) (hdid : u16 did = (s0.players d).id) :
    s.requesting_attach = true ∧
    (((OnCreateTurretLink s rid size did).players self).energy
        = (s.players self).energy * (333 / 1000) ∧
      (OnCreateTurretLink s rid size did).requesting_attach = false ∧
      (OnCreateTurretLink s rid size did).trace =
        s.trace ++ [Effect.PlayerAttachEvent s0.player_id (s0.players d).id] ∧
      (∀ j, ((OnCreateTurretLink s rid size did).players j).children = (s.players j).children) ∧
      (OnCreateTurretLink s rid size did).attach_free = s.attach_free ∧
      ∃ sA, SendPositionPacket (OnCreateTurretLink s rid size did) env' = some sA ∧
        (sA.players self).energy = (s.players self).energy * (333 / 1000) ∧
        (sA.trace = (OnCreateTurretLink s rid size did).trace ∨
          ∃ p, sA.trace = (OnCreateTurretLink s rid size did).trace ++ [Effect.Send p])) ∧
    (IsSynchronized (s.players d) = true →
      ∃ sB p, SendPositionPacket s env' = some sB ∧
        (sB.players self).energy = (s.players self).energy * (333 / 1000) ∧
        sB.requesting_attach = false ∧
        sB.trace = s.trace ++
          [Effect.PlayerAttachEvent s0.player_id (s0.players d).id, Effect.Send p] ∧
        OnCreateTurretLink sB rid size did = sB) ∧
    (IsSynchronized (s.players d) = false →
      ∃ sB, SendPositionPacket s env' = some sB ∧
        (sB.players self).energy = (s.players self).energy ∧
        sB.requesting_attach = true ∧ sB.trace = s.trace) := by
  have hsucc : (AttachSelf s0 env (some d)).1 = AttachRequestResponse.Success := by rw [hs]
  have hs2 : (AttachSelf s0 env (some d)).2 = s := by rw [hs]
  obtain ⟨hf, hap, hreq, hts⟩ := AttachSelf_success_facts s0 env d self hself hsucc
  rw [hs2] at hf hap hreq hts
  have hselfid : (s0.players self).id = s0.player_id :=
    (TableInv_getPlayerById_some hinv hself).2
  have hl : LinkedToParent s self d := by
    refine ⟨by rw [Frame_getSelf hf]; exact hself, ?_, by rw [hap]; exact hvalid, ?_⟩
    · rw [(hf.2.2.2 self).1, hf.2.2.1]; exact hselfid
    · rw [hap, Frame_getPlayerById hf]; exact TableInv_getPlayerById_live hinv hd
  have hr' : u16 rid = s.player_id := by rw [hf.2.2.1]; exact hr
  have hdid' : u16 did = (s.players self).attach_parent := by rw [hap]; exact hdid
  have hids : (s.players self).id = s0.player_id ∧ (s.players d).id = (s0.players d).id :=
    ⟨by rw [(hf.2.2.2 self).1]; exact hselfid, (hf.2.2.2 d).1⟩
  obtain ⟨he, hq, htr, hch, hpar, htime, hfree, hfd⟩ := energyDrop_spec s self d
  rw [hids.1, hids.2] at htr
  have hld : LinkedToParent (energyDrop s self d) self d :=
    LinkedToParent_of_frame hfd (hpar self) hl
  have hsyncd : IsSynchronized ((energyDrop s self d).players d) = IsSynchronized (s.players d) := by
    unfold IsSynchronized
    rw [htime d]
  refine ⟨hreq, ?_, ?_, ?_⟩
  · rw [OnCreateTurretLink_confirm s self d rid size did hl hsize hr' hdid' hreq]
    refine ⟨he, hq, htr, hch, hfree, ?_⟩
    cases hsync : IsSynchronized (s.players d) with
    | false =>
      rw [SendPositionPacket_unsynchronized _ env' self d hld (by rw [hsyncd]; exact hsync)]
      exact ⟨_, rfl, he, Or.inl rfl⟩
    | true =>
      obtain ⟨ts, pkt, hsend⟩ :=
        SendPositionPacket_settled _ env' self d hld (by rw [hsyncd]; exact hsync) hq
      rw [hsend]
      obtain ⟨hpl, _, ⟨p, hp⟩, _⟩ :=
        send_spec (energyDrop s self d) env' self ts pkt
      exact ⟨_, rfl, by rw [(hpl self).1]; exact he, Or.inr ⟨p, hp⟩⟩
  · intro hsync
    obtain ⟨ts, pkt, hsend⟩ := SendPositionPacket_requesting s env' self d hl hsync hreq
    obtain ⟨hpl, hrq, ⟨p, hp⟩, hfs⟩ := send_spec (energyDrop s self d) env' self ts pkt
    refine ⟨_, p, hsend, by rw [(hpl self).1]; exact he, by rw [hrq]; exact hq, ?_, ?_⟩
    · rw [hp, htr]; simp
    · have hl2 : LinkedToParent
          (SendPositionPacket.send (energyDrop s self d) env' self ts pkt) self d :=
        LinkedToParent_of_frame hfs (hpl self).2.1 hld
      apply OnCreateTurretLink_settled _ self d rid size did hl2 hsize
      · rw [hfs.2.2.1, hfd.2.2.1]; exact hr'
      · rw [(hpl self).2.1, hpar self]; exact hdid'
      · rw [hrq]; exact hq
  · intro hsync
    rw [SendPositionPacket_unsynchronized s env' self d hl hsync]
    exact ⟨_, rfl, rfl, hreq, rfl⟩

theorem attachScenario_tableInv : TableInv attachScenario := by
  refine ⟨by decide, ?_, ?_⟩
  · intro i hi
    have hi4 : i < 4 := hi
    interval_cases i <;> rfl
  · intro id hid
    have hcases : id = 1 ∨ id = 2 ∨ id = 3 ∨ id = 4 := by
      by_contra hne
      push_neg at hne
      have : attachScenario.player_lookup id = kInvalidPlayerId := by
        show (if id = 1 then 0 else if id = 2 then 1 else if id = 3 then 2
          else if id = 4 then 3 else kInvalidPlayerId) = kInvalidPlayerId
        simp [hne.1, hne.2.1, hne.2.2.1, hne.2.2.2]
      rw [this] at hid
      exact lt_irrefl _ hid
    rcases hcases with rfl | rfl | rfl | rfl <;> decide

/-- C9 at the spec's scenario: after the successful `AttachSelf` with energy
1000, the confirming `OnCreateTurretLink(1 -> 2)` leaves self with energy 333
and one `PlayerAttach` event, and the position packet sent afterwards keeps
the energy at 333. -/
theorem C9_energy_drop_once_witness :
    TableInv attachScenario ∧
    AttachSelf attachScenario scenarioEnv (some 1) =
      (AttachRequestResponse.Success, (AttachSelf attachScenario scenarioEnv (some 1)).2) ∧
    ((OnCreateTurretLink (AttachSelf attachScenario scenarioEnv (some 1)).2 1 5 2).players 0).energy
      = 333 ∧
    (OnCreateTurretLink (AttachSelf attachScenario scenarioEnv (some 1)).2 1 5 2).trace =
      [Effect.SendAttachRequest 2, Effect.PlayerAttachEvent 1 2] ∧
    (OnCreateTurretLink (AttachSelf attachScenario scenarioEnv (some 1)).2 1 5 2).requesting_attach
      = false ∧
    ∃ sA, SendPositionPacket
        (OnCreateTurretLink (AttachSelf attachScenario scenarioEnv (some 1)).2 1 5 2) quietEnv
        = some sA ∧ (sA.players 0).energy = 333 := by
  have hs : AttachSelf attachScenario scenarioEnv (some 1) =
      (AttachRequestResponse.Success, (AttachSelf attachScenario scenarioEnv (some 1)).2) :=
    Prod.ext (by decide) rfl
  have he : (((AttachSelf attachScenario scenarioEnv (some 1)).2.players 0).energy : ℚ) = 1000 :=
    rfl
  have h333 : ((1000 : ℚ) * (333 / 1000)) = 333 := by norm_num
  obtain ⟨_, ⟨h1, h2, h3, _, _, sA, h4, h5, _⟩, _, _⟩ :=
    C9_energy_drop_once attachScenario _ scenarioEnv quietEnv 0 1 1 5 2
      attachScenario_tableInv (by decide) (by decide) rfl hs (by decide) rfl rfl
  rw [he, h333] at h1 h5
  exact ⟨attachScenario_tableInv, hs, h1, h3, h2, sA, h4, h5⟩

/-! ## The attachment invariant -/

theorem LinkFrame_refl (s : PlayerManager) : LinkFrame s s :=
  ⟨Frame_refl s, fun _ => ⟨rfl, rfl⟩⟩

theorem LinkFrame_trans {a b c : PlayerManager} (h1 : LinkFrame a b) (h2 : LinkFrame b c) :
    LinkFrame a c :=
  ⟨Frame_trans h1.1 h2.1, fun j =>
    ⟨(h2.2 j).1.trans (h1.2 j).1, (h2.2 j).2.trans (h1.2 j).2⟩⟩

theorem LinkFrame_emit (s : PlayerManager) (e : Effect) : LinkFrame s (s.emit e) :=
  ⟨Frame_emit s e, fun _ => ⟨rfl, rfl⟩⟩

theorem LinkFrame_setPlayer (s : PlayerManager) (i : Nat) (p : Player)
    (hid : p.id = (s.players i).id) (hname : p.name = (s.players i).name)
    (hap : p.attach_parent = (s.players i).attach_parent)
    (hch : p.children = (s.players i).children) : LinkFrame s (s.setPlayer i p) := by
  refine ⟨Frame_setPlayer s i p hid hname, fun j => ?_⟩
  by_cases hj : j = i
  · subst hj; simp [hap, hch]
  · simp [setPlayer_players_ne _ _ _ _ hj]

theorem AttachInv_of_linkFrame {s s' : PlayerManager} (h : LinkFrame s s') (hinv : AttachInv s) :
    AttachInv s' := by
  intro i hi hap
  rw [h.1.1] at hi
  rw [(h.2 i).1] at hap
  obtain ⟨j, hj, hid, hnode⟩ := hinv i hi hap
  refine ⟨j, by rw [h.1.1]; exact hj, ?_, ?_⟩
  · rw [(h.1.2.2.2 j).1, (h.2 i).1]; exact hid
  · rw [(h.2 j).2, (h.1.2.2.2 i).1]; exact hnode

theorem unlinkFirst_none {pid : Nat} {l : List AttachInfo} (h : unlinkFirst pid l = none) :
    ¬ hasNode l pid := by
  induction l with
  | nil => rintro ⟨n, hn, _⟩; exact absurd hn (List.not_mem_nil n)
  | cons a rest ih =>
    unfold unlinkFirst at h
    by_cases ha : a.player_id = pid
    · rw [if_pos ha] at h; exact Option.noConfusion h
    · rw [if_neg ha] at h
      cases hu : unlinkFirst pid rest with
      | none =>
        rintro ⟨n, hn, hp⟩
        rcases List.mem_cons.mp hn with rfl | hmem
        · exact ha hp
        · exact ih hu ⟨n, hmem, hp⟩
      | some r => rw [hu] at h; exact Option.noConfusion h

theorem mem_eraseNode {pid : Nat} {l : List AttachInfo} {n : AttachInfo}
    (hn : n ∈ l) (hne : n.player_id ≠ pid) : n ∈ eraseNode pid l := by
  induction l with
  | nil => exact absurd hn (List.not_mem_nil n)
  | cons a rest ih =>
    unfold eraseNode unlinkFirst
    by_cases ha : a.player_id = pid
    · rw [if_pos ha]
      rcases List.mem_cons.mp hn with rfl | hmem
      · exact absurd ha hne
      · exact hmem
    · rw [if_neg ha]
      rcases List.mem_cons.mp hn with rfl | hmem
      · cases hu : unlinkFirst pid rest with
        | none => exact List.mem_cons_self _ _
        | some r => exact List.mem_cons_self _ _
      · have := ih hmem
        unfold eraseNode at this
        cases hu : unlinkFirst pid rest with
        | none => exact List.mem_cons_of_mem _ hmem
        | some r =>
          rw [hu] at this
          exact List.mem_cons_of_mem _ this

theorem hasNode_eraseNode {pid x : Nat} {l : List AttachInfo} (hx : x ≠ pid)
    (h : hasNode l x) : hasNode (eraseNode pid l) x := by
  obtain ⟨n, hn, hp⟩ := h
  exact ⟨n, mem_eraseNode hn (by rw [hp]; exact hx), hp⟩

theorem DetachPlayer_attachInv {s : PlayerManager} {p : Nat} (ht : TableInv s)
    (hinv : AttachInv s) (hp : p < s.player_count) : AttachInv (DetachPlayer s p) := by
  have hf := DetachPlayer_frame s p
  intro i hi hap
  rw [hf.1] at hi
  rw [DetachPlayer_attach_parent] at hap
  by_cases hip : i = p
  · rw [if_pos hip] at hap; exact absurd rfl hap
  · rw [if_neg hip] at hap
    obtain ⟨j, hj, hid, hnode⟩ := hinv i hi hap
    refine ⟨j, by rw [hf.1]; exact hj, ?_, ?_⟩
    · rw [(hf.2.2.2 j).1, DetachPlayer_attach_parent, if_neg hip]; exact hid
    · rw [(hf.2.2.2 i).1, DetachPlayer_children]
      split_ifs
      · apply hasNode_eraseNode _ hnode
        intro heq
        exact hip (TableInv_ids_injective ht hi hp heq)
      · exact hnode

theorem DetachAllChildren_attachInv {s : PlayerManager} {p : Nat} (ht : TableInv s)
    (hinv : AttachInv s) (hp : p < s.player_count) :
    AttachInv (DetachAllChildren s p) ∧
    ∀ i, i < s.player_count →
      ((DetachAllChildren s p).players i).attach_parent ≠ kInvalidPlayerId →
      ((DetachAllChildren s p).players i).attach_parent ≠ (s.players p).id := by
  have hf := DetachAllChildren_frame s p
  have key : ∀ i, i < s.player_count →
      ((DetachAllChildren s p).players i).attach_parent ≠ kInvalidPlayerId →
      ((DetachAllChildren s p).players i).attach_parent = (s.players i).attach_parent ∧
      ∃ j, j < s.player_count ∧ j ≠ p ∧ (s.players j).id = (s.players i).attach_parent ∧
        hasNode (s.players j).children (s.players i).id := by
    intro i hi hap
    by_cases hr : ∃ n, n ∈ (s.players p).children ∧ resetsSlot s p n i
    · exact absurd (DetachAllChildren_reset s p i hr).1 hap
    · have hkeep := (DetachAllChildren_keep s p i hr).1
      rw [hkeep] at hap
      obtain ⟨j, hj, hid, hnode⟩ := hinv i hi hap
      refine ⟨hkeep, j, hj, ?_, hid, hnode⟩
      intro hjp
      subst hjp
      obtain ⟨n, hn, hnp⟩ := hnode
      apply hr
      refine ⟨n, hn, ?_, hid.symm⟩
      rw [hnp]
      exact TableInv_getPlayerById_live ht hi
  constructor
  · intro i hi hap
    rw [hf.1] at hi
    obtain ⟨hkeep, j, hj, hjp, hid, hnode⟩ := key i hi hap
    refine ⟨j, by rw [hf.1]; exact hj, ?_, ?_⟩
    · rw [(hf.2.2.2 j).1, hkeep]; exact hid
    · rw [(hf.2.2.2 i).1, DetachAllChildren_children, if_neg hjp]; exact hnode
  · intro i hi hap heq
    obtain ⟨hkeep, j, hj, hjp, hid, _⟩ := key i hi hap
    rw [hkeep, ← hid] at heq
    exact hjp (TableInv_ids_injective ht hj hp heq)

theorem AttachPlayer_attachInv {s : PlayerManager} {r d : Nat}
    (hinv : ∀ i, i < s.player_count → i ≠ r → (s.players i).attach_parent ≠ kInvalidPlayerId →
      ∃ j, j < s.player_count ∧ (s.players j).id = (s.players i).attach_parent ∧
        hasNode (s.players j).children (s.players i).id)
    (hd : d < s.player_count) : AttachInv (AttachPlayer s r d) := by
  have hf := AttachPlayer_frame s r d
  have hsuper : ∀ j x, hasNode (s.players j).children x →
      hasNode ((AttachPlayer s r d).players j).children x := by
    intro j x ⟨n, hn, hx⟩
    rw [AttachPlayer_children]
    split_ifs
    · exact ⟨n, List.mem_cons_of_mem _ hn, hx⟩
    · exact ⟨n, hn, hx⟩
  intro i hi hap
  rw [hf.1] at hi
  rw [AttachPlayer_attach_parent] at hap
  by_cases hir : i = r
  · subst hir
    refine ⟨d, by rw [hf.1]; exact hd, ?_, ?_⟩
    · rw [(hf.2.2.2 d).1, AttachPlayer_attach_parent, if_pos rfl]
    · rw [(hf.2.2.2 i).1, AttachPlayer_children, if_pos rfl]
      exact ⟨_, List.mem_cons_self _ _, rfl⟩
  · rw [if_neg hir] at hap
    obtain ⟨j, hj, hid, hnode⟩ := hinv i hi hir hap
    refine ⟨j, by rw [hf.1]; exact hj, ?_, ?_⟩
    · rw [(hf.2.2.2 j).1, AttachPlayer_attach_parent, if_neg hir]; exact hid
    · rw [(hf.2.2.2 i).1]; exact hsuper j _ hnode

theorem swapPop_attachInv {s : PlayerManager} {i : Nat} (hinv : AttachInv s)
    (hi : i < s.player_count)
    (hfree : ∀ j, j < s.player_count → (s.players j).attach_parent ≠ kInvalidPlayerId →
      (s.players j).attach_parent ≠ (s.players i).id) :
    AttachInv (swapPop s i) := by
  have hpl : ∀ j, (swapPop s i).players j =
      if j = i then s.players (s.player_count - 1) else s.players j := fun _ => rfl
  have hcount : (swapPop s i).player_count = s.player_count - 1 := rfl
  have hlast : s.player_count - 1 < s.player_count := by omega
  have main : ∀ φ, φ < s.player_count → (s.players φ).attach_parent ≠ kInvalidPlayerId →
      ∃ j, j < (swapPop s i).player_count ∧
        ((swapPop s i).players j).id = (s.players φ).attach_parent ∧
        hasNode ((swapPop s i).players j).children (s.players φ).id := by
    intro φ hφ hap
    obtain ⟨q, hq, hid, hnode⟩ := hinv φ hφ hap
    have hqi : q ≠ i := by
      intro heq
      apply hfree φ hφ hap
      rw [← hid, heq]
    by_cases hql : q = s.player_count - 1
    · refine ⟨i, by rw [hcount]; omega, ?_, ?_⟩
      · rw [hpl, if_pos rfl, ← hql]; exact hid
      · rw [hpl, if_pos rfl, ← hql]; exact hnode
    · refine ⟨q, by rw [hcount]; omega, ?_, ?_⟩
      · rw [hpl, if_neg hqi]; exact hid
      · rw [hpl, if_neg hqi]; exact hnode
  intro j hj hap
  rw [hcount] at hj
  rw [hpl] at hap ⊢
  by_cases hji : j = i
  · rw [if_pos hji] at hap ⊢
    exact main _ hlast hap
  · rw [if_neg hji] at hap ⊢
    exact main j (by omega) hap

theorem RemovePlayer_detach_inv {s : PlayerManager} {env : Env} {index : Nat}
    (ht : TableInv s) (hinv : AttachInv s) (hi : index < s.player_count) :
    TableInv (RemovePlayer.detach s env index) ∧ AttachInv (RemovePlayer.detach s env index) ∧
    ∀ j, j < (RemovePlayer.detach s env index).player_count →
      ((RemovePlayer.detach s env index).players j).attach_parent ≠ kInvalidPlayerId →
      ((RemovePlayer.detach s env index).players j).attach_parent ≠
        ((RemovePlayer.detach s env index).players index).id := by
  have hf := RemovePlayer_detach_frame s env index
  have hpl := RemovePlayer_detach_players s env index
  have hf1 : LinkFrame s (s.emit (Effect.ClearWeapons (s.players index).id)) := LinkFrame_emit _ _
  have ht1 := TableInv_of_frame hf1.1 ht
  have hinv1 := AttachInv_of_linkFrame hf1 hinv
  have hi1 : index < (s.emit (Effect.ClearWeapons (s.players index).id)).player_count := hi
  have hf2 := DetachPlayer_frame (s.emit (Effect.ClearWeapons (s.players index).id)) index
  have ht2 := TableInv_of_frame hf2 ht1
  have hinv2 := DetachPlayer_attachInv ht1 hinv1 hi1
  have hi2 : index < (DetachPlayer (s.emit (Effect.ClearWeapons (s.players index).id))
      index).player_count := by rw [hf2.1]; exact hi1
  obtain ⟨hinv3, hfree3⟩ := DetachAllChildren_attachInv ht2 hinv2 hi2
  have hf3 := DetachAllChildren_frame
    (DetachPlayer (s.emit (Effect.ClearWeapons (s.players index).id)) index) index
  refine ⟨TableInv_of_frame hf ht, ?_, ?_⟩
  · intro i hi' hap
    rw [hf.1] at hi'
    rw [hpl] at hap
    obtain ⟨j, hj, hid, hnode⟩ := hinv3 i (by rw [hf3.1, hf2.1]; exact hi') hap
    refine ⟨j, by rw [hf.1]; rw [hf3.1, hf2.1] at hj; exact hj, ?_, ?_⟩
    · rw [hpl]; exact hid
    · rw [hpl]; exact hnode
  · intro j hj hap
    rw [hf.1] at hj
    rw [hpl] at hap ⊢
    have := hfree3 j (by rw [hf2.1]; exact hj) hap
    rw [(hf3.2.2.2 index).1]
    exact this

theorem RemovePlayer_inv {s s' : PlayerManager} {env : Env} {player : Option Nat}
    (ht : TableInv s) (hinv : AttachInv s) (hlive : ∀ i, player = some i → i < s.player_count)
    (h : RemovePlayer s env player = some s') : TableInv s' ∧ AttachInv s' := by
  refine ⟨RemovePlayer_tableInv ht hlive h, ?_⟩
  cases player with
  | none =>
    simp [RemovePlayer] at h
    rw [← h]; exact hinv
  | some i =>
    have hi := hlive i rfl
    have hlt : i < kMaxPlayers := lt_of_lt_of_le hi ht.1
    rw [RemovePlayer_some s env i hlt] at h
    obtain ⟨_, hinv5, hfree5⟩ := @RemovePlayer_detach_inv s env i ht hinv hi
    have hi5 : i < (RemovePlayer.detach s env i).player_count := by
      rw [(RemovePlayer_detach_frame s env i).1]; exact hi
    have := swapPop_attachInv hinv5 hi5 hfree5
    simp at h
    rw [← h]; exact this

theorem parent_after_removal {s s1 : PlayerManager} {env : Env} {pkt : PlayerEnterPacket}
    (ht : TableInv s) (hpar : ParentResolves s pkt)
    (h : (GetPlayerByName s pkt.name = none ∧ s1 = s) ∨
      (∃ e, GetPlayerByName s pkt.name = some e ∧ RemovePlayer s env (some e) = some s1)) :
    u16 pkt.attach_parent = kInvalidPlayerId ∨ u16 pkt.attach_parent = u16 pkt.id ∨
    ∃ i, i < s1.player_count ∧ (s1.players i).id = u16 pkt.attach_parent := by
  rcases hpar with h1 | h2 | ⟨i, hi, hid, hne⟩
  · exact Or.inl h1
  · exact Or.inr (Or.inl h2)
  · refine Or.inr (Or.inr ?_)
    rcases h with ⟨_, rfl⟩ | ⟨e, hn, hr⟩
    · exact ⟨i, hi, hid⟩
    · obtain ⟨he, _⟩ := GetPlayerByName_some hn
      have hlt : e < kMaxPlayers := lt_of_lt_of_le he ht.1
      rw [RemovePlayer_some s env e hlt] at hr
      have hs1 : s1 = swapPop (RemovePlayer.detach s env e) e := by simpa using hr.symm
      obtain ⟨hc, _, _, hp⟩ := RemovePlayer_detach_frame s env e
      subst hs1
      have hie : i ≠ e := by
        intro heq
        apply hne
        rw [hn, heq]
      by_cases hil : i = s.player_count - 1
      · refine ⟨e, ?_, ?_⟩
        · show e < (RemovePlayer.detach s env e).player_count - 1
          rw [hc]; omega
        · show ((if e = e then (RemovePlayer.detach s env e).players
            ((RemovePlayer.detach s env e).player_count - 1)
            else (RemovePlayer.detach s env e).players e)).id = _
          rw [if_pos rfl, hc, (hp _).1, ← hil]; exact hid
      · refine ⟨i, ?_, ?_⟩
        · show i < (RemovePlayer.detach s env e).player_count - 1
          rw [hc]; omega
        · show ((if i = e then (RemovePlayer.detach s env e).players
            ((RemovePlayer.detach s env e).player_count - 1)
            else (RemovePlayer.detach s env e).players i)).id = _
          rw [if_neg hie, (hp _).1]; exact hid

theorem push_players (s : PlayerManager) (pkt : PlayerEnterPacket) (j : Nat) :
    (OnPlayerEnter.push s pkt).players j =
      if j = s.player_count then OnPlayerEnter.newPlayer pkt else s.players j := rfl

theorem link_linkInv {s : PlayerManager} {env : Env} {n : Nat} (ht : TableInv s)
    (hn : n < s.player_count)
    (hinv : ∀ i, i < s.player_count → i ≠ n → (s.players i).attach_parent ≠ kInvalidPlayerId →
      ∃ j, j < s.player_count ∧ (s.players j).id = (s.players i).attach_parent ∧
        hasNode (s.players j).children (s.players i).id)
    (hpar : (s.players n).attach_parent = kInvalidPlayerId ∨
      ∃ i, i < s.player_count ∧ (s.players i).id = (s.players n).attach_parent) :
    AttachInv (OnPlayerEnter.link s env n) := by
  unfold OnPlayerEnter.link
  dsimp only
  have key : ∀ s3 : PlayerManager, AttachInv s3 →
      AttachInv ((if env.chat_controller ∧ s3.received_initial_list then
        s3.emit (Effect.ChatEntered (s3.players n).name) else s3).emit
        (Effect.PlayerEnterEvent
          ((if env.chat_controller ∧ s3.received_initial_list then
            s3.emit (Effect.ChatEntered (s3.players n).name) else s3).players n).id)) := by
    intro s3 h3
    apply AttachInv_of_linkFrame (LinkFrame_emit _ _)
    split_ifs
    · exact AttachInv_of_linkFrame (LinkFrame_emit _ _) h3
    · exact h3
  apply key
  by_cases hap : (s.players n).attach_parent ≠ kInvalidPlayerId
  · rw [if_pos hap]
    rcases hpar with h0 | ⟨i, hi, hid⟩
    · exact absurd h0 hap
    · have hg : GetPlayerById s (s.players n).attach_parent = some i := by
        rw [← hid]; exact TableInv_getPlayerById_live ht hi
      rw [hg]
      exact AttachPlayer_attachInv hinv hi
  · rw [if_neg hap]
    intro i hi hapi
    by_cases hin : i = n
    · subst hin; exact absurd hapi hap
    · exact hinv i hi hin hapi

theorem OnPlayerEnter_inv {s s' : PlayerManager} {env : Env} {pkt : PlayerEnterPacket}
    (ht : TableInv s) (hinv : AttachInv s) (hwf : WellFormedEnter s pkt)
    (h : OnPlayerEnter s env pkt = some s') : TableInv s' ∧ AttachInv s' := by
  refine ⟨OnPlayerEnter_tableInv ht hwf.1 h, ?_⟩
  obtain ⟨s1, hrem, hroom, rfl⟩ := OnPlayerEnter_some h
  obtain ⟨ht1, hfresh1⟩ := fresh_after_removal ht hwf.1 hrem
  have hpar1 := parent_after_removal ht hwf.2 hrem
  have hinv1 : AttachInv s1 := by
    rcases hrem with ⟨_, rfl⟩ | ⟨e, hn, hr⟩
    · exact hinv
    · exact (RemovePlayer_inv ht hinv
        (fun i hi => by cases hi; exact (GetPlayerByName_some hn).1) hr).2
  have ht2 := push_tableInv ht1 hroom hfresh1
  have hc2 : (OnPlayerEnter.push s1 pkt).player_count = s1.player_count + 1 := rfl
  apply link_linkInv ht2 (by rw [hc2]; omega)
  · intro i hi hin hap
    rw [hc2] at hi
    rw [push_players, if_neg hin] at hap
    obtain ⟨j, hj, hid, hnode⟩ := hinv1 i (by omega) hap
    have hjn : j ≠ s1.player_count := by omega
    refine ⟨j, by rw [hc2]; omega, ?_, ?_⟩
    · rw [push_players, push_players, if_neg hjn, if_neg hin]; exact hid
    · rw [push_players, push_players, if_neg hjn, if_neg hin]; exact hnode
  · rw [push_players, if_pos rfl]
    show u16 pkt.attach_parent = kInvalidPlayerId ∨ _
    rcases hpar1 with h0 | h1 | ⟨i, hi, hid⟩
    · exact Or.inl h0
    · refine Or.inr ⟨s1.player_count, by rw [hc2]; omega, ?_⟩
      rw [push_players, if_pos rfl]
      exact h1.symm
    · have hin : i ≠ s1.player_count := by omega
      refine Or.inr ⟨i, by rw [hc2]; omega, ?_⟩
      rw [push_players, if_neg hin]
      exact hid

/-! ## Handlers that detach in both directions -/

theorem LinkFrame_of_fields {s s' : PlayerManager} (h1 : s'.player_count = s.player_count)
    (h2 : s'.player_lookup = s.player_lookup) (h3 : s'.player_id = s.player_id)
    (h4 : s'.players = s.players) : LinkFrame s s' :=
  ⟨Frame_of_fields h1 h2 h3 h4, fun j => by rw [h4]; exact ⟨rfl, rfl⟩⟩

theorem Spawn_linkFrame (s : PlayerManager) (env : Env) (reset : Bool) :
    LinkFrame s (Spawn s env reset) := by
  unfold Spawn
  cases GetSelf s with
  | none => exact LinkFrame_refl s
  | some self =>
    dsimp only
    refine LinkFrame_trans (b := _) ?_ (LinkFrame_emit _ _)
    refine LinkFrame_trans (b := _) ?_ (LinkFrame_setPlayer _ self _ rfl rfl rfl rfl)
    have h1 : LinkFrame s (s.setPlayer self { s.players self with position := Spawn.search s env self }) :=
      LinkFrame_setPlayer s self _ rfl rfl rfl rfl
    cases reset with
    | false => exact h1
    | true =>
      refine LinkFrame_trans h1 ?_
      exact LinkFrame_of_fields rfl rfl rfl rfl

theorem OnPlayerFrequencyChange_linkFrame (s : PlayerManager) (env : Env) (pid frequency p : Nat)
    (hg : GetPlayerById s (u16 pid) = some p) :
    LinkFrame (DetachAllChildren (DetachPlayer s p) p)
      (OnPlayerFrequencyChange s env pid frequency) := by
  unfold OnPlayerFrequencyChange
  rw [hg]
  dsimp only
  generalize DetachAllChildren (DetachPlayer s p) p = X
  have key : ∀ s4 : PlayerManager, LinkFrame X s4 →
      LinkFrame X (if (s4.players p).id = s4.player_id then Spawn s4 env true else s4) := by
    intro s4 h
    split_ifs
    · exact LinkFrame_trans h (Spawn_linkFrame _ env true)
    · exact h
  apply key
  refine LinkFrame_trans (b := _) ?_ (LinkFrame_emit _ _)
  refine LinkFrame_trans (b := _) ?_ (LinkFrame_emit _ _)
  exact LinkFrame_setPlayer _ p _ rfl rfl rfl rfl

theorem OnPlayerFreqAndShipChange_linkFrame (s : PlayerManager) (env : Env)
    (ship pid freq p : Nat) (hg : GetPlayerById s (u16 pid) = some p) :
    LinkFrame (DetachAllChildren (DetachPlayer s p) p)
      (OnPlayerFreqAndShipChange s env ship pid freq) := by
  unfold OnPlayerFreqAndShipChange
  rw [hg]
  dsimp only
  generalize DetachAllChildren (DetachPlayer s p) p = X
  refine LinkFrame_trans (b := _) ?_ (LinkFrame_emit _ _)
  have key : ∀ s3 : PlayerManager, LinkFrame X s3 →
      LinkFrame X (if (s3.players p).id = s3.player_id then Spawn s3 env true else s3) := by
    intro s3 h
    split_ifs
    · exact LinkFrame_trans h (Spawn_linkFrame _ env true)
    · exact h
  apply key
  refine LinkFrame_trans (b := _) ?_ (LinkFrame_emit _ _)
  exact LinkFrame_setPlayer _ p _ rfl rfl rfl rfl

theorem reward_linkFrame (s1 : PlayerManager) (env : Env) (ft r : Nat) (killed : Option Nat) :
    LinkFrame s1 (OnPlayerDeath.reward s1 env ft r killed) := by
  unfold OnPlayerDeath.reward
  dsimp only
  have ha : LinkFrame s1 (s1.setPlayer r { s1.players r with
      flags := u16 ((s1.players r).flags + u16 ft) }) :=
    LinkFrame_setPlayer s1 r _ rfl rfl rfl rfl
  generalize s1.setPlayer r { s1.players r with
      flags := u16 ((s1.players r).flags + u16 ft) } = sa at ha ⊢
  have hb : LinkFrame s1 (if 0 < u16 ft then
      sa.setPlayer r { sa.players r with flag_timer := env.FlagDropDelay } else sa) := by
    split_ifs
    · exact LinkFrame_trans ha (LinkFrame_setPlayer sa r _ rfl rfl rfl rfl)
    · exact ha
  generalize (if 0 < u16 ft then
      sa.setPlayer r { sa.players r with flag_timer := env.FlagDropDelay } else sa) = sb at hb ⊢
  cases killed with
  | none => exact hb
  | some k =>
    dsimp only
    split_ifs
    · exact LinkFrame_trans hb (LinkFrame_setPlayer sb r _ rfl rfl rfl rfl)
    · exact hb

theorem OnPlayerDeath_linkFrame (s : PlayerManager) (env : Env) (pkt : PlayerDeathPacket) :
    LinkFrame
      (match GetPlayerById s (u16 pkt.killed_id) with
        | some k => DetachAllChildren (DetachPlayer (s.setPlayer k ((s.players k).killed env)) k) k
        | none => s)
      (OnPlayerDeath s env pkt) := by
  unfold OnPlayerDeath
  dsimp only
  generalize (match GetPlayerById s (u16 pkt.killed_id) with
        | some k => DetachAllChildren (DetachPlayer (s.setPlayer k ((s.players k).killed env)) k) k
        | none => s) = s1
  have h2 : LinkFrame s1 (match GetPlayerById s (u16 pkt.killer_id) with
      | some r =>
        if GetPlayerById s (u16 pkt.killer_id) ≠ GetPlayerById s (u16 pkt.killed_id) then
          OnPlayerDeath.reward s1 env pkt.flag_transfer r (GetPlayerById s (u16 pkt.killed_id))
        else s1
      | none => s1) := by
    cases GetPlayerById s (u16 pkt.killer_id) with
    | none => exact LinkFrame_refl s1
    | some r =>
      dsimp only
      split_ifs
      · exact reward_linkFrame _ _ _ _ _
      · exact LinkFrame_refl s1
  generalize (match GetPlayerById s (u16 pkt.killer_id) with
      | some r =>
        if GetPlayerById s (u16 pkt.killer_id) ≠ GetPlayerById s (u16 pkt.killed_id) then
          OnPlayerDeath.reward s1 env pkt.flag_transfer r (GetPlayerById s (u16 pkt.killed_id))
        else s1
      | none => s1) = s2 at h2 ⊢
  cases GetPlayerById s (u16 pkt.killer_id) with
  | none => exact h2
  | some r =>
    cases GetPlayerById s (u16 pkt.killed_id) with
    | none => exact h2
    | some k => exact LinkFrame_trans h2 (LinkFrame_emit _ _)

theorem detachBoth_spec (s : PlayerManager) (p : Nat) :
    ((DetachAllChildren (DetachPlayer s p) p).players p).children = [] ∧
    ((DetachAllChildren (DetachPlayer s p) p).players p).attach_parent = kInvalidPlayerId := by
  constructor
  · rw [DetachAllChildren_children, if_pos rfl]
  · by_cases hr : ∃ n, n ∈ ((DetachPlayer s p).players p).children ∧
        resetsSlot (DetachPlayer s p) p n p
    · exact (DetachAllChildren_reset _ p p hr).1
    · rw [(DetachAllChildren_keep _ p p hr).1, DetachPlayer_attach_parent, if_pos rfl]

theorem detachBoth_inv {s : PlayerManager} {p : Nat} (ht : TableInv s) (hinv : AttachInv s)
    (hp : p < s.player_count) :
    Frame s (DetachAllChildren (DetachPlayer s p) p) ∧
    TableInv (DetachAllChildren (DetachPlayer s p) p) ∧
    AttachInv (DetachAllChildren (DetachPlayer s p) p) ∧
    ∀ i, i < s.player_count →
      ((DetachAllChildren (DetachPlayer s p) p).players i).attach_parent ≠ kInvalidPlayerId →
      ((DetachAllChildren (DetachPlayer s p) p).players i).attach_parent ≠ (s.players p).id := by
  have hf1 := DetachPlayer_frame s p
  have ht1 := TableInv_of_frame hf1 ht
  have hinv1 := DetachPlayer_attachInv ht hinv hp
  have hp1 : p < (DetachPlayer s p).player_count := by rw [hf1.1]; exact hp
  have hf2 := DetachAllChildren_frame (DetachPlayer s p) p
  obtain ⟨hinv2, hfree⟩ := DetachAllChildren_attachInv ht1 hinv1 hp1
  refine ⟨Frame_trans hf1 hf2, TableInv_of_frame hf2 ht1, hinv2, fun i hi hap => ?_⟩
  have := hfree i (by rw [hf1.1]; exact hi) hap
  rwa [(hf1.2.2.2 p).1] at this

/-- What the three handlers of C3 leave behind, given a state `X` with the
same table and links as the result of detaching `p` in both directions. -/
theorem detached_of_linkFrame {s0 X s' : PlayerManager} {p : Nat}
    (hX : X = DetachAllChildren (DetachPlayer s0 p) p) (hl : LinkFrame X s') :
    (s'.players p).children = [] ∧ (s'.players p).attach_parent = kInvalidPlayerId ∧
    (TableInv s0 → AttachInv s0 → p < s0.player_count → (s0.players p).id ≠ kInvalidPlayerId →
      ∀ j, j < s'.player_count → (s'.players j).attach_parent ≠ (s'.players p).id) := by
  subst hX
  obtain ⟨h1, h2⟩ := detachBoth_spec s0 p
  refine ⟨by rw [(hl.2 p).2]; exact h1, by rw [(hl.2 p).1]; exact h2, ?_⟩
  intro ht hinv hp hid j hj
  obtain ⟨hf, _, _, hfree⟩ := detachBoth_inv ht hinv hp
  rw [hl.1.1, hf.1] at hj
  rw [(hl.2 j).1, (hl.1.2.2.2 p).1, (hf.2.2.2 p).1]
  by_cases hap : ((DetachAllChildren (DetachPlayer s0 p) p).players j).attach_parent
      = kInvalidPlayerId
  · rw [hap]; exact fun h => hid h.symm
  · exact hfree j hj hap

/-! ## C3: detached in both directions after a team change or a death -/

/-- C3, as stated, fails in its last part: in a table reached by two enter
packets, the first naming the id of the second as attach parent, a frequency
change of the second player (id 5, slot 1) leaves the first player's
`attach_parent` equal to 5. -/
theorem C3_detached_after_change_counterexample :
    ¬ (∀ (s : PlayerManager) (env : Env) (pid frequency p : Nat),
      GetPlayerById s (u16 pid) = some p → p < s.player_count →
      ∀ j, j < s.player_count → j ≠ p →
        ((OnPlayerFrequencyChange s env pid frequency).players j).attach_parent ≠
          ((OnPlayerFrequencyChange s env pid frequency).players p).id) := by
  intro hall
  exact hall danglingTable quietEnv 5 3 1 rfl (by decide) 0 (by decide) (by decide) (by decide)

/-- C3, amended: after `OnPlayerFrequencyChange` or `OnPlayerFreqAndShipChange`
for a live player P, and after `OnPlayerDeath` for the killed player P,
`P.children` is empty and `P.attach_parent` is the invalid id; and when the
state before the handler satisfies the table invariant and the attachment
invariant and P's id is a valid id, no player's `attach_parent` equals P's
id afterwards. -/
theorem C3_detached_after_change (s : PlayerManager) (env : Env) (p : Nat) :
    (∀ pid frequency, GetPlayerById s (u16 pid) = some p →
      ((OnPlayerFrequencyChange s env pid frequency).players p).children = [] ∧
      ((OnPlayerFrequencyChange s env pid frequency).players p).attach_parent
        = kInvalidPlayerId ∧
      (TableInv s → AttachInv s → (s.players p).id ≠ kInvalidPlayerId →
        ∀ j, j < (OnPlayerFrequencyChange s env pid frequency).player_count →
          ((OnPlayerFrequencyChange s env pid frequency).players j).attach_parent ≠
            ((OnPlayerFrequencyChange s env pid frequency).players p).id)) ∧
    (∀ ship pid freq, GetPlayerById s (u16 pid) = some p →
      ((OnPlayerFreqAndShipChange s env ship pid freq).players p).children = [] ∧
      ((OnPlayerFreqAndShipChange s env ship pid freq).players p).attach_parent
        = kInvalidPlayerId ∧
      (TableInv s → AttachInv s → (s.players p).id ≠ kInvalidPlayerId →
        ∀ j, j < (OnPlayerFreqAndShipChange s env ship pid freq).player_count →
          ((OnPlayerFreqAndShipChange s env ship pid freq).players j).attach_parent ≠
            ((OnPlayerFreqAndShipChange s env ship pid freq).players p).id)) ∧
    (∀ pkt : PlayerDeathPacket, GetPlayerById s (u16 pkt.killed_id) = some p →
      ((OnPlayerDeath s env pkt).players p).children = [] ∧
      ((OnPlayerDeath s env pkt).players p).attach_parent = kInvalidPlayerId ∧
      (TableInv s → AttachInv s → (s.players p).id ≠ kInvalidPlayerId →
        ∀ j, j < (OnPlayerDeath s env pkt).player_count →
          ((OnPlayerDeath s env pkt).players j).attach_parent ≠
            ((OnPlayerDeath s env pkt).players p).id)) := by
  refine ⟨?_, ?_, ?_⟩
  · intro pid frequency hg
    obtain ⟨h1, h2, h3⟩ := detached_of_linkFrame rfl
      (OnPlayerFrequencyChange_linkFrame s env pid frequency p hg)
    exact ⟨h1, h2, fun ht hinv hid =>
      h3 ht hinv (TableInv_getPlayerById_some ht hg).1 hid⟩
  · intro ship pid freq hg
    obtain ⟨h1, h2, h3⟩ := detached_of_linkFrame rfl
      (OnPlayerFreqAndShipChange_linkFrame s env ship pid freq p hg)
    exact ⟨h1, h2, fun ht hinv hid =>
      h3 ht hinv (TableInv_getPlayerById_some ht hg).1 hid⟩
  · intro pkt hg
    have hl := OnPlayerDeath_linkFrame s env pkt
    rw [hg] at hl
    have hsa : LinkFrame s (s.setPlayer p ((s.players p).killed env)) :=
      LinkFrame_setPlayer s p _ rfl rfl rfl rfl
    obtain ⟨h1, h2, h3⟩ := detached_of_linkFrame rfl hl
    refine ⟨h1, h2, fun ht hinv hid => ?_⟩
    have hp := (TableInv_getPlayerById_some ht hg).1
    exact h3 (TableInv_of_frame hsa.1 ht) (AttachInv_of_linkFrame hsa hinv) hp
      (by rw [(hsa.1.2.2.2 p).1]; exact hid)

theorem turretTable_attachInv : AttachInv turretTable := by
  intro i hi hap
  have hi3 : i < 3 := hi
  interval_cases i
  · exact absurd rfl hap
  · exact ⟨0, by decide, rfl, ⟨0, 3⟩, by decide, rfl⟩
  · exact ⟨0, by decide, rfl, ⟨1, 9⟩, by decide, rfl⟩

/-- C3 at a concrete input: the carrier with id 7 (slot 0) of the turret table
changes ship and frequency; afterwards it has no children and no parent, and
neither turret still names 7 as its parent. -/
theorem C3_detached_after_change_witness :
    TableInv turretTable ∧ AttachInv turretTable ∧
    GetPlayerById turretTable (u16 7) = some 0 ∧
    ((OnPlayerFreqAndShipChange turretTable quietEnv 2 7 20).players 0).children = [] ∧
    ((OnPlayerFreqAndShipChange turretTable quietEnv 2 7 20).players 0).attach_parent
      = kInvalidPlayerId ∧
    ∀ j, j < (OnPlayerFreqAndShipChange turretTable quietEnv 2 7 20).player_count →
      ((OnPlayerFreqAndShipChange turretTable quietEnv 2 7 20).players j).attach_parent ≠
        ((OnPlayerFreqAndShipChange turretTable quietEnv 2 7 20).players 0).id := by
  have hg : GetPlayerById turretTable (u16 7) = some 0 := rfl
  obtain ⟨h1, h2, h3⟩ := (C3_detached_after_change turretTable quietEnv 0).2.1 2 7 20 hg
  exact ⟨turretTable_tableInv, turretTable_attachInv, hg, h1, h2,
    h3 turretTable_tableInv turretTable_attachInv (by decide)⟩

/-! ## The handlers keep the graph invariant -/

theorem GraphInv_of_linkFrame {s s' : PlayerManager} (h : LinkFrame s s') (hinv : GraphInv s) :
    GraphInv s' :=
  ⟨TableInv_of_frame h.1 hinv.1, AttachInv_of_linkFrame h hinv.2⟩

theorem DetachPlayer_graphInv {s : PlayerManager} {p : Nat} (hinv : GraphInv s)
    (hp : p < s.player_count) : GraphInv (DetachPlayer s p) :=
  ⟨TableInv_of_frame (DetachPlayer_frame s p) hinv.1, DetachPlayer_attachInv hinv.1 hinv.2 hp⟩

theorem DetachAllChildren_graphInv {s : PlayerManager} {p : Nat} (hinv : GraphInv s)
    (hp : p < s.player_count) : GraphInv (DetachAllChildren s p) :=
  ⟨TableInv_of_frame (DetachAllChildren_frame s p) hinv.1,
    (DetachAllChildren_attachInv hinv.1 hinv.2 hp).1⟩

theorem AttachPlayer_graphInv {s : PlayerManager} {r d : Nat} (hinv : GraphInv s)
    (hd : d < s.player_count) : GraphInv (AttachPlayer s r d) :=
  ⟨TableInv_of_frame (AttachPlayer_frame s r d) hinv.1,
    AttachPlayer_attachInv (fun i hi _ hap => hinv.2 i hi hap) hd⟩

theorem detachBoth_graphInv {s : PlayerManager} {p : Nat} (hinv : GraphInv s)
    (hp : p < s.player_count) : GraphInv (DetachAllChildren (DetachPlayer s p) p) := by
  obtain ⟨_, h2, h3, _⟩ := detachBoth_inv hinv.1 hinv.2 hp
  exact ⟨h2, h3⟩

theorem OnPlayerFrequencyChange_graphInv {s : PlayerManager} (env : Env) (pid frequency : Nat)
    (hinv : GraphInv s) : GraphInv (OnPlayerFrequencyChange s env pid frequency) := by
  cases hg : GetPlayerById s (u16 pid) with
  | none =>
    have : OnPlayerFrequencyChange s env pid frequency = s := by
      unfold OnPlayerFrequencyChange; rw [hg]
    rw [this]; exact hinv
  | some p =>
    exact GraphInv_of_linkFrame (OnPlayerFrequencyChange_linkFrame s env pid frequency p hg)
      (detachBoth_graphInv hinv (TableInv_getPlayerById_some hinv.1 hg).1)

theorem OnPlayerFreqAndShipChange_graphInv {s : PlayerManager} (env : Env) (ship pid freq : Nat)
    (hinv : GraphInv s) : GraphInv (OnPlayerFreqAndShipChange s env ship pid freq) := by
  cases hg : GetPlayerById s (u16 pid) with
  | none =>
    have : OnPlayerFreqAndShipChange s env ship pid freq = s := by
      unfold OnPlayerFreqAndShipChange; rw [hg]
    rw [this]; exact hinv
  | some p =>
    exact GraphInv_of_linkFrame (OnPlayerFreqAndShipChange_linkFrame s env ship pid freq p hg)
      (detachBoth_graphInv hinv (TableInv_getPlayerById_some hinv.1 hg).1)

theorem OnPlayerDeath_graphInv {s : PlayerManager} (env : Env) (pkt : PlayerDeathPacket)
    (hinv : GraphInv s) : GraphInv (OnPlayerDeath s env pkt) := by
  apply GraphInv_of_linkFrame (OnPlayerDeath_linkFrame s env pkt)
  cases hg : GetPlayerById s (u16 pkt.killed_id) with
  | none => exact hinv
  | some k =>
    dsimp only
    have hsa : LinkFrame s (s.setPlayer k ((s.players k).killed env)) :=
      LinkFrame_setPlayer s k _ rfl rfl rfl rfl
    exact detachBoth_graphInv (GraphInv_of_linkFrame hsa hinv)
      (TableInv_getPlayerById_some hinv.1 hg).1

theorem OnDestroyTurretLink_graphInv {s : PlayerManager} (pid : Nat) (hinv : GraphInv s) :
    GraphInv (OnDestroyTurretLink s pid) := by
  unfold OnDestroyTurretLink
  cases hg : GetPlayerById s (u16 pid) with
  | none => exact hinv
  | some p =>
    dsimp only
    have hp := (TableInv_getPlayerById_some hinv.1 hg).1
    have h1 : LinkFrame s (match GetSelf s with
        | some self =>
          if (s.players self).attach_parent = u16 pid ∧ (s.players self).enter_delay ≤ 0 then
            ({ s with requesting_attach := false }).emit
              (Effect.SendAttachRequest kInvalidPlayerId)
          else s
        | none => s) := by
      cases GetSelf s with
      | none => exact LinkFrame_refl s
      | some self =>
        dsimp only
        split_ifs
        · exact LinkFrame_of_fields rfl rfl rfl rfl
        · exact LinkFrame_refl s
    exact DetachAllChildren_graphInv (GraphInv_of_linkFrame h1 hinv) (by rw [h1.1.1]; exact hp)

theorem OnPlayerLeave_graphInv {s s' : PlayerManager} {env : Env} {pid : Nat}
    (hinv : GraphInv s) (h : OnPlayerLeave s env pid = some s') : GraphInv s' := by
  unfold OnPlayerLeave at h
  exact RemovePlayer_inv hinv.1 hinv.2
    (fun i hi => (TableInv_getPlayerById_some hinv.1 hi).1) h

theorem AttachSelf_graphInv {s : PlayerManager} (env : Env) (destination : Option Nat)
    (hinv : GraphInv s) (hd : ∀ d, destination = some d → d < s.player_count) :
    GraphInv (AttachSelf s env destination).2 := by
  cases destination with
  | none => exact hinv
  | some d =>
    have hdlt := hd d rfl
    cases hself : GetSelf s with
    | none =>
      unfold AttachSelf
      simp only [hself]
      split_ifs <;> exact hinv
    | some self =>
      have hselflt := (TableInv_getPlayerById_some hinv.1 hself).1
      by_cases hsucc : (AttachSelf s env (some d)).1 = AttachRequestResponse.Success
      · have hall := (AttachSelf_success_iff s env d self hself).mp hsucc
        rw [AttachSelf_success_state s env d self hself hall]
        have h2 : LinkFrame s
            { (s.emit (Effect.SendAttachRequest (s.players d).id)) with
              ship := { s.ship with
                fake_antiwarp_end_tick := u32 (env.tick + env.AntiwarpSettleDelay) } } :=
          LinkFrame_of_fields rfl rfl rfl rfl
        have h3 := AttachPlayer_graphInv (r := self) (GraphInv_of_linkFrame h2 hinv)
          (d := d) hdlt
        exact GraphInv_of_linkFrame (LinkFrame_of_fields rfl rfl rfl rfl) h3
      · unfold AttachSelf at hsucc ⊢
        simp only [hself] at hsucc ⊢
        by_cases h1 : env.carrying_ball = true
        · rw [if_pos h1]; exact hinv
        rw [if_neg h1] at hsucc ⊢
        by_cases h2 : (s.players self).attach_parent ≠ kInvalidPlayerId
        · rw [if_pos h2]
          exact DetachPlayer_graphInv (GraphInv_of_linkFrame (LinkFrame_emit _ _) hinv) hselflt
        rw [if_neg h2] at hsucc ⊢
        by_cases h3 : (s.players self).children ≠ []
        · rw [if_pos h3]
          exact GraphInv_of_linkFrame (LinkFrame_emit _ _) hinv
        rw [if_neg h3] at hsucc ⊢
        by_cases h4 : (s.players self).energy < (s.ship.energy : ℚ)
        · rw [if_pos h4]; exact hinv
        rw [if_neg h4] at hsucc ⊢
        by_cases h5 : (s.players self).bounty < (env.ShipSettings (s.players self).ship).AttachBounty
        · rw [if_pos h5]; exact hinv
        rw [if_neg h5] at hsucc ⊢
        by_cases h6 : (s.players self).id = (s.players d).id
        · rw [if_pos h6]; exact hinv
        rw [if_neg h6] at hsucc ⊢
        by_cases h7 : (s.players self).frequency ≠ (s.players d).frequency
        · rw [if_pos h7]; exact hinv
        rw [if_neg h7] at hsucc ⊢
        by_cases h8 : 8 ≤ (s.players d).ship
        · rw [if_pos h8]; exact hinv
        rw [if_neg h8] at hsucc ⊢
        by_cases h9 : (env.ShipSettings (s.players d).ship).TurretLimit = 0
        · rw [if_pos h9]; exact hinv
        rw [if_neg h9] at hsucc ⊢
        by_cases h10 : (env.ShipSettings (s.players d).ship).TurretLimit ≤
            GetTurretCount (s.players d)
        · rw [if_pos h10]; exact hinv
        rw [if_neg h10] at hsucc ⊢
        by_cases h11 : IsAntiwarped s env self = true
        · rw [if_pos h11]; exact hinv
        rw [if_neg h11] at hsucc
        exact absurd rfl hsucc

theorem OnCreateTurretLink_graphInv {s : PlayerManager} (request_id size destination_id : Nat)
    (hinv : GraphInv s) : GraphInv (OnCreateTurretLink s request_id size destination_id) := by
  unfold OnCreateTurretLink
  by_cases hsize : size < 5
  · rw [if_pos hsize]
    cases hself : GetSelf s with
    | none => exact hinv
    | some self =>
      exact DetachPlayer_graphInv hinv (TableInv_getPlayerById_some hinv.1 hself).1
  · rw [if_neg hsize]
    dsimp only
    cases hr : GetPlayerById s (u16 request_id) with
    | none =>
      simp only [Option.isSome_none, Bool.false_eq_true, false_and, if_false]
      exact hinv
    | some r =>
      have hrlt := (TableInv_getPlayerById_some hinv.1 hr).1
      by_cases hdi : u16 destination_id = kInvalidPlayerId
      · simp only [Option.isSome_some, hdi, and_self, if_true]
        exact DetachPlayer_graphInv hinv hrlt
      · simp only [Option.isSome_some, hdi, and_false, if_false]
        cases hd : GetPlayerById s (u16 destination_id) with
        | none => exact hinv
        | some d =>
          have hdlt := (TableInv_getPlayerById_some hinv.1 hd).1
          dsimp only
          generalize (if (s.players r).id = s.player_id then
              match GetSelf s with
              | some self =>
                if (s.players self).attach_parent = u16 destination_id then some self else none
              | none => none
            else none) = confirmed
          cases confirmed with
          | some self =>
            dsimp only
            split_ifs
            · refine GraphInv_of_linkFrame ?_ hinv
              refine LinkFrame_trans (b := _) ?_ (LinkFrame_emit _ _)
              refine LinkFrame_trans
                (LinkFrame_setPlayer s self { s.players self with
                  energy := (s.players self).energy * (333 / 1000) } rfl rfl rfl rfl) ?_
              exact LinkFrame_of_fields rfl rfl rfl rfl
            · exact hinv
          | none =>
            dsimp only
            have h1 := AttachPlayer_graphInv (r := r) hinv hdlt
            have h2 := GraphInv_of_linkFrame (LinkFrame_emit (AttachPlayer s r d)
              (Effect.PlayerAttachEvent ((AttachPlayer s r d).players r).id
                ((AttachPlayer s r d).players d).id)) h1
            split_ifs
            · exact GraphInv_of_linkFrame (LinkFrame_setPlayer _ r _ rfl rfl rfl rfl) h2
            · exact h2

theorem AttachReachable_graphInv {s : PlayerManager} (h : AttachReachable WellFormedEnter s) :
    GraphInv s := by
  induction h with
  | init s h0 hl =>
    refine ⟨⟨by rw [h0]; exact Nat.zero_le _, fun i hi => ?_, fun id hid => ?_⟩, fun i hi _ => ?_⟩
    · rw [h0] at hi; exact absurd hi (Nat.not_lt_zero i)
    · rw [hl id] at hid; exact absurd hid (lt_irrefl _)
    · rw [h0] at hi; exact absurd hi (Nat.not_lt_zero i)
  | enter s s' env pkt _ hok h ih => exact OnPlayerEnter_inv ih.1 ih.2 hok h
  | leave s s' env pid _ h ih => exact OnPlayerLeave_graphInv ih h
  | createLink s rid size did _ ih => exact OnCreateTurretLink_graphInv rid size did ih
  | destroyLink s pid _ ih => exact OnDestroyTurretLink_graphInv pid ih
  | death s env pkt _ ih => exact OnPlayerDeath_graphInv env pkt ih
  | frequencyChange s env pid frequency _ ih =>
    exact OnPlayerFrequencyChange_graphInv env pid frequency ih
  | freqAndShipChange s env ship pid freq _ ih =>
    exact OnPlayerFreqAndShipChange_graphInv env ship pid freq ih
  | attachSelf s env destination _ hd ih => exact AttachSelf_graphInv env destination ih hd

/-! ## C2: the attachment invariant over reachable states -/

theorem freshId_of_ne {s : PlayerManager} {pkt : PlayerEnterPacket}
    (h : ∀ i, i < s.player_count → (s.players i).id ≠ u16 pkt.id) : FreshId s pkt :=
  fun i hi heq => absurd heq (h i hi)

theorem pairTable_reachable : AttachReachable WellFormedEnter pairTable := by
  have h0 : AttachReachable WellFormedEnter emptyTable :=
    AttachReachable.init emptyTable rfl (fun _ => rfl)
  have h1 : AttachReachable WellFormedEnter (enterAll [enterPacket 65 1 0xFFFF]) := by
    refine AttachReachable.enter emptyTable _ quietEnv (enterPacket 65 1 0xFFFF) h0 ?_ rfl
    exact ⟨freshId_of_ne (fun i hi => absurd hi (Nat.not_lt_zero i)), Or.inl rfl⟩
  refine AttachReachable.enter _ _ quietEnv (enterPacket 66 2 0xFFFF) h1 ?_ rfl
  refine ⟨freshId_of_ne (fun i hi => ?_), Or.inl rfl⟩
  have hi1 : i < 1 := hi
  interval_cases i
  decide

/-- C2, as stated, fails twice over. An enter packet that names a parent id
no live player holds leaves `attach_parent` set with no such parent in the
table; and even when every enter packet is well formed, a second
`OnCreateTurretLink` for the same requester and destination links a second
node, so the parent's list holds two nodes for the child. -/
theorem C2_attachment_invariant_counterexample :
    ¬ (∀ s, AttachReachable (fun _ _ => True) s → AttachedExactlyOnce s) ∧
    ¬ (∀ s, AttachReachable WellFormedEnter s → AttachedExactlyOnce s) := by
  constructor
  · intro hall
    have h1 : AttachReachable (fun _ _ => True) (enterAll [enterPacket 65 1 5]) :=
      AttachReachable.enter emptyTable _ quietEnv (enterPacket 65 1 5)
        (AttachReachable.init emptyTable rfl (fun _ => rfl)) trivial rfl
    obtain ⟨j, hj, hid, _⟩ := hall _ h1 0 (by decide) (by decide)
    have hj1 : j < 1 := hj
    interval_cases j
    exact absurd hid (by decide)
  · intro hall
    have h2 : AttachReachable WellFormedEnter doubleLinkTable :=
      AttachReachable.createLink _ 2 5 1 (AttachReachable.createLink _ 2 5 1 pairTable_reachable)
    obtain ⟨j, hj, hid, hlen⟩ := hall _ h2 1 (by decide) (by decide)
    have hj2 : j < 2 := hj
    interval_cases j
    · exact absurd hlen (by decide)
    · exact absurd hid (by decide)

/-- C2, amended: in every state reachable from an empty table through the
packet handlers and `AttachSelf`, where every enter packet carries an id that
is not in use and an attach parent that is invalid or resolves to a live
player, every live player P whose `attach_parent` is a valid id Q has Q live
(`GetPlayerById(Q)` returns it) and `Q.children` contains a node whose
`player_id` is P's id. -/
theorem C2_attachment_invariant (s : PlayerManager) (h : AttachReachable WellFormedEnter s) :
    ∀ i, i < s.player_count → (s.players i).attach_parent ≠ kInvalidPlayerId →
      ∃ j, j < s.player_count ∧ (s.players j).id = (s.players i).attach_parent ∧
        GetPlayerById s (s.players i).attach_parent = some j ∧
        hasNode (s.players j).children (s.players i).id := by
  intro i hi hap
  obtain ⟨ht, hinv⟩ := AttachReachable_graphInv h
  obtain ⟨j, hj, hid, hnode⟩ := hinv i hi hap
  exact ⟨j, hj, hid, by rw [← hid]; exact TableInv_getPlayerById_live ht hj, hnode⟩

/-- C2 at a concrete run: player 1 enters, player 2 enters as its turret, and
the server then links player 2 to player 1 once more. Player 2 (slot 1) is
attached to the live player 1 (slot 0), whose children reference it. -/
theorem C2_attachment_invariant_witness :
    AttachReachable WellFormedEnter (OnCreateTurretLink turretEnterTable 2 5 1) ∧
    ((OnCreateTurretLink turretEnterTable 2 5 1).players 1).attach_parent = 1 ∧
    ∃ j, j < (OnCreateTurretLink turretEnterTable 2 5 1).player_count ∧
      ((OnCreateTurretLink turretEnterTable 2 5 1).players j).id = 1 ∧
      GetPlayerById (OnCreateTurretLink turretEnterTable 2 5 1) 1 = some j ∧
      hasNode ((OnCreateTurretLink turretEnterTable 2 5 1).players j).children 2 := by
  have h0 : AttachReachable WellFormedEnter emptyTable :=
    AttachReachable.init emptyTable rfl (fun _ => rfl)
  have h1 : AttachReachable WellFormedEnter (enterAll [enterPacket 65 1 0xFFFF]) := by
    refine AttachReachable.enter emptyTable _ quietEnv (enterPacket 65 1 0xFFFF) h0 ?_ rfl
    exact ⟨freshId_of_ne (fun i hi => absurd hi (Nat.not_lt_zero i)), Or.inl rfl⟩
  have h2 : AttachReachable WellFormedEnter turretEnterTable := by
    refine AttachReachable.enter _ _ quietEnv (enterPacket 66 2 1) h1 ?_ rfl
    refine ⟨freshId_of_ne (fun i hi => ?_), Or.inr (Or.inr ⟨0, by decide, rfl, by decide⟩)⟩
    have hi1 : i < 1 := hi
    interval_cases i
    decide
  have h3 : AttachReachable WellFormedEnter (OnCreateTurretLink turretEnterTable 2 5 1) :=
    AttachReachable.createLink _ 2 5 1 h2
  exact ⟨h3, rfl, C2_attachment_invariant _ h3 1 (by decide) (by decide)⟩

/-! ## Timestamp difference -/

theorem TICK_DIFF_range (a b : Nat) :
    -2147483648 ≤ TICK_DIFF a b ∧ TICK_DIFF a b < 2147483648 := by
  unfold TICK_DIFF
  simp only
  split_ifs <;> omega

theorem GetTimestampDiff_nonneg (env : Env) (tagged : Nat) : 0 ≤ GetTimestampDiff env tagged := by
  unfold GetTimestampDiff
  simp only
  split_ifs <;> omega

/-- C13: `GetTimestampDiff` returns `d = TICK_DIFF(server_now, tagged)` when
`0 ≤ d ≤ 4000` and `min(ping / 20, 15)` otherwise; the result lies in
`[0, 4000]` and the fallback value in `[0, 15]`. -/
theorem C13_GetTimestampDiff (env : Env) (tagged : Nat) :
    GetTimestampDiff env tagged =
        (if 0 ≤ TICK_DIFF env.server_tick tagged ∧ TICK_DIFF env.server_tick tagged ≤ 4000 then
          TICK_DIFF env.server_tick tagged
        else ((min (env.ping / 20) 15 : Nat) : Int)) ∧
      0 ≤ GetTimestampDiff env tagged ∧ GetTimestampDiff env tagged ≤ 4000 ∧
      ((min (env.ping / 20) 15 : Nat) : Int) ≤ 15 := by
  have hdiv : env.ping / 10 / 2 = env.ping / 20 := by omega
  unfold GetTimestampDiff
  simp only [hdiv]
  split_ifs <;> omega

/-! ## Bit fields and bytes -/

theorem and_0x3FF (x : Nat) : x &&& 0x3FF = x % 1024 :=
  Nat.and_pow_two_sub_one_eq_mod x 10

theorem and_0x3FFF (x : Nat) : x &&& 0x3FFF = x % 16384 :=
  Nat.and_pow_two_sub_one_eq_mod x 14

theorem and_0xFFFF (x : Nat) : x &&& 0xFFFF = x % 65536 :=
  Nat.and_pow_two_sub_one_eq_mod x 16

theorem shr_10 (x : Nat) : x >>> 10 = x / 1024 := Nat.shiftRight_eq_div_pow x 10

theorem shr_14 (x : Nat) : x >>> 14 = x / 16384 := Nat.shiftRight_eq_div_pow x 14

theorem shr_28 (x : Nat) : x >>> 28 = x / 268435456 := Nat.shiftRight_eq_div_pow x 28

theorem ReadU8_lt (buf : List Nat) (off : Nat) : ReadU8 buf off < 256 :=
  Nat.mod_lt _ (by decide)

theorem ReadU16_lt (buf : List Nat) (off : Nat) : ReadU16 buf off < 65536 := by
  have h1 := ReadU8_lt buf off
  have h2 := ReadU8_lt buf (off + 1)
  unfold ReadU16
  omega

theorem ReadU32_lt (buf : List Nat) (off : Nat) : ReadU32 buf off < 4294967296 := by
  have h1 := ReadU16_lt buf off
  have h2 := ReadU16_lt buf (off + 2)
  unfold ReadU32
  omega

theorem s8_range (n : Nat) : -128 ≤ s8 n ∧ s8 n < 128 := by
  unfold s8
  split_ifs <;> omega

/-- The two velocity words of a batched record in closed form: `vel_y` is the
low 14 bits of `packed_velocity` sign-extended, `vel_x` is the sum without
any wrap. -/
theorem batchedVelocity_spec (v m p : Nat) (hv : v < 65536) (hp : p < 4294967296) :
    batchedVelocity v m p =
      ((((v / 16384 : Nat) : Int) + 4 * s8 m) * 16 + ((p / 268435456 : Nat) : Int),
       if v % 16384 < 8192 then ((v % 16384 : Nat) : Int) else ((v % 16384 : Nat) : Int) - 16384) := by
  have hm := s8_range m
  unfold batchedVelocity
  simp only [shr_14, shr_28]
  generalize s8 m = mm at hm ⊢
  refine Prod.ext ?_ ?_
  · simp only
    unfold s32
    split_ifs <;> omega
  · simp only
    unfold s32 s16
    split_ifs <;> omega

theorem BatchedRecord_velocity (r : BatchedRecord) :
    r.velocity = ⟨(r.vel_x : ℚ) / 160, (r.vel_y : ℚ) / 160⟩ := by
  unfold BatchedRecord.velocity
  congr 1 <;> ring

theorem decode_large_vel (buf : List Nat) (off : Nat) :
    (OnBatchedLargePositionPacket.decode buf off).vel_x =
        (batchedVelocity (ReadU16 buf (off + 8)) (ReadU8 buf (off + 10)) (ReadU32 buf (off + 4))).1 ∧
      (OnBatchedLargePositionPacket.decode buf off).vel_y =
        (batchedVelocity (ReadU16 buf (off + 8)) (ReadU8 buf (off + 10)) (ReadU32 buf (off + 4))).2 := by
  simp only [OnBatchedLargePositionPacket.decode, and_self]

theorem sample_decode : OnBatchedLargePositionPacket.decode sampleBatch 1 =
    { player_id := 0x105, togglables := 0b010101, direction := 20, timestamp := 123,
      x := 400, y := 300, vel_x := 320, vel_y := -240 } := by
  simp only [OnBatchedLargePositionPacket.decode, sampleBatch, ReadU32, ReadU16, ReadU8, u8,
    batchedVelocity, s8, s16, s32]
  simp
  decide

/-- C16: the decoder of `OnBatchedLargePositionPacket` applied to the 11-byte
record at any offset, with little-endian words `w0`, `w1`, `p`, `v` and signed
byte `m`: pid is `w0 & 0x3FF`, togglables `w0 >> 10`, direction `w1 >> 10`,
timestamp `w1 & 0x3FF`, x `p & 0x3FFF`, y `(p >> 14) & 0x3FFF`, vel_y the low
14 bits of `v` sign-extended, vel_x `((v >> 14) + 4 m) * 16 + (p >> 28)`;
position is `(x, y) / 16` and velocity `(vel_x, vel_y) / 160`. The sample
record decodes to pid 0x105, togglables 0b010101, direction 20, timestamp 123,
position (25, 18.75) and velocity (2, -1.5). -/
theorem C16_batched_large_decode (buf : List Nat) (off : Nat) :
    (OnBatchedLargePositionPacket.decode buf off).player_id = ReadU16 buf off &&& 0x3FF ∧
    (OnBatchedLargePositionPacket.decode buf off).togglables = ReadU16 buf off >>> 10 ∧
    (OnBatchedLargePositionPacket.decode buf off).direction = ReadU16 buf (off + 2) >>> 10 ∧
    (OnBatchedLargePositionPacket.decode buf off).timestamp = ReadU16 buf (off + 2) &&& 0x3FF ∧
    (OnBatchedLargePositionPacket.decode buf off).x = ReadU32 buf (off + 4) &&& 0x3FFF ∧
    (OnBatchedLargePositionPacket.decode buf off).y = (ReadU32 buf (off + 4) >>> 14) &&& 0x3FFF ∧
    (OnBatchedLargePositionPacket.decode buf off).vel_y =
      (if ReadU16 buf (off + 8) &&& 0x3FFF < 0x2000 then ((ReadU16 buf (off + 8) &&& 0x3FFF : Nat) : Int)
       else ((ReadU16 buf (off + 8) &&& 0x3FFF : Nat) : Int) - 0x4000) ∧
    (OnBatchedLargePositionPacket.decode buf off).vel_x =
      (((ReadU16 buf (off + 8) >>> 14 : Nat) : Int) + 4 * s8 (ReadU8 buf (off + 10))) * 16 +
        ((ReadU32 buf (off + 4) >>> 28 : Nat) : Int) ∧
    (OnBatchedLargePositionPacket.decode buf off).position =
      ⟨((OnBatchedLargePositionPacket.decode buf off).x : ℚ) / 16,
       ((OnBatchedLargePositionPacket.decode buf off).y : ℚ) / 16⟩ ∧
    (OnBatchedLargePositionPacket.decode buf off).velocity =
      ⟨((OnBatchedLargePositionPacket.decode buf off).vel_x : ℚ) / 160,
       ((OnBatchedLargePositionPacket.decode buf off).vel_y : ℚ) / 160⟩ ∧
    OnBatchedLargePositionPacket.decode sampleBatch 1 =
      { player_id := 0x105, togglables := 0b010101, direction := 20, timestamp := 123,
        x := 400, y := 300, vel_x := 320, vel_y := -240 } ∧
    (OnBatchedLargePositionPacket.decode sampleBatch 1).position = ⟨25, 75 / 4⟩ ∧
    (OnBatchedLargePositionPacket.decode sampleBatch 1).velocity = ⟨2, -3 / 2⟩ := by
  have hv := batchedVelocity_spec (ReadU16 buf (off + 8)) (ReadU8 buf (off + 10))
    (ReadU32 buf (off + 4)) (ReadU16_lt _ _) (ReadU32_lt _ _)
  have hs := sample_decode
  refine ⟨rfl, ?_, rfl, rfl, rfl, rfl, ?_, ?_, rfl, ?_, hs, ?_, ?_⟩
  · have h := ReadU16_lt buf off
    show u8 (ReadU16 buf off >>> 10) = _
    rw [shr_10]
    unfold u8
    omega
  · rw [(decode_large_vel buf off).2, hv, and_0x3FFF]
  · rw [(decode_large_vel buf off).1, hv, shr_14, shr_28]
    push_cast
    ring
  · exact BatchedRecord_velocity _
  · rw [hs]
    unfold BatchedRecord.position
    norm_num
  · rw [hs]
    unfold BatchedRecord.velocity
    norm_num

theorem ReadU8_append_left (hdr l : List Nat) (k : Nat) :
    ReadU8 (hdr ++ l) (hdr.length + k) = ReadU8 l k := by
  unfold ReadU8
  rw [List.getD_append_right _ _ _ _ (Nat.le_add_right _ _), Nat.add_sub_cancel_left]

theorem ReadU16_append_left (hdr l : List Nat) (k : Nat) :
    ReadU16 (hdr ++ l) (hdr.length + k) = ReadU16 l k := by
  unfold ReadU16
  rw [Nat.add_assoc, ReadU8_append_left, ReadU8_append_left]

theorem ReadU32_append_left (hdr l : List Nat) (k : Nat) :
    ReadU32 (hdr ++ l) (hdr.length + k) = ReadU32 l k := by
  unfold ReadU32
  rw [Nat.add_assoc, ReadU16_append_left, ReadU16_append_left]

theorem decode_large_append_left (hdr l : List Nat) :
    OnBatchedLargePositionPacket.decode (hdr ++ l) hdr.length =
      OnBatchedLargePositionPacket.decode l 0 := by
  have h0 : ∀ k, hdr.length + k = hdr.length + (0 + k) := fun k => by rw [Nat.zero_add]
  simp only [OnBatchedLargePositionPacket.decode]
  rw [h0 2, h0 4, h0 8, h0 10, ← Nat.add_zero hdr.length]
  simp only [Nat.add_zero, ReadU8_append_left, ReadU16_append_left, ReadU32_append_left]
  rw [← Nat.add_zero hdr.length, ReadU16_append_left]

theorem packBatchedLarge_reads (r : BatchedRecord) (rest : List Nat) :
    ReadU16 (packBatchedLarge r ++ rest) 0 = (r.player_id + 1024 * r.togglables) % 65536 ∧
    ReadU16 (packBatchedLarge r ++ rest) (0 + 2) = (r.timestamp + 1024 * r.direction) % 65536 ∧
    ReadU32 (packBatchedLarge r ++ rest) (0 + 4) =
      (r.x + 16384 * r.y + 268435456 * (r.vel_x % 16).toNat) % 4294967296 ∧
    ReadU16 (packBatchedLarge r ++ rest) (0 + 8) =
      ((r.vel_y % 16384).toNat + 16384 * (r.vel_x % 64 / 16).toNat) % 65536 ∧
    ReadU8 (packBatchedLarge r ++ rest) (0 + 10) = (r.vel_x / 64 % 256).toNat % 256 := by
  simp only [packBatchedLarge, WriteU8, WriteU16, WriteU32, ReadU32, ReadU16, ReadU8, u8,
    List.nil_append, List.cons_append, List.getD_cons_zero, List.getD_cons_succ, Nat.zero_add,
    Nat.reduceAdd]
  refine ⟨?_, ?_, ?_, ?_, ?_⟩ <;> omega

theorem packBatchedLarge_length (r : BatchedRecord) : (packBatchedLarge r).length = 11 := by
  simp [packBatchedLarge, WriteU8, WriteU16, WriteU32]

/-- C17: packing a field tuple within the bit widths (pid and timestamp below
2^10, togglables and direction below 2^6, x and y below 2^14, `vel_y` a
signed 14-bit value, `vel_x` made of a signed multiplier byte, a 2-bit middle
part and a 4-bit low part) into an 11-byte batched-large record and decoding
it with the decoder of `OnBatchedLargePositionPacket`, wherever the record
sits in the packet, returns exactly the same fields. -/
theorem C17_batched_large_round_trip (r : BatchedRecord) (hdr rest : List Nat)
    (hpid : r.player_id < 1024) (htog : r.togglables < 64) (hdir : r.direction < 64)
    (hts : r.timestamp < 1024) (hx : r.x < 16384) (hy : r.y < 16384)
    (hvy : -8192 ≤ r.vel_y ∧ r.vel_y < 8192) (hvx : -8192 ≤ r.vel_x ∧ r.vel_x < 8192) :
    (packBatchedLarge r).length = 11 ∧
      OnBatchedLargePositionPacket.decode (hdr ++ (packBatchedLarge r ++ rest)) hdr.length = r := by
  refine ⟨packBatchedLarge_length r, ?_⟩
  rw [decode_large_append_left]
  have hr := packBatchedLarge_reads r rest
  generalize packBatchedLarge r ++ rest = l at hr ⊢
  obtain ⟨h0, h1, h2, h3, h4⟩ := hr
  have hv := batchedVelocity_spec (ReadU16 l (0 + 8)) (ReadU8 l (0 + 10)) (ReadU32 l (0 + 4))
    (ReadU16_lt _ _) (ReadU32_lt _ _)
  obtain ⟨pid, tog, dir, ts, x, y, vx, vy⟩ := r
  simp only at hpid htog hdir hts hx hy hvy hvx h0 h1 h2 h3 h4
  simp only [OnBatchedLargePositionPacket.decode, hv, BatchedRecord.mk.injEq, and_0x3FF,
    and_0x3FFF, shr_10, shr_14, shr_28, u8]
  rw [h0, h1, h2, h3, h4]
  clear h0 h1 h2 h3 h4 hv
  unfold s8
  refine ⟨?_, ?_, ?_, ?_, ?_, ?_, ?_, ?_⟩
  · omega
  · omega
  · omega
  · omega
  · omega
  · omega
  · split_ifs <;> omega
  · split_ifs <;> omega

theorem C17_batched_large_round_trip_witness :
    OnBatchedLargePositionPacket.decode
        ([0x39] ++ (packBatchedLarge
          { player_id := 0x105, togglables := 0b010101, direction := 20, timestamp := 123,
            x := 400, y := 300, vel_x := 320, vel_y := -240 } ++ [])) [0x39].length =
      { player_id := 0x105, togglables := 0b010101, direction := 20, timestamp := 123,
        x := 400, y := 300, vel_x := 320, vel_y := -240 } :=
  (C17_batched_large_round_trip
    { player_id := 0x105, togglables := 0b010101, direction := 20, timestamp := 123,
      x := 400, y := 300, vel_x := 320, vel_y := -240 } [0x39] []
    (by decide) (by decide) (by decide) (by decide) (by decide) (by decide)
    (by decide) (by decide)).2

/-! ## Bytes of the outgoing position packet -/

theorem castU16_lt (q : ℚ) : castU16 q < 65536 := by
  unfold castU16
  omega

theorem castU8_lt (q : ℚ) : castU8 q < 256 := by
  unfold castU8
  omega

theorem attachBlock_sent {s s1 : PlayerManager} {player vx vy vx1 vy1 : Nat}
    (h : SendPositionPacket.attachBlock s player vx vy = some (s1, vx1, vy1))
    (hvx : vx < 65536) (hvy : vy < 65536) :
    (s1.trace = s.trace ∨ ∃ a b, s1.trace = s.trace ++ [Effect.PlayerAttachEvent a b]) ∧
      vx1 < 65536 ∧ vy1 < 65536 ∧
      (s1.players player).flag_timer = (s.players player).flag_timer := by
  unfold SendPositionPacket.attachBlock at h
  by_cases hp : (s.players player).attach_parent ≠ kInvalidPlayerId
  · rw [if_pos hp] at h
    cases hg : GetPlayerById s (s.players player).attach_parent with
    | none =>
      rw [hg] at h
      simp only [Option.some.injEq, Prod.mk.injEq] at h
      obtain ⟨rfl, rfl, rfl⟩ := h
      refine ⟨Or.inl rfl, by decide, by decide, ?_⟩
      simp [PlayerManager.setPlayer]
    | some parent =>
      rw [hg] at h
      simp only at h
      by_cases hsync : IsSynchronized (s.players parent) = true
      · rw [if_neg (not_not.mpr hsync)] at h
        simp only [Option.some.injEq, Prod.mk.injEq] at h
        obtain ⟨rfl, rfl, rfl⟩ := h
        refine ⟨?_, castU16_lt _, castU16_lt _, ?_⟩
        · by_cases hreq : s.requesting_attach = true
          · rw [if_pos hreq]
            exact Or.inr ⟨_, _, rfl⟩
          · rw [if_neg hreq]
            exact Or.inl rfl
        · by_cases hreq : s.requesting_attach = true
          · rw [if_pos hreq]
            simp [PlayerManager.emit, PlayerManager.setPlayer]
          · rw [if_neg hreq]
      · rw [if_pos hsync] at h
        exact absurd h (by simp)
  · rw [if_neg hp] at h
    simp only [Option.some.injEq, Prod.mk.injEq] at h
    obtain ⟨rfl, rfl, rfl⟩ := h
    exact ⟨Or.inl rfl, hvx, hvy, rfl⟩

theorem sentPackets_of_trace {s s' : PlayerManager} {l : List Effect}
    (h : s'.trace = s.trace ++ l) :
    sentPackets s s' = l.filterMap fun e =>
      match e with
      | Effect.Send pkt => some pkt
      | _ => none := by
  unfold sentPackets
  rw [h, List.drop_left]

theorem send_trace (s1 : PlayerManager) (env : Env) (player : Nat) (ts : Int)
    (pkt : PositionPacket) :
    ∃ ts1 : Int, (SendPositionPacket.send s1 env player ts pkt).trace = s1.trace ++
      [Effect.Send { pkt with
        timestamp := ts1,
        extra :=
          if env.extra_position_info ∨ env.ExtraPositionData then
            some (pkt.energy, u16 (env.ping / 10), u16 ((s1.players player).flag_timer / 100),
              { bursts := s1.ship.bursts % 16, repels := s1.ship.repels % 16,
                thors := s1.ship.thors % 16, bricks := s1.ship.bricks % 16,
                decoys := s1.ship.decoys % 16, rockets := s1.ship.rockets % 16,
                portals := s1.ship.portals % 16 })
          else none }] :=
  ⟨_, rfl⟩

/-- What `SendPositionPacket` hands to the connection: every field fits its
width, and the extra block is there exactly when one of the two switches is
on, holding the energy word again, `ping / 10` and `flag_timer / 100`. -/
theorem SendPositionPacket_sent {s s' : PlayerManager} {env : Env} {pkt : PositionPacket}
    (h : SendPositionPacket s env = some s') (hp : pkt ∈ sentPackets s s') :
    pkt.Fits ∧ ∃ self, GetPlayerById s s.player_id = some self ∧
      ((env.extra_position_info ∨ env.ExtraPositionData) →
        ∃ item_info, pkt.extra = some (pkt.energy, u16 (env.ping / 10),
          u16 ((s.players self).flag_timer / 100), item_info)) ∧
      (¬ (env.extra_position_info ∨ env.ExtraPositionData) → pkt.extra = none) := by
  unfold SendPositionPacket at h
  cases hg : GetPlayerById s s.player_id with
  | none => rw [hg] at h; exact absurd h (by simp)
  | some self =>
    rw [hg] at h
    simp only at h
    split at h
    · simp only [Option.some.injEq] at h
      have htr : s'.trace = s.trace ++ [] := by rw [← h]; simp
      rw [sentPackets_of_trace htr] at hp
      exact absurd hp (List.not_mem_nil _)
    · rename_i s1 vx vy hab
      simp only [Option.some.injEq] at h
      have hvx : ∀ (d : Bool) (q : ℚ), (if d = true then 0 else castU16 q) < 65536 := by
        intro d q; split_ifs
        · decide
        · exact castU16_lt q
      obtain ⟨htr, hx1, hy1, hft⟩ := attachBlock_sent hab (hvx _ _) (hvx _ _)
      generalize hpk : PositionPacket.mk _ _ _ _ _ _ _ _ _ _ _ = pk0 at h
      have hfit : pk0.Fits := by
        rw [← hpk]
        refine ⟨?_, hx1, ?_, ?_, ?_, hy1, ?_, ?_, ?_⟩
        · show (if _ then 0 else castU8 _) < 256
          split_ifs
          · decide
          · exact castU8_lt _
        · show (if _ then 0xFFFF else castU16 _) < 65536
          split_ifs
          · decide
          · exact castU16_lt _
        · show (if _ then 0x80 else u8 _) < 256
          split_ifs
          · decide
          · exact Nat.mod_lt _ (by decide)
        · show (if _ then 0xFFFF else castU16 _) < 65536
          split_ifs
          · decide
          · exact castU16_lt _
        · show (if _ then 0 else u16 _) < 65536
          split_ifs
          · decide
          · exact Nat.mod_lt _ (by decide)
        · show (if _ then 0 else castU16 _) < 65536
          split_ifs
          · decide
          · exact castU16_lt _
        · show (if _ then 0 else u16 _) < 65536
          split_ifs
          · decide
          · exact Nat.mod_lt _ (by decide)
      clear hpk
      obtain ⟨ts1, hsend⟩ := send_trace s1 env self
        (env.MAKE_TICK ((env.tick : Int) + env.time_diff)) pk0
      rw [h] at hsend
      have hmem : ∃ l, s1.trace = s.trace ++ l ∧ l.filterMap (fun e =>
          match e with
          | Effect.Send pkt => some pkt
          | _ => none) = [] := by
        rcases htr with h0 | ⟨a, b, h0⟩
        · exact ⟨[], by simp [h0], rfl⟩
        · exact ⟨_, h0, rfl⟩
      obtain ⟨l, hl, hnil⟩ := hmem
      rw [sentPackets_of_trace (l := l ++ [_]) (by rw [hsend, hl, List.append_assoc]),
        List.filterMap_append, hnil] at hp
      simp only [List.filterMap_cons, List.filterMap_nil, List.nil_append, List.mem_singleton] at hp
      subst hp
      refine ⟨hfit, self, rfl, ?_, ?_⟩
      · intro hc
        exact ⟨_, by rw [← hft]; exact if_pos hc⟩
      · intro hc
        show (if _ then some _ else none) = _
        rw [if_neg hc]

theorem core_eq (pkt : PositionPacket) :
    pkt.core =
      [0x03 % 256, pkt.direction % 256,
        (pkt.timestamp % 4294967296).toNat % 256, (pkt.timestamp % 4294967296).toNat / 256 % 256,
        (pkt.timestamp % 4294967296).toNat / 65536 % 256,
        (pkt.timestamp % 4294967296).toNat / 16777216 % 256,
        pkt.vel_x % 256, pkt.vel_x / 256 % 256, pkt.y % 256, pkt.y / 256 % 256] ++
      ([0 % 256] ++
      [pkt.togglables % 256, pkt.x % 256, pkt.x / 256 % 256, pkt.vel_y % 256, pkt.vel_y / 256 % 256,
        pkt.bounty % 256, pkt.bounty / 256 % 256, pkt.energy % 256, pkt.energy / 256 % 256,
        pkt.weapon % 256, pkt.weapon / 256 % 256]) := by
  simp [PositionPacket.core, WriteU8, WriteU16, WriteU32]

theorem foldl_xor (l : List Nat) (c : Nat) :
    l.foldl (fun c b => c ^^^ b) c = c ^^^ l.foldl (fun c b => c ^^^ b) 0 := by
  induction l generalizing c with
  | nil => simp
  | cons a l ih =>
    simp only [List.foldl_cons]
    rw [ih (c ^^^ a), ih (0 ^^^ a), Nat.zero_xor, Nat.xor_assoc]

theorem WeaponChecksum_append (l1 l2 : List Nat) :
    WeaponChecksum (l1 ++ l2) = WeaponChecksum l1 ^^^ WeaponChecksum l2 := by
  unfold WeaponChecksum
  rw [List.foldl_append, foldl_xor]

theorem WeaponChecksum_singleton (c : Nat) : WeaponChecksum [c] = c := by
  simp [WeaponChecksum]

/-- Storing the checksum of a buffer whose byte at the place of the checksum
is zero makes the stored byte the XOR of all the others and the XOR of the
whole buffer zero. -/
theorem checksum_in_place (pre post : List Nat) :
    (pre ++ ([0] ++ post)).set pre.length (WeaponChecksum (pre ++ ([0] ++ post))) =
        pre ++ ([WeaponChecksum (pre ++ post)] ++ post) ∧
      WeaponChecksum (pre ++ ([WeaponChecksum (pre ++ post)] ++ post)) = 0 := by
  have h0 : WeaponChecksum ([0] ++ post) = WeaponChecksum post := by
    rw [WeaponChecksum_append, WeaponChecksum_singleton, Nat.zero_xor]
  constructor
  · rw [List.set_append_right _ _ (Nat.le_refl _), Nat.sub_self, WeaponChecksum_append, h0,
      WeaponChecksum_append]
    rfl
  · simp only [WeaponChecksum_append, WeaponChecksum_singleton]
    generalize WeaponChecksum pre = a
    generalize WeaponChecksum post = b
    rw [Nat.xor_assoc a b b, Nat.xor_self, Nat.xor_zero, Nat.xor_self]

theorem core_length (pkt : PositionPacket) : pkt.core.length = 22 := by
  rw [core_eq]
  rfl

theorem bytes_take (pkt : PositionPacket) :
    pkt.bytes.take 22 = pkt.core.set 10 (WeaponChecksum pkt.core) := by
  have hl : (pkt.core.set 10 (WeaponChecksum pkt.core)).length = 22 := by
    rw [List.length_set, core_length]
  unfold PositionPacket.bytes
  cases pkt.extra with
  | none => simp only; rw [← hl, List.take_length]
  | some e =>
    obtain ⟨energy, ping, flag_timer, item_info⟩ := e
    simp only [WriteU16, WriteU32, List.append_assoc]
    rw [← hl, List.take_left]

/-- C20: in the bytes of every position packet the byte at offset 10 is the
checksum computed over the 22-byte core while offset 10 holds zero and before
the extra block is appended; it equals the XOR of the other 21 core bytes,
and the XOR of all 22 core bytes of the packet is zero. `WeaponChecksum` is
the byte XOR of its argument. -/
theorem C20_checksum_byte (pkt : PositionPacket) :
    pkt.core.length = 22 ∧ pkt.core.getD 10 0 = 0 ∧
      pkt.bytes.take 22 = pkt.core.set 10 (WeaponChecksum pkt.core) ∧
      pkt.bytes.getD 10 0 = WeaponChecksum pkt.core ∧
      ((pkt.bytes.take 22).eraseIdx 10).length = 21 ∧
      pkt.bytes.getD 10 0 = ((pkt.bytes.take 22).eraseIdx 10).foldl (fun c b => c ^^^ b) 0 ∧
      (pkt.bytes.take 22).foldl (fun c b => c ^^^ b) 0 = 0 := by
  have ht := bytes_take pkt
  have h10 : pkt.bytes.getD 10 0 = (pkt.bytes.take 22).getD 10 0 := by
    rw [List.getD_eq_getElem?_getD, List.getD_eq_getElem?_getD, List.getElem?_take]
    simp
  have hc := core_eq pkt
  rw [show (0 % 256 : Nat) = 0 from rfl] at hc
  rw [h10, ht]
  refine ⟨core_length pkt, ?_, rfl, ?_⟩
  · rw [hc]; rfl
  generalize pkt.core = core at hc
  subst hc
  have hp := checksum_in_place
    [0x03 % 256, pkt.direction % 256,
      (pkt.timestamp % 4294967296).toNat % 256, (pkt.timestamp % 4294967296).toNat / 256 % 256,
      (pkt.timestamp % 4294967296).toNat / 65536 % 256,
      (pkt.timestamp % 4294967296).toNat / 16777216 % 256,
      pkt.vel_x % 256, pkt.vel_x / 256 % 256, pkt.y % 256, pkt.y / 256 % 256]
    [pkt.togglables % 256, pkt.x % 256, pkt.x / 256 % 256, pkt.vel_y % 256, pkt.vel_y / 256 % 256,
      pkt.bounty % 256, pkt.bounty / 256 % 256, pkt.energy % 256, pkt.energy / 256 % 256,
      pkt.weapon % 256, pkt.weapon / 256 % 256]
  obtain ⟨hset, hzero⟩ := hp
  rw [show ([0x03 % 256, pkt.direction % 256,
      (pkt.timestamp % 4294967296).toNat % 256, (pkt.timestamp % 4294967296).toNat / 256 % 256,
      (pkt.timestamp % 4294967296).toNat / 65536 % 256,
      (pkt.timestamp % 4294967296).toNat / 16777216 % 256,
      pkt.vel_x % 256, pkt.vel_x / 256 % 256, pkt.y % 256, pkt.y / 256 % 256] : List Nat).length
      = 10 from rfl] at hset
  rw [hset]
  refine ⟨?_, rfl, ?_, hzero⟩
  · rw [WeaponChecksum_append, WeaponChecksum_append, WeaponChecksum_append,
      WeaponChecksum_singleton, Nat.zero_xor]
    rfl
  · rfl

theorem bytes_none (pkt : PositionPacket) (h : pkt.extra = none) :
    pkt.bytes = pkt.core.set 10 (WeaponChecksum pkt.core) := by
  unfold PositionPacket.bytes
  rw [h]

theorem bytes_some (pkt : PositionPacket) (energy ping flag_timer : Nat) (item_info : ItemInfo)
    (h : pkt.extra = some (energy, ping, flag_timer, item_info)) :
    pkt.bytes = pkt.core.set 10 (WeaponChecksum pkt.core) ++
      [energy % 256, energy / 256 % 256, ping % 256, ping / 256 % 256,
        flag_timer % 256, flag_timer / 256 % 256,
        item_info.word % 256, item_info.word / 256 % 256, item_info.word / 65536 % 256,
        item_info.word / 16777216 % 256] := by
  unfold PositionPacket.bytes
  rw [h]
  simp [WriteU16, WriteU32]

theorem core_set_eq (pkt : PositionPacket) (c : Nat) :
    pkt.core.set 10 c =
      [0x03, pkt.direction % 256,
        (pkt.timestamp % 4294967296).toNat % 256, (pkt.timestamp % 4294967296).toNat / 256 % 256,
        (pkt.timestamp % 4294967296).toNat / 65536 % 256,
        (pkt.timestamp % 4294967296).toNat / 16777216 % 256,
        pkt.vel_x % 256, pkt.vel_x / 256 % 256, pkt.y % 256, pkt.y / 256 % 256, c,
        pkt.togglables % 256, pkt.x % 256, pkt.x / 256 % 256, pkt.vel_y % 256,
        pkt.vel_y / 256 % 256, pkt.bounty % 256, pkt.bounty / 256 % 256, pkt.energy % 256,
        pkt.energy / 256 % 256, pkt.weapon % 256, pkt.weapon / 256 % 256] := by
  rw [core_eq]
  rfl

/-- What the reads at the offsets of the core give back, whatever follows the
core. -/
theorem core_reads (pkt : PositionPacket) (c : Nat) (tail : List Nat) :
    ReadU8 (pkt.core.set 10 c ++ tail) 0 = 0x03 ∧
    ReadU8 (pkt.core.set 10 c ++ tail) 1 = pkt.direction % 256 ∧
    ReadU32 (pkt.core.set 10 c ++ tail) 2 = (pkt.timestamp % 4294967296).toNat ∧
    ReadU16 (pkt.core.set 10 c ++ tail) 6 = pkt.vel_x % 65536 ∧
    ReadU16 (pkt.core.set 10 c ++ tail) 8 = pkt.y % 65536 ∧
    ReadU8 (pkt.core.set 10 c ++ tail) 10 = c % 256 ∧
    ReadU8 (pkt.core.set 10 c ++ tail) 11 = pkt.togglables % 256 ∧
    ReadU16 (pkt.core.set 10 c ++ tail) 12 = pkt.x % 65536 ∧
    ReadU16 (pkt.core.set 10 c ++ tail) 14 = pkt.vel_y % 65536 ∧
    ReadU16 (pkt.core.set 10 c ++ tail) 16 = pkt.bounty % 65536 ∧
    ReadU16 (pkt.core.set 10 c ++ tail) 18 = pkt.energy % 65536 ∧
    ReadU16 (pkt.core.set 10 c ++ tail) 20 = pkt.weapon % 65536 := by
  rw [core_set_eq]
  simp only [ReadU32, ReadU16, ReadU8, u8, List.cons_append, List.getD_cons_zero,
    List.getD_cons_succ, Nat.reduceAdd]
  have ht : (pkt.timestamp % 4294967296).toNat < 4294967296 := by omega
  generalize (pkt.timestamp % 4294967296).toNat = t at ht ⊢
  refine ⟨?_, ?_, ?_, ?_, ?_, ?_, ?_, ?_, ?_, ?_, ?_, ?_⟩ <;> first | trivial | omega

theorem extra_reads (hdr : List Nat) (hl : hdr.length = 22) (e p f w : Nat) :
    ReadU16 (hdr ++ [e % 256, e / 256 % 256, p % 256, p / 256 % 256, f % 256, f / 256 % 256,
        w % 256, w / 256 % 256, w / 65536 % 256, w / 16777216 % 256]) 22 = e % 65536 ∧
    ReadU16 (hdr ++ [e % 256, e / 256 % 256, p % 256, p / 256 % 256, f % 256, f / 256 % 256,
        w % 256, w / 256 % 256, w / 65536 % 256, w / 16777216 % 256]) 24 = p % 65536 ∧
    ReadU16 (hdr ++ [e % 256, e / 256 % 256, p % 256, p / 256 % 256, f % 256, f / 256 % 256,
        w % 256, w / 256 % 256, w / 65536 % 256, w / 16777216 % 256]) 26 = f % 65536 ∧
    ReadU32 (hdr ++ [e % 256, e / 256 % 256, p % 256, p / 256 % 256, f % 256, f / 256 % 256,
        w % 256, w / 256 % 256, w / 65536 % 256, w / 16777216 % 256]) 28 = w % 4294967296 := by
  have h16 := fun l k => ReadU16_append_left hdr l k
  have h32 := fun l k => ReadU32_append_left hdr l k
  rw [hl] at h16 h32
  rw [h16 _ 0, h16 _ 2, h16 _ 4, h32 _ 6]
  simp only [ReadU32, ReadU16, ReadU8, u8, List.getD_cons_zero, List.getD_cons_succ,
    Nat.reduceAdd]
  refine ⟨?_, ?_, ?_, ?_⟩ <;> omega

theorem ItemInfo_word_lt (i : ItemInfo) : i.word < 4294967296 := by
  unfold ItemInfo.word
  have h : ∀ a k : Nat, k ≤ 28 → (a % 16) <<< k < 2 ^ 32 := by
    intro a k hk
    rw [Nat.shiftLeft_eq]
    calc a % 16 * 2 ^ k < 16 * 2 ^ k :=
          Nat.mul_lt_mul_of_pos_right (Nat.mod_lt _ (by decide)) (Nat.pow_pos (by decide))
      _ ≤ 16 * 2 ^ 28 := Nat.mul_le_mul_left _ (Nat.pow_le_pow_right (by decide) hk)
      _ = 2 ^ 32 := by norm_num
  have hor : ∀ x y : Nat, x < 2 ^ 32 → y < 2 ^ 32 → x ||| y < 2 ^ 32 :=
    fun x y hx hy => Nat.or_lt_two_pow hx hy
  exact hor _ _ (hor _ _ (hor _ _ (hor _ _ (hor _ _ (hor _ _ (h _ _ (by decide))
    (h _ _ (by decide))) (h _ _ (by decide))) (h _ _ (by decide))) (h _ _ (by decide)))
    (h _ _ (by decide))) (h _ _ (by decide))

/-- C19: whenever `SendPositionPacket` sends, the packet is 22 bytes (32 when
`connection.extra_position_info` or `settings.ExtraPositionData` is set),
little-endian, and reading the fields back at the offsets gives the encoded
values: type 0x03 at 0, direction at 1, server timestamp (u32) at 2, vel_x at
6, y at 8, the checksum at 10, togglables at 11, x at 12, vel_y at 14, bounty
at 16, energy at 18, weapon at 20, and in the extra block energy at 22,
`ping / 10` at 24, `flag_timer / 100` at 26 and the item word at 28. -/
theorem C19_position_packet_layout (s s' : PlayerManager) (env : Env) (pkt : PositionPacket)
    (h : SendPositionPacket s env = some s') (hp : pkt ∈ sentPackets s s') :
    pkt.bytes.length = (if env.extra_position_info ∨ env.ExtraPositionData then 32 else 22) ∧
    ReadU8 pkt.bytes 0 = 0x03 ∧
    ReadU8 pkt.bytes 1 = pkt.direction ∧
    ReadU32 pkt.bytes 2 = (pkt.timestamp % 4294967296).toNat ∧
    ReadU16 pkt.bytes 6 = pkt.vel_x ∧
    ReadU16 pkt.bytes 8 = pkt.y ∧
    ReadU8 pkt.bytes 10 = u8 (WeaponChecksum pkt.core) ∧
    ReadU8 pkt.bytes 11 = pkt.togglables ∧
    ReadU16 pkt.bytes 12 = pkt.x ∧
    ReadU16 pkt.bytes 14 = pkt.vel_y ∧
    ReadU16 pkt.bytes 16 = pkt.bounty ∧
    ReadU16 pkt.bytes 18 = pkt.energy ∧
    ReadU16 pkt.bytes 20 = pkt.weapon ∧
    ((env.extra_position_info ∨ env.ExtraPositionData) →
      ∃ self item_info, GetPlayerById s s.player_id = some self ∧
        pkt.extra = some (pkt.energy, u16 (env.ping / 10),
          u16 ((s.players self).flag_timer / 100), item_info) ∧
        ReadU16 pkt.bytes 22 = pkt.energy ∧
        ReadU16 pkt.bytes 24 = u16 (env.ping / 10) ∧
        ReadU16 pkt.bytes 26 = u16 ((s.players self).flag_timer / 100) ∧
        ReadU32 pkt.bytes 28 = item_info.word) := by
  obtain ⟨⟨hd, hvx, hy, htog, hx, hvy, hb, he, hw⟩, self, hself, hextra, hnone⟩ :=
    SendPositionPacket_sent h hp
  have hbytes : ∃ tail, pkt.bytes = pkt.core.set 10 (WeaponChecksum pkt.core) ++ tail := by
    cases hx : pkt.extra with
    | none => exact ⟨[], by rw [bytes_none pkt hx, List.append_nil]⟩
    | some e => exact ⟨_, bytes_some pkt e.1 e.2.1 e.2.2.1 e.2.2.2 hx⟩
  obtain ⟨tail, htail⟩ := hbytes
  obtain ⟨r0, r1, r2, r6, r8, r10, r11, r12, r14, r16, r18, r20⟩ :=
    core_reads pkt (WeaponChecksum pkt.core) tail
  rw [← htail] at r0 r1 r2 r6 r8 r10 r11 r12 r14 r16 r18 r20
  have hlen : (pkt.core.set 10 (WeaponChecksum pkt.core)).length = 22 := by
    rw [List.length_set, core_length]
  refine ⟨?_, r0, ?_, r2, ?_, ?_, r10, ?_, ?_, ?_, ?_, ?_, ?_, ?_⟩
  · by_cases hc : env.extra_position_info ∨ env.ExtraPositionData
    · obtain ⟨item_info, hi⟩ := hextra hc
      rw [if_pos hc, bytes_some pkt _ _ _ _ hi, List.length_append, hlen]
      rfl
    · rw [if_neg hc, bytes_none pkt (hnone hc), hlen]
  · rw [r1, Nat.mod_eq_of_lt hd]
  · rw [r6, Nat.mod_eq_of_lt hvx]
  · rw [r8, Nat.mod_eq_of_lt hy]
  · rw [r11, Nat.mod_eq_of_lt htog]
  · rw [r12, Nat.mod_eq_of_lt hx]
  · rw [r14, Nat.mod_eq_of_lt hvy]
  · rw [r16, Nat.mod_eq_of_lt hb]
  · rw [r18, Nat.mod_eq_of_lt he]
  · rw [r20, Nat.mod_eq_of_lt hw]
  · intro hc
    obtain ⟨item_info, hi⟩ := hextra hc
    obtain ⟨e22, e24, e26, e28⟩ := extra_reads _ hlen pkt.energy (u16 (env.ping / 10))
      (u16 ((s.players self).flag_timer / 100)) item_info.word
    rw [← bytes_some pkt _ _ _ _ hi] at e22 e24 e26 e28
    refine ⟨self, item_info, hself, hi, ?_, ?_, ?_, ?_⟩
    · rw [e22, Nat.mod_eq_of_lt he]
    · rw [e24]; exact Nat.mod_eq_of_lt (Nat.mod_lt _ (by decide))
    · rw [e26]; exact Nat.mod_eq_of_lt (Nat.mod_lt _ (by decide))
    · rw [e28, Nat.mod_eq_of_lt (ItemInfo_word_lt _)]

theorem send_sentPackets (s s1 : PlayerManager) (env : Env) (player : Nat) (ts : Int)
    (pk : PositionPacket) (hl : s1.trace = s.trace) :
    ∃ pkt, pkt ∈ sentPackets s (SendPositionPacket.send s1 env player ts pk) := by
  obtain ⟨ts1, hsend⟩ := send_trace s1 env player ts pk
  rw [hl] at hsend
  rw [sentPackets_of_trace hsend]
  exact ⟨_, List.Mem.head _⟩

theorem C19_position_packet_layout_witness :
    ∃ s' pkt, SendPositionPacket table739 quietEnv = some s' ∧ pkt ∈ sentPackets table739 s' ∧
      pkt.bytes.length = 22 ∧ ReadU8 pkt.bytes 0 = 0x03 ∧ ReadU16 pkt.bytes 12 = pkt.x := by
  have h : SendPositionPacket table739 quietEnv =
      some (SendPositionPacket.send table739 quietEnv 0 1000
        { direction := castU8 ((table739.players 0).orientation * 40), timestamp := 1000,
          vel_x := castU16 ((table739.players 0).velocity.x * 16 * 10),
          y := castU16 ((table739.players 0).position.y * 16),
          togglables := 0, x := castU16 ((table739.players 0).position.x * 16),
          vel_y := castU16 ((table739.players 0).velocity.y * 16 * 10), bounty := 0,
          energy := castU16 (table739.players 0).energy, weapon := 0, extra := none }) := rfl
  obtain ⟨pkt, hp⟩ := send_sentPackets table739 table739 quietEnv 0 1000
    { direction := castU8 ((table739.players 0).orientation * 40), timestamp := 1000,
      vel_x := castU16 ((table739.players 0).velocity.x * 16 * 10),
      y := castU16 ((table739.players 0).position.y * 16),
      togglables := 0, x := castU16 ((table739.players 0).position.x * 16),
      vel_y := castU16 ((table739.players 0).velocity.y * 16 * 10), bounty := 0,
      energy := castU16 (table739.players 0).energy, weapon := 0, extra := none } rfl
  have hc := C19_position_packet_layout table739 _ quietEnv pkt h hp
  exact ⟨_, pkt, h, hp, hc.1, hc.2.1, hc.2.2.2.2.2.2.2.2.1⟩

/-! ## The position reconciler -/

theorem testBit_16 (k : Nat) : Nat.testBit 16 k = decide (k = 4) := by
  by_cases h : k < 5
  · interval_cases k <;> rfl
  · rw [Nat.testBit_lt_two_pow (lt_of_lt_of_le (by decide : 16 < 2 ^ 5)
      (Nat.pow_le_pow_right (by decide) (not_lt.mp h)))]
    exact (decide_eq_false (by omega)).symm

theorem testBit_192 (k : Nat) : Nat.testBit 192 k = decide (k = 6 ∨ k = 7) := by
  by_cases h : k < 8
  · interval_cases k <;> rfl
  · rw [Nat.testBit_lt_two_pow (lt_of_lt_of_le (by decide : 192 < 2 ^ 8)
      (Nat.pow_le_pow_right (by decide) (not_lt.mp h)))]
    exact (decide_eq_false (by omega)).symm

theorem testBit_63 (k : Nat) : Nat.testBit 63 k = decide (k < 6) := by
  by_cases h : k < 6
  · interval_cases k <;> rfl
  · rw [Nat.testBit_lt_two_pow (lt_of_lt_of_le (by decide : 63 < 2 ^ 6)
      (Nat.pow_le_pow_right (by decide) (not_lt.mp h)))]
    exact (decide_eq_false h).symm

theorem testBit_clearBits (t m k : Nat) :
    (clearBits t m).testBit k = (t.testBit k && !m.testBit k) := by
  unfold clearBits
  rw [Nat.testBit_xor, Nat.testBit_and]
  cases t.testBit k <;> cases m.testBit k <;> rfl

theorem clearBits_or_self (t m : Nat) : clearBits (t ||| m) m = clearBits t m := by
  apply Nat.eq_of_testBit_eq
  intro k
  rw [testBit_clearBits, testBit_clearBits, Nat.testBit_or]
  cases t.testBit k <;> cases m.testBit k <;> rfl

theorem clearBits_idem (t m : Nat) : clearBits (clearBits t m) m = clearBits t m := by
  apply Nat.eq_of_testBit_eq
  intro k
  rw [testBit_clearBits, testBit_clearBits]
  cases t.testBit k <;> cases m.testBit k <;> rfl

theorem ReconcileFrame_refl (s : PlayerManager) : ReconcileFrame s s :=
  ⟨rfl, rfl, rfl, fun _ => ⟨rfl, rfl, rfl, rfl⟩⟩

theorem ReconcileFrame_trans {a b c : PlayerManager} (h1 : ReconcileFrame a b)
    (h2 : ReconcileFrame b c) : ReconcileFrame a c :=
  ⟨h2.1.trans h1.1, h2.2.1.trans h1.2.1, h2.2.2.1.trans h1.2.2.1, fun j =>
    ⟨(h2.2.2.2 j).1.trans (h1.2.2.2 j).1, (h2.2.2.2 j).2.1.trans (h1.2.2.2 j).2.1,
      (h2.2.2.2 j).2.2.1.trans (h1.2.2.2 j).2.2.1, (h2.2.2.2 j).2.2.2.trans (h1.2.2.2 j).2.2.2⟩⟩

theorem ReconcileFrame_emit (s : PlayerManager) (e : Effect) : ReconcileFrame s (s.emit e) :=
  ⟨rfl, rfl, rfl, fun _ => ⟨rfl, rfl, rfl, rfl⟩⟩

theorem ReconcileFrame_setPlayer (s : PlayerManager) (i : Nat) (p : Player)
    (hid : p.id = (s.players i).id) (hts : p.timestamp = (s.players i).timestamp)
    (hed : p.enter_delay = (s.players i).enter_delay)
    (htog : clearBits p.togglables Status_Flash = clearBits (s.players i).togglables Status_Flash) :
    ReconcileFrame s (s.setPlayer i p) := by
  refine ⟨rfl, rfl, rfl, fun j => ?_⟩
  by_cases hj : j = i
  · subst hj
    rw [setPlayer_players_same]
    exact ⟨hid, hts, hed, htog⟩
  · rw [setPlayer_players_ne s i j p hj]
    exact ⟨rfl, rfl, rfl, rfl⟩

theorem Spawn_reconcileFrame (s : PlayerManager) (env : Env) (reset : Bool) :
    ReconcileFrame s (Spawn s env reset) := by
  unfold Spawn
  cases GetSelf s with
  | none => exact ReconcileFrame_refl s
  | some self =>
    dsimp only
    refine ReconcileFrame_trans (b := _) ?_ (ReconcileFrame_emit _ _)
    refine ReconcileFrame_trans (b := _) ?_
      (ReconcileFrame_setPlayer _ self _ rfl rfl rfl (clearBits_or_self _ _))
    have h1 : ReconcileFrame s
        (s.setPlayer self { s.players self with position := Spawn.search s env self }) :=
      ReconcileFrame_setPlayer s self _ rfl rfl rfl rfl
    cases reset with
    | false => exact h1
    | true =>
      refine ReconcileFrame_trans h1 ?_
      exact ⟨rfl, rfl, rfl, fun _ => ⟨rfl, rfl, rfl, rfl⟩⟩

theorem PushDamage_reconcileFrame (s : PlayerManager) (env : Env) (shooter_id : Nat)
    (wormhole : Bool) (energy damage : Int) :
    ReconcileFrame s (PushDamage s env shooter_id wormhole energy damage) := by
  unfold PushDamage
  split_ifs
  · exact ReconcileFrame_refl s
  · exact ⟨rfl, rfl, rfl, fun _ => ⟨rfl, rfl, rfl, rfl⟩⟩

/-- `SimulateAxis` writes the position, the velocity and the lerp velocity of
the record; the fields listed here are among those it leaves alone. -/
theorem SimulateAxis_fields (env : Env) (p : Player) (dt : ℚ) (axis : Nat) (ex : Bool) :
    (SimulateAxis env p dt axis ex).1.id = p.id ∧
    (SimulateAxis env p dt axis ex).1.timestamp = p.timestamp ∧
    (SimulateAxis env p dt axis ex).1.enter_delay = p.enter_delay ∧
    (SimulateAxis env p dt axis ex).1.togglables = p.togglables ∧
    (SimulateAxis env p dt axis ex).1.ship = p.ship ∧
    (SimulateAxis env p dt axis ex).1.frequency = p.frequency ∧
    (SimulateAxis env p dt axis ex).1.lerp_time = p.lerp_time ∧
    (SimulateAxis env p dt axis ex).1.energy = p.energy := by
  unfold SimulateAxis
  dsimp only
  split_ifs <;> exact ⟨rfl, rfl, rfl, rfl, rfl, rfl, rfl, rfl⟩

theorem SimulatePlayer_wormhole_reconcileFrame (s : PlayerManager) (env : Env) (i : Nat) :
    ReconcileFrame s (SimulatePlayer.wormhole s env i) := by
  unfold SimulatePlayer.wormhole
  dsimp only
  refine ReconcileFrame_trans (b := _) ?_ (ReconcileFrame_setPlayer _ i _ rfl rfl rfl rfl)
  refine ReconcileFrame_trans (b := _) ?_ (ReconcileFrame_setPlayer _ i _ rfl rfl rfl rfl)
  refine ReconcileFrame_trans (b := _) ?_ (Spawn_reconcileFrame _ env false)
  split_ifs
  · exact PushDamage_reconcileFrame _ _ _ _ _ _
  · exact ReconcileFrame_refl s

/-- Both axes together leave the same fields alone. -/
theorem SimulatePlayer_axes_fields (env : Env) (p : Player) (dt : ℚ) (ex : Bool) :
    (SimulatePlayer.axes env p dt ex).id = p.id ∧
    (SimulatePlayer.axes env p dt ex).timestamp = p.timestamp ∧
    (SimulatePlayer.axes env p dt ex).enter_delay = p.enter_delay ∧
    (SimulatePlayer.axes env p dt ex).togglables = p.togglables ∧
    (SimulatePlayer.axes env p dt ex).ship = p.ship ∧
    (SimulatePlayer.axes env p dt ex).frequency = p.frequency ∧
    (SimulatePlayer.axes env p dt ex).lerp_time = p.lerp_time ∧
    (SimulatePlayer.axes env p dt ex).energy = p.energy := by
  obtain ⟨a1, a2, a3, a4, a5, a6, a7, a8⟩ := SimulateAxis_fields env p dt 0 ex
  obtain ⟨b1, b2, b3, b4, b5, b6, b7, b8⟩ :=
    SimulateAxis_fields env (SimulateAxis env p dt 0 ex).1 dt 1 ex
  unfold SimulatePlayer.axes
  dsimp only
  split_ifs
  · exact ⟨b1.trans a1, b2.trans a2, b3.trans a3, b4.trans a4, b5.trans a5, b6.trans a6,
      b7.trans a7, b8.trans a8⟩
  · exact ⟨b1.trans a1, b2.trans a2, b3.trans a3, b4.trans a4, b5.trans a5, b6.trans a6,
      b7.trans a7, b8.trans a8⟩

theorem SimulatePlayer_reconcileFrame (s : PlayerManager) (env : Env) (i : Nat) (dt : ℚ)
    (ex : Bool) : ReconcileFrame s (SimulatePlayer s env i dt ex) := by
  unfold SimulatePlayer
  split_ifs with h0
  · exact ReconcileFrame_setPlayer s i _ rfl rfl rfl rfl
  · dsimp only
    refine ReconcileFrame_trans (b := _) ?_ (ReconcileFrame_setPlayer _ i _ rfl rfl rfl rfl)
    have hs2 : ReconcileFrame s (s.setPlayer i (SimulatePlayer.axes env (s.players i) dt ex)) := by
      obtain ⟨h1, h2, h3, h4, -⟩ := SimulatePlayer_axes_fields env (s.players i) dt ex
      exact ReconcileFrame_setPlayer s i _ h1 h2 h3 (by rw [h4])
    split_ifs
    · exact ReconcileFrame_trans hs2 (SimulatePlayer_wormhole_reconcileFrame _ env i)
    · exact hs2

theorem simulate_reconcileFrame (s : PlayerManager) (env : Env) (i n : Nat) :
    ReconcileFrame s ((fun st => SimulatePlayer st env i (1 / 100) true)^[n] s) := by
  induction n with
  | zero => exact ReconcileFrame_refl s
  | succ n ih =>
    rw [Function.iterate_succ_apply']
    exact ReconcileFrame_trans ih (SimulatePlayer_reconcileFrame _ env i _ _)

theorem extrapolate_reconcileFrame (s : PlayerManager) (env : Env) (i : Nat)
    (position velocity : Vector2f) (n : Nat) :
    ReconcileFrame s (OnPositionPacket.extrapolate s env i position velocity n) := by
  unfold OnPositionPacket.extrapolate
  refine ReconcileFrame_trans (b := _) ?_ (simulate_reconcileFrame _ env i _)
  exact ReconcileFrame_setPlayer s i _ rfl rfl rfl rfl

theorem settle_fields (p : Player) (previous_pos : Vector2f) :
    (OnPositionPacket.settle p previous_pos).id = p.id ∧
    (OnPositionPacket.settle p previous_pos).timestamp = p.timestamp ∧
    (OnPositionPacket.settle p previous_pos).enter_delay = p.enter_delay ∧
    clearBits (OnPositionPacket.settle p previous_pos).togglables Status_Flash =
      clearBits p.togglables Status_Flash := by
  unfold OnPositionPacket.settle
  dsimp only
  split_ifs
  · exact ⟨rfl, rfl, rfl, clearBits_idem _ _⟩
  · exact ⟨rfl, rfl, rfl, rfl⟩
  · exact ⟨rfl, rfl, rfl, rfl⟩

theorem UnstuckSelf_fields (env : Env) (p : Player) :
    (UnstuckSelf env p).id = p.id ∧ (UnstuckSelf env p).timestamp = p.timestamp ∧
    (UnstuckSelf env p).enter_delay = p.enter_delay ∧
    (UnstuckSelf env p).togglables = p.togglables ∧
    (UnstuckSelf env p).lerp_time = p.lerp_time ∧
    (UnstuckSelf env p).lerp_velocity = p.lerp_velocity := by
  unfold UnstuckSelf
  split_ifs <;> exact ⟨rfl, rfl, rfl, rfl, rfl, rfl⟩

theorem reconcile_reconcileFrame (s : PlayerManager) (env : Env) (i : Nat)
    (position velocity : Vector2f) (sim_ticks : Int) :
    ReconcileFrame s (OnPositionPacket.reconcile s env i position velocity sim_ticks) := by
  unfold OnPositionPacket.reconcile
  dsimp only
  obtain ⟨h1, h2, h3, h4⟩ := settle_fields
    ((OnPositionPacket.extrapolate s env i position velocity sim_ticks.toNat).players i)
    (s.players i).position
  refine ReconcileFrame_trans (b := _) ?_ (ReconcileFrame_setPlayer _ i _ h1 h2 h3 h4)
  exact extrapolate_reconcileFrame s env i position velocity _

theorem OnPositionPacket_reconcileFrame (s : PlayerManager) (env : Env) (i : Nat)
    (position velocity : Vector2f) (sim_ticks : Int) :
    ReconcileFrame s (OnPositionPacket s env i position velocity sim_ticks) := by
  unfold OnPositionPacket
  by_cases h0 : (s.players i).id = s.player_id ∧ 0 < (s.players i).enter_delay
  · rw [if_pos h0]
    exact ReconcileFrame_refl s
  · rw [if_neg h0]
    dsimp only
    have hr := reconcile_reconcileFrame s env i position velocity sim_ticks
    generalize OnPositionPacket.reconcile s env i position velocity sim_ticks = r at hr ⊢
    by_cases h1 : (r.players i).id = r.player_id
    · rw [if_pos h1]
      obtain ⟨u1, u2, u3, u4, -⟩ := UnstuckSelf_fields env (r.players i)
      refine ReconcileFrame_trans (b := _) ?_ (ReconcileFrame_emit _ _)
      exact ReconcileFrame_trans hr (ReconcileFrame_setPlayer _ i _ u1 u2 u3 (by rw [u4]))
    · rw [if_neg h1]
      exact hr

/-! ## Inbound position packets -/

theorem smallBatch_decode :
    OnBatchedSmallPositionPacket.decode (smallBatch 500) 1 =
      { player_id := 3, togglables := 0, direction := 0, timestamp := 500, x := 8000,
        y := 8000, vel_x := 160, vel_y := 0 } := by decide!

theorem largeBatch_decode :
    OnBatchedLargePositionPacket.decode (largeBatch 500) 1 =
      { player_id := 3, togglables := 0, direction := 0, timestamp := 500, x := 8000,
        y := 8000, vel_x := 160, vel_y := 0 } := by decide!

/-- C11, amended: each inbound position handler drops a packet (for the
batched handlers: a record) whose reconstructed local tick `L` satisfies
`TICK_DIFF(L, now) >= 300`, that is, lies at least 300 ticks ahead of the
current tick; the state, and with it every field of every player, stays as it
was. -/
theorem C11_future_timestamp_dropped (s : PlayerManager) (env : Env) (buf : List Nat) (off : Nat) :
    (300 ≤ TICK_DIFF
        (localTimestamp env ((env.server_tick &&& 0x7FFF0000) ||| ReadU16 buf 2)) env.tick →
      OnLargePositionPacket s env buf = s) ∧
    (300 ≤ TICK_DIFF
        (localTimestamp env ((env.server_tick &&& 0x7FFF0000) ||| ReadU16 buf 2)) env.tick →
      OnSmallPositionPacket s env buf = s) ∧
    (300 ≤ TICK_DIFF
        (localTimestamp env ((env.server_tick &&& 0x7FFFFC00) |||
          (OnBatchedLargePositionPacket.decode buf off).timestamp)) env.tick →
      OnBatchedLargePositionPacket.record s env buf off = s) ∧
    (300 ≤ TICK_DIFF
        (localTimestamp env ((env.server_tick &&& 0x7FFFFC00) |||
          (OnBatchedSmallPositionPacket.decode buf off).timestamp)) env.tick →
      OnBatchedSmallPositionPacket.record s env buf off = s) := by
  refine ⟨fun h => ?_, fun h => ?_, fun h => ?_, fun h => ?_⟩
  · unfold OnLargePositionPacket
    exact if_pos h
  · unfold OnSmallPositionPacket
    exact if_pos h
  · unfold OnBatchedLargePositionPacket.record
    exact if_pos h
  · unfold OnBatchedSmallPositionPacket.record
    exact if_pos h

theorem C11_future_timestamp_dropped_witness :
    OnLargePositionPacket positionTable positionEnv (largePacket 3 4600) = positionTable ∧
    OnSmallPositionPacket positionTable positionEnv (smallPacket 3 4600) = positionTable ∧
    OnBatchedLargePositionPacket.record positionTable positionEnv (largeBatch 500) 1 =
      positionTable ∧
    OnBatchedSmallPositionPacket.record positionTable positionEnv (smallBatch 500) 1 =
      positionTable :=
  ⟨(C11_future_timestamp_dropped positionTable positionEnv (largePacket 3 4600) 1).1
      (by decide!),
    (C11_future_timestamp_dropped positionTable positionEnv (smallPacket 3 4600) 1).2.1
      (by decide!),
    (C11_future_timestamp_dropped positionTable positionEnv (largeBatch 500) 1).2.2.1
      (by decide!),
    (C11_future_timestamp_dropped positionTable positionEnv (smallBatch 500) 1).2.2.2
      (by decide!)⟩


theorem OnPositionPacket_timestamp (s : PlayerManager) (env : Env) (i : Nat)
    (position velocity : Vector2f) (sim_ticks : Int) (j : Nat) :
    ((OnPositionPacket s env i position velocity sim_ticks).players j).timestamp =
      (s.players j).timestamp :=
  ((OnPositionPacket_reconcileFrame s env i position velocity sim_ticks).2.2.2 j).2.1

theorem store_players_ne (s : PlayerManager) (buf : List Nat) (i j : Nat) (h : j ≠ i) :
    (OnLargePositionPacket.store s buf i).players j = s.players j := by
  unfold OnLargePositionPacket.store
  dsimp only
  split_ifs
  · exact setPlayer_players_ne s i j _ h
  · exact setPlayer_players_ne s i j _ h

theorem large_accept_timestamp (s : PlayerManager) (env : Env) (buf : List Nat) (i j : Nat) :
    ((OnLargePositionPacket.accept s env buf i).players j).timestamp =
      if j = i then ReadU16 buf 2 else (s.players j).timestamp := by
  unfold OnLargePositionPacket.accept
  dsimp only
  rw [OnPositionPacket_timestamp, setPlayer_players]
  split_ifs with hj
  · rfl
  · rw [store_players_ne s buf i j hj]

theorem small_accept_timestamp (s : PlayerManager) (env : Env) (buf : List Nat) (i j : Nat) :
    ((OnSmallPositionPacket.accept s env buf i).players j).timestamp =
      if j = i then ReadU16 buf 2 else (s.players j).timestamp := by
  unfold OnSmallPositionPacket.accept
  dsimp only
  rw [OnPositionPacket_timestamp, setPlayer_players]
  split_ifs with hj
  · rfl
  · rfl

theorem IsNewerPositionPacket_synchronized {s : PlayerManager} {env : Env} {i ts : Nat}
    (hts : ts < 65536) (hsync : IsSynchronized (s.players i) = true) :
    IsNewerPositionPacket s env (some i) ts = true ↔
      (env.SMALL_TICK_GTE ts (s.players i).timestamp = true ∨
        999 < |((ts : Nat) : Int) - ((s.players i).timestamp : Int)|) := by
  have hne : (s.players i).timestamp ≠ kInvalidSmallTick := by
    simpa [IsSynchronized] using hsync
  unfold IsNewerPositionPacket
  simp only [if_neg hne]
  rw [show u16 ts = ts from Nat.mod_eq_of_lt hts]
  by_cases hg : env.SMALL_TICK_GTE ts (s.players i).timestamp = true
  · simp [hg]
  · simp [hg]

theorem TimestampStep_refl (env : Env) (s : PlayerManager) : TimestampStep env s s :=
  fun _ _ h => absurd rfl h

theorem TimestampStep_of_newer {s s' : PlayerManager} {env : Env} {i ts : Nat}
    (hts : ts < 65536) (hnew : IsNewerPositionPacket s env (some i) ts = true)
    (hs' : ∀ j, (s'.players j).timestamp = if j = i then ts else (s.players j).timestamp) :
    TimestampStep env s s' := by
  intro j hsync hne
  rw [hs' j] at hne ⊢
  by_cases hj : j = i
  · subst hj
    rw [if_pos rfl]
    exact (IsNewerPositionPacket_synchronized hts hsync).mp hnew
  · rw [if_neg hj] at hne
    exact absurd rfl hne

theorem stale_not_newer {s : PlayerManager} {env : Env} {i ts : Nat} (hts : ts < 65536)
    (h : StaleTimestamp env (s.players i) ts) :
    IsNewerPositionPacket s env (some i) ts = false := by
  obtain ⟨hsync, hg, habs⟩ := h
  rw [← Bool.not_eq_true, IsNewerPositionPacket_synchronized hts hsync, hg]
  simp only [Bool.false_eq_true, false_or, not_lt]
  exact habs

theorem large_record_timestamp (s : PlayerManager) (env : Env) (i : Nat) (p : Player)
    (position velocity : Vector2f) (sim_ticks : Int) (j : Nat) :
    ((OnPositionPacket (s.setPlayer i p) env i position velocity sim_ticks).players j).timestamp =
      if j = i then p.timestamp else (s.players j).timestamp := by
  rw [OnPositionPacket_timestamp, setPlayer_players]
  split_ifs <;> rfl

/-- C12: under each of the four inbound position handlers (for the batched
ones: each turn of the record loop) the stored timestamp of a synchronized
player changes from `t` to `t'` only if `SMALL_TICK_GTE(t', t)` or
`|t' - t| > 999`; a packet or record for a synchronized player whose
timestamp fails both tests is dropped and the state stays as it was. The
state is arbitrary, so this covers every step of every sequence of packets. -/
theorem C12_timestamp_non_decreasing (s : PlayerManager) (env : Env) (buf : List Nat)
    (off : Nat) :
    TimestampStep env s (OnLargePositionPacket s env buf) ∧
    TimestampStep env s (OnSmallPositionPacket s env buf) ∧
    TimestampStep env s (OnBatchedLargePositionPacket.record s env buf off) ∧
    TimestampStep env s (OnBatchedSmallPositionPacket.record s env buf off) ∧
    (∀ i, GetPlayerById s (ReadU16 buf 8) = some i →
      StaleTimestamp env (s.players i) (ReadU16 buf 2) → OnLargePositionPacket s env buf = s) ∧
    (∀ i, GetPlayerById s (ReadU8 buf 8) = some i →
      StaleTimestamp env (s.players i) (ReadU16 buf 2) → OnSmallPositionPacket s env buf = s) ∧
    (∀ i, GetPlayerById s (OnBatchedLargePositionPacket.decode buf off).player_id = some i →
      StaleTimestamp env (s.players i)
        (((env.server_tick &&& 0x7FFFFC00) |||
          (OnBatchedLargePositionPacket.decode buf off).timestamp) &&& 0xFFFF) →
      OnBatchedLargePositionPacket.record s env buf off = s) ∧
    (∀ i, GetPlayerById s (OnBatchedSmallPositionPacket.decode buf off).player_id = some i →
      StaleTimestamp env (s.players i)
        (((env.server_tick &&& 0x7FFFFC00) |||
          (OnBatchedSmallPositionPacket.decode buf off).timestamp) &&& 0xFFFF) →
      OnBatchedSmallPositionPacket.record s env buf off = s) := by
  have h16 := ReadU16_lt buf 2
  have hL : ∀ x : Nat, x &&& 0xFFFF < 65536 := fun x => by
    rw [and_0xFFFF]; exact Nat.mod_lt _ (by decide)
  refine ⟨?_, ?_, ?_, ?_, ?_, ?_, ?_, ?_⟩
  · unfold OnLargePositionPacket
    dsimp only
    split_ifs with h0 hnew
    · exact TimestampStep_refl env s
    · cases hg : GetPlayerById s (ReadU16 buf 8) with
      | none => exact TimestampStep_refl env s
      | some i =>
        rw [hg] at hnew
        exact TimestampStep_of_newer h16 hnew (large_accept_timestamp s env buf i)
    · exact TimestampStep_refl env s
  · unfold OnSmallPositionPacket
    dsimp only
    split_ifs with h0 hnew
    · exact TimestampStep_refl env s
    · cases hg : GetPlayerById s (ReadU8 buf 8) with
      | none => exact TimestampStep_refl env s
      | some i =>
        rw [hg] at hnew
        exact TimestampStep_of_newer h16 hnew (small_accept_timestamp s env buf i)
    · exact TimestampStep_refl env s
  · unfold OnBatchedLargePositionPacket.record
    dsimp only
    split_ifs with h0
    · exact TimestampStep_refl env s
    · cases hg : GetPlayerById s (OnBatchedLargePositionPacket.decode buf off).player_id with
      | none => exact TimestampStep_refl env s
      | some i =>
        dsimp only
        split_ifs with hnew
        · exact TimestampStep_of_newer (hL _) hnew (large_record_timestamp s env i _ _ _ _)
        · exact TimestampStep_refl env s
  · unfold OnBatchedSmallPositionPacket.record
    dsimp only
    split_ifs with h0
    · exact TimestampStep_refl env s
    · cases hg : GetPlayerById s (OnBatchedSmallPositionPacket.decode buf off).player_id with
      | none => exact TimestampStep_refl env s
      | some i =>
        dsimp only
        split_ifs with hnew
        · exact TimestampStep_of_newer (hL _) hnew (large_record_timestamp s env i _ _ _ _)
        · exact TimestampStep_refl env s
  · intro i hg hst
    unfold OnLargePositionPacket
    dsimp only
    rw [hg, stale_not_newer h16 hst]
    split_ifs <;> first | rfl | contradiction
  · intro i hg hst
    unfold OnSmallPositionPacket
    dsimp only
    rw [hg, stale_not_newer h16 hst]
    split_ifs <;> first | rfl | contradiction
  · intro i hg hst
    unfold OnBatchedLargePositionPacket.record
    dsimp only
    rw [hg]
    dsimp only
    rw [stale_not_newer (hL _) hst]
    split_ifs <;> first | rfl | contradiction
  · intro i hg hst
    unfold OnBatchedSmallPositionPacket.record
    dsimp only
    rw [hg]
    dsimp only
    rw [stale_not_newer (hL _) hst]
    split_ifs <;> first | rfl | contradiction

theorem C12_timestamp_non_decreasing_witness :
    OnLargePositionPacket positionTable positionEnv (largePacket 3 500) = positionTable ∧
      TimestampStep positionEnv positionTable
        (OnLargePositionPacket positionTable positionEnv (largePacket 3 4186)) :=
  ⟨(C12_timestamp_non_decreasing positionTable positionEnv (largePacket 3 500) 1).2.2.2.2.1 1
      (by decide!) ⟨by decide!, by decide!, by decide!⟩,
    (C12_timestamp_non_decreasing positionTable positionEnv (largePacket 3 4186) 1).1⟩

theorem OnLargePositionPacket_accepted {s : PlayerManager} {env : Env} {buf : List Nat} {i : Nat}
    (h0 : ¬ 300 ≤ TICK_DIFF
      (localTimestamp env ((env.server_tick &&& 0x7FFF0000) ||| ReadU16 buf 2)) env.tick)
    (hg : GetPlayerById s (ReadU16 buf 8) = some i)
    (hnew : IsNewerPositionPacket s env (some i) (ReadU16 buf 2) = true) :
    OnLargePositionPacket s env buf = OnLargePositionPacket.accept s env buf i := by
  unfold OnLargePositionPacket
  dsimp only
  rw [if_neg h0, hg, if_pos hnew]

theorem OnSmallPositionPacket_accepted {s : PlayerManager} {env : Env} {buf : List Nat} {i : Nat}
    (h0 : ¬ 300 ≤ TICK_DIFF
      (localTimestamp env ((env.server_tick &&& 0x7FFF0000) ||| ReadU16 buf 2)) env.tick)
    (hg : GetPlayerById s (ReadU8 buf 8) = some i)
    (hnew : IsNewerPositionPacket s env (some i) (ReadU16 buf 2) = true) :
    OnSmallPositionPacket s env buf = OnSmallPositionPacket.accept s env buf i := by
  unfold OnSmallPositionPacket
  dsimp only
  rw [if_neg h0, hg, if_pos hnew]

/-- C11, counterexample: a large position packet for player 3 stamped 3800
arrives at local tick 4196, so its local tick lies 396 ticks behind the
current tick and `|TICK_DIFF(L, now)| >= 300`; the handler does not drop it:
the stored timestamp of the player goes from 600 to 3800. -/
theorem C11_counterexample :
    300 ≤ |TICK_DIFF (localTimestamp positionEnv
        ((positionEnv.server_tick &&& 0x7FFF0000) ||| ReadU16 (largePacket 3 3800) 2))
        positionEnv.tick| ∧
    (positionTable.players 1).timestamp = 600 ∧
    ((OnLargePositionPacket positionTable positionEnv (largePacket 3 3800)).players 1).timestamp
      = 3800 ∧
    OnLargePositionPacket positionTable positionEnv (largePacket 3 3800) ≠ positionTable := by
  have h : ((OnLargePositionPacket positionTable positionEnv
      (largePacket 3 3800)).players 1).timestamp = 3800 := by
    rw [OnLargePositionPacket_accepted (i := 1) (by decide!) (by decide!) (by decide!),
      large_accept_timestamp, if_pos rfl]
    decide!
  refine ⟨by decide!, rfl, h, fun he => ?_⟩
  rw [he] at h
  exact absurd h (by decide)

/-! ## Extrapolation -/

theorem setPlayer_setPlayer (s : PlayerManager) (i : Nat) (p q : Player) :
    (s.setPlayer i p).setPlayer i q = s.setPlayer i q := by
  unfold PlayerManager.setPlayer
  congr 1
  funext j
  by_cases h : j = i <;> simp [h]

/-- The tile test reads the ship, the frequency and the position of the
record only. -/
theorem collided_congr (env : Env) (p q : Player) (delta : ℚ) (axis : Nat)
    (hs : p.ship = q.ship) (hf : p.frequency = q.frequency) (hp : p.position = q.position) :
    SimulateAxis.collided env p delta axis = SimulateAxis.collided env q delta axis := by
  unfold SimulateAxis.collided
  rw [hs, hf, hp]

/-- One axis without a collision and without a running lerp: the coordinate
moves by `velocity * dt` and nothing else changes. -/
theorem SimulateAxis_free (env : Env) (p : Player) (dt : ℚ) (axis : Nat) (ex : Bool)
    (hl : p.lerp_time ≤ 0)
    (hc : SimulateAxis.collided env
      { p with position :=
          p.position.setValue axis (p.position.values axis + p.velocity.values axis * dt) }
      (p.velocity.values axis * dt) axis = false) :
    SimulateAxis env p dt axis ex =
      ({ p with position :=
          p.position.setValue axis (p.position.values axis + p.velocity.values axis * dt) },
        false) := by
  unfold SimulateAxis
  simp only [if_neg (not_lt.mpr hl), add_zero, hc, Bool.false_eq_true, if_false]

theorem axes_free (env : Env) (p : Player) (dt : ℚ) (hl : p.lerp_time ≤ 0)
    (hx : SimulateAxis.collided env
      { p with position := ⟨p.position.x + p.velocity.x * dt, p.position.y⟩ }
      (p.velocity.x * dt) 0 = false)
    (hy : SimulateAxis.collided env
      { p with position := ⟨p.position.x + p.velocity.x * dt, p.position.y + p.velocity.y * dt⟩ }
      (p.velocity.y * dt) 1 = false) :
    SimulatePlayer.axes env p dt true =
      { p with position := ⟨p.position.x + p.velocity.x * dt, p.position.y + p.velocity.y * dt⟩ } := by
  have h0 := SimulateAxis_free env p dt 0 true hl hx
  have h1 := SimulateAxis_free env
    { p with position := ⟨p.position.x + p.velocity.x * dt, p.position.y⟩ } dt 1 true hl hy
  unfold SimulatePlayer.axes
  dsimp only
  have e0 : p.position.setValue 0 (p.position.values 0 + p.velocity.values 0 * dt) =
      ⟨p.position.x + p.velocity.x * dt, p.position.y⟩ := rfl
  rw [e0] at h0
  rw [h0]
  dsimp only
  rw [h1]
  simp only [Bool.or_self, Bool.false_eq_true, false_and, if_false]
  rfl

/-- One simulation step of the extrapolation with nothing in the way: the
position moves by `velocity * dt`, the lerp time drops by `dt`, and nothing
else changes in the whole state. -/
theorem SimulatePlayer_free (s : PlayerManager) (env : Env) (i : Nat) (p : Player) (dt : ℚ)
    (hl : p.lerp_time ≤ 0)
    (hx : SimulateAxis.collided env
      { p with position := ⟨p.position.x + p.velocity.x * dt, p.position.y⟩ }
      (p.velocity.x * dt) 0 = false)
    (hy : SimulateAxis.collided env
      { p with position := ⟨p.position.x + p.velocity.x * dt, p.position.y + p.velocity.y * dt⟩ }
      (p.velocity.y * dt) 1 = false)
    (hw : p.id ≠ s.player_id ∨
      env.map.GetTileId ⟨p.position.x + p.velocity.x * dt, p.position.y + p.velocity.y * dt⟩ ≠
        env.map.kTileIdWormhole) :
    SimulatePlayer (s.setPlayer i p) env i dt true =
      s.setPlayer i { p with
        position := ⟨p.position.x + p.velocity.x * dt, p.position.y + p.velocity.y * dt⟩,
        lerp_time := p.lerp_time - dt } := by
  unfold SimulatePlayer
  rw [if_neg (by simp)]
  dsimp only
  simp only [setPlayer_players_same, axes_free env p dt hl hx hy, setPlayer_setPlayer,
    setPlayer_player_id]
  rw [if_neg]
  · rw [setPlayer_players_same, setPlayer_setPlayer]
  · rintro ⟨h1, h2⟩
    rcases hw with hw | hw
    · exact hw h2
    · exact hw h1

theorem linearPosition_succ (position velocity : Vector2f) (k : Nat) :
    linearPosition position velocity (k + 1) =
      ⟨(linearPosition position velocity k).x + velocity.x * (1 / 100),
       (linearPosition position velocity k).y + velocity.y * (1 / 100)⟩ := by
  unfold linearPosition
  congr 1 <;> (push_cast; ring)

/-- With nothing in the way, and for self no wormhole tile under any step,
`n` steps of the extrapolation move the player along the straight line and
change nothing else. -/
theorem extrapolate_free (s : PlayerManager) (env : Env) (i : Nat) (position velocity : Vector2f)
    (n : Nat) (hclear : ClearPath env (s.players i) position velocity n)
    (hw : (s.players i).id ≠ s.player_id ∨ OffWormhole env position velocity n) :
    OnPositionPacket.extrapolate s env i position velocity n =
      s.setPlayer i { s.players i with
        position := linearPosition position velocity n,
        velocity := velocity,
        lerp_time := -(n : ℚ) * (1 / 100) } := by
  induction n with
  | zero =>
    unfold OnPositionPacket.extrapolate
    rw [Function.iterate_zero, id_eq]
    congr 2
    unfold linearPosition
    simp
  | succ n ih =>
    have hclear' : ClearPath env (s.players i) position velocity n :=
      fun k hk => hclear k (Nat.lt_succ_of_lt hk)
    have hw' : (s.players i).id ≠ s.player_id ∨ OffWormhole env position velocity n :=
      hw.imp id (fun h k hk => h k (Nat.lt_succ_of_lt hk))
    have ih' := ih hclear' hw'
    unfold OnPositionPacket.extrapolate at ih' ⊢
    rw [Function.iterate_succ_apply', ih']
    obtain ⟨hx, hy⟩ := hclear n (Nat.lt_succ_self n)
    have hs := linearPosition_succ position velocity n
    rw [SimulatePlayer_free]
    · congr 2
      · exact hs.symm
      · push_cast
        ring
    · show -(n : ℚ) * (1 / 100) ≤ 0
      have : (0 : ℚ) ≤ n := Nat.cast_nonneg n
      linarith
    · rw [← hx]
      refine collided_congr env _ _ _ _ rfl rfl ?_
      show (⟨_, _⟩ : Vector2f) = ⟨_, _⟩
      rw [hs]
    · rw [← hy]
      refine collided_congr env _ _ _ _ rfl rfl ?_
      show (⟨_, _⟩ : Vector2f) = _
      rw [hs]
    · refine hw.imp id (fun h => ?_)
      have := h n (Nat.lt_succ_self n)
      rw [hs] at this
      exact this

theorem readExtra_fields (s : PlayerManager) (env : Env) (buf : List Nat) (off : Nat)
    (p : Player) :
    (readExtra s env buf off p).ping = p.ping ∧ (readExtra s env buf off p).id = p.id ∧
    (readExtra s env buf off p).position = p.position ∧
    (readExtra s env buf off p).ship = p.ship ∧
    (readExtra s env buf off p).frequency = p.frequency ∧
    (readExtra s env buf off p).enter_delay = p.enter_delay ∧
    (readExtra s env buf off p).togglables = p.togglables := by
  unfold readExtra
  dsimp only
  split_ifs <;> exact ⟨rfl, rfl, rfl, rfl, rfl, rfl, rfl⟩

theorem stampPlayer_ping (env : Env) (p : Player) (timestamp : Nat) :
    ((stampPlayer env p timestamp).ping : Int) =
      (p.ping : Int) + GetTimestampDiff env ((env.server_tick &&& 0x7FFF0000) ||| timestamp) :=
  Int.toNat_of_nonneg (add_nonneg (Int.natCast_nonneg _) (GetTimestampDiff_nonneg _ _))

theorem store_players_same (s : PlayerManager) (buf : List Nat) (i : Nat) :
    (OnLargePositionPacket.store s buf i).players i =
      OnLargePositionPacket.fields (s.players i) buf := by
  unfold OnLargePositionPacket.store
  dsimp only
  split_ifs
  · exact setPlayer_players_same s i _
  · exact setPlayer_players_same s i _

theorem store_player_id (s : PlayerManager) (buf : List Nat) (i : Nat) :
    (OnLargePositionPacket.store s buf i).player_id = s.player_id := by
  unfold OnLargePositionPacket.store
  dsimp only
  split_ifs <;> rfl

/-- An accepted large packet runs the reconciler on the packet's position and
velocity with `sim_ticks = ping + GetTimestampDiff(server_timestamp)`, `ping`
being the byte at offset 14. -/
theorem large_accept_sim_ticks (s : PlayerManager) (env : Env) (buf : List Nat) (i : Nat) :
    ∃ X, PacketStored s X i ∧
      OnLargePositionPacket.accept s env buf i =
        OnPositionPacket X env i ⟨(ReadU16 buf 4 : ℚ) / 16, (ReadU16 buf 15 : ℚ) / 16⟩
          ⟨(s16 (ReadU16 buf 10) : ℚ) / 16 / 10, (s16 (ReadU16 buf 6) : ℚ) / 16 / 10⟩
          ((ReadU8 buf 14 : Int) +
            GetTimestampDiff env ((env.server_tick &&& 0x7FFF0000) ||| ReadU16 buf 2)) := by
  obtain ⟨e1, e2, e3, e4, e5, e6, -⟩ := readExtra_fields (OnLargePositionPacket.store s buf i)
    env buf 21 ((OnLargePositionPacket.store s buf i).players i)
  have hs := store_players_same s buf i
  refine ⟨(OnLargePositionPacket.store s buf i).setPlayer i
    (stampPlayer env (readExtra (OnLargePositionPacket.store s buf i) env buf 21
      ((OnLargePositionPacket.store s buf i).players i)) (ReadU16 buf 2)), ?_, ?_⟩
  · refine ⟨?_, ?_, ?_, ?_, ?_, ?_⟩
    · exact store_player_id s buf i
    · rw [setPlayer_players_same]; exact e2.trans (by rw [hs]; rfl)
    · rw [setPlayer_players_same]; exact e3.trans (by rw [hs]; rfl)
    · rw [setPlayer_players_same]; exact e4.trans (by rw [hs]; rfl)
    · rw [setPlayer_players_same]; exact e5.trans (by rw [hs]; rfl)
    · rw [setPlayer_players_same]; exact e6.trans (by rw [hs]; rfl)
  · unfold OnLargePositionPacket.accept
    dsimp only
    rw [stampPlayer_ping, e1, hs]
    rfl

/-- An accepted small packet runs the reconciler with
`sim_ticks = ping + GetTimestampDiff(server_timestamp)`, `ping` being the
byte at offset 6. -/
theorem small_accept_sim_ticks (s : PlayerManager) (env : Env) (buf : List Nat) (i : Nat) :
    ∃ X, PacketStored s X i ∧
      OnSmallPositionPacket.accept s env buf i =
        OnPositionPacket X env i ⟨(ReadU16 buf 4 : ℚ) / 16, (ReadU16 buf 12 : ℚ) / 16⟩
          ⟨(s16 (ReadU16 buf 14) : ℚ) / 16 / 10, (s16 (ReadU16 buf 10) : ℚ) / 16 / 10⟩
          ((ReadU8 buf 6 : Int) +
            GetTimestampDiff env ((env.server_tick &&& 0x7FFF0000) ||| ReadU16 buf 2)) := by
  obtain ⟨e1, e2, e3, e4, e5, e6, -⟩ := readExtra_fields s env buf 16
    (OnSmallPositionPacket.fields (s.players i) buf)
  refine ⟨s.setPlayer i (stampPlayer env
    (readExtra s env buf 16 (OnSmallPositionPacket.fields (s.players i) buf)) (ReadU16 buf 2)),
    ?_, ?_⟩
  · refine ⟨rfl, ?_, ?_, ?_, ?_, ?_⟩
    · rw [setPlayer_players_same]; exact e2
    · rw [setPlayer_players_same]; exact e3
    · rw [setPlayer_players_same]; exact e4
    · rw [setPlayer_players_same]; exact e5
    · rw [setPlayer_players_same]; exact e6
  · unfold OnSmallPositionPacket.accept
    dsimp only
    rw [stampPlayer_ping, e1]
    rfl

theorem large_record_accepted {s : PlayerManager} {env : Env} {buf : List Nat} {off i : Nat}
    (h0 : ¬ 300 ≤ TICK_DIFF (localTimestamp env ((env.server_tick &&& 0x7FFFFC00) |||
      (OnBatchedLargePositionPacket.decode buf off).timestamp)) env.tick)
    (hg : GetPlayerById s (OnBatchedLargePositionPacket.decode buf off).player_id = some i)
    (hnew : IsNewerPositionPacket s env (some i) (((env.server_tick &&& 0x7FFFFC00) |||
      (OnBatchedLargePositionPacket.decode buf off).timestamp) &&& 0xFFFF) = true) :
    OnBatchedLargePositionPacket.record s env buf off =
      OnPositionPacket
        (s.setPlayer i { s.players i with
          timestamp := ((env.server_tick &&& 0x7FFFFC00) |||
            (OnBatchedLargePositionPacket.decode buf off).timestamp) &&& 0xFFFF,
          orientation := ((OnBatchedLargePositionPacket.decode buf off).direction : ℚ) / 40,
          togglables := (OnBatchedLargePositionPacket.decode buf off).togglables |||
            ((s.players i).togglables &&& 0xC0) })
        env i (OnBatchedLargePositionPacket.decode buf off).position
        (OnBatchedLargePositionPacket.decode buf off).velocity
        (GetTimestampDiff env ((env.server_tick &&& 0x7FFFFC00) |||
          (OnBatchedLargePositionPacket.decode buf off).timestamp)) := by
  unfold OnBatchedLargePositionPacket.record
  dsimp only
  rw [if_neg h0, hg]
  dsimp only
  rw [if_pos hnew]

theorem small_record_accepted {s : PlayerManager} {env : Env} {buf : List Nat} {off i : Nat}
    (h0 : ¬ 300 ≤ TICK_DIFF (localTimestamp env ((env.server_tick &&& 0x7FFFFC00) |||
      (OnBatchedSmallPositionPacket.decode buf off).timestamp)) env.tick)
    (hg : GetPlayerById s (OnBatchedSmallPositionPacket.decode buf off).player_id = some i)
    (hnew : IsNewerPositionPacket s env (some i) (((env.server_tick &&& 0x7FFFFC00) |||
      (OnBatchedSmallPositionPacket.decode buf off).timestamp) &&& 0xFFFF) = true) :
    OnBatchedSmallPositionPacket.record s env buf off =
      OnPositionPacket
        (s.setPlayer i { s.players i with
          timestamp := ((env.server_tick &&& 0x7FFFFC00) |||
            (OnBatchedSmallPositionPacket.decode buf off).timestamp) &&& 0xFFFF,
          orientation := ((OnBatchedSmallPositionPacket.decode buf off).direction : ℚ) / 40 })
        env i (OnBatchedSmallPositionPacket.decode buf off).position
        (OnBatchedSmallPositionPacket.decode buf off).velocity
        (GetTimestampDiff env ((env.server_tick &&& 0x7FFFFC00) |||
          (OnBatchedSmallPositionPacket.decode buf off).timestamp)) := by
  unfold OnBatchedSmallPositionPacket.record
  dsimp only
  rw [if_neg h0, hg]
  dsimp only
  rw [if_pos hnew]

/-- C14, amended: an accepted large or small position packet runs the
reconciler on the packet's position and velocity with
`sim_ticks = ping + GetTimestampDiff(server_timestamp)`, an accepted batched
record with `sim_ticks = GetTimestampDiff(server_timestamp)`; the reconciler
simulates that many steps of 10 ms, and when nothing is in the way (no step
meets a solid tile or the edge of the map) and, for self, no step ends on a
wormhole tile, the projected position after `n` steps is
`position + velocity * n / 100`. -/
theorem C14_extrapolation (s : PlayerManager) (env : Env) (buf : List Nat) (off i : Nat)
    (position velocity : Vector2f) (n : Nat) :
    (¬ 300 ≤ TICK_DIFF
        (localTimestamp env ((env.server_tick &&& 0x7FFF0000) ||| ReadU16 buf 2)) env.tick →
      GetPlayerById s (ReadU16 buf 8) = some i →
      IsNewerPositionPacket s env (some i) (ReadU16 buf 2) = true →
      ∃ X, PacketStored s X i ∧
        OnLargePositionPacket s env buf =
          OnPositionPacket X env i ⟨(ReadU16 buf 4 : ℚ) / 16, (ReadU16 buf 15 : ℚ) / 16⟩
            ⟨(s16 (ReadU16 buf 10) : ℚ) / 16 / 10, (s16 (ReadU16 buf 6) : ℚ) / 16 / 10⟩
            ((ReadU8 buf 14 : Int) +
              GetTimestampDiff env ((env.server_tick &&& 0x7FFF0000) ||| ReadU16 buf 2))) ∧
    (¬ 300 ≤ TICK_DIFF
        (localTimestamp env ((env.server_tick &&& 0x7FFF0000) ||| ReadU16 buf 2)) env.tick →
      GetPlayerById s (ReadU8 buf 8) = some i →
      IsNewerPositionPacket s env (some i) (ReadU16 buf 2) = true →
      ∃ X, PacketStored s X i ∧
        OnSmallPositionPacket s env buf =
          OnPositionPacket X env i ⟨(ReadU16 buf 4 : ℚ) / 16, (ReadU16 buf 12 : ℚ) / 16⟩
            ⟨(s16 (ReadU16 buf 14) : ℚ) / 16 / 10, (s16 (ReadU16 buf 10) : ℚ) / 16 / 10⟩
            ((ReadU8 buf 6 : Int) +
              GetTimestampDiff env ((env.server_tick &&& 0x7FFF0000) ||| ReadU16 buf 2))) ∧
    (¬ 300 ≤ TICK_DIFF (localTimestamp env ((env.server_tick &&& 0x7FFFFC00) |||
        (OnBatchedLargePositionPacket.decode buf off).timestamp)) env.tick →
      GetPlayerById s (OnBatchedLargePositionPacket.decode buf off).player_id = some i →
      IsNewerPositionPacket s env (some i) (((env.server_tick &&& 0x7FFFFC00) |||
        (OnBatchedLargePositionPacket.decode buf off).timestamp) &&& 0xFFFF) = true →
      ∃ X, PacketStored s X i ∧
        OnBatchedLargePositionPacket.record s env buf off =
          OnPositionPacket X env i (OnBatchedLargePositionPacket.decode buf off).position
            (OnBatchedLargePositionPacket.decode buf off).velocity
            (GetTimestampDiff env ((env.server_tick &&& 0x7FFFFC00) |||
              (OnBatchedLargePositionPacket.decode buf off).timestamp))) ∧
    (¬ 300 ≤ TICK_DIFF (localTimestamp env ((env.server_tick &&& 0x7FFFFC00) |||
        (OnBatchedSmallPositionPacket.decode buf off).timestamp)) env.tick →
      GetPlayerById s (OnBatchedSmallPositionPacket.decode buf off).player_id = some i →
      IsNewerPositionPacket s env (some i) (((env.server_tick &&& 0x7FFFFC00) |||
        (OnBatchedSmallPositionPacket.decode buf off).timestamp) &&& 0xFFFF) = true →
      ∃ X, PacketStored s X i ∧
        OnBatchedSmallPositionPacket.record s env buf off =
          OnPositionPacket X env i (OnBatchedSmallPositionPacket.decode buf off).position
            (OnBatchedSmallPositionPacket.decode buf off).velocity
            (GetTimestampDiff env ((env.server_tick &&& 0x7FFFFC00) |||
              (OnBatchedSmallPositionPacket.decode buf off).timestamp))) ∧
    (ClearPath env (s.players i) position velocity n →
      ((s.players i).id ≠ s.player_id ∨ OffWormhole env position velocity n) →
      ((OnPositionPacket.extrapolate s env i position velocity n).players i).position =
        ⟨position.x + velocity.x * n / 100, position.y + velocity.y * n / 100⟩) := by
  refine ⟨fun h0 hg hnew => ?_, fun h0 hg hnew => ?_, fun h0 hg hnew => ?_,
    fun h0 hg hnew => ?_, fun hclear hw => ?_⟩
  · rw [OnLargePositionPacket_accepted h0 hg hnew]
    exact large_accept_sim_ticks s env buf i
  · rw [OnSmallPositionPacket_accepted h0 hg hnew]
    exact small_accept_sim_ticks s env buf i
  · refine ⟨_, ?_, large_record_accepted h0 hg hnew⟩
    refine ⟨rfl, ?_, ?_, ?_, ?_, ?_⟩ <;> rw [setPlayer_players_same]
  · refine ⟨_, ?_, small_record_accepted h0 hg hnew⟩
    refine ⟨rfl, ?_, ?_, ?_, ?_, ?_⟩ <;> rw [setPlayer_players_same]
  · rw [extrapolate_free s env i position velocity n hclear hw, setPlayer_players_same]
    show linearPosition position velocity n = _
    unfold linearPosition
    congr 1 <;> ring

theorem C14_extrapolation_witness :
    ((ReadU8 (largePacket 3 4186) 14 : Int) +
      GetTimestampDiff positionEnv
        ((positionEnv.server_tick &&& 0x7FFF0000) ||| ReadU16 (largePacket 3 4186) 2) = 50) ∧
    (∃ X, PacketStored positionTable X 1 ∧
      OnLargePositionPacket positionTable positionEnv (largePacket 3 4186) =
        OnPositionPacket X positionEnv 1
          ⟨(ReadU16 (largePacket 3 4186) 4 : ℚ) / 16, (ReadU16 (largePacket 3 4186) 15 : ℚ) / 16⟩
          ⟨(s16 (ReadU16 (largePacket 3 4186) 10) : ℚ) / 16 / 10,
            (s16 (ReadU16 (largePacket 3 4186) 6) : ℚ) / 16 / 10⟩
          ((ReadU8 (largePacket 3 4186) 14 : Int) +
            GetTimestampDiff positionEnv
              ((positionEnv.server_tick &&& 0x7FFF0000) ||| ReadU16 (largePacket 3 4186) 2))) ∧
    ((OnPositionPacket.extrapolate positionTable positionEnv 1 ⟨500, 500⟩ ⟨1, 0⟩ 50).players
        1).position =
      ⟨(500 : ℚ) + 1 * (50 : Nat) / 100, (500 : ℚ) + 0 * (50 : Nat) / 100⟩ ∧
    (⟨(500 : ℚ) + 1 * (50 : Nat) / 100, (500 : ℚ) + 0 * (50 : Nat) / 100⟩ : Vector2f) =
      ⟨1001 / 2, 500⟩ ∧
    ((OnLargePositionPacket positionTable positionEnv (largePacket 3 4186)).players 1).position =
      ⟨500, 500⟩ ∧
    ((OnLargePositionPacket positionTable positionEnv (largePacket 3 4186)).players 1).lerp_velocity
      = ⟨5 / 2, 0⟩ :=
  ⟨by decide!,
    (C14_extrapolation positionTable positionEnv (largePacket 3 4186) 1 1 ⟨500, 500⟩ ⟨1, 0⟩ 50).1
      (by decide!) (by decide!) (by decide!),
    (C14_extrapolation positionTable positionEnv (largePacket 3 4186) 1 1 ⟨500, 500⟩ ⟨1, 0⟩
      50).2.2.2.2 (by unfold ClearPath; decide!) (Or.inl (by decide)),
    by decide!, by decide!, by decide!⟩

/-- C14, counterexample: a large position packet for self (ping 40, timestamp
difference 0, position (500, 500), velocity (1, 0)) on a map without any solid
tile where the tiles are wormholes: the first step respawns self at the spawn
position (512, 512), so the projected position is not
`(500, 500) + (1, 0) * 40 / 100`. On the open map, which has no solid tile
either, a player other than self projected from x = 1023.9375 at velocity
(1, 0) for 40 steps bounces off the edge of the map and ends at
x = 1023.6675 with velocity (-1, 0). -/
theorem C14_counterexample :
    (∀ x y f, wormholeEnv.map.IsSolid x y f = false) ∧
    ((ReadU8 (largePacket 7 4196) 14 : Int) +
      GetTimestampDiff wormholeEnv
        ((wormholeEnv.server_tick &&& 0x7FFF0000) ||| ReadU16 (largePacket 7 4196) 2) = 40) ∧
    ((OnPositionPacket.extrapolate positionTable wormholeEnv 0 ⟨500, 500⟩ ⟨1, 0⟩ 40).players
        0).position = ⟨512, 512⟩ ∧
    ((OnLargePositionPacket positionTable wormholeEnv (largePacket 7 4196)).players 0).position =
      ⟨512, 512⟩ ∧
    (⟨512, 512⟩ : Vector2f) ≠ ⟨(500 : ℚ) + 1 * 40 / 100, (500 : ℚ) + 0 * 40 / 100⟩ ∧
    (∀ x y f, positionEnv.map.IsSolid x y f = false) ∧
    ((OnPositionPacket.extrapolate positionTable positionEnv 1 ⟨16383 / 16, 500⟩ ⟨1, 0⟩
        40).players 1).position = ⟨409467 / 400, 500⟩ ∧
    ((OnPositionPacket.extrapolate positionTable positionEnv 1 ⟨16383 / 16, 500⟩ ⟨1, 0⟩
        40).players 1).velocity = ⟨-1, 0⟩ ∧
    (⟨409467 / 400, 500⟩ : Vector2f) ≠
      ⟨(16383 / 16 : ℚ) + 1 * 40 / 100, (500 : ℚ) + 0 * 40 / 100⟩ :=
  ⟨fun _ _ _ => rfl, by decide!, by decide!, by decide!, by decide!, fun _ _ _ => rfl,
    by decide!, by decide!, by decide!⟩

/-! ## Snap or lerp -/

/-- A simulation step of the extrapolation for a player other than self: the
record of the slot is moved along both axes and its lerp time drops by `dt`;
nothing else happens. -/
theorem SimulatePlayer_other (s : PlayerManager) (env : Env) (i : Nat) (dt : ℚ)
    (h : (s.players i).id ≠ s.player_id) :
    SimulatePlayer s env i dt true =
      s.setPlayer i { SimulatePlayer.axes env (s.players i) dt true with
        lerp_time := (SimulatePlayer.axes env (s.players i) dt true).lerp_time - dt } := by
  obtain ⟨h1, -⟩ := SimulatePlayer_axes_fields env (s.players i) dt true
  unfold SimulatePlayer
  rw [if_neg (by simp)]
  dsimp only
  rw [if_neg]
  · rw [setPlayer_players_same, setPlayer_setPlayer]
  · rintro ⟨-, h2⟩
    rw [setPlayer_players_same, h1] at h2
    exact h h2

theorem simulate_other_togglables (s : PlayerManager) (env : Env) (i n : Nat)
    (h : (s.players i).id ≠ s.player_id) :
    (((fun st => SimulatePlayer st env i (1 / 100) true)^[n] s).players i).togglables =
      (s.players i).togglables := by
  induction n with
  | zero => rfl
  | succ n ih =>
    rw [Function.iterate_succ_apply']
    have hf := simulate_reconcileFrame s env i n
    have hid : (((fun st => SimulatePlayer st env i (1 / 100) true)^[n] s).players i).id ≠
        ((fun st => SimulatePlayer st env i (1 / 100) true)^[n] s).player_id := by
      rw [(hf.2.2.2 i).1, hf.1]
      exact h
    rw [SimulatePlayer_other _ env i _ hid, setPlayer_players_same]
    exact (SimulatePlayer_axes_fields env _ _ true).2.2.2.1.trans ih

theorem extrapolate_other_togglables (s : PlayerManager) (env : Env) (i : Nat)
    (position velocity : Vector2f) (n : Nat) (h : (s.players i).id ≠ s.player_id) :
    ((OnPositionPacket.extrapolate s env i position velocity n).players i).togglables =
      (s.players i).togglables := by
  unfold OnPositionPacket.extrapolate
  rw [simulate_other_togglables _ env i n (by rw [setPlayer_players_same]; exact h),
    setPlayer_players_same]

/-- C15, amended: in `OnPositionPacket` for a player that is not a dead self,
with `prev` the position before the packet and `proj` the position after the
extrapolation, the reconciler decides as follows. If `|proj.x - prev.x| >= 4`
or `|proj.y - prev.y| >= 4` or Flash is set after the extrapolation, then
position = `proj` and lerp_time = 0, and the Flash bit is cleared exactly when
it was set and `prev != (0, 0)`; otherwise position = `prev`, lerp_time = 0.2
and lerp_velocity = `(proj - prev) / 0.2`. For a player other than self this
is the state the handler returns and the extrapolation leaves the togglables
as they were; for self the handler then runs `UnstuckSelf`, which may move
the position, and dispatches the teleport event. -/
theorem C15_snap_or_lerp (s : PlayerManager) (env : Env) (i : Nat)
    (position velocity : Vector2f) (sim_ticks : Int)
    (halive : ¬ ((s.players i).id = s.player_id ∧ 0 < (s.players i).enter_delay)) :
    ((4 ≤ |((OnPositionPacket.extrapolate s env i position velocity sim_ticks.toNat).players
            i).position.x - (s.players i).position.x| ∨
        4 ≤ |((OnPositionPacket.extrapolate s env i position velocity sim_ticks.toNat).players
            i).position.y - (s.players i).position.y| ∨
        ((OnPositionPacket.extrapolate s env i position velocity sim_ticks.toNat).players
            i).togglables &&& Status_Flash ≠ 0) →
      ((OnPositionPacket.reconcile s env i position velocity sim_ticks).players i).position =
          ((OnPositionPacket.extrapolate s env i position velocity sim_ticks.toNat).players
            i).position ∧
        ((OnPositionPacket.reconcile s env i position velocity sim_ticks).players i).lerp_time
          = 0 ∧
        ((OnPositionPacket.reconcile s env i position velocity sim_ticks).players i).togglables =
          if ((OnPositionPacket.extrapolate s env i position velocity sim_ticks.toNat).players
              i).togglables &&& Status_Flash ≠ 0 ∧ (s.players i).position ≠ ⟨0, 0⟩ then
            clearBits ((OnPositionPacket.extrapolate s env i position velocity
              sim_ticks.toNat).players i).togglables Status_Flash
          else ((OnPositionPacket.extrapolate s env i position velocity sim_ticks.toNat).players
              i).togglables) ∧
    (¬ (4 ≤ |((OnPositionPacket.extrapolate s env i position velocity sim_ticks.toNat).players
            i).position.x - (s.players i).position.x| ∨
        4 ≤ |((OnPositionPacket.extrapolate s env i position velocity sim_ticks.toNat).players
            i).position.y - (s.players i).position.y| ∨
        ((OnPositionPacket.extrapolate s env i position velocity sim_ticks.toNat).players
            i).togglables &&& Status_Flash ≠ 0) →
      ((OnPositionPacket.reconcile s env i position velocity sim_ticks).players i).position =
          (s.players i).position ∧
        ((OnPositionPacket.reconcile s env i position velocity sim_ticks).players i).lerp_time
          = 1 / 5 ∧
        ((OnPositionPacket.reconcile s env i position velocity sim_ticks).players i).lerp_velocity
          = ⟨(((OnPositionPacket.extrapolate s env i position velocity sim_ticks.toNat).players
                i).position.x - (s.players i).position.x) / (1 / 5),
             (((OnPositionPacket.extrapolate s env i position velocity sim_ticks.toNat).players
                i).position.y - (s.players i).position.y) / (1 / 5)⟩ ∧
        ((OnPositionPacket.reconcile s env i position velocity sim_ticks).players i).togglables =
          ((OnPositionPacket.extrapolate s env i position velocity sim_ticks.toNat).players
            i).togglables) ∧
    ((s.players i).id ≠ s.player_id →
      OnPositionPacket s env i position velocity sim_ticks =
          OnPositionPacket.reconcile s env i position velocity sim_ticks ∧
        ((OnPositionPacket.extrapolate s env i position velocity sim_ticks.toNat).players
          i).togglables = (s.players i).togglables) ∧
    ((s.players i).id = s.player_id →
      OnPositionPacket s env i position velocity sim_ticks =
        ((OnPositionPacket.reconcile s env i position velocity sim_ticks).setPlayer i
          (UnstuckSelf env
            ((OnPositionPacket.reconcile s env i position velocity sim_ticks).players i))).emit
          (Effect.TeleportEvent (s.players i).id)) := by
  have hf := reconcile_reconcileFrame s env i position velocity sim_ticks
  have hr : (OnPositionPacket.reconcile s env i position velocity sim_ticks).players i =
      OnPositionPacket.settle
        ((OnPositionPacket.extrapolate s env i position velocity sim_ticks.toNat).players i)
        (s.players i).position := by
    unfold OnPositionPacket.reconcile
    dsimp only
    rw [setPlayer_players_same]
  refine ⟨fun hsnap => ?_, fun hsnap => ?_, fun hid => ⟨?_, ?_⟩, fun hid => ?_⟩
  · rw [hr]
    unfold OnPositionPacket.settle
    dsimp only
    rw [if_pos hsnap]
    exact ⟨rfl, rfl, rfl⟩
  · rw [hr]
    unfold OnPositionPacket.settle
    dsimp only
    rw [if_neg hsnap]
    refine ⟨rfl, by norm_num, ?_, rfl⟩
    dsimp only
    congr 1 <;> ring
  · unfold OnPositionPacket
    rw [if_neg halive]
    dsimp only
    rw [if_neg]
    rw [(hf.2.2.2 i).1, hf.1]
    exact hid
  · exact extrapolate_other_togglables s env i position velocity _ hid
  · unfold OnPositionPacket
    rw [if_neg halive]
    dsimp only
    rw [if_pos (by rw [(hf.2.2.2 i).1, hf.1]; exact hid)]
    rw [setPlayer_players_same, (UnstuckSelf_fields env _).1, (hf.2.2.2 i).1]

theorem C15_snap_or_lerp_witness :
    (((OnPositionPacket.reconcile flashTable positionEnv 1 ⟨500, 500⟩ ⟨1, 0⟩ 50).players
          1).position =
        ((OnPositionPacket.extrapolate flashTable positionEnv 1 ⟨500, 500⟩ ⟨1, 0⟩
          (50 : Int).toNat).players 1).position ∧
      ((OnPositionPacket.reconcile flashTable positionEnv 1 ⟨500, 500⟩ ⟨1, 0⟩ 50).players
          1).lerp_time = 0) ∧
    OnPositionPacket flashTable positionEnv 1 ⟨500, 500⟩ ⟨1, 0⟩ 50 =
      OnPositionPacket.reconcile flashTable positionEnv 1 ⟨500, 500⟩ ⟨1, 0⟩ 50 ∧
    ((OnPositionPacket flashTable positionEnv 1 ⟨500, 500⟩ ⟨1, 0⟩ 50).players 1).position =
      ⟨1001 / 2, 500⟩ ∧
    (flashTable.players 1).togglables = Status_Flash ∧
    ((OnPositionPacket flashTable positionEnv 1 ⟨500, 500⟩ ⟨1, 0⟩ 50).players 1).togglables = 0 :=
  ⟨⟨((C15_snap_or_lerp flashTable positionEnv 1 ⟨500, 500⟩ ⟨1, 0⟩ 50 (by decide!)).1
        (Or.inr (Or.inr (by decide!)))).1,
      ((C15_snap_or_lerp flashTable positionEnv 1 ⟨500, 500⟩ ⟨1, 0⟩ 50 (by decide!)).1
        (Or.inr (Or.inr (by decide!)))).2.1⟩,
    ((C15_snap_or_lerp flashTable positionEnv 1 ⟨500, 500⟩ ⟨1, 0⟩ 50 (by decide!)).2.2.1
      (by decide!)).1,
    by decide!, by decide!, by decide!⟩

/-- C15, counterexample: self is alive at (500, 500) and a position packet
places it at (510.5, 510.5), inside the solid tile (510, 510), with no
simulation steps to run. The extrapolated position is 10.5 tiles away on both
axes, so the reconciler snaps to it, but the handler then runs `UnstuckSelf`
and self ends at (509, 509), not at the extrapolated position. -/
theorem C15_counterexample :
    ¬ ((positionTable.players 0).id = positionTable.player_id ∧
      0 < (positionTable.players 0).enter_delay) ∧
    ((OnPositionPacket.extrapolate positionTable wallEnv 0 ⟨1021 / 2, 1021 / 2⟩ ⟨0, 0⟩ 0).players
        0).position = ⟨1021 / 2, 1021 / 2⟩ ∧
    4 ≤ |((OnPositionPacket.extrapolate positionTable wallEnv 0 ⟨1021 / 2, 1021 / 2⟩ ⟨0, 0⟩
        0).players 0).position.x - (positionTable.players 0).position.x| ∧
    ((OnPositionPacket positionTable wallEnv 0 ⟨1021 / 2, 1021 / 2⟩ ⟨0, 0⟩ 0).players 0).position =
      ⟨509, 509⟩ ∧
    ((OnPositionPacket positionTable wallEnv 0 ⟨1021 / 2, 1021 / 2⟩ ⟨0, 0⟩ 0).players 0).position ≠
      ((OnPositionPacket.extrapolate positionTable wallEnv 0 ⟨1021 / 2, 1021 / 2⟩ ⟨0, 0⟩
        0).players 0).position :=
  ⟨by decide!, by decide!, by decide!, by decide!, by decide!⟩

/-! ## Togglables of a batched record -/

theorem testBit_small {a k : Nat} (ha : a < 64) (hk : 6 ≤ k) : a.testBit k = false :=
  Nat.testBit_lt_two_pow (lt_of_lt_of_le ha (Nat.pow_le_pow_right (by decide) hk : 2 ^ 6 ≤ 2 ^ k))

/-- Merging six record bits into the two top bits kept from the old value:
the top bits are the old ones, the low six are the record's. -/
theorem merge_togglables (a b : Nat) (ha : a < 64) :
    (a ||| (b &&& 0xC0)) &&& 0xC0 = b &&& 0xC0 ∧ (a ||| (b &&& 0xC0)) &&& 0x3F = a := by
  constructor
  · apply Nat.eq_of_testBit_eq
    intro k
    simp only [Nat.testBit_and, Nat.testBit_or, testBit_192]
    by_cases hk : k = 6 ∨ k = 7
    · rw [testBit_small ha (by omega)]
      simp [hk]
    · simp [hk]
  · apply Nat.eq_of_testBit_eq
    intro k
    simp only [Nat.testBit_and, Nat.testBit_or, testBit_192, testBit_63]
    by_cases hk : k < 6
    · have h67 : ¬ (k = 6 ∨ k = 7) := by omega
      simp [hk, h67]
    · rw [testBit_small ha (by omega)]
      simp [hk]

theorem clearBits_and (t m c : Nat) : clearBits t m &&& c = clearBits (t &&& c) m := by
  apply Nat.eq_of_testBit_eq
  intro k
  simp only [Nat.testBit_and, testBit_clearBits]
  cases t.testBit k <;> cases m.testBit k <;> cases c.testBit k <;> rfl

/-- Two values that agree apart from the Flash bit have the same two top
bits. -/
theorem top_bits_of_clearBits {t u : Nat}
    (h : clearBits t Status_Flash = clearBits u Status_Flash) : t &&& 0xC0 = u &&& 0xC0 := by
  apply Nat.eq_of_testBit_eq
  intro k
  have hk := congrArg (fun x => Nat.testBit x k) h
  simp only [testBit_clearBits, Status_Flash, testBit_16] at hk
  simp only [Nat.testBit_and, testBit_192]
  by_cases h67 : k = 6 ∨ k = 7
  · have h4 : k ≠ 4 := by omega
    simp only [h4, decide_False, Bool.not_false, Bool.and_true] at hk
    rw [hk]
  · simp [h67]

theorem decode_togglables_lt (buf : List Nat) (off : Nat) :
    (OnBatchedLargePositionPacket.decode buf off).togglables < 64 := by
  have h := ReadU16_lt buf off
  show u8 (ReadU16 buf off >>> 10) < 64
  rw [shr_10]
  unfold u8
  omega

/-- The togglables `OnPositionPacket` leaves in the slot of a player other
than self: the Flash bit is cleared when it was set and the previous position
was not (0, 0); nothing else changes. -/
theorem OnPositionPacket_other_togglables (s : PlayerManager) (env : Env) (i : Nat)
    (position velocity : Vector2f) (sim_ticks : Int) (hid : (s.players i).id ≠ s.player_id) :
    ((OnPositionPacket s env i position velocity sim_ticks).players i).togglables =
      if (s.players i).togglables &&& Status_Flash ≠ 0 ∧ (s.players i).position ≠ ⟨0, 0⟩ then
        clearBits (s.players i).togglables Status_Flash
      else (s.players i).togglables := by
  have hf := reconcile_reconcileFrame s env i position velocity sim_ticks
  have ht := extrapolate_other_togglables s env i position velocity sim_ticks.toNat hid
  unfold OnPositionPacket
  rw [if_neg (fun h => hid h.1)]
  dsimp only
  rw [if_neg (by rw [(hf.2.2.2 i).1, hf.1]; exact hid)]
  unfold OnPositionPacket.reconcile
  dsimp only
  rw [setPlayer_players_same]
  unfold OnPositionPacket.settle
  dsimp only
  rw [ht]
  by_cases hfl : (s.players i).togglables &&& Status_Flash ≠ 0
  · rw [if_pos (Or.inr (Or.inr hfl))]
  · by_cases hsnap : 4 ≤ |((OnPositionPacket.extrapolate s env i position velocity
          sim_ticks.toNat).players i).position.x - (s.players i).position.x| ∨
        4 ≤ |((OnPositionPacket.extrapolate s env i position velocity
          sim_ticks.toNat).players i).position.y - (s.players i).position.y| ∨
        (s.players i).togglables &&& Status_Flash ≠ 0
    · rw [if_pos hsnap]
    · rw [if_neg hsnap, if_neg (fun h => hfl h.1)]

/-- C18, amended: after `OnBatchedLargePositionPacket` accepts a record for
the player in slot `i`, the two top bits (mask 0xC0) of the player's
togglables are as before the record, and the low six bits are those of the
record apart from the Flash bit. For a player other than self the Flash bit
is the record's, cleared when it was set and the player's previous position
was not (0, 0); for self a wormhole respawn during the extrapolation can set
it. -/
theorem C18_batched_togglables (s : PlayerManager) (env : Env) (buf : List Nat) (off i : Nat)
    (h0 : ¬ 300 ≤ TICK_DIFF (localTimestamp env ((env.server_tick &&& 0x7FFFFC00) |||
      (OnBatchedLargePositionPacket.decode buf off).timestamp)) env.tick)
    (hg : GetPlayerById s (OnBatchedLargePositionPacket.decode buf off).player_id = some i)
    (hnew : IsNewerPositionPacket s env (some i) (((env.server_tick &&& 0x7FFFFC00) |||
      (OnBatchedLargePositionPacket.decode buf off).timestamp) &&& 0xFFFF) = true) :
    ((OnBatchedLargePositionPacket.record s env buf off).players i).togglables &&& 0xC0 =
      (s.players i).togglables &&& 0xC0 ∧
    clearBits (((OnBatchedLargePositionPacket.record s env buf off).players i).togglables &&& 0x3F)
        Status_Flash =
      clearBits (OnBatchedLargePositionPacket.decode buf off).togglables Status_Flash ∧
    ((s.players i).id ≠ s.player_id →
      ((OnBatchedLargePositionPacket.record s env buf off).players i).togglables &&& 0x3F =
        if (OnBatchedLargePositionPacket.decode buf off).togglables &&& Status_Flash ≠ 0 ∧
            (s.players i).position ≠ ⟨0, 0⟩ then
          clearBits (OnBatchedLargePositionPacket.decode buf off).togglables Status_Flash
        else (OnBatchedLargePositionPacket.decode buf off).togglables) := by
  have hlt := decode_togglables_lt buf off
  obtain ⟨m1, m2⟩ := merge_togglables (OnBatchedLargePositionPacket.decode buf off).togglables
    (s.players i).togglables hlt
  rw [large_record_accepted h0 hg hnew]
  generalize hX : s.setPlayer i { s.players i with
      timestamp := ((env.server_tick &&& 0x7FFFFC00) |||
        (OnBatchedLargePositionPacket.decode buf off).timestamp) &&& 0xFFFF,
      orientation := ((OnBatchedLargePositionPacket.decode buf off).direction : ℚ) / 40,
      togglables := (OnBatchedLargePositionPacket.decode buf off).togglables |||
        ((s.players i).togglables &&& 0xC0) } = X
  have hXt : (X.players i).togglables = (OnBatchedLargePositionPacket.decode buf off).togglables |||
      ((s.players i).togglables &&& 0xC0) := by
    rw [← hX, setPlayer_players_same]
  have hXp : (X.players i).position = (s.players i).position := by
    rw [← hX, setPlayer_players_same]
  have hXid : (X.players i).id = (s.players i).id := by
    rw [← hX, setPlayer_players_same]
  have hXpid : X.player_id = s.player_id := by rw [← hX]; rfl
  generalize (OnBatchedLargePositionPacket.decode buf off).position = position
  generalize (OnBatchedLargePositionPacket.decode buf off).velocity = velocity
  generalize GetTimestampDiff env ((env.server_tick &&& 0x7FFFFC00) |||
    (OnBatchedLargePositionPacket.decode buf off).timestamp) = sim_ticks
  have hf := ((OnPositionPacket_reconcileFrame X env i position velocity sim_ticks).2.2.2 i).2.2.2
  rw [hXt] at hf
  refine ⟨?_, ?_, fun hid => ?_⟩
  · rw [top_bits_of_clearBits hf, m1]
  · rw [← clearBits_and, hf, clearBits_and, m2]
  · rw [OnPositionPacket_other_togglables X env i position velocity sim_ticks
      (by rw [hXid, hXpid]; exact hid), hXt, hXp]
    have h16 : ((OnBatchedLargePositionPacket.decode buf off).togglables |||
        ((s.players i).togglables &&& 0xC0)) &&& Status_Flash =
        (OnBatchedLargePositionPacket.decode buf off).togglables &&& Status_Flash := by
      conv_rhs => rw [← m2]
      rw [Nat.and_assoc]
      rfl
    rw [h16]
    split_ifs
    · rw [clearBits_and, m2]
    · exact m2

theorem C18_batched_togglables_witness :
    (flashTable.players 1).togglables = 16 ∧
    (OnBatchedLargePositionPacket.decode (largeBatch 90) 1).togglables = 0 ∧
    ((OnBatchedLargePositionPacket.record flashTable positionEnv (largeBatch 90) 1).players
        1).togglables &&& 0xC0 = (flashTable.players 1).togglables &&& 0xC0 ∧
    ((OnBatchedLargePositionPacket.record flashTable positionEnv (largeBatch 90) 1).players
        1).togglables &&& 0x3F = 0 :=
  ⟨by decide!, by decide!,
    (C18_batched_togglables flashTable positionEnv (largeBatch 90) 1 1 (by decide!) (by decide!)
      (by decide!)).1,
    by decide!⟩

/-- C18, counterexample: self stands at the origin on a map of wormhole tiles
and a batched-large record for self arrives with no togglables set and one
tick to extrapolate. The wormhole respawn sets the Flash bit, the previous
position (0, 0) keeps the reconciler from clearing it, and afterwards the low
six bits of self's togglables are 0x10, not the record's 0. -/
theorem C18_counterexample :
    (OnBatchedLargePositionPacket.decode selfBatch 1).player_id = 7 ∧
    (OnBatchedLargePositionPacket.decode selfBatch 1).togglables = 0 ∧
    GetPlayerById originTable 7 = some 0 ∧
    (originTable.players 0).togglables = 0 ∧
    OnBatchedLargePositionPacket.record originTable wormholeEnv selfBatch 1 ≠ originTable ∧
    ((OnBatchedLargePositionPacket.record originTable wormholeEnv selfBatch 1).players
        0).timestamp = 4195 ∧
    ((OnBatchedLargePositionPacket.record originTable wormholeEnv selfBatch 1).players
        0).togglables &&& 0x3F = 0x10 := by
  have h : ((OnBatchedLargePositionPacket.record originTable wormholeEnv selfBatch 1).players
      0).timestamp = 4195 := by decide!
  refine ⟨by decide!, by decide!, by decide!, by decide!, fun he => ?_, h, by decide!⟩
  rw [he] at h
  exact absurd h (by decide!)

/-! ## Termination of the unstuck loop -/

theorem Rat_floor_eq (q : ℚ) : Rat.floor q = ⌊q⌋ := rfl

theorem attachBlock_kept {s s1 : PlayerManager} {player vx vy vx1 vy1 : Nat}
    (h : SendPositionPacket.attachBlock s player vx vy = some (s1, vx1, vy1)) :
    s1.last_position_tick = s.last_position_tick ∧
      (s1.trace = s.trace ∨ ∃ a b, s1.trace = s.trace ++ [Effect.PlayerAttachEvent a b]) ∧
      ∀ j, (s1.players j).position = (s.players j).position ∧
        (s1.players j).velocity = (s.players j).velocity ∧
        (s1.players j).togglables = (s.players j).togglables := by
  unfold SendPositionPacket.attachBlock at h
  by_cases hp : (s.players player).attach_parent ≠ kInvalidPlayerId
  · rw [if_pos hp] at h
    cases hg : GetPlayerById s (s.players player).attach_parent with
    | none =>
      rw [hg] at h
      simp only [Option.some.injEq, Prod.mk.injEq] at h
      obtain ⟨rfl, rfl, rfl⟩ := h
      refine ⟨rfl, Or.inl rfl, fun j => ?_⟩
      by_cases hj : j = player
      · subst hj; simp [PlayerManager.setPlayer]
      · simp [PlayerManager.setPlayer, hj]
    | some parent =>
      rw [hg] at h
      simp only at h
      by_cases hsync : IsSynchronized (s.players parent) = true
      · rw [if_neg (not_not.mpr hsync)] at h
        simp only [Option.some.injEq, Prod.mk.injEq] at h
        obtain ⟨rfl, rfl, rfl⟩ := h
        by_cases hreq : s.requesting_attach = true
        · rw [if_pos hreq]
          refine ⟨rfl, Or.inr ⟨_, _, rfl⟩, fun j => ?_⟩
          by_cases hj : j = player
          · subst hj; simp [PlayerManager.setPlayer, PlayerManager.emit]
          · simp [PlayerManager.setPlayer, PlayerManager.emit, hj]
        · rw [if_neg hreq]
          exact ⟨rfl, Or.inl rfl, fun j => ⟨rfl, rfl, rfl⟩⟩
      · rw [if_pos hsync] at h
        exact absurd h (by simp)
  · rw [if_neg hp] at h
    simp only [Option.some.injEq, Prod.mk.injEq] at h
    obtain ⟨rfl, rfl, rfl⟩ := h
    exact ⟨rfl, Or.inl rfl, fun j => ⟨rfl, rfl, rfl⟩⟩

/-- The two ways `SendPositionPacket` returns: the early return, which only
writes `last_position_tick`, or the send from a state `s1` that differs from
`s` by the attach block only. -/
theorem SendPositionPacket_cases {s s' : PlayerManager} {env : Env}
    (h : SendPositionPacket s env = some s') :
    ∃ self, GetPlayerById s s.player_id = some self ∧
      (s' = { s with last_position_tick := env.MAKE_TICK ((env.tick : Int) + env.time_diff) } ∨
        ∃ s1 pk, s' = SendPositionPacket.send s1 env self
            (env.MAKE_TICK ((env.tick : Int) + env.time_diff)) pk ∧
          s1.last_position_tick = s.last_position_tick ∧
          (s1.trace = s.trace ∨ ∃ a b, s1.trace = s.trace ++ [Effect.PlayerAttachEvent a b]) ∧
          (pk.togglables = if (s.players self).ship ≠ 8 ∧ 0 < (s.players self).enter_delay
            then 0x80 else u8 (s.players self).togglables) ∧
          ∀ j, (s1.players j).position = (s.players j).position ∧
            (s1.players j).velocity = (s.players j).velocity ∧
            (s1.players j).togglables = (s.players j).togglables) := by
  unfold SendPositionPacket at h
  cases hg : GetPlayerById s s.player_id with
  | none => rw [hg] at h; exact absurd h (by simp)
  | some self =>
    rw [hg] at h
    simp only at h
    refine ⟨self, rfl, ?_⟩
    split at h
    · simp only [Option.some.injEq] at h
      exact Or.inl h.symm
    · rename_i s1 vx vy hab
      simp only [Option.some.injEq] at h
      obtain ⟨ht, htr, hf⟩ := attachBlock_kept hab
      refine Or.inr ⟨s1, _, h.symm, ht, htr, ?_, hf⟩
      simp only [decide_eq_true_eq]

/-- C21: a session in which the timestamps sent are not increasing. The first
call sends timestamp 1000; the second call, with self attached to a parent
that is not synchronized and the clock offset lowered by 500, returns early
and writes 600 over `last_position_tick`; the third call then sends 601,
which is older than the 1000 sent before. -/
theorem C21_early_return_lowers_last_position_tick :
    resyncFirst.map sentTimestamps = some [1000] ∧
      resyncFirst.map (fun s => s.last_position_tick) = some 1000 ∧
      resyncSecond.map sentTimestamps = some [1000] ∧
      resyncSecond.map (fun s => s.last_position_tick) = some 600 ∧
      resyncThird.map sentTimestamps = some [1000, 601] := by
  decide!

/-- C23: when self is attached to a live parent that is not synchronized,
`SendPositionPacket` sends nothing, sets `last_position_tick` to the current
server timestamp and changes no player field (the player array is the same,
so self's energy, Flash bit and `attach_parent` are), and `requesting_attach`
is untouched. -/
theorem C23_unsynchronized_parent_skips_send (s : PlayerManager) (env : Env) (self d : Nat)
    (hl : LinkedToParent s self d) (hsync : IsSynchronized (s.players d) = false) :
    ∃ s', SendPositionPacket s env = some s' ∧ sentPackets s s' = [] ∧ s'.trace = s.trace ∧
      s'.last_position_tick = env.MAKE_TICK ((env.tick : Int) + env.time_diff) ∧
      s'.players = s.players ∧ s'.requesting_attach = s.requesting_attach ∧
      (s'.players self).energy = (s.players self).energy ∧
      (s'.players self).togglables &&& Status_Flash =
        (s.players self).togglables &&& Status_Flash ∧
      (s'.players self).attach_parent = (s.players self).attach_parent := by
  refine ⟨_, SendPositionPacket_unsynchronized s env self d hl hsync, ?_, rfl, rfl, rfl, rfl,
    rfl, rfl, rfl⟩
  exact (sentPackets_of_trace (l := []) (by simp)).trans rfl

theorem C23_unsynchronized_parent_skips_send_witness :
    ∃ s', SendPositionPacket unsyncTable quietEnv = some s' ∧
      sentPackets unsyncTable s' = [] ∧ s'.trace = unsyncTable.trace ∧
      s'.last_position_tick = quietEnv.MAKE_TICK ((quietEnv.tick : Int) + quietEnv.time_diff) ∧
      s'.players = unsyncTable.players ∧
      s'.requesting_attach = unsyncTable.requesting_attach ∧
      (s'.players 1).energy = (unsyncTable.players 1).energy ∧
      (s'.players 1).togglables &&& Status_Flash =
        (unsyncTable.players 1).togglables &&& Status_Flash ∧
      (s'.players 1).attach_parent = (unsyncTable.players 1).attach_parent :=
  C23_unsynchronized_parent_skips_send unsyncTable quietEnv 1 0
    (by unfold LinkedToParent; decide!) (by decide!)

/-! ## Leaving a wall (C24 to C26) -/

theorem UnstuckSelf_loop_bounds (colliding : Vector2f → Bool) (fuel : Nat) :
    ∀ position : Vector2f, 0 ≤ position.x → 0 ≤ position.y →
      (Rat.floor position.x).toNat + 1 ≤ fuel →
      0 ≤ (UnstuckSelf.loop colliding fuel position).x ∧
        -1 ≤ (UnstuckSelf.loop colliding fuel position).y ∧
        (colliding (UnstuckSelf.loop colliding fuel position) = false ∨
          (UnstuckSelf.loop colliding fuel position).x = 0 ∨
          (UnstuckSelf.loop colliding fuel position).y = 0) := by
  induction fuel with
  | zero => intro position _ _ h; omega
  | succ n ih =>
    intro position h0x h0y hf
    unfold UnstuckSelf.loop
    by_cases hc : colliding position = true
    · simp only [hc, if_true]
      by_cases hx : ((Rat.floor (position.x - 1) : Int) : ℚ) < 0
      · simp only [hx, if_true]
        refine ⟨le_refl _, ?_, Or.inr (Or.inl trivial)⟩
        have hfy : Rat.floor (position.y - 1) = Rat.floor position.y - 1 := by
          rw [Rat_floor_eq, Rat_floor_eq]; exact Int.floor_sub_one _
        have h0 : (0 : Int) ≤ Rat.floor position.y := by
          rw [Rat_floor_eq]; exact Int.floor_nonneg.mpr h0y
        show (-1 : ℚ) ≤ ((Rat.floor (position.y - 1) : Int) : ℚ)
        rw [hfy]
        have : (-1 : Int) ≤ Rat.floor position.y - 1 := by omega
        exact_mod_cast this
      · simp only [hx, if_false]
        by_cases hy : ((Rat.floor (position.y - 1) : Int) : ℚ) < 0
        · simp only [hy, if_true]
          exact ⟨not_lt.mp hx, by norm_num, Or.inr (Or.inr trivial)⟩
        · simp only [hy, if_false]
          have hx0 : (0 : Int) ≤ Rat.floor (position.x - 1) := by
            have := not_lt.mp hx
            exact_mod_cast this
          have hfx : Rat.floor (position.x - 1) = Rat.floor position.x - 1 := by
            rw [Rat_floor_eq, Rat_floor_eq]; exact Int.floor_sub_one _
          have hffx : Rat.floor ((Rat.floor (position.x - 1) : Int) : ℚ) =
              Rat.floor (position.x - 1) := by
            rw [Rat_floor_eq]; exact Int.floor_intCast _
          exact ih ⟨Rat.floor (position.x - 1), Rat.floor (position.y - 1)⟩
            (not_lt.mp hx) (not_lt.mp hy) (by
              show (Rat.floor ((Rat.floor (position.x - 1) : Int) : ℚ)).toNat + 1 ≤ n
              rw [hffx]; omega)
    · simp only [hc, Bool.false_eq_true, if_false]
      exact ⟨h0x, le_trans (by norm_num) h0y, Or.inl trivial⟩

/-- C26: a run of `UnstuckSelf` that ends below the map. Self stands in the
middle of the corner tile (0, 0), which is a wall, in ship 0; the step to
(-1, -1) is stopped by the test of `x`, which sets `x` to 0 and leaves the loop
before `y` is looked at, so self ends at (0, -1). -/
theorem C26_unstuck_leaves_negative_y :
    cornerSelf.ship < 8 ∧ 0 ≤ cornerSelf.position.x ∧ 0 ≤ cornerSelf.position.y ∧
      (UnstuckSelf cornerEnv cornerSelf).position = ⟨0, -1⟩ ∧
      (UnstuckSelf cornerEnv cornerSelf).position.y < 0 := by
  decide!


theorem flash_bit (t : Nat) : t &&& Status_Flash ≠ 0 ↔ t.testBit 4 = true := by
  constructor
  · intro h
    by_contra hb
    apply h
    apply Nat.eq_of_testBit_eq
    intro k
    rw [Nat.testBit_and, Status_Flash, testBit_16, Nat.zero_testBit]
    by_cases hk : k = 4
    · subst hk; simp [hb]
    · simp [hk]
  · intro h h0
    have := congrArg (fun x => Nat.testBit x 4) h0
    simp only [Nat.testBit_and, Status_Flash, testBit_16, Nat.zero_testBit, h] at this
    exact absurd this (by decide)

theorem flash_cleared (t : Nat) : clearBits t Status_Flash &&& Status_Flash = 0 := by
  apply Nat.eq_of_testBit_eq
  intro k
  rw [Nat.testBit_and, testBit_clearBits, Nat.zero_testBit]
  cases t.testBit k <;> cases Status_Flash.testBit k <;> rfl

theorem UnstuckSelf_position (env : Env) (p q : Player) (hs : p.ship = q.ship)
    (hf : p.frequency = q.frequency) (hp : p.position = q.position) :
    (UnstuckSelf env p).position = (UnstuckSelf env q).position := by
  unfold UnstuckSelf
  rw [hs, hf, hp]
  split_ifs
  · rfl
  · exact hp

theorem UnstuckSelf_kept (env : Env) (p : Player) :
    (UnstuckSelf env p).velocity = p.velocity ∧ (UnstuckSelf env p).ship = p.ship ∧
      (UnstuckSelf env p).energy = p.energy := by
  unfold UnstuckSelf
  split_ifs
  · exact ⟨rfl, rfl, rfl⟩
  · exact ⟨rfl, rfl, rfl⟩

theorem UnstuckSelf_clear (env : Env) (p : Player)
    (h : 8 ≤ p.ship ∨ env.map.IsColliding p.position (env.map.GetRadius p.ship) p.frequency = false) :
    (UnstuckSelf env p).position = p.position := by
  unfold UnstuckSelf
  by_cases hs : p.ship < 8
  · rw [if_pos hs]
    rcases h with h | h
    · omega
    · show UnstuckSelf.loop _ _ _ = _
      unfold UnstuckSelf.loop
      simp only [h, Bool.false_eq_true, if_false]
  · rw [if_neg hs]

theorem SendPositionPacket_returns {s : PlayerManager} (env : Env) {self : Nat}
    (h : GetPlayerById s s.player_id = some self) : ∃ s', SendPositionPacket s env = some s' := by
  unfold SendPositionPacket
  rw [h]
  simp only
  split
  · exact ⟨_, rfl⟩
  · exact ⟨_, rfl⟩

theorem OnSetCoordinatesPkt_safety_spec (s : PlayerManager) (env : Env) (self : Nat) :
    (OnSetCoordinatesPkt.safety s env self).player_id = s.player_id ∧
      (OnSetCoordinatesPkt.safety s env self).player_lookup = s.player_lookup ∧
      ((OnSetCoordinatesPkt.safety s env self).players self).position
        = (s.players self).position ∧
      ((OnSetCoordinatesPkt.safety s env self).players self).velocity
        = (s.players self).velocity ∧
      (((OnSetCoordinatesPkt.safety s env self).players self).togglables.testBit 4
        = (s.players self).togglables.testBit 4) ∧
      ((OnSetCoordinatesPkt.safety s env self).players self).ship = (s.players self).ship ∧
      ((OnSetCoordinatesPkt.safety s env self).players self).enter_delay
        = (s.players self).enter_delay ∧
      ∃ l, (OnSetCoordinatesPkt.safety s env self).trace = s.trace ++ l ∧
        l.filterMap (fun e =>
          match e with
          | Effect.Send pkt => some pkt
          | _ => none) = [] := by
  unfold OnSetCoordinatesPkt.safety
  simp only
  by_cases ht : env.map.GetTileId (s.players self).position = env.map.kTileIdSafe
  · rw [if_pos ht]
    have hb : ∀ t : Nat, (t ||| Status_Safety).testBit 4 = t.testBit 4 := by
      intro t
      rw [Nat.testBit_or]
      have : Status_Safety.testBit 4 = false := by decide
      rw [this, Bool.or_false]
    by_cases hsafe : (s.players self).togglables &&& Status_Safety = 0
    · rw [if_pos hsafe]
      refine ⟨rfl, rfl, ?_, ?_, ?_, ?_, ?_, ⟨[_], rfl, rfl⟩⟩ <;>
        simp [PlayerManager.setPlayer, PlayerManager.emit, hb]
    · rw [if_neg hsafe]
      refine ⟨rfl, rfl, ?_, ?_, ?_, ?_, ?_, ⟨[], by simp [PlayerManager.setPlayer], rfl⟩⟩ <;>
        simp [PlayerManager.setPlayer, hb]
  · rw [if_neg ht]
    have hb : ∀ t : Nat, (clearBits t Status_Safety).testBit 4 = t.testBit 4 := by
      intro t
      rw [testBit_clearBits]
      have : Status_Safety.testBit 4 = false := by decide
      rw [this]; simp
    by_cases hsafe : (s.players self).togglables &&& Status_Safety ≠ 0
    · rw [if_pos hsafe]
      refine ⟨rfl, rfl, ?_, ?_, ?_, ?_, ?_, ⟨[_], rfl, rfl⟩⟩ <;>
        simp [PlayerManager.setPlayer, PlayerManager.emit, hb]
    · rw [if_neg hsafe]
      refine ⟨rfl, rfl, ?_, ?_, ?_, ?_, ?_, ⟨[], by simp [PlayerManager.setPlayer], rfl⟩⟩ <;>
        simp [PlayerManager.setPlayer, hb]

theorem OnSetCoordinatesPkt_warp_spec (s : PlayerManager) (env : Env) (self : Nat)
    (pkt : List Nat) :
    (OnSetCoordinatesPkt.warp s env self pkt).player_id = s.player_id ∧
      (OnSetCoordinatesPkt.warp s env self pkt).player_lookup = s.player_lookup ∧
      ((OnSetCoordinatesPkt.warp s env self pkt).players self).position =
        (UnstuckSelf env { s.players self with
          position := ⟨(ReadU16 pkt 1 : ℚ) + 1 / 2, (ReadU16 pkt 3 : ℚ) + 1 / 2⟩ }).position ∧
      ((OnSetCoordinatesPkt.warp s env self pkt).players self).velocity = ⟨0, 0⟩ ∧
      ((OnSetCoordinatesPkt.warp s env self pkt).players self).togglables.testBit 4 = true ∧
      ((OnSetCoordinatesPkt.warp s env self pkt).players self).ship = (s.players self).ship ∧
      ((OnSetCoordinatesPkt.warp s env self pkt).players self).enter_delay
        = (s.players self).enter_delay ∧
      ∃ e, (OnSetCoordinatesPkt.warp s env self pkt).trace = s.trace ++ [Effect.TeleportEvent e] := by
  have hws : (OnSetCoordinatesPkt.warp s env self pkt).players self =
      UnstuckSelf env { s.players self with
        position := ⟨(ReadU16 pkt 1 : ℚ) + 1 / 2, (ReadU16 pkt 3 : ℚ) + 1 / 2⟩,
        velocity := ⟨0, 0⟩,
        togglables := (s.players self).togglables ||| Status_Flash,
        warp_anim_t := 0 } := by
    show (if self = self then _ else _) = _
    rw [if_pos rfl]
  refine ⟨rfl, rfl, ?_, ?_, ?_, ?_, ?_, ⟨_, rfl⟩⟩
  · rw [hws]
    exact UnstuckSelf_position env _ _ rfl rfl rfl
  · rw [hws, (UnstuckSelf_kept env _).1]
  · rw [hws, (UnstuckSelf_fields env _).2.2.2.1]
    show ((s.players self).togglables ||| Status_Flash).testBit 4 = true
    rw [Nat.testBit_or, Status_Flash, testBit_16]
    simp
  · rw [hws, (UnstuckSelf_kept env _).2.1]
  · rw [hws, (UnstuckSelf_fields env _).2.2.1]

theorem OnSetCoordinatesPkt_before_send (s : PlayerManager) (env : Env) (self : Nat)
    (pkt : List Nat) (hself : GetSelf s = some self) :
    GetPlayerById (OnSetCoordinatesPkt.safety (OnSetCoordinatesPkt.warp s env self pkt) env self)
        (OnSetCoordinatesPkt.safety (OnSetCoordinatesPkt.warp s env self pkt) env self).player_id
        = some self ∧
      ((OnSetCoordinatesPkt.safety (OnSetCoordinatesPkt.warp s env self pkt) env self).players
        self).position = (UnstuckSelf env { s.players self with
          position := ⟨(ReadU16 pkt 1 : ℚ) + 1 / 2, (ReadU16 pkt 3 : ℚ) + 1 / 2⟩ }).position ∧
      ((OnSetCoordinatesPkt.safety (OnSetCoordinatesPkt.warp s env self pkt) env self).players
        self).velocity = ⟨0, 0⟩ ∧
      ((OnSetCoordinatesPkt.safety (OnSetCoordinatesPkt.warp s env self pkt) env self).players
        self).togglables.testBit 4 = true ∧
      ((OnSetCoordinatesPkt.safety (OnSetCoordinatesPkt.warp s env self pkt) env self).players
        self).ship = (s.players self).ship ∧
      ((OnSetCoordinatesPkt.safety (OnSetCoordinatesPkt.warp s env self pkt) env self).players
        self).enter_delay = (s.players self).enter_delay ∧
      ∃ l, (OnSetCoordinatesPkt.safety (OnSetCoordinatesPkt.warp s env self pkt) env self).trace
          = s.trace ++ l ∧
        l.filterMap (fun e =>
          match e with
          | Effect.Send pkt => some pkt
          | _ => none) = [] := by
  obtain ⟨w1, w2, w3, w4, w5, w6, w7, e, w8⟩ := OnSetCoordinatesPkt_warp_spec s env self pkt
  obtain ⟨s1, s2, s3, s4, s5, s6, s7, l, s8, s9⟩ :=
    OnSetCoordinatesPkt_safety_spec (OnSetCoordinatesPkt.warp s env self pkt) env self
  refine ⟨?_, s3.trans w3, s4.trans w4, s5.trans w5, s6.trans w6, s7.trans w7,
    [Effect.TeleportEvent e] ++ l, ?_, ?_⟩
  · unfold GetPlayerById
    rw [s2, w2, s1, w1]
    exact hself
  · rw [s8, w8, List.append_assoc]
  · rw [List.filterMap_append, s9]
    rfl

/-- C24, counterexample: with self present and a packet of 5 bytes the
handler sends a position packet, which clears the Flash bit it has just set,
so the bit is 0 afterwards; and on a map where self collides at the requested
tile (510, 510), self ends at (509, 509), where `UnstuckSelf` moved it. -/
theorem C24_counterexample :
    GetSelf table739 = some 0 ∧ 5 ≤ [0, 10, 0, 20, 0].length ∧
      (OnSetCoordinatesPkt table739 quietEnv [0, 10, 0, 20, 0]).map
        (fun s => (s.players 0).togglables &&& Status_Flash) = some 0 ∧
      (OnSetCoordinatesPkt table739 wallEnv [0, 254, 1, 254, 1]).map
        (fun s => (s.players 0).position) = some ⟨509, 509⟩ := by
  decide!

/-- C24 (amended): with fewer than 5 bytes or no self, `OnSetCoordinatesPkt`
changes nothing. For a packet of at least 5 bytes carrying the tile (x, y),
with self present, the handler completes, self's velocity is (0, 0)
afterwards and self's position is where `UnstuckSelf` moves self from
(x + 0.5, y + 0.5): that very position when self is a spectator or does not
collide with the map there. The Flash bit the handler sets is still set
afterwards only when the position packet at the end is not sent; when it is
sent, it carries the Flash bit (unless self is dead) and the bit is cleared in
`self.togglables`. -/
theorem C24_set_coordinates (s : PlayerManager) (env : Env) (pkt : List Nat) :
    ((GetSelf s = none ∨ pkt.length < 5) → OnSetCoordinatesPkt s env pkt = some s) ∧
      ∀ self, GetSelf s = some self → 5 ≤ pkt.length →
        ∃ s', OnSetCoordinatesPkt s env pkt = some s' ∧
          (s'.players self).velocity = ⟨0, 0⟩ ∧
          (s'.players self).position = (UnstuckSelf env { s.players self with
            position := ⟨(ReadU16 pkt 1 : ℚ) + 1 / 2, (ReadU16 pkt 3 : ℚ) + 1 / 2⟩ }).position ∧
          ((8 ≤ (s.players self).ship ∨
              env.map.IsColliding ⟨(ReadU16 pkt 1 : ℚ) + 1 / 2, (ReadU16 pkt 3 : ℚ) + 1 / 2⟩
                (env.map.GetRadius (s.players self).ship) (s.players self).frequency = false) →
            (s'.players self).position =
              ⟨(ReadU16 pkt 1 : ℚ) + 1 / 2, (ReadU16 pkt 3 : ℚ) + 1 / 2⟩) ∧
          (sentPackets s s' = [] → (s'.players self).togglables &&& Status_Flash ≠ 0) ∧
          (sentPackets s s' ≠ [] →
            (s'.players self).togglables &&& Status_Flash = 0 ∧
            ∀ p ∈ sentPackets s s',
              ¬ ((s.players self).ship ≠ 8 ∧ 0 < (s.players self).enter_delay) →
                p.togglables &&& Status_Flash ≠ 0) := by
  constructor
  · intro h
    unfold OnSetCoordinatesPkt
    rcases h with h | h
    · rw [h]
    · cases hg : GetSelf s with
      | none => rfl
      | some self => simp only [if_pos h]
  · intro self hself hsize
    obtain ⟨b1, b2, b3, b4, b5, b6, l, b7, b8⟩ := OnSetCoordinatesPkt_before_send s env self pkt hself
    have hrun : OnSetCoordinatesPkt s env pkt = SendPositionPacket
        (OnSetCoordinatesPkt.safety (OnSetCoordinatesPkt.warp s env self pkt) env self) env := by
      unfold OnSetCoordinatesPkt
      rw [hself]
      simp only [if_neg (not_lt.mpr hsize)]
    generalize OnSetCoordinatesPkt.safety (OnSetCoordinatesPkt.warp s env self pkt) env self = s2
      at b1 b2 b3 b4 b5 b6 b7 hrun
    obtain ⟨s', hs'⟩ := SendPositionPacket_returns env b1
    have hclear : (8 ≤ (s.players self).ship ∨
          env.map.IsColliding ⟨(ReadU16 pkt 1 : ℚ) + 1 / 2, (ReadU16 pkt 3 : ℚ) + 1 / 2⟩
            (env.map.GetRadius (s.players self).ship) (s.players self).frequency = false) →
        (UnstuckSelf env { s.players self with
          position := ⟨(ReadU16 pkt 1 : ℚ) + 1 / 2, (ReadU16 pkt 3 : ℚ) + 1 / 2⟩ }).position =
          ⟨(ReadU16 pkt 1 : ℚ) + 1 / 2, (ReadU16 pkt 3 : ℚ) + 1 / 2⟩ :=
      fun h => UnstuckSelf_clear env _ h
    refine ⟨s', hrun.trans hs', ?_⟩
    obtain ⟨self', hg, h1 | ⟨s1, pk, rfl, -, htr, hpk, hf⟩⟩ := SendPositionPacket_cases hs'
    · subst h1
      have hsent : sentPackets s { s2 with
          last_position_tick := env.MAKE_TICK ((env.tick : Int) + env.time_diff) } = [] := by
        have h0 := @sentPackets_of_trace s { s2 with
          last_position_tick := env.MAKE_TICK ((env.tick : Int) + env.time_diff) } l b7
        rw [h0]
        exact b8
      refine ⟨b3, b2, fun h => b2.trans (hclear h), fun _ => (flash_bit _).mpr b4, fun h => ?_⟩
      exact absurd hsent h
    · have hss : self' = self := by
        rw [b1] at hg
        exact (Option.some.inj hg).symm
      subst hss
      have hp : (SendPositionPacket.send s1 env self'
          (env.MAKE_TICK ((env.tick : Int) + env.time_diff)) pk).players self' =
          { s1.players self' with
            togglables := clearBits (s1.players self').togglables Status_Flash } := by
        show (if self' = self' then _ else _) = _
        rw [if_pos rfl]
        rfl
      obtain ⟨extra, hsend⟩ : ∃ extra, (SendPositionPacket.send s1 env self'
          (env.MAKE_TICK ((env.tick : Int) + env.time_diff)) pk).trace =
          s1.trace ++ [Effect.Send { pk with
            timestamp := if env.MAKE_TICK ((env.tick : Int) + env.time_diff) ≤ s1.last_position_tick
              then env.MAKE_TICK (s1.last_position_tick + 1)
              else env.MAKE_TICK ((env.tick : Int) + env.time_diff),
            extra := extra }] := ⟨_, rfl⟩
      have hsent : ∃ p, sentPackets s (SendPositionPacket.send s1 env self'
          (env.MAKE_TICK ((env.tick : Int) + env.time_diff)) pk) = [p] ∧
          p.togglables = pk.togglables := by
        rcases htr with h0 | ⟨a, b, h0⟩
        · rw [h0, b7, List.append_assoc] at hsend
          rw [sentPackets_of_trace hsend, List.filterMap_append, b8]
          exact ⟨_, rfl, rfl⟩
        · rw [h0, b7, List.append_assoc, List.append_assoc] at hsend
          rw [sentPackets_of_trace hsend, List.filterMap_append, b8]
          exact ⟨_, rfl, rfl⟩
      obtain ⟨p, hsent, hpt⟩ := hsent
      rw [hp]
      refine ⟨(hf self').2.1.trans b3, (hf self').1.trans b2,
        fun h => ((hf self').1.trans b2).trans (hclear h), fun h => ?_, fun _ => ⟨?_, ?_⟩⟩
      · rw [hsent] at h
        exact absurd h (by simp)
      · exact flash_cleared _
      · intro q hq hdead
        rw [hsent, List.mem_singleton] at hq
        subst hq
        rw [hpt, hpk, b5, b6, if_neg hdead]
        rw [flash_bit]
        unfold u8
        have : (256 : Nat) = 2 ^ 8 := by decide
        rw [this, Nat.testBit_mod_two_pow, b4]
        rfl

theorem C24_set_coordinates_witness :
    GetSelf table739 = some 0 ∧ 5 ≤ [0, 10, 0, 20, 0].length ∧
      ∃ s', OnSetCoordinatesPkt table739 quietEnv [0, 10, 0, 20, 0] = some s' ∧
        (s'.players 0).velocity = ⟨0, 0⟩ ∧
        (s'.players 0).position =
          ⟨(ReadU16 [0, 10, 0, 20, 0] 1 : ℚ) + 1 / 2, (ReadU16 [0, 10, 0, 20, 0] 3 : ℚ) + 1 / 2⟩ := by
  obtain ⟨s', h1, h2, -, h4, -⟩ :=
    (C24_set_coordinates table739 quietEnv [0, 10, 0, 20, 0]).2 0 (by decide!) (by decide)
  exact ⟨by decide!, by decide, s', h1, h2, h4 (Or.inr rfl)⟩


/-! ## Bounces and wormholes (C27, C28) -/

theorem SimulateAxis_hit (env : Env) (p : Player) (dt : ℚ) (axis : Nat) (ex : Bool)
    (hc : SimulateAxis.collided env (axisMoved p dt axis) (axisDelta p dt axis) axis = true) :
    (SimulateAxis env p dt axis ex).2 = true ∧
      (SimulateAxis env p dt axis ex).1.position =
        ((axisMoved p dt axis).position.setValue axis (p.position.values axis)) ∧
      (SimulateAxis env p dt axis ex).1.velocity =
        ((p.velocity.setValue axis (p.velocity.values axis *
            -(if ex = false ∧ TICK_DIFF env.tick p.last_bounce_tick < 1 then 1
              else 16 / (env.map.BounceFactor : ℚ)))).setValue (if axis = 0 then 1 else 0)
          ((p.velocity.setValue axis (p.velocity.values axis *
            -(if ex = false ∧ TICK_DIFF env.tick p.last_bounce_tick < 1 then 1
              else 16 / (env.map.BounceFactor : ℚ)))).values (if axis = 0 then 1 else 0) *
            (if ex = false ∧ TICK_DIFF env.tick p.last_bounce_tick < 1 then 1
              else 16 / (env.map.BounceFactor : ℚ)))) ∧
      (SimulateAxis env p dt axis ex).1.lerp_velocity =
        ((p.lerp_velocity.setValue axis (p.lerp_velocity.values axis *
            -(if ex = false ∧ TICK_DIFF env.tick p.last_bounce_tick < 1 then 1
              else 16 / (env.map.BounceFactor : ℚ)))).setValue (if axis = 0 then 1 else 0)
          ((p.lerp_velocity.setValue axis (p.lerp_velocity.values axis *
            -(if ex = false ∧ TICK_DIFF env.tick p.last_bounce_tick < 1 then 1
              else 16 / (env.map.BounceFactor : ℚ)))).values (if axis = 0 then 1 else 0) *
            (if ex = false ∧ TICK_DIFF env.tick p.last_bounce_tick < 1 then 1
              else 16 / (env.map.BounceFactor : ℚ)))) := by
  have h : SimulateAxis env p dt axis ex = _ := if_pos hc
  rw [h]
  exact ⟨rfl, rfl, rfl, rfl⟩

theorem SimulateAxis_miss (env : Env) (p : Player) (dt : ℚ) (axis : Nat) (ex : Bool)
    (hc : SimulateAxis.collided env (axisMoved p dt axis) (axisDelta p dt axis) axis = false) :
    SimulateAxis env p dt axis ex = (axisMoved p dt axis, false) := by
  have hn : ¬ (SimulateAxis.collided env (axisMoved p dt axis) (axisDelta p dt axis) axis = true) := by
    rw [hc]; exact Bool.false_ne_true
  exact if_neg hn

theorem collided_of_tileHit (env : Env) (player : Player) (delta : ℚ) (axis k : Nat)
    (h : TileHit env player delta axis k) : SimulateAxis.collided env player delta axis = true := by
  unfold SimulateAxis.collided
  unfold TileHit at h
  simp only at h ⊢
  obtain ⟨hk, hh⟩ := h
  rw [Bool.or_eq_true]
  right
  rw [List.any_eq_true]
  refine ⟨k, List.mem_range.mpr hk, ?_⟩
  by_cases ha : axis = 0
  · rw [if_pos ha] at hh ⊢
    rw [hh.1, hh.2]; rfl
  · rw [if_neg ha] at hh ⊢
    rw [hh.1, hh.2]; rfl

/-- C27: in `SimulateAxis` the perpendicular coordinate is never changed. A
tested tile that is solid and intersects the ship's box makes the step a
collision. On a collision the function reports a bounce, the moved coordinate
is restored to its value before the step, `velocity[axis]` and
`lerp_velocity[axis]` are multiplied by `-B` and the perpendicular components
by `B`, where `B = 16 / BounceFactor`, except that `B = 1` when not
extrapolating and the last bounce was less than one tick ago. Without a
collision both velocities are unchanged, the coordinate has moved by the
step and no bounce is reported. -/
theorem C27_simulate_axis_bounce (env : Env) (p : Player) (dt : ℚ) (axis : Nat) (ex : Bool)
    (haxis : axis < 2) (hb : env.map.BounceFactor ≠ 0) :
    (SimulateAxis env p dt axis ex).1.position.values (if axis = 0 then 1 else 0) =
        p.position.values (if axis = 0 then 1 else 0) ∧
      ((∃ k, TileHit env (axisMoved p dt axis) (axisDelta p dt axis) axis k) →
        SimulateAxis.collided env (axisMoved p dt axis) (axisDelta p dt axis) axis = true) ∧
      (SimulateAxis.collided env (axisMoved p dt axis) (axisDelta p dt axis) axis = true →
        (SimulateAxis env p dt axis ex).2 = true ∧
        (SimulateAxis env p dt axis ex).1.position.values axis = p.position.values axis ∧
        (SimulateAxis env p dt axis ex).1.velocity.values axis = p.velocity.values axis *
          -(if ex = false ∧ TICK_DIFF env.tick p.last_bounce_tick < 1 then 1
            else 16 / (env.map.BounceFactor : ℚ)) ∧
        (SimulateAxis env p dt axis ex).1.velocity.values (if axis = 0 then 1 else 0) =
          p.velocity.values (if axis = 0 then 1 else 0) *
            (if ex = false ∧ TICK_DIFF env.tick p.last_bounce_tick < 1 then 1
              else 16 / (env.map.BounceFactor : ℚ)) ∧
        (SimulateAxis env p dt axis ex).1.lerp_velocity.values axis =
          p.lerp_velocity.values axis *
            -(if ex = false ∧ TICK_DIFF env.tick p.last_bounce_tick < 1 then 1
              else 16 / (env.map.BounceFactor : ℚ)) ∧
        (SimulateAxis env p dt axis ex).1.lerp_velocity.values (if axis = 0 then 1 else 0) =
          p.lerp_velocity.values (if axis = 0 then 1 else 0) *
            (if ex = false ∧ TICK_DIFF env.tick p.last_bounce_tick < 1 then 1
              else 16 / (env.map.BounceFactor : ℚ))) ∧
      (SimulateAxis.collided env (axisMoved p dt axis) (axisDelta p dt axis) axis = false →
        (SimulateAxis env p dt axis ex).2 = false ∧
        (SimulateAxis env p dt axis ex).1.velocity = p.velocity ∧
        (SimulateAxis env p dt axis ex).1.lerp_velocity = p.lerp_velocity ∧
        (SimulateAxis env p dt axis ex).1.position.values axis =
          p.position.values axis + axisDelta p dt axis) := by
  have _ := hb
  refine ⟨?_, fun ⟨k, hk⟩ => collided_of_tileHit env _ _ axis k hk, fun hc => ?_, fun hc => ?_⟩
  · cases hc : SimulateAxis.collided env (axisMoved p dt axis) (axisDelta p dt axis) axis with
    | true =>
      rw [(SimulateAxis_hit env p dt axis ex hc).2.1]
      interval_cases axis <;> simp [Vector2f.values, Vector2f.setValue, axisMoved]
    | false =>
      rw [SimulateAxis_miss env p dt axis ex hc]
      interval_cases axis <;> simp [Vector2f.values, Vector2f.setValue, axisMoved]
  · obtain ⟨h1, h2, h3, h4⟩ := SimulateAxis_hit env p dt axis ex hc
    rw [h2, h3, h4]
    refine ⟨h1, ?_, ?_, ?_, ?_, ?_⟩ <;>
      interval_cases axis <;> simp [Vector2f.values, Vector2f.setValue, axisMoved]
  · rw [SimulateAxis_miss env p dt axis ex hc]
    refine ⟨rfl, rfl, rfl, ?_⟩
    interval_cases axis <;>
      simp [Vector2f.values, Vector2f.setValue, axisMoved, axisDelta, add_assoc]

theorem C27_simulate_axis_bounce_witness :
    (0 : Nat) < 2 ∧ bounceEnv.map.BounceFactor ≠ 0 ∧
      SimulateAxis.collided bounceEnv (axisMoved wallRunner (1 / 10) 0)
        (axisDelta wallRunner (1 / 10) 0) 0 = true ∧
      (SimulateAxis bounceEnv wallRunner (1 / 10) 0 true).2 = true ∧
      (SimulateAxis bounceEnv wallRunner (1 / 10) 0 true).1.position.values 0 =
        wallRunner.position.values 0 ∧
      (SimulateAxis bounceEnv wallRunner (1 / 10) 0 true).1.velocity = ⟨-5, 3 / 2⟩ := by
  have hc : SimulateAxis.collided bounceEnv (axisMoved wallRunner (1 / 10) 0)
      (axisDelta wallRunner (1 / 10) 0) 0 = true := by decide!
  obtain ⟨-, -, h3, -⟩ :=
    C27_simulate_axis_bounce bounceEnv wallRunner (1 / 10) 0 true (by decide) (by decide!)
  exact ⟨by decide, by decide!, hc, (h3 hc).1, (h3 hc).2.1, by decide!⟩


theorem s16_of_small (n : Int) (h0 : 0 ≤ n) (h1 : n < 32768) :
    s16 (n % 65536).toNat = n := by
  unfold s16
  have e : ((n % 65536).toNat : Int) = n := by omega
  have e2 : (n % 65536).toNat % 65536 = (n % 65536).toNat := by omega
  rw [e2]
  split_ifs with h
  · exact e
  · omega

/-- The wormhole block of `SimulatePlayer` for self in slot `i` with positive
energy. -/
theorem SimulatePlayer_wormhole_spec (s : PlayerManager) (env : Env) (i : Nat)
    (hself : GetSelf s = some i) (hE : 0 < (s.players i).energy) :
    ((SimulatePlayer.wormhole s env i).players i).velocity = ⟨0, 0⟩ ∧
      ((SimulatePlayer.wormhole s env i).players i).energy =
        (s.players i).energy - (s.players i).energy * (4 / 5) ∧
      (SimulatePlayer.wormhole s env i).trace =
        s.trace ++ [Effect.SpawnEvent (s.players i).id] ∧
      (SimulatePlayer.wormhole s env i).ship = s.ship ∧
      (SimulatePlayer.wormhole s env i).damages =
        (if env.map.send_damage then
          PushDamage s env s.player_id true (castInt (s.players i).energy)
            (castInt ((s.players i).energy * (4 / 5)))
        else s).damages := by
  have hsp : ∀ s1 : PlayerManager, GetSelf s1 = some i →
      ((Spawn s1 env false).players i).energy = (s1.players i).energy ∧
      (Spawn s1 env false).trace = s1.trace ++ [Effect.SpawnEvent (s1.players i).id] ∧
      (Spawn s1 env false).ship = s1.ship ∧ (Spawn s1 env false).damages = s1.damages := by
    intro s1 h1
    unfold Spawn
    rw [h1]
    simp [PlayerManager.setPlayer, PlayerManager.emit]
  have hpd : ∀ a b, GetSelf (PushDamage s env s.player_id true a b) = some i ∧
      (PushDamage s env s.player_id true a b).players = s.players ∧
      (PushDamage s env s.player_id true a b).trace = s.trace ∧
      (PushDamage s env s.player_id true a b).ship = s.ship := by
    intro a b
    unfold PushDamage
    split_ifs
    · exact ⟨hself, rfl, rfl, rfl⟩
    · exact ⟨hself, rfl, rfl, rfl⟩
  have h1 : GetSelf (if env.map.send_damage then
        PushDamage s env s.player_id true (castInt (s.players i).energy)
          (castInt ((s.players i).energy * (4 / 5)))
      else s) = some i ∧
      (if env.map.send_damage then
        PushDamage s env s.player_id true (castInt (s.players i).energy)
          (castInt ((s.players i).energy * (4 / 5)))
      else s).players = s.players ∧
      (if env.map.send_damage then
        PushDamage s env s.player_id true (castInt (s.players i).energy)
          (castInt ((s.players i).energy * (4 / 5)))
      else s).trace = s.trace ∧
      (if env.map.send_damage then
        PushDamage s env s.player_id true (castInt (s.players i).energy)
          (castInt ((s.players i).energy * (4 / 5)))
      else s).ship = s.ship := by
    split_ifs
    · exact hpd _ _
    · exact ⟨hself, rfl, rfl, rfl⟩
  unfold SimulatePlayer.wormhole
  simp only
  generalize (if env.map.send_damage then
        PushDamage s env s.player_id true (castInt (s.players i).energy)
          (castInt ((s.players i).energy * (4 / 5)))
      else s) = s1 at h1
  obtain ⟨g1, g2, g3, g4⟩ := h1
  obtain ⟨e1, e2, e3, e4⟩ := hsp s1 g1
  have hlt : (s.players i).energy * (4 / 5) < (s.players i).energy := by linarith
  refine ⟨?_, ?_, ?_, ?_, ?_⟩
  · simp [PlayerManager.setPlayer]
  · simp only [PlayerManager.setPlayer, if_true]
    rw [e1, g2, if_pos hlt]
  · show (Spawn s1 env false).trace = _
    rw [e2, g3, g2]
  · show (Spawn s1 env false).ship = _
    rw [e3, g4]
  · show (Spawn s1 env false).damages = _
    rw [e4]

/-- C28, counterexample: self holds energy 40000 on a wormhole tile. The
queued damage entry carries the energy as a 16-bit signed value, which is
-25536 and not the truncation 40000. -/
theorem C28_counterexample :
    GetSelf (chargedTable 40000) = some 0 ∧ 0 < ((chargedTable 40000).players 0).energy ∧
      (SimulatePlayer (chargedTable 40000) damageEnv 0 (1 / 100) false).damages =
        [{ timestamp := 4196, shooter_id := 7, wormhole := true, energy := -25536,
           damage := 32000 }] := by
  decide!

/-- C28 (amended): when self (slot `i`) ends a simulation step on a wormhole
tile with energy `E > 0`, `Spawn(reset = false)` runs (the spawn event is
dispatched, the ship is not reset), self's velocity is zero afterwards and
self's energy is `E - 0.8 * E`. When damage reporting is enabled and the
damage buffer is not full, exactly one damage entry is queued, with shooter
self, weapon type Wormhole, and `E` and `0.8 * E` truncated to integers and
stored as 16-bit signed values: they are the truncations themselves when
`E < 32768`. Otherwise no entry is queued. -/
theorem C28_wormhole_respawn (s : PlayerManager) (env : Env) (i : Nat) (dt : ℚ) (ex : Bool)
    (hrun : ex = true ∨ IsSynchronized (s.players i) = true)
    (htile : env.map.GetTileId (SimulatePlayer.axes env (s.players i) dt ex).position =
      env.map.kTileIdWormhole)
    (hself : GetSelf s = some i) (hid : (s.players i).id = s.player_id)
    (hE : 0 < (s.players i).energy) :
    ((SimulatePlayer s env i dt ex).players i).velocity = ⟨0, 0⟩ ∧
      ((SimulatePlayer s env i dt ex).players i).energy =
        (s.players i).energy - (s.players i).energy * (4 / 5) ∧
      (SimulatePlayer s env i dt ex).trace = s.trace ++ [Effect.SpawnEvent s.player_id] ∧
      (SimulatePlayer s env i dt ex).ship = s.ship ∧
      ((env.map.send_damage = true ∧ s.damages.length < env.map.damage_capacity) →
        (SimulatePlayer s env i dt ex).damages = s.damages ++
          [{ timestamp := env.server_tick, shooter_id := s.player_id, wormhole := true,
             energy := s16 (castInt (s.players i).energy % 65536).toNat,
             damage := s16 (castInt ((s.players i).energy * (4 / 5)) % 65536).toNat }] ∧
        ((s.players i).energy < 32768 →
          s16 (castInt (s.players i).energy % 65536).toNat = castInt (s.players i).energy ∧
          s16 (castInt ((s.players i).energy * (4 / 5)) % 65536).toNat =
            castInt ((s.players i).energy * (4 / 5)))) ∧
      ((env.map.send_damage = false ∨ env.map.damage_capacity ≤ s.damages.length) →
        (SimulatePlayer s env i dt ex).damages = s.damages) := by
  obtain ⟨a1, -, -, -, -, -, -, a8⟩ := SimulatePlayer_axes_fields env (s.players i) dt ex
  have hs2 : (s.setPlayer i (SimulatePlayer.axes env (s.players i) dt ex)).players i =
      SimulatePlayer.axes env (s.players i) dt ex := by
    show (if i = i then _ else _) = _
    rw [if_pos rfl]
  have hrun' : ¬ (ex = false ∧ IsSynchronized (s.players i) = false) := by
    rintro ⟨h1, h2⟩
    rcases hrun with h | h
    · rw [h1] at h; exact Bool.false_ne_true h
    · rw [h2] at h; exact Bool.false_ne_true h
  have hstep : SimulatePlayer s env i dt ex =
      (SimulatePlayer.wormhole (s.setPlayer i (SimulatePlayer.axes env (s.players i) dt ex))
        env i).setPlayer i
        { (SimulatePlayer.wormhole (s.setPlayer i (SimulatePlayer.axes env (s.players i) dt ex))
            env i).players i with
          lerp_time := ((SimulatePlayer.wormhole
            (s.setPlayer i (SimulatePlayer.axes env (s.players i) dt ex)) env i).players
              i).lerp_time - dt } := by
    unfold SimulatePlayer
    rw [if_neg hrun']
    simp only
    rw [if_pos ⟨by rw [hs2]; exact htile, by rw [hs2, a1]; exact hid⟩]
  have hE2 : 0 < ((s.setPlayer i (SimulatePlayer.axes env (s.players i) dt ex)).players i).energy := by
    rw [hs2, a8]; exact hE
  obtain ⟨w1, w2, w3, w4, w5⟩ := SimulatePlayer_wormhole_spec
    (s.setPlayer i (SimulatePlayer.axes env (s.players i) dt ex)) env i hself hE2
  rw [hs2, a8] at w2
  rw [hs2, a1, hid] at w3
  rw [hs2, a8] at w5
  rw [hstep]
  have hfl : (0 : Int) ≤ castInt (s.players i).energy ∧
      (castInt (s.players i).energy < 32768 ↔ (s.players i).energy < 32768) := by
    unfold castInt
    rw [if_pos (le_of_lt hE), Rat_floor_eq]
    refine ⟨Int.floor_nonneg.mpr (le_of_lt hE), ?_⟩
    rw [Int.floor_lt]
    norm_num
  have hfl2 : (0 : Int) ≤ castInt ((s.players i).energy * (4 / 5)) ∧
      castInt ((s.players i).energy * (4 / 5)) ≤ castInt (s.players i).energy := by
    have h45 : 0 ≤ (s.players i).energy * (4 / 5) := by linarith
    unfold castInt
    rw [if_pos (le_of_lt hE), if_pos h45, Rat_floor_eq, Rat_floor_eq]
    exact ⟨Int.floor_nonneg.mpr h45, Int.floor_mono (by linarith)⟩
  refine ⟨?_, ?_, w3, w4, fun hd => ⟨?_, fun h32 => ?_⟩, fun hd => ?_⟩
  · simp only [PlayerManager.setPlayer, if_true]
    exact w1
  · simp only [PlayerManager.setPlayer, if_true]
    exact w2
  · show (SimulatePlayer.wormhole _ env i).damages = _
    rw [w5, if_pos hd.1]
    unfold PushDamage
    rw [if_neg (show ¬ env.map.damage_capacity ≤
      (s.setPlayer i (SimulatePlayer.axes env (s.players i) dt ex)).damages.length from
        not_le.mpr hd.2)]
    rfl
  · have h1 := hfl.2.mpr h32
    exact ⟨s16_of_small _ hfl.1 h1, s16_of_small _ hfl2.1 (lt_of_le_of_lt hfl2.2 h1)⟩
  · show (SimulatePlayer.wormhole _ env i).damages = _
    rw [w5]
    rcases hd with hd | hd
    · rw [hd]; rfl
    · split_ifs
      · unfold PushDamage
        rw [if_pos (show env.map.damage_capacity ≤
          (s.setPlayer i (SimulatePlayer.axes env (s.players i) dt ex)).damages.length from hd)]
        rfl
      · rfl

theorem C28_wormhole_respawn_witness :
    GetSelf (chargedTable 800) = some 0 ∧ 0 < ((chargedTable 800).players 0).energy ∧
      ((SimulatePlayer (chargedTable 800) damageEnv 0 (1 / 100) false).players 0).velocity
        = ⟨0, 0⟩ ∧
      ((SimulatePlayer (chargedTable 800) damageEnv 0 (1 / 100) false).players 0).energy = 160 ∧
      (SimulatePlayer (chargedTable 800) damageEnv 0 (1 / 100) false).trace =
        (chargedTable 800).trace ++ [Effect.SpawnEvent (chargedTable 800).player_id] ∧
      (SimulatePlayer (chargedTable 800) damageEnv 0 (1 / 100) false).damages =
        [{ timestamp := 4196, shooter_id := 7, wormhole := true, energy := 800,
           damage := 640 }] := by
  obtain ⟨h1, h2, h3, -, -, -⟩ := C28_wormhole_respawn (chargedTable 800) damageEnv 0 (1 / 100)
    false (Or.inr (by decide!)) (by decide!) (by decide!) (by decide!) (by decide!)
  refine ⟨by decide!, by decide!, h1, ?_, h3, by decide!⟩
  rw [h2]
  decide!


/-! ## Spawning (C29) -/

theorem findSome_range {α : Type} (f : Nat → Option α) (n : Nat) :
    ((List.range n).findSome? f = none ∧ ∀ i, i < n → f i = none) ∨
      ∃ i, i < n ∧ (List.range n).findSome? f = f i ∧ (f i).isSome = true ∧
        ∀ j, j < i → f j = none := by
  induction n with
  | zero => exact Or.inl ⟨rfl, fun i h => absurd h (Nat.not_lt_zero i)⟩
  | succ n ih =>
    rw [List.range_succ, List.findSome?_append]
    rcases ih with ⟨h0, hall⟩ | ⟨i, hi, he, hs, hj⟩
    · rw [h0]
      cases hf : f n with
      | none =>
        refine Or.inl ⟨by simp [hf], fun i hi => ?_⟩
        rcases Nat.lt_succ_iff_lt_or_eq.mp hi with h | h
        · exact hall i h
        · rw [h]; exact hf
      | some a =>
        refine Or.inr ⟨n, Nat.lt_succ_self n, by simp [hf], by simp [hf], hall⟩
    · refine Or.inr ⟨i, Nat.lt_succ_of_lt hi, ?_, hs, hj⟩
      rw [he]
      cases hf : f i with
      | none => rw [hf] at hs; exact absurd hs (by simp)
      | some a => rfl

theorem Spawn_position (s : PlayerManager) (env : Env) (reset : Bool) (self : Nat)
    (hself : GetSelf s = some self) :
    ((Spawn s env reset).players self).position = Spawn.search s env self := by
  unfold Spawn
  rw [hself]
  cases reset <;> simp [PlayerManager.setPlayer, PlayerManager.emit]

theorem Spawn_count_le (env : Env) : Spawn.count env ≤ env.SpawnSettings.length := by
  unfold Spawn.count
  exact List.length_filter_le _ _

theorem Spawn_defaultRadius_ge (s : PlayerManager) (env : Env) : 3 ≤ Spawn.defaultRadius s env := by
  unfold Spawn.defaultRadius
  simp only
  split_ifs <;> omega

theorem Spawn_search_settings (s : PlayerManager) (env : Env) (self : Nat)
    (hcount : 0 < Spawn.count env) :
    Spawn.search s env self =
      Spawn.fromSettings env (s.players self) (HashName (s.players self)) := by
  unfold Spawn.search
  simp only
  rw [if_neg (by omega)]

theorem Spawn_candidate_offsets (env : Env) (hash : Nat) (center : Vector2f) (radius : Int)
    (i : Nat) (hr : 0 < radius) :
    ∃ dx dy : Int, -radius ≤ dx ∧ dx < radius ∧ -radius ≤ dy ∧ dy < radius ∧
      Spawn.candidate env hash center radius i = ⟨center.x + (dx : ℚ), center.y + (dy : ℚ)⟩ := by
  have hm : ∀ n : Nat, ((n % (radius * 2).toNat : Nat) : Int) < radius * 2 := by
    intro n
    have h2 : 0 < (radius * 2).toNat := by omega
    have := Nat.mod_lt n h2
    omega
  refine ⟨_, _, ?_, ?_, ?_, ?_, rfl⟩
  · have := hm (u32 (env.rand (1 + 2 * i) + hash)); omega
  · have := hm (u32 (env.rand (1 + 2 * i) + hash)); omega
  · have := hm (u32 (env.rand (2 + 2 * i) + hash)); omega
  · have := hm (u32 (env.rand (2 + 2 * i) + hash)); omega

/-- C29, counterexample: the spawn entry of self's frequency has X = 0 and
Y = 100 with radius 0. Self is put on (512, 100): the zero center coordinate
becomes 512, it is not wrapped by adding 1024. -/
theorem C29_counterexample :
    0 < Spawn.count zeroCenterEnv ∧ GetSelf table739 = some 0 ∧
      (zeroCenterEnv.SpawnSettings.getD
        ((table739.players 0).frequency % Spawn.count zeroCenterEnv) ⟨0, 0, 0⟩).X = 0 ∧
      ((Spawn table739 zeroCenterEnv false).players 0).position = ⟨512, 100⟩ ∧
      ((Spawn table739 zeroCenterEnv false).players 0).position ≠ ⟨0 + 1024, 100⟩ := by
  decide!

/-- C29 (amended): when at least one `SpawnSettings` entry is non-empty,
`Spawn` uses the entry number `frequency mod spawn_count`, which exists. A
center coordinate of 0 stands for 512, a negative one is wrapped by adding
1024, a positive one is taken as it is. With a radius of 0 or less self is put
on the center. With a positive radius every candidate is the center plus
offsets `dx`, `dy` in `[-radius, radius)`, and self is put on the first of the
100 candidates that fits on the map, or on the center when none fits. No
divisor is zero: `spawn_count` here, `radius * 2` for a positive radius, and
`spawn_radius - 2` in the search without spawn settings. -/
theorem C29_spawn_from_settings (s : PlayerManager) (env : Env) (reset : Bool) (self : Nat)
    (hself : GetSelf s = some self) (hcount : 0 < Spawn.count env) :
    let pl := s.players self
    let entry := env.SpawnSettings.getD (pl.frequency % Spawn.count env) ⟨0, 0, 0⟩
    let center : Vector2f := ⟨Spawn.center entry.X, Spawn.center entry.Y⟩
    let candidate := fun i => Spawn.candidate env (HashName pl) center entry.Radius i
    let fits := fun i => env.map.CanFit (candidate i) (env.map.GetRadius pl.ship) pl.frequency
    pl.frequency % Spawn.count env < env.SpawnSettings.length ∧
      (Spawn.center 0 = 512 ∧ (∀ v : Int, v < 0 → Spawn.center v = (v : ℚ) + 1024) ∧
        ∀ v : Int, 0 < v → Spawn.center v = (v : ℚ)) ∧
      (entry.Radius ≤ 0 → ((Spawn s env reset).players self).position = center) ∧
      (0 < entry.Radius →
        (∀ i, ∃ dx dy : Int, -entry.Radius ≤ dx ∧ dx < entry.Radius ∧
          -entry.Radius ≤ dy ∧ dy < entry.Radius ∧
          candidate i = ⟨center.x + (dx : ℚ), center.y + (dy : ℚ)⟩) ∧
        ((∃ i, i < 100 ∧ fits i = true ∧ (∀ j, j < i → fits j = false) ∧
            ((Spawn s env reset).players self).position = candidate i) ∨
          ((∀ i, i < 100 → fits i = false) ∧
            ((Spawn s env reset).players self).position = center))) ∧
      Spawn.count env ≠ 0 ∧ (0 < entry.Radius → (entry.Radius * 2).toNat ≠ 0) ∧
      Spawn.defaultRadius s env - 2 ≠ 0 := by
  intro pl entry center candidate fits
  have hpos : ((Spawn s env reset).players self).position =
      if 0 < entry.Radius then
        ((List.range 100).findSome? fun i =>
          if fits i then some (candidate i) else none).getD center
      else center := by
    rw [Spawn_position s env reset self hself, Spawn_search_settings s env self hcount]
    rfl
  refine ⟨lt_of_lt_of_le (Nat.mod_lt _ hcount) (Spawn_count_le env), ⟨rfl, ?_, ?_⟩, ?_, ?_,
    by omega, fun h => by omega, ?_⟩
  · intro v hv
    unfold Spawn.center
    rw [if_neg (by omega), if_pos hv]
  · intro v hv
    unfold Spawn.center
    rw [if_neg (by omega), if_neg (by omega)]
  · intro hr
    rw [hpos, if_neg (by omega)]
  · intro hr
    refine ⟨fun i => Spawn_candidate_offsets env _ center entry.Radius i hr, ?_⟩
    rw [hpos, if_pos hr]
    rcases findSome_range (fun i => if fits i then some (candidate i) else none) 100 with
      ⟨h0, hall⟩ | ⟨i, hi, he, hs, hj⟩
    · right
      refine ⟨fun i hi => ?_, by rw [h0]; rfl⟩
      have := hall i hi
      by_cases hf : fits i = true
      · simp only [hf, if_true] at this
        exact absurd this (by simp)
      · exact Bool.eq_false_iff.mpr hf
    · left
      have hfi : fits i = true := by
        by_cases hf : fits i = true
        · exact hf
        · simp only [hf] at hs
          exact absurd hs (by simp)
      refine ⟨i, hi, hfi, fun j hjl => ?_, ?_⟩
      · have := hj j hjl
        by_cases hf : fits j = true
        · simp only [hf, if_true] at this
          exact absurd this (by simp)
        · exact Bool.eq_false_iff.mpr hf
      · rw [he]
        simp only [hfi, if_true]
        rfl
  · have := Spawn_defaultRadius_ge s env
    omega

theorem C29_spawn_from_settings_witness :
    GetSelf table739 = some 0 ∧ 0 < Spawn.count spawnEnv ∧
      (table739.players 0).frequency % Spawn.count spawnEnv < spawnEnv.SpawnSettings.length ∧
      Spawn.count spawnEnv ≠ 0 ∧
      ((Spawn table739 spawnEnv false).players 0).position = ⟨1002, 295⟩ := by
  have h := C29_spawn_from_settings table739 spawnEnv false 0 (by decide!) (by decide!)
  exact ⟨by decide!, by decide!, h.1, h.2.2.2.2.1, by decide!⟩


/-! ## Packets for unknown players (C30) -/

theorem foldl_fixed {α β : Type} (f : α → β → α) (a : α) :
    ∀ l : List β, (∀ b, b ∈ l → f a b = a) → l.foldl f a = a := by
  intro l
  induction l with
  | nil => intro _; rfl
  | cons b l ih =>
    intro h
    rw [List.foldl_cons, h b (List.mem_cons_self b l)]
    exact ih fun c hc => h c (List.mem_cons_of_mem b hc)

theorem OnBatchedLargePositionPacket_record_unknown (s : PlayerManager) (env : Env)
    (buf : List Nat) (off : Nat)
    (h : GetPlayerById s (OnBatchedLargePositionPacket.decode buf off).player_id = none) :
    OnBatchedLargePositionPacket.record s env buf off = s := by
  unfold OnBatchedLargePositionPacket.record
  simp only [h]
  split_ifs <;> rfl

theorem OnBatchedSmallPositionPacket_record_unknown (s : PlayerManager) (env : Env)
    (buf : List Nat) (off : Nat)
    (h : GetPlayerById s (OnBatchedSmallPositionPacket.decode buf off).player_id = none) :
    OnBatchedSmallPositionPacket.record s env buf off = s := by
  unfold OnBatchedSmallPositionPacket.record
  simp only [h]
  split_ifs <;> rfl

/-- C30: a packet whose player id is not in `player_lookup` leaves the whole
state as it is (the player array, `player_count`, the lookup table, every
attachment list, and the trace, so that no event is dispatched) in
`OnPlayerLeave`, `OnPlayerFrequencyChange`, `OnPlayerFreqAndShipChange`,
`OnFlagDrop`, `OnDestroyTurretLink`, `OnCreateTurretLink` (for packets of at
least 5 bytes, the id being the requester's) and the four position handlers
(for the batched ones: when no record names a known player). Every handler
takes the branch for the null pointer, where no player record is read. -/
theorem C30_unknown_player_ignored (s : PlayerManager) (env : Env) (pid : Nat)
    (h : GetPlayerById s (u16 pid) = none) :
    OnPlayerLeave s env pid = some s ∧
      (∀ frequency, OnPlayerFrequencyChange s env pid frequency = s) ∧
      (∀ ship freq, OnPlayerFreqAndShipChange s env ship pid freq = s) ∧
      OnFlagDrop s pid = s ∧
      OnDestroyTurretLink s pid = s ∧
      (∀ size destination_id, 5 ≤ size → OnCreateTurretLink s pid size destination_id = s) ∧
      (∀ buf, ReadU16 buf 8 = u16 pid → OnLargePositionPacket s env buf = s) ∧
      (∀ buf, ReadU8 buf 8 = u16 pid → OnSmallPositionPacket s env buf = s) ∧
      (∀ buf,
        (∀ k, k < (buf.length - 1) / 11 →
          (OnBatchedLargePositionPacket.decode buf (1 + 11 * k)).player_id = u16 pid) →
        OnBatchedLargePositionPacket s env buf = s) ∧
      (∀ buf,
        (∀ k, k < (buf.length - 1) / 10 →
          (OnBatchedSmallPositionPacket.decode buf (1 + 10 * k)).player_id = u16 pid) →
        OnBatchedSmallPositionPacket s env buf = s) := by
  refine ⟨?_, fun _ => ?_, fun _ _ => ?_, ?_, ?_, fun size d hsize => ?_, fun buf hb => ?_,
    fun buf hb => ?_, fun buf hb => ?_, fun buf hb => ?_⟩
  · unfold OnPlayerLeave RemovePlayer
    rw [h]
  · unfold OnPlayerFrequencyChange
    rw [h]
  · unfold OnPlayerFreqAndShipChange
    rw [h]
  · unfold OnFlagDrop
    rw [h]
  · unfold OnDestroyTurretLink
    rw [h]
  · unfold OnCreateTurretLink
    rw [if_neg (by omega), h]
    simp
  · unfold OnLargePositionPacket
    simp only [hb, h, IsNewerPositionPacket]
    split_ifs <;> rfl
  · unfold OnSmallPositionPacket
    simp only [hb, h, IsNewerPositionPacket]
    split_ifs <;> rfl
  · unfold OnBatchedLargePositionPacket
    apply foldl_fixed
    intro k hk
    exact OnBatchedLargePositionPacket_record_unknown s env buf _
      (by rw [hb k (List.mem_range.mp hk)]; exact h)
  · unfold OnBatchedSmallPositionPacket
    apply foldl_fixed
    intro k hk
    exact OnBatchedSmallPositionPacket_record_unknown s env buf _
      (by rw [hb k (List.mem_range.mp hk)]; exact h)

theorem C30_unknown_player_ignored_witness :
    GetPlayerById table739 (u16 5) = none ∧
      OnPlayerLeave table739 quietEnv 5 = some table739 ∧
      OnFlagDrop table739 5 = table739 ∧
      OnCreateTurretLink table739 5 5 3 = table739 ∧
      OnLargePositionPacket table739 positionEnv (largePacket 5 4196) = table739 := by
  have h := C30_unknown_player_ignored table739 positionEnv 5 (by decide!)
  have h' := C30_unknown_player_ignored table739 quietEnv 5 (by decide!)
  exact ⟨by decide!, h'.1, h.2.2.2.1, h.2.2.2.2.2.1 5 3 (by decide),
    h.2.2.2.2.2.2.1 _ (by decide!)⟩


/-! ## Team changes (C33) -/

theorem DetachPlayer_team (s : PlayerManager) (p j : Nat) :
    ((DetachPlayer s p).players j).frequency = (s.players j).frequency ∧
      ((DetachPlayer s p).players j).ship = (s.players j).ship ∧
      ((DetachPlayer s p).players j).id = (s.players j).id := by
  rw [DetachPlayer_players]
  split_ifs with h1 h2 h3 h4
  · subst h2; exact ⟨rfl, rfl, rfl⟩
  · subst h2; exact ⟨rfl, rfl, rfl⟩
  · exact ⟨rfl, rfl, rfl⟩
  · exact ⟨rfl, rfl, rfl⟩
  · exact ⟨rfl, rfl, rfl⟩

theorem DetachAllChildren_team (s : PlayerManager) (p j : Nat) :
    ((DetachAllChildren s p).players j).frequency = (s.players j).frequency ∧
      ((DetachAllChildren s p).players j).ship = (s.players j).ship ∧
      ((DetachAllChildren s p).players j).id = (s.players j).id := by
  have hl : (DetachAllChildren.loop p (s.players p).children s).players j = (s.players j).resetAttach ∨
      (DetachAllChildren.loop p (s.players p).children s).players j = s.players j := by
    by_cases h : ∃ n, n ∈ (s.players p).children ∧ resetsSlot s p n j
    · exact Or.inl ((loop_players p _ s j).1 h)
    · exact Or.inr ((loop_players p _ s j).2 h)
  unfold DetachAllChildren
  dsimp only
  by_cases hjp : j = p
  · subst hjp
    simp only [setPlayer_players_same]
    rcases hl with h | h <;> rw [h] <;> exact ⟨rfl, rfl, rfl⟩
  · rw [setPlayer_players_ne _ _ _ _ hjp]
    rcases hl with h | h <;> rw [h] <;> exact ⟨rfl, rfl, rfl⟩

theorem DetachPlayer_trace_detach (s : PlayerManager) (p : Nat) :
    ∃ l, (DetachPlayer s p).trace = s.trace ++ l ∧ ∀ e, e ∈ l → isDetachEffect e = true := by
  unfold DetachPlayer
  by_cases h : (s.players p).attach_parent ≠ kInvalidPlayerId
  · rw [if_pos h]
    dsimp only
    rw [setPlayer_trace]
    have h1 : ∃ l1, (if (s.players p).id = s.player_id then
        ({ s with requesting_attach := false }).emit (Effect.SendAttachRequest kInvalidPlayerId)
        else s).trace = s.trace ++ l1 ∧ ∀ e, e ∈ l1 → isDetachEffect e = true := by
      split_ifs
      · refine ⟨[Effect.SendAttachRequest kInvalidPlayerId], rfl, fun e he => ?_⟩
        rw [List.mem_singleton] at he
        rw [he]; rfl
      · exact ⟨[], by simp, fun e he => absurd he (List.not_mem_nil e)⟩
    generalize (if (s.players p).id = s.player_id then
        ({ s with requesting_attach := false }).emit (Effect.SendAttachRequest kInvalidPlayerId)
        else s) = s1 at h1
    obtain ⟨l1, h1, hl1⟩ := h1
    cases GetPlayerById s (s.players p).attach_parent with
    | none => exact ⟨l1, h1, hl1⟩
    | some q =>
      dsimp only
      rw [emit_trace]
      have h2 : (match unlinkFirst (s1.players p).id (s1.players q).children with
          | some (n, rest) =>
            { (s1.setPlayer q { s1.players q with children := rest }) with
              attach_free := n.freed :: s1.attach_free }
          | none => s1).trace = s1.trace := by
        cases unlinkFirst (s1.players p).id (s1.players q).children with
        | none => rfl
        | some x => rfl
      rw [h2, h1, List.append_assoc]
      refine ⟨_, rfl, fun e he => ?_⟩
      rcases List.mem_append.mp he with he | he
      · exact hl1 e he
      · rw [List.mem_singleton] at he
        rw [he]; rfl
  · rw [if_neg h]
    exact ⟨[], by simp, fun e he => absurd he (List.not_mem_nil e)⟩

theorem loop_trace_detach (p : Nat) (l : List AttachInfo) (s : PlayerManager) :
    ∃ t, (DetachAllChildren.loop p l s).trace = s.trace ++ t ∧
      ∀ e, e ∈ t → isDetachEffect e = true := by
  induction l generalizing s with
  | nil => exact ⟨[], by simp [DetachAllChildren.loop], fun e he => absurd he (List.not_mem_nil e)⟩
  | cons n rest ih =>
    have h1 : ∃ t1, (DetachAllChildren.step p s n).trace = s.trace ++ t1 ∧
        ∀ e, e ∈ t1 → isDetachEffect e = true := by
      by_cases h : ∃ c, resetsSlot s p n c ∧ GetSelf s = some c
      · refine ⟨_, ((step_requesting_trace p s n).1 h).2, fun e he => ?_⟩
        rw [List.mem_singleton] at he
        rw [he]; rfl
      · exact ⟨[], by rw [((step_requesting_trace p s n).2 h).2]; simp,
          fun e he => absurd he (List.not_mem_nil e)⟩
    obtain ⟨t1, h1, hd1⟩ := h1
    obtain ⟨t2, h2, hd2⟩ := ih (DetachAllChildren.step p s n)
    refine ⟨t1 ++ t2, ?_, fun e he => ?_⟩
    · show (DetachAllChildren.loop p rest (DetachAllChildren.step p s n)).trace = _
      rw [h2, h1, List.append_assoc]
    · rcases List.mem_append.mp he with he | he
      · exact hd1 e he
      · exact hd2 e he

theorem detachBoth_trace (s : PlayerManager) (p : Nat) :
    ∃ l, (DetachAllChildren (DetachPlayer s p) p).trace = s.trace ++ l ∧
      ∀ e, e ∈ l → isDetachEffect e = true := by
  obtain ⟨l1, h1, hd1⟩ := DetachPlayer_trace_detach s p
  obtain ⟨l2, h2, hd2⟩ := loop_trace_detach p ((DetachPlayer s p).players p).children
    (DetachPlayer s p)
  refine ⟨l1 ++ l2, ?_, fun e he => ?_⟩
  · unfold DetachAllChildren
    dsimp only
    rw [setPlayer_trace, h2, h1, List.append_assoc]
  · rcases List.mem_append.mp he with he | he
    · exact hd1 e he
    · exact hd2 e he

theorem detachBoth_team (s : PlayerManager) (p j : Nat) :
    ((DetachAllChildren (DetachPlayer s p) p).players j).frequency = (s.players j).frequency ∧
      ((DetachAllChildren (DetachPlayer s p) p).players j).ship = (s.players j).ship ∧
      ((DetachAllChildren (DetachPlayer s p) p).players j).id = (s.players j).id := by
  obtain ⟨a1, a2, a3⟩ := DetachAllChildren_team (DetachPlayer s p) p j
  obtain ⟨b1, b2, b3⟩ := DetachPlayer_team s p j
  exact ⟨a1.trans b1, a2.trans b2, a3.trans b3⟩

theorem Spawn_true_trace (s : PlayerManager) (env : Env) (self : Nat)
    (hself : GetSelf s = some self) :
    (Spawn s env true).trace =
      s.trace ++ [Effect.ResetShip, Effect.SpawnEvent (s.players self).id] := by
  unfold Spawn
  rw [hself]
  simp [PlayerManager.setPlayer, PlayerManager.emit]

/-- C33: a frequency change of self that dispatches the event before the
respawn. Self (id 7, slot 0 of `table739`) changes to frequency 1 through
`OnPlayerFrequencyChange`: the `PlayerFreqAndShipChange` event is dispatched
first, and the ship reset and the Spawn event of `Spawn(true)` come after it.
The same change through `OnPlayerFreqAndShipChange` respawns first and
dispatches the event last. -/
theorem C33_frequency_change_dispatches_before_respawn :
    GetSelf table739 = some 0 ∧ GetPlayerById table739 (u16 7) = some 0 ∧
      (table739.players 0).id = table739.player_id ∧
      (OnPlayerFrequencyChange table739 quietEnv 7 1).trace =
        [Effect.ClearWeapons 7, Effect.PlayerFreqAndShipChangeEvent 7 0 1 0 0,
          Effect.ResetShip, Effect.SpawnEvent 7] ∧
      (OnPlayerFreqAndShipChange table739 quietEnv 0 7 1).trace =
        [Effect.ClearWeapons 7, Effect.ResetShip, Effect.SpawnEvent 7,
          Effect.PlayerFreqAndShipChangeEvent 7 0 1 0 0] :=
  ⟨by decide!, by decide!, by decide!, rfl, rfl⟩

/-- The events of both team-change handlers. Both first detach the player,
which adds only attach requests and detach events to the trace. After that,
for a player other than self no respawn happens and exactly one
`PlayerFreqAndShipChange` event with the old and new frequency and ship is
dispatched (the ship stays in `OnPlayerFrequencyChange`). When the changed
player is self, `OnPlayerFreqAndShipChange` respawns (`Spawn(true)`, which
resets the ship and emits the Spawn event) before it dispatches the event,
while `OnPlayerFrequencyChange` dispatches the event first and respawns
after it. -/
theorem team_change_traces (s : PlayerManager) (env : Env) (pid f ship p : Nat)
    (hg : GetPlayerById s (u16 pid) = some p) :
    (∃ l, (DetachAllChildren (DetachPlayer s p) p).trace = s.trace ++ l ∧
        ∀ e, e ∈ l → isDetachEffect e = true) ∧
      ((s.players p).id ≠ s.player_id →
        (OnPlayerFrequencyChange s env pid f).trace =
          (DetachAllChildren (DetachPlayer s p) p).trace ++
            [Effect.ClearWeapons (s.players p).id,
              Effect.PlayerFreqAndShipChangeEvent (s.players p).id (s.players p).frequency
                (u16 f) (s.players p).ship (s.players p).ship] ∧
        (OnPlayerFreqAndShipChange s env ship pid f).trace =
          (DetachAllChildren (DetachPlayer s p) p).trace ++
            [Effect.ClearWeapons (s.players p).id,
              Effect.PlayerFreqAndShipChangeEvent (s.players p).id (s.players p).frequency
                (u16 f) (s.players p).ship (u8 ship)]) ∧
      ((s.players p).id = s.player_id → GetSelf s = some p →
        (OnPlayerFreqAndShipChange s env ship pid f).trace =
          (DetachAllChildren (DetachPlayer s p) p).trace ++
            [Effect.ClearWeapons (s.players p).id, Effect.ResetShip,
              Effect.SpawnEvent (s.players p).id,
              Effect.PlayerFreqAndShipChangeEvent (s.players p).id (s.players p).frequency
                (u16 f) (s.players p).ship (u8 ship)] ∧
        (OnPlayerFrequencyChange s env pid f).trace =
          (DetachAllChildren (DetachPlayer s p) p).trace ++
            [Effect.ClearWeapons (s.players p).id,
              Effect.PlayerFreqAndShipChangeEvent (s.players p).id (s.players p).frequency
                (u16 f) (s.players p).ship (s.players p).ship,
              Effect.ResetShip, Effect.SpawnEvent (s.players p).id]) := by
  obtain ⟨t1, t2, t3⟩ := detachBoth_team s p p
  have hfr : Frame s (DetachAllChildren (DetachPlayer s p) p) :=
    Frame_trans (DetachPlayer_frame s p) (DetachAllChildren_frame _ p)
  have hpid : (DetachAllChildren (DetachPlayer s p) p).player_id = s.player_id := hfr.2.2.1
  have hgs : GetSelf (DetachAllChildren (DetachPlayer s p) p) = GetSelf s := Frame_getSelf hfr
  refine ⟨detachBoth_trace s p, fun hne => ⟨?_, ?_⟩, fun hid hself => ⟨?_, ?_⟩⟩
  · unfold OnPlayerFrequencyChange
    rw [hg]
    dsimp only
    generalize DetachAllChildren (DetachPlayer s p) p = X at t1 t2 t3 hpid
    simp only [setPlayer_players_same, emit_players, emit_player_id, setPlayer_player_id]
    rw [if_neg (by
      show ¬ (({ X.players p with frequency := u16 f }).resetForTeamChange).id = X.player_id
      rw [hpid]; exact fun h => hne (t3.symm.trans h))]
    simp only [emit_trace, setPlayer_trace, List.append_assoc, List.singleton_append]
    rw [← t1, ← t2, ← t3]
    rfl
  · unfold OnPlayerFreqAndShipChange
    rw [hg]
    dsimp only
    generalize DetachAllChildren (DetachPlayer s p) p = X at t1 t2 t3 hpid
    simp only [setPlayer_players_same, emit_players, emit_player_id, setPlayer_player_id]
    rw [if_neg (by
      show ¬ (({ X.players p with ship := u8 ship, frequency := u16 f }).resetForTeamChange).id
        = X.player_id
      rw [hpid]; exact fun h => hne (t3.symm.trans h))]
    simp only [emit_trace, setPlayer_trace, emit_players, setPlayer_players_same,
      List.append_assoc, List.singleton_append]
    rw [← t1, ← t2, ← t3]
    rfl
  · unfold OnPlayerFreqAndShipChange
    rw [hg]
    dsimp only
    generalize DetachAllChildren (DetachPlayer s p) p = X at t1 t2 t3 hpid hgs
    simp only [setPlayer_players_same, emit_players, emit_player_id, setPlayer_player_id]
    rw [if_pos (by
      show (({ X.players p with ship := u8 ship, frequency := u16 f }).resetForTeamChange).id
        = X.player_id
      rw [hpid]; exact t3.trans hid)]
    rw [emit_trace, Spawn_true_trace _ env p (by
      rw [getSelf_emit, getSelf_setPlayer, hgs]; exact hself)]
    have hsp : ((Spawn ((X.setPlayer p
        ({ X.players p with ship := u8 ship, frequency := u16 f }).resetForTeamChange).emit
        (Effect.ClearWeapons ({ X.players p with
          ship := u8 ship, frequency := u16 f }).resetForTeamChange.id)) env true).players p).id
        = (X.players p).id := by
      have := (Spawn_reconcileFrame ((X.setPlayer p
        ({ X.players p with ship := u8 ship, frequency := u16 f }).resetForTeamChange).emit
        (Effect.ClearWeapons ({ X.players p with
          ship := u8 ship, frequency := u16 f }).resetForTeamChange.id)) env true).2.2.2 p
      rw [this.1]
      simp only [emit_players, setPlayer_players_same]
      rfl
    rw [hsp]
    simp only [emit_trace, setPlayer_trace, emit_players, setPlayer_players_same,
      List.append_assoc, List.singleton_append, List.cons_append, List.nil_append]
    rw [← t1, ← t2, ← t3]
    rfl
  · unfold OnPlayerFrequencyChange
    rw [hg]
    dsimp only
    generalize DetachAllChildren (DetachPlayer s p) p = X at t1 t2 t3 hpid hgs
    simp only [setPlayer_players_same, emit_players, emit_player_id, setPlayer_player_id]
    rw [if_pos (by
      show (({ X.players p with frequency := u16 f }).resetForTeamChange).id = X.player_id
      rw [hpid]; exact t3.trans hid)]
    rw [Spawn_true_trace _ env p (by
      rw [getSelf_emit, getSelf_emit, getSelf_setPlayer, hgs]; exact hself)]
    simp only [emit_trace, setPlayer_trace, emit_players, setPlayer_players_same,
      List.append_assoc, List.singleton_append, List.cons_append, List.nil_append]
    rw [← t1, ← t2, ← t3]
    rfl

theorem team_change_traces_example :
    GetPlayerById table739 (u16 3) = some 1 ∧ (table739.players 1).id ≠ table739.player_id ∧
      (OnPlayerFreqAndShipChange table739 quietEnv 2 3 5).trace =
        (DetachAllChildren (DetachPlayer table739 1) 1).trace ++
          [Effect.ClearWeapons (table739.players 1).id,
            Effect.PlayerFreqAndShipChangeEvent (table739.players 1).id
              (table739.players 1).frequency (u16 5) (table739.players 1).ship (u8 2)] ∧
      GetPlayerById table739 (u16 7) = some 0 ∧ GetSelf table739 = some 0 ∧
      (OnPlayerFreqAndShipChange table739 quietEnv 2 7 5).trace =
        (DetachAllChildren (DetachPlayer table739 0) 0).trace ++
          [Effect.ClearWeapons (table739.players 0).id, Effect.ResetShip,
            Effect.SpawnEvent (table739.players 0).id,
            Effect.PlayerFreqAndShipChangeEvent (table739.players 0).id
              (table739.players 0).frequency (u16 5) (table739.players 0).ship (u8 2)] :=
  ⟨by decide!, by decide!,
    ((team_change_traces table739 quietEnv 3 5 2 1 (by decide!)).2.1 (by decide!)).2,
    by decide!, by decide!,
    ((team_change_traces table739 quietEnv 7 5 2 0 (by decide!)).2.2 (by decide!)
      (by decide!)).1⟩


/-! ## The item word (C34) -/

theorem or_shiftLeft_of_lt (acc x k : Nat) (h : acc < 2 ^ k) :
    acc ||| x <<< k = acc + x * 2 ^ k := by
  rw [Nat.or_comm, Nat.shiftLeft_eq, Nat.mul_comm, ← Nat.mul_add_lt_is_or h, Nat.add_comm]

theorem ItemInfo_word_sum (i : ItemInfo) :
    i.word = i.bursts % 16 * 4 + i.repels % 16 * 64 + i.thors % 16 * 1024 +
      i.bricks % 16 * 16384 + i.decoys % 16 * 262144 + i.rockets % 16 * 4194304 +
      i.portals % 16 * 67108864 := by
  unfold ItemInfo.word
  have h0 : (i.bursts % 16) <<< 2 = i.bursts % 16 * 4 := by rw [Nat.shiftLeft_eq]
  rw [h0, or_shiftLeft_of_lt _ _ 6 (by norm_num; omega),
    or_shiftLeft_of_lt _ _ 10 (by norm_num; omega),
    or_shiftLeft_of_lt _ _ 14 (by norm_num; omega),
    or_shiftLeft_of_lt _ _ 18 (by norm_num; omega),
    or_shiftLeft_of_lt _ _ 22 (by norm_num; omega),
    or_shiftLeft_of_lt _ _ 26 (by norm_num; omega)]
  norm_num

theorem ItemInfo_word_fields (i : ItemInfo) :
    (i.word >>> 2) % 16 = i.bursts % 16 ∧ (i.word >>> 6) % 16 = i.repels % 16 ∧
      (i.word >>> 10) % 16 = i.thors % 16 ∧ (i.word >>> 14) % 16 = i.bricks % 16 ∧
      (i.word >>> 18) % 16 = i.decoys % 16 ∧ (i.word >>> 22) % 16 = i.rockets % 16 ∧
      (i.word >>> 26) % 16 = i.portals % 16 := by
  have hs := ItemInfo_word_sum i
  refine ⟨?_, ?_, ?_, ?_, ?_, ?_, ?_⟩
  · rw [Nat.shiftRight_eq_div_pow]; norm_num; omega
  · rw [Nat.shiftRight_eq_div_pow]; norm_num; omega
  · rw [Nat.shiftRight_eq_div_pow]; norm_num; omega
  · rw [Nat.shiftRight_eq_div_pow]; norm_num; omega
  · rw [Nat.shiftRight_eq_div_pow]; norm_num; omega
  · rw [Nat.shiftRight_eq_div_pow]; norm_num; omega
  · rw [Nat.shiftRight_eq_div_pow]; norm_num; omega

/-- C34: in the 32-bit item word the two lowest bits (shields, super) and the
two highest bits (padding) are zero, and the seven 4-bit fields above bit 2
hold bursts, repels, thors, bricks, decoys, rockets and portals, each reduced
modulo 16: the word is
`bursts<<2 | repels<<6 | thors<<10 | bricks<<14 | decoys<<18 | rockets<<22 | portals<<26`
on the reduced counts. Records with counts below 16 that give the same word
are equal. -/
theorem C34_item_word (i : ItemInfo) :
    i.word % 4 = 0 ∧ i.word < 2 ^ 30 ∧
      (i.word >>> 2) % 16 = i.bursts % 16 ∧ (i.word >>> 6) % 16 = i.repels % 16 ∧
      (i.word >>> 10) % 16 = i.thors % 16 ∧ (i.word >>> 14) % 16 = i.bricks % 16 ∧
      (i.word >>> 18) % 16 = i.decoys % 16 ∧ (i.word >>> 22) % 16 = i.rockets % 16 ∧
      (i.word >>> 26) % 16 = i.portals % 16 ∧
      i.word = (i.bursts % 16) <<< 2 ||| (i.repels % 16) <<< 6 ||| (i.thors % 16) <<< 10 |||
        (i.bricks % 16) <<< 14 ||| (i.decoys % 16) <<< 18 ||| (i.rockets % 16) <<< 22 |||
        (i.portals % 16) <<< 26 ∧
      ∀ j : ItemInfo,
        i.bursts < 16 → i.repels < 16 → i.thors < 16 → i.bricks < 16 → i.decoys < 16 →
        i.rockets < 16 → i.portals < 16 →
        j.bursts < 16 → j.repels < 16 → j.thors < 16 → j.bricks < 16 → j.decoys < 16 →
        j.rockets < 16 → j.portals < 16 → i.word = j.word → i = j := by
  have hs := ItemInfo_word_sum i
  obtain ⟨f1, f2, f3, f4, f5, f6, f7⟩ := ItemInfo_word_fields i
  refine ⟨by omega, by norm_num; omega, f1, f2, f3, f4, f5, f6, f7, rfl, ?_⟩
  intro j a1 a2 a3 a4 a5 a6 a7 b1 b2 b3 b4 b5 b6 b7 hw
  obtain ⟨g1, g2, g3, g4, g5, g6, g7⟩ := ItemInfo_word_fields j
  rw [hw] at f1 f2 f3 f4 f5 f6 f7
  have e1 : i.bursts = j.bursts := by
    rw [← Nat.mod_eq_of_lt a1, ← Nat.mod_eq_of_lt b1, ← f1, ← g1]
  have e2 : i.repels = j.repels := by
    rw [← Nat.mod_eq_of_lt a2, ← Nat.mod_eq_of_lt b2, ← f2, ← g2]
  have e3 : i.thors = j.thors := by
    rw [← Nat.mod_eq_of_lt a3, ← Nat.mod_eq_of_lt b3, ← f3, ← g3]
  have e4 : i.bricks = j.bricks := by
    rw [← Nat.mod_eq_of_lt a4, ← Nat.mod_eq_of_lt b4, ← f4, ← g4]
  have e5 : i.decoys = j.decoys := by
    rw [← Nat.mod_eq_of_lt a5, ← Nat.mod_eq_of_lt b5, ← f5, ← g5]
  have e6 : i.rockets = j.rockets := by
    rw [← Nat.mod_eq_of_lt a6, ← Nat.mod_eq_of_lt b6, ← f6, ← g6]
  have e7 : i.portals = j.portals := by
    rw [← Nat.mod_eq_of_lt a7, ← Nat.mod_eq_of_lt b7, ← f7, ← g7]
  cases i
  cases j
  simp only at e1 e2 e3 e4 e5 e6 e7
  simp only [ItemInfo.mk.injEq]
  exact ⟨e1, e2, e3, e4, e5, e6, e7⟩

theorem C34_item_word_witness :
    (⟨1, 2, 3, 4, 5, 6, 7⟩ : ItemInfo).word = 0x1D950C84 ∧
      ∀ j : ItemInfo, j.bursts < 16 → j.repels < 16 → j.thors < 16 → j.bricks < 16 →
        j.decoys < 16 → j.rockets < 16 → j.portals < 16 →
        (⟨1, 2, 3, 4, 5, 6, 7⟩ : ItemInfo).word = j.word → (⟨1, 2, 3, 4, 5, 6, 7⟩ : ItemInfo) = j :=
  ⟨by decide, fun j =>
    (C34_item_word ⟨1, 2, 3, 4, 5, 6, 7⟩).2.2.2.2.2.2.2.2.2.2 j (by decide) (by decide)
      (by decide) (by decide) (by decide) (by decide) (by decide)⟩


/-! ## Attach requests that do nothing (C37, C38) -/

theorem AttachSelf_state (s : PlayerManager) (env : Env) (d self : Nat)
    (hself : GetSelf s = some self) :
    (AttachSelf s env (some d)).2 =
      if env.carrying_ball then s
      else if (s.players self).attach_parent ≠ kInvalidPlayerId then
        DetachPlayer (s.emit (Effect.SendAttachRequest kInvalidPlayerId)) self
      else if (s.players self).children ≠ [] then s.emit Effect.SendAttachDrop
      else if (s.players self).energy < (s.ship.energy : ℚ) then s
      else if (s.players self).bounty < (env.ShipSettings (s.players self).ship).AttachBounty then s
      else if (s.players self).id = (s.players d).id then s
      else if (s.players self).frequency ≠ (s.players d).frequency then s
      else if 8 ≤ (s.players d).ship then s
      else if (env.ShipSettings (s.players d).ship).TurretLimit = 0 then s
      else if (env.ShipSettings (s.players d).ship).TurretLimit ≤ GetTurretCount (s.players d) then s
      else if IsAntiwarped s env self then s
      else
        { (AttachPlayer
            { (s.emit (Effect.SendAttachRequest (s.players d).id)) with
              ship := { s.ship with
                fake_antiwarp_end_tick := u32 (env.tick + env.AntiwarpSettleDelay) } }
            self d) with requesting_attach := true } := by
  unfold AttachSelf
  simp only [hself, apply_ite Prod.snd]
  rfl

theorem AttachSelf_refusal (s : PlayerManager) (env : Env) (destination : Option Nat)
    (h1 : (AttachSelf s env destination).1 ≠ AttachRequestResponse.Success)
    (h2 : (AttachSelf s env destination).1 ≠ AttachRequestResponse.DetatchFromParent) :
    (AttachSelf s env destination).2 =
      (if (AttachSelf s env destination).1 = AttachRequestResponse.DetatchChildren then
        s.emit Effect.SendAttachDrop
      else s) := by
  cases destination with
  | none => exact (if_neg (by intro h; exact AttachRequestResponse.noConfusion h)).symm
  | some d =>
    cases hg : GetSelf s with
    | none =>
      have e : AttachSelf s env (some d) =
          if env.carrying_ball then (AttachRequestResponse.CarryingBall, s)
          else (AttachRequestResponse.UnrecoverableError, s) := by
        unfold AttachSelf
        simp only [hg]
      rw [e]
      by_cases hc : env.carrying_ball = true
      · rw [if_pos hc]; exact (if_neg (by intro h; exact AttachRequestResponse.noConfusion h)).symm
      · rw [if_neg hc]; exact (if_neg (by intro h; exact AttachRequestResponse.noConfusion h)).symm
    | some self =>
      rw [AttachSelf_response s env d self hg] at h1 h2 ⊢
      rw [AttachSelf_state s env d self hg]
      by_cases c1 : env.carrying_ball = true
      · rw [if_pos c1, if_pos c1]; exact (if_neg (by intro h; exact AttachRequestResponse.noConfusion h)).symm
      rw [if_neg c1] at h1 h2 ⊢
      rw [if_neg c1]
      by_cases c2 : (s.players self).attach_parent ≠ kInvalidPlayerId
      · rw [if_pos c2] at h2; exact absurd rfl h2
      rw [if_neg c2] at h1 h2 ⊢
      rw [if_neg c2]
      by_cases c3 : (s.players self).children ≠ []
      · rw [if_pos c3, if_pos c3]; exact (if_pos rfl).symm
      rw [if_neg c3] at h1 h2 ⊢
      rw [if_neg c3]
      by_cases c4 : (s.players self).energy < (s.ship.energy : ℚ)
      · rw [if_pos c4, if_pos c4]; exact (if_neg (by intro h; exact AttachRequestResponse.noConfusion h)).symm
      rw [if_neg c4] at h1 h2 ⊢
      rw [if_neg c4]
      by_cases c5 : (s.players self).bounty < (env.ShipSettings (s.players self).ship).AttachBounty
      · rw [if_pos c5, if_pos c5]; exact (if_neg (by intro h; exact AttachRequestResponse.noConfusion h)).symm
      rw [if_neg c5] at h1 h2 ⊢
      rw [if_neg c5]
      by_cases c6 : (s.players self).id = (s.players d).id
      · rw [if_pos c6, if_pos c6]; exact (if_neg (by intro h; exact AttachRequestResponse.noConfusion h)).symm
      rw [if_neg c6] at h1 h2 ⊢
      rw [if_neg c6]
      by_cases c7 : (s.players self).frequency ≠ (s.players d).frequency
      · rw [if_pos c7, if_pos c7]; exact (if_neg (by intro h; exact AttachRequestResponse.noConfusion h)).symm
      rw [if_neg c7] at h1 h2 ⊢
      rw [if_neg c7]
      by_cases c8 : 8 ≤ (s.players d).ship
      · rw [if_pos c8, if_pos c8]; exact (if_neg (by intro h; exact AttachRequestResponse.noConfusion h)).symm
      rw [if_neg c8] at h1 h2 ⊢
      rw [if_neg c8]
      by_cases c9 : (env.ShipSettings (s.players d).ship).TurretLimit = 0
      · rw [if_pos c9, if_pos c9]; exact (if_neg (by intro h; exact AttachRequestResponse.noConfusion h)).symm
      rw [if_neg c9] at h1 h2 ⊢
      rw [if_neg c9]
      by_cases c10 : (env.ShipSettings (s.players d).ship).TurretLimit ≤
          GetTurretCount (s.players d)
      · rw [if_pos c10, if_pos c10]; exact (if_neg (by intro h; exact AttachRequestResponse.noConfusion h)).symm
      rw [if_neg c10] at h1 h2 ⊢
      rw [if_neg c10]
      by_cases c11 : IsAntiwarped s env self = true
      · rw [if_pos c11, if_pos c11]; exact (if_neg (by intro h; exact AttachRequestResponse.noConfusion h)).symm
      · rw [if_neg c11] at h1; exact absurd rfl h1

/-- C37: whenever `AttachSelf` returns a response other than `Success` and
`DetatchFromParent`, it returns the state it was given, except that the
`DetatchChildren` case has sent an attach drop: no player record (so no
children list), not the attach free list and not `requesting_attach` is
modified, and the trace gets no attach request. -/
theorem C37_AttachSelf_refusal_frame (s : PlayerManager) (env : Env) (destination : Option Nat)
    (h1 : (AttachSelf s env destination).1 ≠ AttachRequestResponse.Success)
    (h2 : (AttachSelf s env destination).1 ≠ AttachRequestResponse.DetatchFromParent) :
    (AttachSelf s env destination).2 =
        (if (AttachSelf s env destination).1 = AttachRequestResponse.DetatchChildren then
          s.emit Effect.SendAttachDrop
        else s) ∧
      (AttachSelf s env destination).2.players = s.players ∧
      (AttachSelf s env destination).2.attach_free = s.attach_free ∧
      (AttachSelf s env destination).2.arena_used = s.arena_used ∧
      (AttachSelf s env destination).2.requesting_attach = s.requesting_attach ∧
      (AttachSelf s env destination).2.ship = s.ship ∧
      (AttachSelf s env destination).2.trace =
        (if (AttachSelf s env destination).1 = AttachRequestResponse.DetatchChildren then
          s.trace ++ [Effect.SendAttachDrop]
        else s.trace) := by
  have key := AttachSelf_refusal s env destination h1 h2
  rw [key]
  split_ifs
  · exact ⟨rfl, rfl, rfl, rfl, rfl, rfl, rfl⟩
  · exact ⟨rfl, rfl, rfl, rfl, rfl, rfl, rfl⟩

theorem C37_AttachSelf_refusal_frame_witness :
    (AttachSelf carrierTable quietEnv (some 2)).1 = AttachRequestResponse.DetatchChildren ∧
      (AttachSelf carrierTable quietEnv (some 2)).2.players = carrierTable.players ∧
      (AttachSelf carrierTable quietEnv (some 2)).2.requesting_attach
        = carrierTable.requesting_attach := by
  have h := C37_AttachSelf_refusal_frame carrierTable quietEnv (some 2) (by decide!) (by decide!)
  exact ⟨by decide!, h.2.1, h.2.2.2.2.1⟩


theorem DetachPlayer_attach_free (s : PlayerManager) (p : Nat) :
    (DetachPlayer s p).attach_free =
      if (s.players p).attach_parent ≠ kInvalidPlayerId then
        match GetPlayerById s (s.players p).attach_parent with
        | some q =>
          match unlinkFirst (s.players p).id (s.players q).children with
          | some (n, _) => n.freed :: s.attach_free
          | none => s.attach_free
        | none => s.attach_free
      else s.attach_free := by
  unfold DetachPlayer
  by_cases h : (s.players p).attach_parent ≠ kInvalidPlayerId
  · rw [if_pos h, if_pos h]
    dsimp only
    rw [setPlayer_attach_free]
    have h1 : (if (s.players p).id = s.player_id then
        ({ s with requesting_attach := false }).emit (Effect.SendAttachRequest kInvalidPlayerId)
        else s).players = s.players ∧
        (if (s.players p).id = s.player_id then
        ({ s with requesting_attach := false }).emit (Effect.SendAttachRequest kInvalidPlayerId)
        else s).attach_free = s.attach_free := by
      split_ifs
      · exact ⟨rfl, rfl⟩
      · exact ⟨rfl, rfl⟩
    generalize (if (s.players p).id = s.player_id then
        ({ s with requesting_attach := false }).emit (Effect.SendAttachRequest kInvalidPlayerId)
        else s) = s1 at h1
    obtain ⟨hp, hf⟩ := h1
    cases GetPlayerById s (s.players p).attach_parent with
    | none => exact hf
    | some q =>
      dsimp only
      rw [emit_attach_free, hp]
      cases unlinkFirst (s.players p).id (s.players q).children with
      | none => exact hf
      | some x =>
        obtain ⟨n, rest⟩ := x
        dsimp only
        rw [hf]
  · rw [if_neg h, if_neg h]

/-- C38: for a requester `r` and a live destination `d` (its id is valid and
resolves to its slot), `AttachPlayer` puts the requester's node at the head of
the destination's children, so that `GetTurretCount` grows by exactly one; a
following `DetachPlayer` of the requester restores the destination's children
to the previous list, sets the requester's `attach_parent` to invalid and puts
the node, marked free, at the head of the attach free list; a second
`DetachPlayer` changes nothing. -/
theorem C38_attach_detach_round_trip (s : PlayerManager) (r d : Nat)
    (hlive : GetPlayerById s (s.players d).id = some d)
    (hvalid : (s.players d).id ≠ kInvalidPlayerId) :
    GetTurretCount ((AttachPlayer s r d).players d) = GetTurretCount (s.players d) + 1 ∧
      ((AttachPlayer s r d).players d).children =
        ⟨(s.attach_free.headD ⟨s.arena_used, 0⟩).addr, (s.players r).id⟩ ::
          (s.players d).children ∧
      ((DetachPlayer (AttachPlayer s r d) r).players d).children = (s.players d).children ∧
      ((DetachPlayer (AttachPlayer s r d) r).players r).attach_parent = kInvalidPlayerId ∧
      (DetachPlayer (AttachPlayer s r d) r).attach_free =
        ⟨(s.attach_free.headD ⟨s.arena_used, 0⟩).addr, kInvalidPlayerId⟩ ::
          s.attach_free.tail ∧
      DetachPlayer (DetachPlayer (AttachPlayer s r d) r) r = DetachPlayer (AttachPlayer s r d) r := by
  have hch := AttachPlayer_children s r d d
  rw [if_pos rfl] at hch
  have hap := AttachPlayer_attach_parent s r d r
  rw [if_pos rfl] at hap
  have hfr := AttachPlayer_frame s r d
  have hid : ((AttachPlayer s r d).players r).id = (s.players r).id := (hfr.2.2.2 r).1
  have hg : GetPlayerById (AttachPlayer s r d) ((AttachPlayer s r d).players r).attach_parent
      = some d := by
    rw [hap, Frame_getPlayerById hfr]; exact hlive
  have hne : ((AttachPlayer s r d).players r).attach_parent ≠ kInvalidPlayerId := by
    rw [hap]; exact hvalid
  have hul : unlinkFirst ((AttachPlayer s r d).players r).id
      ((AttachPlayer s r d).players d).children =
      some (⟨(s.attach_free.headD ⟨s.arena_used, 0⟩).addr, (s.players r).id⟩,
        (s.players d).children) := by
    rw [hch, hid]
    unfold unlinkFirst
    rw [if_pos rfl]
  refine ⟨?_, hch, ?_, ?_, ?_, ?_⟩
  · unfold GetTurretCount
    rw [hch]
    rfl
  · rw [DetachPlayer_children, if_pos ⟨hne, hg⟩]
    unfold eraseNode
    rw [hul]
  · rw [DetachPlayer_attach_parent, if_pos rfl]
  · rw [DetachPlayer_attach_free, if_pos hne, hg]
    dsimp only
    rw [hul]
    dsimp only
    rw [(AttachPlayer_other_fields s r d).2.2.1]
    rfl
  · have h0 : ((DetachPlayer (AttachPlayer s r d) r).players r).attach_parent
        = kInvalidPlayerId := by
      rw [DetachPlayer_attach_parent, if_pos rfl]
    generalize DetachPlayer (AttachPlayer s r d) r = b at h0
    unfold DetachPlayer
    rw [if_neg (not_not.mpr h0)]

theorem C38_attach_detach_round_trip_witness :
    GetPlayerById table739 (table739.players 0).id = some 0 ∧
      (table739.players 0).id ≠ kInvalidPlayerId ∧
      GetTurretCount ((AttachPlayer table739 2 0).players 0) =
        GetTurretCount (table739.players 0) + 1 ∧
      ((DetachPlayer (AttachPlayer table739 2 0) 2).players 0).children =
        (table739.players 0).children ∧
      DetachPlayer (DetachPlayer (AttachPlayer table739 2 0) 2) 2 =
        DetachPlayer (AttachPlayer table739 2 0) 2 := by
  have h := C38_attach_detach_round_trip table739 2 0 (by decide!) (by decide!)
  exact ⟨by decide!, by decide!, h.1, h.2.2.1, h.2.2.2.2.2⟩


/-! ## Timestamp reconstruction (C39) -/

theorem splice_eq (S T n : Nat) (hn : n ≤ 31) (hT : T < 2 ^ 31)
    (hb : S / 2 ^ n = T / 2 ^ n) :
    (S &&& ((2 ^ (31 - n) - 1) <<< n)) ||| (T &&& (2 ^ n - 1)) = T := by
  apply Nat.eq_of_testBit_eq
  intro k
  simp only [Nat.testBit_or, Nat.testBit_and, Nat.testBit_shiftLeft, Nat.testBit_two_pow_sub_one]
  by_cases hk : k < n
  · have h1 : ¬ k ≥ n := by omega
    simp [hk, h1]
  · have h1 : k ≥ n := by omega
    have hST : S.testBit k = T.testBit k := by
      have e : k = n + (k - n) := by omega
      rw [← Nat.shiftRight_eq_div_pow, ← Nat.shiftRight_eq_div_pow] at hb
      rw [e, ← Nat.testBit_shiftRight, ← Nat.testBit_shiftRight, hb]
    by_cases hk31 : k < 31
    · have h2 : k - n < 31 - n := by omega
      simp [hk, h1, h2, hST]
    · have h2 : ¬ k - n < 31 - n := by omega
      have hTk : T.testBit k = false :=
        Nat.testBit_lt_two_pow (lt_of_lt_of_le hT (Nat.pow_le_pow_right (by decide) (by omega)))
      simp [hk, h2, hTk]

theorem TICK_DIFF_recent (env : Env) (S T : Nat) (hTS : T ≤ S)
    (hS : S < 2 ^ 31) (hclock : localTimestamp env S = env.tick) :
    ¬ 300 ≤ TICK_DIFF (localTimestamp env T) env.tick := by
  rw [← hclock]
  unfold TICK_DIFF localTimestamp
  simp only
  norm_num at hS
  split_ifs <;> omega

/-- C39, counterexample: at server tick 65541 a standalone packet of sender
tick 65535, six ticks old, is rebuilt as 131071 and rejected by the 300-tick
check; at server tick 1029 a batched record of sender tick 1023 is rebuilt as
2047 and rejected; and at server tick 2^31 + 5 the sender tick 2^31 + 3 is
rebuilt as 3, bit 31 being masked away. -/
theorem C39_counterexample :
    ((65535 : Nat) ≤ 65541 ∧ 65541 - 65535 < 300 ∧ 65541 < 2 ^ 31 ∧
        spliceStandalone 65541 (65535 &&& 0xFFFF) = 131071 ∧
        localTimestamp (tickEnv 65541) 65541 = (tickEnv 65541).tick ∧
        300 ≤ TICK_DIFF (localTimestamp (tickEnv 65541)
          (spliceStandalone (tickEnv 65541).server_tick (65535 &&& 0xFFFF)))
          (tickEnv 65541).tick) ∧
      ((1023 : Nat) ≤ 1029 ∧ 1029 - 1023 < 300 ∧ 1029 < 2 ^ 31 ∧
        spliceBatched 1029 (1023 &&& 0x3FF) = 2047 ∧
        300 ≤ TICK_DIFF (localTimestamp (tickEnv 1029)
          (spliceBatched (tickEnv 1029).server_tick (1023 &&& 0x3FF))) (tickEnv 1029).tick) ∧
      ((2147483651 : Nat) ≤ 2147483653 ∧ 2147483653 - 2147483651 < 300 ∧
        2147483653 / 65536 = 2147483651 / 65536 ∧
        spliceStandalone 2147483653 (2147483651 &&& 0xFFFF) = 3) := by
  decide!

/-- C39 (amended): for a current server tick `S` below 2^31 and a sender tick
`T` not after `S` (in particular with `0 <= S - T < 300`), splicing the low 16 bits of `T` (standalone
packets) into the high bits of `S` yields `T` when `S` and `T` agree above
their low 16 bits, and splicing the low 10 bits of `T` (batched records)
yields `T` when they agree above their low 10 bits. In those cases, with the
server tick being the local tick plus the clock difference, the packet passes
the 300-tick out-of-sync check, and `OnLargePositionPacket` goes on to the
newer-packet test. -/
theorem C39_timestamp_reconstruction (S T : Nat) (hTS : T ≤ S) (hS : S < 2 ^ 31) :
    (S / 65536 = T / 65536 → spliceStandalone S (T &&& 0xFFFF) = T) ∧
      (S / 1024 = T / 1024 → spliceBatched S (T &&& 0x3FF) = T) ∧
      ∀ env : Env, env.server_tick = S → localTimestamp env S = env.tick →
        (S / 65536 = T / 65536 →
          (¬ 300 ≤ TICK_DIFF (localTimestamp env
            (spliceStandalone env.server_tick (T &&& 0xFFFF))) env.tick) ∧
          ∀ (s : PlayerManager) (buf : List Nat), ReadU16 buf 2 = T &&& 0xFFFF →
            OnLargePositionPacket s env buf =
              if IsNewerPositionPacket s env (GetPlayerById s (ReadU16 buf 8)) (ReadU16 buf 2) then
                match GetPlayerById s (ReadU16 buf 8) with
                | some i => OnLargePositionPacket.accept s env buf i
                | none => s
              else s) ∧
        (S / 1024 = T / 1024 →
          ¬ 300 ≤ TICK_DIFF (localTimestamp env
            (spliceBatched env.server_tick (T &&& 0x3FF))) env.tick) := by
  have hT : T < 2 ^ 31 := lt_of_le_of_lt hTS hS
  have h16 : S / 65536 = T / 65536 → spliceStandalone S (T &&& 0xFFFF) = T := by
    intro hb
    have := splice_eq S T 16 (by decide) hT hb
    exact this
  have h10 : S / 1024 = T / 1024 → spliceBatched S (T &&& 0x3FF) = T := by
    intro hb
    have := splice_eq S T 10 (by decide) hT hb
    exact this
  refine ⟨h16, h10, fun env hst hclock => ⟨fun hb => ?_, fun hb => ?_⟩⟩
  · have hrej : ¬ 300 ≤ TICK_DIFF (localTimestamp env
        (spliceStandalone env.server_tick (T &&& 0xFFFF))) env.tick := by
      rw [hst, h16 hb]
      exact TICK_DIFF_recent env S T hTS hS hclock
    refine ⟨hrej, fun s buf hbuf => ?_⟩
    unfold OnLargePositionPacket
    dsimp only
    rw [if_neg (by rw [hbuf]; exact hrej)]
  · rw [hst, h10 hb]
    exact TICK_DIFF_recent env S T hTS hS hclock

theorem C39_timestamp_reconstruction_witness :
    (4100 : Nat) ≤ 4196 ∧ 4196 - 4100 < 300 ∧ 4196 < 2 ^ 31 ∧
      spliceStandalone 4196 (4100 &&& 0xFFFF) = 4100 ∧
      spliceBatched 4196 (4100 &&& 0x3FF) = 4100 ∧
      (¬ 300 ≤ TICK_DIFF (localTimestamp (tickEnv 4196)
        (spliceStandalone (tickEnv 4196).server_tick (4100 &&& 0xFFFF))) (tickEnv 4196).tick) ∧
      (¬ 300 ≤ TICK_DIFF (localTimestamp (tickEnv 4196)
        (spliceBatched (tickEnv 4196).server_tick (4100 &&& 0x3FF))) (tickEnv 4196).tick) := by
  have h := C39_timestamp_reconstruction 4196 4100 (by decide) (by decide)
  exact ⟨by decide, by decide, by decide, h.1 (by decide), h.2.1 (by decide),
    ((h.2.2 (tickEnv 4196) rfl (by decide!)).1 (by decide)).1,
    (h.2.2 (tickEnv 4196) rfl (by decide!)).2 (by decide)⟩


/-! ## Behavior nodes (C35, C36) -/

/-- C35: a run of `RenderVectorNode::Execute` that draws the wrong segment.
The node holds the vector (1, 0) and the origin key "origin", under which the
blackboard holds (5, 5). The value read for the origin is stored into
`vector` (line 257), so the segment pushed runs from the member `origin`,
which the constructor left unset, to that value plus (5, 5), and not from
(5, 5) to (6, 5). -/
theorem C35_origin_key_overwrites_vector (unset : Vector2f) :
    RenderVectorNode.Execute (originNode unset) ⟨originBoard, none⟩ =
        (ExecuteResult.Success,
          [RenderEffect.PushLine unset ⟨unset.x + 5, unset.y + 5⟩ ⟨1, 1, 1⟩,
            RenderEffect.Render 1]) ∧
      RenderVectorNode.Execute (originNode unset) ⟨originBoard, none⟩ ≠
        (ExecuteResult.Success,
          [RenderEffect.PushLine ⟨5, 5⟩ ⟨6, 5⟩ ⟨1, 1, 1⟩, RenderEffect.Render 1]) := by
  have h : RenderVectorNode.Execute (originNode unset) ⟨originBoard, none⟩ =
      (ExecuteResult.Success,
        [RenderEffect.PushLine unset ⟨unset.x + 5, unset.y + 5⟩ ⟨1, 1, 1⟩,
          RenderEffect.Render 1]) := by
    simp [RenderVectorNode.Execute, originNode, RenderVectorNode.withOriginKey, originBoard]
  refine ⟨h, ?_⟩
  rw [h]
  intro hc
  simp only [Prod.mk.injEq, List.cons.injEq, RenderEffect.PushLine.injEq, Vector2f.mk.injEq,
    true_and, and_true] at hc
  obtain ⟨h1, h2, _⟩ := hc
  rw [h1] at h2
  simp only [Vector2f.mk.injEq] at h2
  norm_num at h2


theorem enterShip_requests (oracle : String → ExecuteContext → ExecuteResult × ExecuteContext)
    (ctx : ExecuteContext) (trace : List TreeEffect) (self : Player) (ship : Nat)
    (hself : ctx.self = some self) (hkey : ctx.blackboard.int "request_ship" = some ship)
    (hne : self.ship ≠ ship) :
    BehaviorNode.Execute oracle WarbirdBehavior.enterShip ctx trace =
      (ExecuteResult.Success, ctx, trace ++ [TreeEffect.SendShipRequest ship]) := by
  simp [WarbirdBehavior.enterShip, BehaviorNode.Execute, BehaviorNode.ExecuteSequence, hself,
    hkey, hne, ExecuteResult.inverted, ExecuteResult.decorated]

theorem enterShip_settled (oracle : String → ExecuteContext → ExecuteResult × ExecuteContext)
    (ctx : ExecuteContext) (trace : List TreeEffect) (self : Player) (ship : Nat)
    (hself : ctx.self = some self) (hkey : ctx.blackboard.int "request_ship" = some ship)
    (heq : self.ship = ship) :
    BehaviorNode.Execute oracle WarbirdBehavior.enterShip ctx trace =
      (ExecuteResult.Failure, ctx, trace) := by
  simp [WarbirdBehavior.enterShip, BehaviorNode.Execute, BehaviorNode.ExecuteSequence, hself,
    hkey, heq, ExecuteResult.inverted, ExecuteResult.decorated]

/-- C36: in the Warbird tree, on a tick in which self's ship differs from
`blackboard["request_ship"]`, the first child of the root (inverted
`ShipQueryNode`, then `ShipRequestNode`) sends a ship request and succeeds,
the root returns Success, and nothing else is executed: the trace of the tick
holds the request only and the context is unchanged. When the ship matches,
that sequence fails without sending a request, and the root gives what its
second child, the selector over fighting, greens and waypoints, gives. -/
theorem C36_warbird_ship_request
    (oracle : String → ExecuteContext → ExecuteResult × ExecuteContext)
    (ctx : ExecuteContext) (trace : List TreeEffect) (self : Player) (ship : Nat)
    (hself : ctx.self = some self) (hkey : ctx.blackboard.int "request_ship" = some ship) :
    (self.ship ≠ ship →
        BehaviorNode.Execute oracle WarbirdBehavior.enterShip ctx trace =
          (ExecuteResult.Success, ctx, trace ++ [TreeEffect.SendShipRequest ship]) ∧
        BehaviorNode.Execute oracle WarbirdBehavior.CreateTree ctx trace =
          (ExecuteResult.Success, ctx, trace ++ [TreeEffect.SendShipRequest ship])) ∧
      (self.ship = ship →
        BehaviorNode.Execute oracle WarbirdBehavior.enterShip ctx trace =
          (ExecuteResult.Failure, ctx, trace) ∧
        BehaviorNode.Execute oracle WarbirdBehavior.CreateTree ctx trace =
          BehaviorNode.Execute oracle WarbirdBehavior.fightOrFollow ctx trace) := by
  have hroot : BehaviorNode.Execute oracle WarbirdBehavior.CreateTree ctx trace =
      ((BehaviorNode.ExecuteSelector oracle
          [WarbirdBehavior.enterShip, WarbirdBehavior.fightOrFollow] ctx trace).1.decorated false,
        (BehaviorNode.ExecuteSelector oracle
          [WarbirdBehavior.enterShip, WarbirdBehavior.fightOrFollow] ctx trace).2) := by
    unfold WarbirdBehavior.CreateTree
    rw [BehaviorNode.Execute]
  have hdec : ∀ r : ExecuteResult, r.decorated false = r := by
    intro r
    unfold ExecuteResult.decorated
    simp
  refine ⟨fun hne => ?_, fun heq => ?_⟩
  · have h1 := enterShip_requests oracle ctx trace self ship hself hkey hne
    refine ⟨h1, ?_⟩
    rw [hroot, hdec, BehaviorNode.ExecuteSelector]
    simp only [h1]
    rfl
  · have h1 := enterShip_settled oracle ctx trace self ship hself hkey heq
    refine ⟨h1, ?_⟩
    rw [hroot, hdec, BehaviorNode.ExecuteSelector]
    simp only [h1, if_true]
    rw [BehaviorNode.ExecuteSelector]
    by_cases hf : (BehaviorNode.Execute oracle WarbirdBehavior.fightOrFollow ctx trace).1
        = ExecuteResult.Failure
    · simp only [hf, if_true]
      rw [BehaviorNode.ExecuteSelector]
      rw [← hf]
    · simp only [hf, if_false]

theorem C36_warbird_ship_request_witness :
    (shipContext 1).self = some { Player.zero with ship := 3 } ∧
      (shipContext 1).blackboard.int "request_ship" = some 1 ∧
      ({ Player.zero with ship := 3 } : Player).ship ≠ 1 ∧
      BehaviorNode.Execute failingLeaves WarbirdBehavior.CreateTree (shipContext 1) [] =
        (ExecuteResult.Success, shipContext 1, [] ++ [TreeEffect.SendShipRequest 1]) ∧
      BehaviorNode.Execute failingLeaves WarbirdBehavior.CreateTree (shipContext 3) [] =
        BehaviorNode.Execute failingLeaves WarbirdBehavior.fightOrFollow (shipContext 3) [] :=
  ⟨rfl, rfl, by decide,
    ((C36_warbird_ship_request failingLeaves (shipContext 1) [] { Player.zero with ship := 3 } 1
      rfl rfl).1 (by decide)).2,
    ((C36_warbird_ship_request failingLeaves (shipContext 3) [] { Player.zero with ship := 3 } 3
      rfl rfl).2 rfl).2⟩


/-! ## Optional fields and short packets (C31, C32) -/

theorem ExtraFrame_refl (s : PlayerManager) : ExtraFrame s s :=
  ⟨rfl, fun _ => ⟨rfl, rfl, rfl, rfl, rfl, fun _ => rfl⟩⟩

theorem ExtraFrame_trans {a b c : PlayerManager} (h1 : ExtraFrame a b) (h2 : ExtraFrame b c) :
    ExtraFrame a c := by
  refine ⟨h2.1.trans h1.1, fun j => ?_⟩
  obtain ⟨a1, a2, a3, a4, a5, a6⟩ := h1.2 j
  obtain ⟨b1, b2, b3, b4, b5, b6⟩ := h2.2 j
  refine ⟨b1.trans a1, b2.trans a2, b3.trans a3, b4.trans a4, b5.trans a5, fun hne => ?_⟩
  rw [b6 (by rw [a1, h1.1]; exact hne), a6 hne]

theorem ExtraFrame_emit (s : PlayerManager) (e : Effect) : ExtraFrame s (s.emit e) :=
  ⟨rfl, fun _ => ⟨rfl, rfl, rfl, rfl, rfl, fun _ => rfl⟩⟩

theorem ExtraFrame_setPlayer (s : PlayerManager) (i : Nat) (p : Player)
    (h1 : p.id = (s.players i).id) (h2 : p.s2c_latency = (s.players i).s2c_latency)
    (h3 : p.flag_timer = (s.players i).flag_timer) (h4 : p.items = (s.players i).items)
    (h5 : p.last_extra_timestamp = (s.players i).last_extra_timestamp)
    (h6 : (s.players i).id ≠ s.player_id → p.energy = (s.players i).energy) :
    ExtraFrame s (s.setPlayer i p) := by
  refine ⟨rfl, fun j => ?_⟩
  by_cases hj : j = i
  · subst hj
    rw [setPlayer_players_same]
    exact ⟨h1, h2, h3, h4, h5, h6⟩
  · rw [setPlayer_players_ne s i j p hj]
    exact ⟨rfl, rfl, rfl, rfl, rfl, fun _ => rfl⟩

theorem Spawn_extraFrame (s : PlayerManager) (env : Env) (reset : Bool) :
    ExtraFrame s (Spawn s env reset) := by
  unfold Spawn
  cases GetSelf s with
  | none => exact ExtraFrame_refl s
  | some self =>
    dsimp only
    refine ExtraFrame_trans (b := _) ?_ (ExtraFrame_emit _ _)
    refine ExtraFrame_trans (b := _) ?_
      (ExtraFrame_setPlayer _ self _ rfl rfl rfl rfl rfl (fun _ => rfl))
    have h1 : ExtraFrame s
        (s.setPlayer self { s.players self with position := Spawn.search s env self }) :=
      ExtraFrame_setPlayer s self _ rfl rfl rfl rfl rfl (fun _ => rfl)
    cases reset with
    | false => exact h1
    | true =>
      refine ExtraFrame_trans h1 ?_
      exact ⟨rfl, fun _ => ⟨rfl, rfl, rfl, rfl, rfl, fun _ => rfl⟩⟩

theorem PushDamage_extraFrame (s : PlayerManager) (env : Env) (shooter_id : Nat)
    (wormhole : Bool) (energy damage : Int) :
    ExtraFrame s (PushDamage s env shooter_id wormhole energy damage) := by
  unfold PushDamage
  split_ifs
  · exact ExtraFrame_refl s
  · exact ⟨rfl, fun _ => ⟨rfl, rfl, rfl, rfl, rfl, fun _ => rfl⟩⟩

theorem SimulateAxis_extras (env : Env) (p : Player) (dt : ℚ) (axis : Nat) (ex : Bool) :
    (SimulateAxis env p dt axis ex).1.s2c_latency = p.s2c_latency ∧
    (SimulateAxis env p dt axis ex).1.flag_timer = p.flag_timer ∧
    (SimulateAxis env p dt axis ex).1.items = p.items ∧
    (SimulateAxis env p dt axis ex).1.last_extra_timestamp = p.last_extra_timestamp := by
  unfold SimulateAxis
  dsimp only
  split_ifs <;> exact ⟨rfl, rfl, rfl, rfl⟩

theorem SimulatePlayer_axes_extras (env : Env) (p : Player) (dt : ℚ) (ex : Bool) :
    (SimulatePlayer.axes env p dt ex).s2c_latency = p.s2c_latency ∧
    (SimulatePlayer.axes env p dt ex).flag_timer = p.flag_timer ∧
    (SimulatePlayer.axes env p dt ex).items = p.items ∧
    (SimulatePlayer.axes env p dt ex).last_extra_timestamp = p.last_extra_timestamp := by
  obtain ⟨a1, a2, a3, a4⟩ := SimulateAxis_extras env p dt 0 ex
  obtain ⟨b1, b2, b3, b4⟩ := SimulateAxis_extras env (SimulateAxis env p dt 0 ex).1 dt 1 ex
  unfold SimulatePlayer.axes
  dsimp only
  split_ifs
  · exact ⟨b1.trans a1, b2.trans a2, b3.trans a3, b4.trans a4⟩
  · exact ⟨b1.trans a1, b2.trans a2, b3.trans a3, b4.trans a4⟩

theorem SimulatePlayer_wormhole_extraFrame (s : PlayerManager) (env : Env) (i : Nat)
    (hid : (s.players i).id = s.player_id) :
    ExtraFrame s (SimulatePlayer.wormhole s env i) := by
  unfold SimulatePlayer.wormhole
  dsimp only
  have h1 : ExtraFrame s (if env.map.send_damage then
      PushDamage s env s.player_id true (castInt (s.players i).energy)
        (castInt ((s.players i).energy * (4 / 5)))
      else s) := by
    split_ifs
    · exact PushDamage_extraFrame _ _ _ _ _ _
    · exact ExtraFrame_refl s
  generalize (if env.map.send_damage then
      PushDamage s env s.player_id true (castInt (s.players i).energy)
        (castInt ((s.players i).energy * (4 / 5)))
      else s) = s1 at h1
  have h2 : ExtraFrame s (Spawn s1 env false) := ExtraFrame_trans h1 (Spawn_extraFrame s1 env false)
  generalize Spawn s1 env false = s2 at h2
  have h3 : ExtraFrame s (s2.setPlayer i { s2.players i with velocity := ⟨0, 0⟩ }) :=
    ExtraFrame_trans h2 (ExtraFrame_setPlayer s2 i _ rfl rfl rfl rfl rfl (fun _ => rfl))
  generalize s2.setPlayer i { s2.players i with velocity := ⟨0, 0⟩ } = s3 at h3
  refine ExtraFrame_trans h3 (ExtraFrame_setPlayer s3 i _ rfl rfl rfl rfl rfl (fun hne => ?_))
  exact absurd (((h3.2 i).1.trans hid).trans h3.1.symm) hne

theorem SimulatePlayer_extraFrame (s : PlayerManager) (env : Env) (i : Nat) (dt : ℚ)
    (ex : Bool) : ExtraFrame s (SimulatePlayer s env i dt ex) := by
  unfold SimulatePlayer
  split_ifs with h0
  · exact ExtraFrame_setPlayer s i _ rfl rfl rfl rfl rfl (fun _ => rfl)
  · dsimp only
    refine ExtraFrame_trans (b := _) ?_
      (ExtraFrame_setPlayer _ i _ rfl rfl rfl rfl rfl (fun _ => rfl))
    have hs2 : ExtraFrame s (s.setPlayer i (SimulatePlayer.axes env (s.players i) dt ex)) := by
      obtain ⟨h1, -, -, -, -, -, -, h8⟩ := SimulatePlayer_axes_fields env (s.players i) dt ex
      obtain ⟨e1, e2, e3, e4⟩ := SimulatePlayer_axes_extras env (s.players i) dt ex
      exact ExtraFrame_setPlayer s i _ h1 e1 e2 e3 e4 (fun _ => h8)
    split_ifs with hw
    · exact ExtraFrame_trans hs2 (SimulatePlayer_wormhole_extraFrame _ env i hw.2)
    · exact hs2

theorem simulate_extraFrame (s : PlayerManager) (env : Env) (i n : Nat) :
    ExtraFrame s ((fun st => SimulatePlayer st env i (1 / 100) true)^[n] s) := by
  induction n with
  | zero => exact ExtraFrame_refl s
  | succ n ih =>
    rw [Function.iterate_succ_apply']
    exact ExtraFrame_trans ih (SimulatePlayer_extraFrame _ env i _ _)

theorem settle_extras (p : Player) (previous_pos : Vector2f) :
    (OnPositionPacket.settle p previous_pos).id = p.id ∧
    (OnPositionPacket.settle p previous_pos).s2c_latency = p.s2c_latency ∧
    (OnPositionPacket.settle p previous_pos).flag_timer = p.flag_timer ∧
    (OnPositionPacket.settle p previous_pos).items = p.items ∧
    (OnPositionPacket.settle p previous_pos).last_extra_timestamp = p.last_extra_timestamp ∧
    (OnPositionPacket.settle p previous_pos).energy = p.energy := by
  unfold OnPositionPacket.settle
  dsimp only
  split_ifs <;> exact ⟨rfl, rfl, rfl, rfl, rfl, rfl⟩

theorem UnstuckSelf_extras (env : Env) (p : Player) :
    (UnstuckSelf env p).s2c_latency = p.s2c_latency ∧
    (UnstuckSelf env p).flag_timer = p.flag_timer ∧
    (UnstuckSelf env p).items = p.items ∧
    (UnstuckSelf env p).last_extra_timestamp = p.last_extra_timestamp := by
  unfold UnstuckSelf
  split_ifs <;> exact ⟨rfl, rfl, rfl, rfl⟩

theorem OnPositionPacket_extraFrame (s : PlayerManager) (env : Env) (i : Nat)
    (position velocity : Vector2f) (sim_ticks : Int) :
    ExtraFrame s (OnPositionPacket s env i position velocity sim_ticks) := by
  unfold OnPositionPacket
  by_cases h0 : (s.players i).id = s.player_id ∧ 0 < (s.players i).enter_delay
  · rw [if_pos h0]
    exact ExtraFrame_refl s
  · rw [if_neg h0]
    dsimp only
    have hr : ExtraFrame s (OnPositionPacket.reconcile s env i position velocity sim_ticks) := by
      unfold OnPositionPacket.reconcile OnPositionPacket.extrapolate
      dsimp only
      obtain ⟨g1, g2, g3, g4, g5, g6⟩ := settle_extras
        (((fun st => SimulatePlayer st env i (1 / 100) true)^[sim_ticks.toNat]
          (s.setPlayer i { s.players i with
            position := position, velocity := velocity, lerp_time := 0 })).players i)
        (s.players i).position
      refine ExtraFrame_trans (b := _) ?_
        (ExtraFrame_setPlayer _ i _ g1 g2 g3 g4 g5 (fun _ => g6))
      refine ExtraFrame_trans (b := _) ?_ (simulate_extraFrame _ env i _)
      exact ExtraFrame_setPlayer s i _ rfl rfl rfl rfl rfl (fun _ => rfl)
    generalize OnPositionPacket.reconcile s env i position velocity sim_ticks = r at hr ⊢
    by_cases h1 : (r.players i).id = r.player_id
    · rw [if_pos h1]
      obtain ⟨u1, -⟩ := UnstuckSelf_fields env (r.players i)
      obtain ⟨v1, v2, v3, v4⟩ := UnstuckSelf_extras env (r.players i)
      refine ExtraFrame_trans (b := _) ?_ (ExtraFrame_emit _ _)
      exact ExtraFrame_trans hr (ExtraFrame_setPlayer _ i _ u1 v1 v2 v3 v4
        (fun hne => absurd h1 hne))
    · rw [if_neg h1]
      exact hr


theorem ReadU8_take (buf : List Nat) (n k : Nat) (h : k < n) :
    ReadU8 (buf.take n) k = ReadU8 buf k := by
  unfold ReadU8
  rw [List.getD_eq_getElem?_getD, List.getD_eq_getElem?_getD, List.getElem?_take_of_lt h]

theorem ReadU16_take (buf : List Nat) (n k : Nat) (h : k + 1 < n) :
    ReadU16 (buf.take n) k = ReadU16 buf k := by
  unfold ReadU16
  rw [ReadU8_take buf n k (by omega), ReadU8_take buf n (k + 1) h]

theorem readExtra_self (s : PlayerManager) (env : Env) (buf : List Nat) (off : Nat)
    (p : Player) (h : p.id = s.player_id) : readExtra s env buf off p = p := by
  unfold readExtra
  rw [if_neg (not_not.mpr h)]

theorem readExtra_other (s : PlayerManager) (env : Env) (buf : List Nat) (off : Nat)
    (p : Player) (h : p.id ≠ s.player_id) :
    (readExtra s env buf off p).energy =
      (if off + 2 ≤ buf.length then (ReadU16 buf off : ℚ) else p.energy) ∧
    (readExtra s env buf off p).s2c_latency =
      (if off + 4 ≤ buf.length then ReadU16 buf (off + 2) else p.s2c_latency) ∧
    (readExtra s env buf off p).flag_timer =
      (if off + 6 ≤ buf.length then ReadU16 buf (off + 4) else p.flag_timer) ∧
    (readExtra s env buf off p).items =
      (if off + 10 ≤ buf.length then ReadU32 buf (off + 6) else p.items) := by
  unfold readExtra
  rw [if_pos h]
  dsimp only
  refine ⟨?_, ?_, ?_, ?_⟩ <;> split_ifs <;> rfl

theorem store_take (s : PlayerManager) (buf : List Nat) (i : Nat) :
    OnLargePositionPacket.store s (buf.take 21) i = OnLargePositionPacket.store s buf i := by
  unfold OnLargePositionPacket.store OnLargePositionPacket.fields
  simp only [ReadU8_take buf 21 1 (by decide), ReadU8_take buf 21 13 (by decide),
    ReadU8_take buf 21 14 (by decide), ReadU16_take buf 21 17 (by decide),
    ReadU16_take buf 21 19 (by decide)]

theorem small_fields_take (p : Player) (buf : List Nat) :
    OnSmallPositionPacket.fields p (buf.take 16) = OnSmallPositionPacket.fields p buf := by
  unfold OnSmallPositionPacket.fields
  simp only [ReadU8_take buf 16 1 (by decide), ReadU8_take buf 16 6 (by decide),
    ReadU8_take buf 16 7 (by decide), ReadU8_take buf 16 9 (by decide)]

/-- For a packet about self the large handler reads nothing past the 21 bytes
of the fixed layout. -/
theorem OnLargePositionPacket_self_take (s : PlayerManager) (env : Env) (buf : List Nat)
    (i : Nat) (hg : GetPlayerById s (ReadU16 buf 8) = some i)
    (hself : (s.players i).id = s.player_id) :
    OnLargePositionPacket s env (buf.take 21) = OnLargePositionPacket s env buf := by
  have hid : ((OnLargePositionPacket.store s buf i).players i).id =
      (OnLargePositionPacket.store s buf i).player_id := by
    rw [store_players_same, store_player_id]
    exact hself
  unfold OnLargePositionPacket
  simp only [ReadU16_take buf 21 2 (by decide), ReadU16_take buf 21 8 (by decide), hg]
  unfold OnLargePositionPacket.accept
  simp only [store_take, readExtra_self _ env _ 21 _ hid,
    ReadU16_take buf 21 2 (by decide), ReadU16_take buf 21 4 (by decide),
    ReadU16_take buf 21 6 (by decide), ReadU16_take buf 21 10 (by decide),
    ReadU16_take buf 21 15 (by decide)]

/-- For a packet about self the small handler reads nothing past the 16 bytes
of the fixed layout. -/
theorem OnSmallPositionPacket_self_take (s : PlayerManager) (env : Env) (buf : List Nat)
    (i : Nat) (hg : GetPlayerById s (ReadU8 buf 8) = some i)
    (hself : (s.players i).id = s.player_id) :
    OnSmallPositionPacket s env (buf.take 16) = OnSmallPositionPacket s env buf := by
  have hid : ∀ b, (OnSmallPositionPacket.fields (s.players i) b).id = s.player_id :=
    fun _ => hself
  unfold OnSmallPositionPacket
  simp only [ReadU16_take buf 16 2 (by decide), ReadU8_take buf 16 8 (by decide), hg]
  unfold OnSmallPositionPacket.accept
  simp only [small_fields_take, readExtra_self s env _ 16 _ (hid buf),
    ReadU16_take buf 16 2 (by decide), ReadU16_take buf 16 4 (by decide),
    ReadU16_take buf 16 10 (by decide), ReadU16_take buf 16 12 (by decide),
    ReadU16_take buf 16 14 (by decide)]

theorem OnPositionPacket_extras (X : PlayerManager) (env : Env) (i : Nat)
    (position velocity : Vector2f) (sim_ticks : Int) :
    ((OnPositionPacket X env i position velocity sim_ticks).players i).s2c_latency =
      (X.players i).s2c_latency ∧
    ((OnPositionPacket X env i position velocity sim_ticks).players i).flag_timer =
      (X.players i).flag_timer ∧
    ((OnPositionPacket X env i position velocity sim_ticks).players i).items =
      (X.players i).items ∧
    ((X.players i).id ≠ X.player_id →
      ((OnPositionPacket X env i position velocity sim_ticks).players i).energy =
        (X.players i).energy) := by
  obtain ⟨-, hf⟩ := OnPositionPacket_extraFrame X env i position velocity sim_ticks
  obtain ⟨-, f2, f3, f4, -, f6⟩ := hf i
  exact ⟨f2, f3, f4, f6⟩

/-- The optional fields of the player of an accepted large position packet
after the handler, in terms of the record the reconciler starts from. -/
theorem large_accept_extras (s : PlayerManager) (env : Env) (buf : List Nat) (i : Nat) :
    ((OnLargePositionPacket.accept s env buf i).players i).s2c_latency =
      (readExtra (OnLargePositionPacket.store s buf i) env buf 21
        (OnLargePositionPacket.fields (s.players i) buf)).s2c_latency ∧
    ((OnLargePositionPacket.accept s env buf i).players i).flag_timer =
      (readExtra (OnLargePositionPacket.store s buf i) env buf 21
        (OnLargePositionPacket.fields (s.players i) buf)).flag_timer ∧
    ((OnLargePositionPacket.accept s env buf i).players i).items =
      (readExtra (OnLargePositionPacket.store s buf i) env buf 21
        (OnLargePositionPacket.fields (s.players i) buf)).items ∧
    ((s.players i).id ≠ s.player_id →
      ((OnLargePositionPacket.accept s env buf i).players i).energy =
        (readExtra (OnLargePositionPacket.store s buf i) env buf 21
          (OnLargePositionPacket.fields (s.players i) buf)).energy) := by
  have e2 := (readExtra_fields (OnLargePositionPacket.store s buf i) env buf 21
    (OnLargePositionPacket.fields (s.players i) buf)).2.1
  unfold OnLargePositionPacket.accept
  dsimp only
  rw [store_players_same]
  refine ⟨(OnPositionPacket_extras _ env i _ _ _).1.trans ?_,
    (OnPositionPacket_extras _ env i _ _ _).2.1.trans ?_,
    (OnPositionPacket_extras _ env i _ _ _).2.2.1.trans ?_,
    fun hne => ((OnPositionPacket_extras _ env i _ _ _).2.2.2 ?_).trans ?_⟩
  · rw [setPlayer_players_same]; rfl
  · rw [setPlayer_players_same]; rfl
  · rw [setPlayer_players_same]; rfl
  · rw [setPlayer_players_same]
    show (readExtra (OnLargePositionPacket.store s buf i) env buf 21
      (OnLargePositionPacket.fields (s.players i) buf)).id ≠
        (OnLargePositionPacket.store s buf i).player_id
    rw [e2, store_player_id]
    exact hne
  · rw [setPlayer_players_same]; rfl

/-- The optional fields of the player of an accepted small position packet
after the handler, in terms of the record the reconciler starts from. -/
theorem small_accept_extras (s : PlayerManager) (env : Env) (buf : List Nat) (i : Nat) :
    ((OnSmallPositionPacket.accept s env buf i).players i).s2c_latency =
      (readExtra s env buf 16 (OnSmallPositionPacket.fields (s.players i) buf)).s2c_latency ∧
    ((OnSmallPositionPacket.accept s env buf i).players i).flag_timer =
      (readExtra s env buf 16 (OnSmallPositionPacket.fields (s.players i) buf)).flag_timer ∧
    ((OnSmallPositionPacket.accept s env buf i).players i).items =
      (readExtra s env buf 16 (OnSmallPositionPacket.fields (s.players i) buf)).items ∧
    ((s.players i).id ≠ s.player_id →
      ((OnSmallPositionPacket.accept s env buf i).players i).energy =
        (readExtra s env buf 16 (OnSmallPositionPacket.fields (s.players i) buf)).energy) := by
  have e2 := (readExtra_fields s env buf 16
    (OnSmallPositionPacket.fields (s.players i) buf)).2.1
  unfold OnSmallPositionPacket.accept
  dsimp only
  refine ⟨(OnPositionPacket_extras _ env i _ _ _).1.trans ?_,
    (OnPositionPacket_extras _ env i _ _ _).2.1.trans ?_,
    (OnPositionPacket_extras _ env i _ _ _).2.2.1.trans ?_,
    fun hne => ((OnPositionPacket_extras _ env i _ _ _).2.2.2 ?_).trans ?_⟩
  · rw [setPlayer_players_same]; rfl
  · rw [setPlayer_players_same]; rfl
  · rw [setPlayer_players_same]; rfl
  · rw [setPlayer_players_same]
    show (readExtra s env buf 16 (OnSmallPositionPacket.fields (s.players i) buf)).id ≠
      s.player_id
    rw [e2]
    exact hne
  · rw [setPlayer_players_same]; rfl


/-- C32, counterexample: a large position packet of 23 bytes about the player
with id 3 (not self) is accepted. A 16-bit field at byte offset 22 would not
be contained in it, yet the energy of the player goes from 0 to 4660, the
16-bit word at offset 21 (a read at offset 22 would give 18); in the same way
a small position packet of 18 bytes sets the energy to the word at offset 16,
not 17. -/
theorem C32_counterexample :
    energyPacket.length = 23 ∧
    GetPlayerById positionTable (ReadU16 energyPacket 8) = some 1 ∧
    (positionTable.players 1).id ≠ positionTable.player_id ∧
    (positionTable.players 1).energy = 0 ∧
    ((OnLargePositionPacket positionTable positionEnv energyPacket).players 1).energy = 4660 ∧
    ReadU16 energyPacket 21 = 4660 ∧ ReadU16 energyPacket 22 = 18 ∧
    smallEnergyPacket.length = 18 ∧
    GetPlayerById positionTable (ReadU8 smallEnergyPacket 8) = some 1 ∧
    ((OnSmallPositionPacket positionTable positionEnv smallEnergyPacket).players 1).energy
      = 4660 ∧
    ReadU16 smallEnergyPacket 16 = 4660 ∧ ReadU16 smallEnergyPacket 17 = 18 := by
  have hl : ((OnLargePositionPacket positionTable positionEnv energyPacket).players 1).energy
      = 4660 := by
    rw [OnLargePositionPacket_accepted (i := 1) (by decide!) (by decide!) (by decide!),
      (large_accept_extras positionTable positionEnv energyPacket 1).2.2.2 (by decide!),
      (readExtra_other _ positionEnv energyPacket 21 _ (by decide!)).1]
    decide!
  have hs : ((OnSmallPositionPacket positionTable positionEnv smallEnergyPacket).players 1).energy
      = 4660 := by
    rw [OnSmallPositionPacket_accepted (i := 1) (by decide!) (by decide!) (by decide!),
      (small_accept_extras positionTable positionEnv smallEnergyPacket 1).2.2.2 (by decide!),
      (readExtra_other _ positionEnv smallEnergyPacket 16 _ (by decide!)).1]
    decide!
  exact ⟨by decide!, by decide!, by decide!, by decide!, hl, by decide!, by decide!,
    by decide!, by decide!, hs, by decide!, by decide!⟩

/-- C32, amended: for an accepted position packet about the player in slot
`i`, when that player is not self `OnLargePositionPacket` reads the energy,
the s2c latency, the flag timer and the items from byte offsets 21, 23, 25 and
27, each only when the packet has at least 23, 25, 27 and 31 bytes, and
`OnSmallPositionPacket` reads them from offsets 16, 18, 20 and 22 when the
packet has at least 18, 20, 22 and 26 bytes; a field that is not read keeps
its value. When the player is self, the s2c latency, the flag timer and the
items keep their values and no byte past the fixed layout (21 resp. 16 bytes)
is read: the handler does the same on the truncated packet. -/
theorem C32_optional_fields (s : PlayerManager) (env : Env) (buf : List Nat) (i : Nat)
    (h0 : ¬ 300 ≤ TICK_DIFF
      (localTimestamp env ((env.server_tick &&& 0x7FFF0000) ||| ReadU16 buf 2)) env.tick)
    (hnew : IsNewerPositionPacket s env (some i) (ReadU16 buf 2) = true) :
    (GetPlayerById s (ReadU16 buf 8) = some i →
      ((s.players i).id ≠ s.player_id →
        ((OnLargePositionPacket s env buf).players i).energy =
          (if 23 ≤ buf.length then (ReadU16 buf 21 : ℚ) else (s.players i).energy) ∧
        ((OnLargePositionPacket s env buf).players i).s2c_latency =
          (if 25 ≤ buf.length then ReadU16 buf 23 else (s.players i).s2c_latency) ∧
        ((OnLargePositionPacket s env buf).players i).flag_timer =
          (if 27 ≤ buf.length then ReadU16 buf 25 else (s.players i).flag_timer) ∧
        ((OnLargePositionPacket s env buf).players i).items =
          (if 31 ≤ buf.length then ReadU32 buf 27 else (s.players i).items)) ∧
      ((s.players i).id = s.player_id →
        ((OnLargePositionPacket s env buf).players i).s2c_latency =
          (s.players i).s2c_latency ∧
        ((OnLargePositionPacket s env buf).players i).flag_timer = (s.players i).flag_timer ∧
        ((OnLargePositionPacket s env buf).players i).items = (s.players i).items ∧
        OnLargePositionPacket s env (buf.take 21) = OnLargePositionPacket s env buf)) ∧
    (GetPlayerById s (ReadU8 buf 8) = some i →
      ((s.players i).id ≠ s.player_id →
        ((OnSmallPositionPacket s env buf).players i).energy =
          (if 18 ≤ buf.length then (ReadU16 buf 16 : ℚ) else (s.players i).energy) ∧
        ((OnSmallPositionPacket s env buf).players i).s2c_latency =
          (if 20 ≤ buf.length then ReadU16 buf 18 else (s.players i).s2c_latency) ∧
        ((OnSmallPositionPacket s env buf).players i).flag_timer =
          (if 22 ≤ buf.length then ReadU16 buf 20 else (s.players i).flag_timer) ∧
        ((OnSmallPositionPacket s env buf).players i).items =
          (if 26 ≤ buf.length then ReadU32 buf 22 else (s.players i).items)) ∧
      ((s.players i).id = s.player_id →
        ((OnSmallPositionPacket s env buf).players i).s2c_latency =
          (s.players i).s2c_latency ∧
        ((OnSmallPositionPacket s env buf).players i).flag_timer = (s.players i).flag_timer ∧
        ((OnSmallPositionPacket s env buf).players i).items = (s.players i).items ∧
        OnSmallPositionPacket s env (buf.take 16) = OnSmallPositionPacket s env buf)) := by
  refine ⟨fun hg => ?_, fun hg => ?_⟩
  · obtain ⟨a1, a2, a3, a4⟩ := large_accept_extras s env buf i
    rw [OnLargePositionPacket_accepted h0 hg hnew]
    refine ⟨fun hne => ?_, fun hself => ?_⟩
    · have hne2 : (OnLargePositionPacket.fields (s.players i) buf).id ≠
          (OnLargePositionPacket.store s buf i).player_id := by
        rw [store_player_id]
        exact hne
      obtain ⟨b1, b2, b3, b4⟩ := readExtra_other (OnLargePositionPacket.store s buf i) env buf 21
        (OnLargePositionPacket.fields (s.players i) buf) hne2
      exact ⟨(a4 hne).trans b1, a1.trans b2, a2.trans b3, a3.trans b4⟩
    · have hself2 : (OnLargePositionPacket.fields (s.players i) buf).id =
          (OnLargePositionPacket.store s buf i).player_id := by
        rw [store_player_id]
        exact hself
      rw [readExtra_self _ env buf 21 _ hself2] at a1 a2 a3
      refine ⟨a1, a2, a3, ?_⟩
      rw [← OnLargePositionPacket_accepted h0 hg hnew]
      exact OnLargePositionPacket_self_take s env buf i hg hself
  · obtain ⟨a1, a2, a3, a4⟩ := small_accept_extras s env buf i
    rw [OnSmallPositionPacket_accepted h0 hg hnew]
    refine ⟨fun hne => ?_, fun hself => ?_⟩
    · obtain ⟨b1, b2, b3, b4⟩ := readExtra_other s env buf 16
        (OnSmallPositionPacket.fields (s.players i) buf) hne
      exact ⟨(a4 hne).trans b1, a1.trans b2, a2.trans b3, a3.trans b4⟩
    · have hself2 : (OnSmallPositionPacket.fields (s.players i) buf).id = s.player_id := hself
      rw [readExtra_self _ env buf 16 _ hself2] at a1 a2 a3
      refine ⟨a1, a2, a3, ?_⟩
      rw [← OnSmallPositionPacket_accepted h0 hg hnew]
      exact OnSmallPositionPacket_self_take s env buf i hg hself

theorem C32_optional_fields_witness :
    (((OnLargePositionPacket positionTable positionEnv (fullLargePacket 3)).players 1).energy
        = 4660 ∧
      ((OnLargePositionPacket positionTable positionEnv (fullLargePacket 3)).players 1).s2c_latency
        = 7 ∧
      ((OnLargePositionPacket positionTable positionEnv (fullLargePacket 3)).players 1).flag_timer
        = 9 ∧
      ((OnLargePositionPacket positionTable positionEnv (fullLargePacket 3)).players 1).items
        = 0x04030201) ∧
    (((OnLargePositionPacket positionTable positionEnv (fullLargePacket 7)).players 0).items
        = 0 ∧
      OnLargePositionPacket positionTable positionEnv ((fullLargePacket 7).take 21) =
        OnLargePositionPacket positionTable positionEnv (fullLargePacket 7)) ∧
    (((OnSmallPositionPacket positionTable positionEnv (fullSmallPacket 3)).players 1).energy
        = 4660 ∧
      ((OnSmallPositionPacket positionTable positionEnv (fullSmallPacket 3)).players 1).items
        = 0x04030201) ∧
    (((OnSmallPositionPacket positionTable positionEnv (fullSmallPacket 7)).players 0).items
        = 0 ∧
      OnSmallPositionPacket positionTable positionEnv ((fullSmallPacket 7).take 16) =
        OnSmallPositionPacket positionTable positionEnv (fullSmallPacket 7)) := by
  have h1 := ((C32_optional_fields positionTable positionEnv (fullLargePacket 3) 1
    (by decide!) (by decide!)).1 (by decide!)).1 (by decide!)
  have h2 := ((C32_optional_fields positionTable positionEnv (fullLargePacket 7) 0
    (by decide!) (by decide!)).1 (by decide!)).2 (by decide!)
  have h3 := ((C32_optional_fields positionTable positionEnv (fullSmallPacket 3) 1
    (by decide!) (by decide!)).2 (by decide!)).1 (by decide!)
  have h4 := ((C32_optional_fields positionTable positionEnv (fullSmallPacket 7) 0
    (by decide!) (by decide!)).2 (by decide!)).2 (by decide!)
  exact ⟨⟨h1.1.trans (by decide!), h1.2.1.trans (by decide!), h1.2.2.1.trans (by decide!),
      h1.2.2.2.trans (by decide!)⟩,
    ⟨h2.2.2.1.trans (by decide!), h2.2.2.2⟩,
    ⟨h3.1.trans (by decide!), h3.2.2.2.trans (by decide!)⟩,
    ⟨h4.2.2.1.trans (by decide!), h4.2.2.2⟩⟩


theorem OnBatchedLargePositionPacket_short (s : PlayerManager) (env : Env) (buf : List Nat)
    (h : buf.length < 12) : OnBatchedLargePositionPacket s env buf = s := by
  unfold OnBatchedLargePositionPacket
  have h0 : (buf.length - 1) / 11 = 0 := by omega
  rw [h0]
  rfl

theorem OnBatchedSmallPositionPacket_short (s : PlayerManager) (env : Env) (buf : List Nat)
    (h : buf.length < 11) : OnBatchedSmallPositionPacket s env buf = s := by
  unfold OnBatchedSmallPositionPacket
  have h0 : (buf.length - 1) / 10 = 0 := by omega
  rw [h0]
  rfl

theorem OnSetCoordinatesPkt_short (s : PlayerManager) (env : Env) (pkt : List Nat)
    (h : pkt.length < 5) : OnSetCoordinatesPkt s env pkt = some s := by
  unfold OnSetCoordinatesPkt
  cases GetSelf s with
  | none => rfl
  | some self => exact if_pos h

theorem OnCreateTurretLink_short (s : PlayerManager) (request_id size destination_id : Nat)
    (h : size < 5) :
    OnCreateTurretLink s request_id size destination_id =
      match GetSelf s with
      | some self => DetachPlayer s self
      | none => s := by
  unfold OnCreateTurretLink
  exact if_pos h

/-- C31, counterexample: three inbound packets shorter than the claim's limits
that are not dropped. A create-turret packet of 3 bytes, whatever its words,
detaches self (slot 1 of `turretTable`) from its parent 7 and sends the
attach drop; a player-id packet resets the player count of `positionTable`
from 2 to 0 whatever word the handler reads; a large position packet of 21
bytes and a small one of 16 bytes are accepted and move the stored timestamp
of player 3 from 600 to 4196. -/
theorem C31_counterexample :
    GetSelf turretTable = some 1 ∧
    (turretTable.players 1).attach_parent = 7 ∧
    (∀ request_id destination_id : Nat,
      ((OnCreateTurretLink turretTable request_id 3 destination_id).players 1).attach_parent =
        kInvalidPlayerId ∧
      (OnCreateTurretLink turretTable request_id 3 destination_id).requesting_attach = false ∧
      (OnCreateTurretLink turretTable request_id 3 destination_id).trace =
        [Effect.SendAttachRequest kInvalidPlayerId, Effect.PlayerDetachEvent 3 7]) ∧
    positionTable.player_count = 2 ∧
    (∀ id : Nat, (OnPlayerIdChange positionTable id).player_count = 0) ∧
    (largePacket 3 4196).length = 21 ∧ (smallPacket 3 4196).length = 16 ∧
    (positionTable.players 1).timestamp = 600 ∧
    ((OnLargePositionPacket positionTable positionEnv (largePacket 3 4196)).players 1).timestamp
      = 4196 ∧
    ((OnSmallPositionPacket positionTable positionEnv (smallPacket 3 4196)).players 1).timestamp
      = 4196 := by
  have hd : ((DetachPlayer turretTable 1).players 1).attach_parent = kInvalidPlayerId ∧
      (DetachPlayer turretTable 1).requesting_attach = false ∧
      (DetachPlayer turretTable 1).trace =
        [Effect.SendAttachRequest kInvalidPlayerId, Effect.PlayerDetachEvent 3 7] :=
    ⟨by decide!, by decide!, rfl⟩
  refine ⟨by decide!, by decide!, fun request_id destination_id => ?_, rfl, fun _ => rfl,
    rfl, rfl, rfl, by decide!, by decide!⟩
  rw [OnCreateTurretLink_short turretTable request_id 3 destination_id (by decide)]
  exact hd

/-- C31, amended: of the inbound handlers, `OnSetCoordinatesPkt` drops a
packet shorter than 5 bytes and the batched position handlers drop a packet
that holds no complete record (fewer than 12 resp. 11 bytes): the manager is
left as it was. `OnCreateTurretLink` does not drop a packet shorter than 5
bytes: it detaches self, so the state is unchanged only when there is no self
or self has no parent. `OnPlayerIdChange` has no length check: it resets the
player count and the initial-list flag for every packet. -/
theorem C31_short_packets (s : PlayerManager) (env : Env) (pkt lbuf sbuf : List Nat)
    (request_id size destination_id : Nat)
    (hpkt : pkt.length < 5) (hl : lbuf.length < 12) (hs : sbuf.length < 11) (hsize : size < 5) :
    OnSetCoordinatesPkt s env pkt = some s ∧
    OnBatchedLargePositionPacket s env lbuf = s ∧
    OnBatchedSmallPositionPacket s env sbuf = s ∧
    (∀ self, GetSelf s = some self →
      OnCreateTurretLink s request_id size destination_id = DetachPlayer s self ∧
      ((OnCreateTurretLink s request_id size destination_id).players self).attach_parent =
        kInvalidPlayerId ∧
      ((s.players self).attach_parent = kInvalidPlayerId →
        OnCreateTurretLink s request_id size destination_id = s)) ∧
    (GetSelf s = none → OnCreateTurretLink s request_id size destination_id = s) ∧
    (∀ id, (OnPlayerIdChange s id).player_count = 0 ∧
      (OnPlayerIdChange s id).received_initial_list = false) := by
  refine ⟨OnSetCoordinatesPkt_short s env pkt hpkt, OnBatchedLargePositionPacket_short s env lbuf hl,
    OnBatchedSmallPositionPacket_short s env sbuf hs, fun self hself => ?_, fun hnone => ?_,
    fun _ => ⟨rfl, rfl⟩⟩
  · have he : OnCreateTurretLink s request_id size destination_id = DetachPlayer s self := by
      rw [OnCreateTurretLink_short s request_id size destination_id hsize, hself]
    refine ⟨he, ?_, fun hfree => ?_⟩
    · rw [he, DetachPlayer_attach_parent, if_pos rfl]
    · rw [he]
      unfold DetachPlayer
      exact if_neg (not_not.mpr hfree)
  · rw [OnCreateTurretLink_short s request_id size destination_id hsize, hnone]

theorem C31_short_packets_witness :
    [0x28, 0, 0].length < 5 ∧ [0x39, 1, 2].length < 12 ∧ [0x38, 1, 2].length < 11 ∧
    OnSetCoordinatesPkt turretTable quietEnv [0x28, 0, 0] = some turretTable ∧
    OnBatchedLargePositionPacket turretTable quietEnv [0x39, 1, 2] = turretTable ∧
    OnBatchedSmallPositionPacket turretTable quietEnv [0x38, 1, 2] = turretTable ∧
    OnCreateTurretLink turretTable 0 3 0 = DetachPlayer turretTable 1 ∧
    OnCreateTurretLink carrierTable 0 3 0 = carrierTable := by
  have h := C31_short_packets turretTable quietEnv [0x28, 0, 0] [0x39, 1, 2] [0x38, 1, 2] 0 3 0
    (by decide) (by decide) (by decide) (by decide)
  have h2 := C31_short_packets carrierTable quietEnv [0x28, 0, 0] [0x39, 1, 2] [0x38, 1, 2] 0 3 0
    (by decide) (by decide) (by decide) (by decide)
  exact ⟨by decide, by decide, by decide, h.1, h.2.1, h.2.2.1,
    (h.2.2.2.1 1 (by decide!)).1, (h2.2.2.2.1 0 (by decide!)).2.2 (by decide!)⟩

end Zero
